import Mathlib

/-!
Verification development for the segment-chain plant growth simulator
(`script.js`).  The growth engine is shallowly embedded: the `Segment`
class becomes the inductive tree `Seg`, JavaScript numbers that only ever
hold exact decimal values (lengths, rates, probabilities drawn from
`Math.random`) are modelled as rationals, and genuinely real-valued
angle quantities (multiples of `Math.PI` entering `angleOffset`) are
modelled as real numbers.  `Math.random` is modelled as an oracle
`rand : ℕ → ℚ` together with a cursor that is threaded through every
computation in source order, so one draw consumes one cursor position
exactly where the source calls `Math.random()`.

Because the angle fields live in `ℝ`, the main model is not kernel
computable; a second, angle-erased copy of the tree (`ESeg`) with the
very same dynamics is defined and proved to commute with erasure, and
all concrete executions are evaluated on the erased copy.
-/

set_option maxRecDepth 40000

/-- Light direction as accepted by the simulator (`'none' | 'top' | 'bottom' | 'left' | 'right'`). -/
inductive LightDir where
  | none
  | top
  | bottom
  | left
  | right
deriving DecidableEq, Repr

/-- Species key into the `VARIETIES` table. -/
inductive VarietyKey where
  | cress
  | bean
  | arabidopsis
  | wheat
deriving DecidableEq, Repr

/-- Numeric growth parameters of one species, from the `VARIETIES` table of
`script.js` (colour strings, labels and leaf shapes are presentation-only and
carry no growth semantics, so they are not modelled). -/
structure Variety where
  stemWidth : ℚ
  maxStemLen : ℚ
  growthRate : ℚ
  branchChance : ℚ
  branchSpread : ℚ
  leafScale : ℚ
  leafSpacing : ℚ
  rootWidth : ℚ
  rootGrowthRate : ℚ
  maxRootLen : ℚ
deriving DecidableEq, Repr

/-- The `VARIETIES` constant table. -/
def VARIETIES : VarietyKey → Variety
  | .cress =>
    { stemWidth := 22/10, maxStemLen := 240, growthRate := 55/1000
      branchChance := 28/100, branchSpread := 60/100
      leafScale := 90/100, leafSpacing := 20
      rootWidth := 16/10, rootGrowthRate := 40/1000, maxRootLen := 120 }
  | .bean =>
    { stemWidth := 58/10, maxStemLen := 300, growthRate := 30/1000
      branchChance := 10/100, branchSpread := 72/100
      leafScale := 210/100, leafSpacing := 36
      rootWidth := 38/10, rootGrowthRate := 25/1000, maxRootLen := 160 }
  | .arabidopsis =>
    { stemWidth := 17/10, maxStemLen := 190, growthRate := 48/1000
      branchChance := 38/100, branchSpread := 95/100
      leafScale := 68/100, leafSpacing := 15
      rootWidth := 11/10, rootGrowthRate := 50/1000, maxRootLen := 145 }
  | .wheat =>
    { stemWidth := 21/10, maxStemLen := 280, growthRate := 42/1000
      branchChance := 5/100, branchSpread := 18/100
      leafScale := 115/100, leafSpacing := 28
      rootWidth := 15/10, rootGrowthRate := 32/1000, maxRootLen := 110 }

/-- One leaf placement `{position, side, size}` pushed by `Segment.grow`. -/
structure Leaf where
  position : ℚ
  side : ℤ
  size : ℚ
deriving DecidableEq, Repr

/-- The scalar fields of one `Segment` object.  `angleOffset` is the only
genuinely real-valued field (tropism offsets are linear combinations of
`Math.PI`); every other numeric field only ever holds exact decimals. -/
structure SegData where
  isRoot : Bool
  isBranch : Bool
  variety : VarietyKey
  angleOffset : ℝ
  targetLength : ℚ
  length : ℚ
  growing : Bool
  leaves : List Leaf
  nextLeafSide : ℤ
  hasBranched : Bool
  baseWidth : ℚ

mutual
/-- A `Segment` together with its (ordered) `children` array.  The JS parent
pointer is not stored: parent-derived data (depth, absolute angle) is passed
down during traversals, exactly as the getters recompute it on demand. -/
inductive Seg where
  | node : SegData → Segs → Seg
/-- The `children` array of a segment. -/
inductive Segs where
  | nil : Segs
  | cons : Seg → Segs → Segs
end

/-- Scalar data of a segment. -/
def Seg.dat : Seg → SegData
  | .node d _ => d

/-- Children array of a segment. -/
def Seg.children : Seg → Segs
  | .node _ cs => cs

/-- Emptiness test on a children array (`this.children.length === 0`). -/
def Segs.isNil : Segs → Bool
  | .nil => true
  | .cons _ _ => false

/-- Append one child at the end of the array (`children.push`). -/
def Segs.push : Segs → Seg → Segs
  | .nil, c => .cons c .nil
  | .cons a rest, c => .cons a (rest.push c)

/-- Index lookup in a children array. -/
def Segs.get? : Segs → ℕ → Option Seg
  | .nil, _ => Option.none
  | .cons a _, 0 => some a
  | .cons _ rest, n+1 => rest.get? n

/-- Decidable test that every segment in the array satisfies a decidable
scalar predicate at top level. -/
def Segs.allDat (p : SegData → Bool) : Segs → Bool
  | .nil => true
  | .cons a rest => p a.dat && rest.allDat p

/-- The `Segment` constructor.  `depth` is the value `getDepth()` returns for
the new node, i.e. the number of ancestors; the caller (who owns the parent)
supplies it.  Consumes exactly one oracle draw (`this.nextLeafSide`). -/
def Seg.create (isRoot : Bool) (vk : VarietyKey) (angleOffset : ℝ) (isBranch : Bool)
    (depth : ℕ) (rand : ℕ → ℚ) (i : ℕ) : Seg × ℕ :=
  let v := VARIETIES vk
  let gf : ℚ := (62/100) ^ depth
  let baseFactor := if isRoot then v.rootWidth else v.stemWidth
  let w := max (baseFactor * gf) (1/2)
  (.node
    { isRoot := isRoot, isBranch := isBranch, variety := vk
      angleOffset := angleOffset
      targetLength := if isRoot then 10 else 12
      length := 1/10
      growing := true
      leaves := []
      nextLeafSide := if rand i < 1/2 then 1 else -1
      hasBranched := false
      baseWidth := if isBranch then w * (7/10) else w }
    .nil, i + 1)

/-- The `angle` getter for a parentless segment: the stored `angleOffset` is
ignored and a canonical vertical is returned (`π/2` points down the canvas,
`-π/2` up). -/
noncomputable def Seg.parentlessAngle (s : Seg) : ℝ :=
  if s.dat.isRoot then Real.pi / 2 else -(Real.pi / 2)

mutual
/-- Method `totalLength()`: own length plus the sum over all children. -/
def Seg.totalLength : Seg → ℚ
  | .node d cs => d.length + cs.totalLength
/-- Sum of `totalLength()` over a children array. -/
def Segs.totalLength : Segs → ℚ
  | .nil => 0
  | .cons c rest => c.totalLength + rest.totalLength
end

mutual
/-- Method `isFullyGrown()`: false while this segment grows, else the conjunction
over all children. -/
def Seg.isFullyGrown : Seg → Bool
  | .node d cs => !d.growing && cs.isFullyGrown
/-- Conjunction of `isFullyGrown()` over a children array. -/
def Segs.isFullyGrown : Segs → Bool
  | .nil => true
  | .cons c rest => c.isFullyGrown && rest.isFullyGrown
end

/-- The `dirToRad` lookup table; `'none'` falls through to the `?? 0` default. -/
noncomputable def dirToRad : LightDir → ℝ
  | .top => -(Real.pi / 2)
  | .bottom => Real.pi / 2
  | .left => Real.pi
  | .right => 0
  | .none => 0

/-- First loop of `angleDiff`: `while (d > Math.PI) d -= 2 * Math.PI`. -/
noncomputable def whileGtPi (d : ℝ) : ℝ :=
  if h : d > Real.pi then whileGtPi (d - 2 * Real.pi) else d
termination_by (⌈(d - Real.pi) / (2 * Real.pi)⌉).toNat
decreasing_by
  have hpi := Real.pi_pos
  have harg : (d - 2 * Real.pi - Real.pi) / (2 * Real.pi)
      = (d - Real.pi) / (2 * Real.pi) - 1 := by
    field_simp
    ring
  have hpos : (0 : ℤ) < ⌈(d - Real.pi) / (2 * Real.pi)⌉ := by
    apply Int.ceil_pos.mpr
    apply div_pos (by linarith) (by linarith)
  rw [harg, Int.ceil_sub_one]
  omega

/-- Second loop of `angleDiff`: `while (d < -Math.PI) d += 2 * Math.PI`. -/
noncomputable def whileLtNegPi (d : ℝ) : ℝ :=
  if h : d < -Real.pi then whileLtNegPi (d + 2 * Real.pi) else d
termination_by (⌈(-Real.pi - d) / (2 * Real.pi)⌉).toNat
decreasing_by
  have hpi := Real.pi_pos
  have harg : (-Real.pi - (d + 2 * Real.pi)) / (2 * Real.pi)
      = (-Real.pi - d) / (2 * Real.pi) - 1 := by
    field_simp
    ring
  have hpos : (0 : ℤ) < ⌈(-Real.pi - d) / (2 * Real.pi)⌉ := by
    apply Int.ceil_pos.mpr
    apply div_pos (by linarith) (by linarith)
  rw [harg, Int.ceil_sub_one]
  omega

/-- Function `angleDiff(a, b)`: remainder-normalize `a - b` by the two while loops. -/
noncomputable def angleDiff (a b : ℝ) : ℝ :=
  whileLtNegPi (whileGtPi (a - b))

/-- Push an optional child. -/
def Segs.pushOpt : Segs → Option Seg → Segs
  | cs, Option.none => cs
  | cs, some c => cs.push c

/-- Shared leaf-placement block of `Segment.grow` (source lines 203–220): on
non-root non-branch segments past a small length threshold, draw a
randomized interval and push one alternating leaf when due.  Identical in
the real and erased models, so it is defined once on plain data. -/
def leafBlock (rand : ℕ → ℚ) (isRoot isBranch : Bool) (leaves : List Leaf) (side : ℤ)
    (len1 : ℚ) (i : ℕ) : List Leaf × ℤ × ℕ :=
  if isRoot = false ∧ isBranch = false ∧ len1 > 3 then
    let leafInterval := 8 + rand i * 4
    let lastLeafPos := match leaves.getLast? with
      | some lf => lf.position
      | _ => 0
    if len1 - lastLeafPos > leafInterval then
      (leaves ++ [{ position := len1, side := side, size := 7/10 + rand (i+1) * (6/10) }],
       -side, i + 2)
    else (leaves, side, i + 1)
  else (leaves, side, i)

/-- Shared branching gate of `Segment.grow` (source lines 222–230): the
eligibility conjunction, and the `Math.random() < 0.15` draw taken only when
it holds (JS short-circuit).  Returns whether a branch is spawned and the
cursor after the possible draw. -/
def branchTake (rand : ℕ → ℚ) (isRoot isBranch hasBranched : Bool)
    (targetLength len1 : ℚ) (depth : ℕ) (i1 : ℕ) : Bool × ℕ :=
  if isRoot = false ∧ isBranch = false ∧ hasBranched = false ∧
      len1 > targetLength * (6/10) ∧ depth < 5 then
    (decide (rand i1 < 15/100), i1 + 1)
  else (false, i1)

/-- The per-node active-growth portion of `Segment.grow` (source lines
192–240): length increment, leaf placement, branching, and completion.
`noChildren` is whether `this.children` was empty when the tick began;
`ang` is the value of the `angle` getter for this node and `depth` the value
of `getDepth()`.  Returns the updated scalar data, the at most one child
pushed during the step (a branch offshoot or a continuation — never both,
since a pushed branch makes `children.length === 0` fail), and the oracle
cursor. -/
noncomputable def Seg.activeStep (rand : ℕ → ℚ) (gravity : ℚ) (lightDir : LightDir)
    (totalLength maxLength : ℚ) (depth : ℕ) (ang : ℝ)
    (d : SegData) (noChildren : Bool) (i : ℕ) : SegData × Option Seg × ℕ :=
  let v := VARIETIES d.variety
  let r := if d.isRoot then v.rootGrowthRate else v.growthRate
  let growthMultiplier : ℚ := if d.isBranch then 7/10 else 1
  let len1 := d.length + r * (5/2) * growthMultiplier
  let lf := leafBlock rand d.isRoot d.isBranch d.leaves d.nextLeafSide len1 i
  let bt := branchTake rand d.isRoot d.isBranch d.hasBranched d.targetLength len1 depth lf.2.2
  -- _createBranch: side and spread draws, then the branch segment
  let bc : Option Seg :=
    if bt.1 then
      let branchSide : ℚ := if rand bt.2 < 1/2 then 1 else -1
      let branchAngle : ℚ := branchSide * (2/5 + rand (bt.2+1) * (35/100))
      some (Seg.create false d.variety (branchAngle : ℝ) true (depth+1) rand (bt.2+2)).1
    else Option.none
  let i2 := if bt.1 then bt.2 + 3 else bt.2
  -- completion block; `this.children.length === 0` is evaluated after the
  -- possible branch push above, hence the `!bt.1`
  let tp : Bool × Option Seg × ℕ :=
    if len1 ≥ d.targetLength ∧ (noChildren && !bt.1) = true then
      if totalLength < maxLength then
        -- _addTipSegment: the tropism offset, computed once at creation
        let target1 : ℝ := if d.isRoot then Real.pi / 2 else -(Real.pi / 2)
        let off1 : ℝ :=
          if gravity > 0 then
            angleDiff target1 ang * (((if d.isRoot then 6/100 else 28/1000 : ℚ)) : ℝ)
          else 0
        let off2 : ℝ :=
          if lightDir ≠ LightDir.none then
            let lightAngle := dirToRad lightDir
            let target2 := if d.isRoot then lightAngle + Real.pi else lightAngle
            angleDiff target2 ang *
              (((if d.isRoot then (if gravity = 0 then 20/1000 else 10/1000)
                 else (if gravity = 0 then 42/1000 else 25/1000) : ℚ)) : ℝ)
          else 0
        let off3 : ℝ :=
          (((rand i2 - 1/2) * (if gravity = 0 then (if d.isRoot then 22/1000 else 38/1000)
              else (if d.isRoot then 8/1000 else 18/1000)) : ℚ) : ℝ)
        (false, some (Seg.create d.isRoot d.variety (off1 + off2 + off3) d.isBranch
          (depth+1) rand (i2+1)).1, i2 + 2)
      else (false, Option.none, i2)
    else (true, Option.none, i2)
  ({ d with
      length := len1
      leaves := lf.1
      nextLeafSide := lf.2.1
      hasBranched := d.hasBranched || bt.1
      growing := tp.1 },
   (match bc with
    | some b => some b
    | Option.none => tp.2.1),
   tp.2.2)

/-- Same-tick growth of a child segment pushed during the current tick (the
`for (const c of this.children)` loop iterates the live array, so a child
created this tick also grows once).  Such a child was just built by
`Seg.create`: its children array is empty and its length is `0.1` plus one
increment, which is below every leaf, branching and completion threshold, so
its own step can push no further child; one level therefore covers the
recursion exhaustively (`create_activeStep_no_spawn` proves the step indeed
spawns nothing). -/
noncomputable def Seg.growFresh (rand : ℕ → ℚ) (gravity : ℚ) (lightDir : LightDir)
    (totalLength maxLength : ℚ) (depth : ℕ) (ang : ℝ) : Seg → ℕ → Seg × ℕ
  | .node d cs, i =>
    if d.growing then
      let st := Seg.activeStep rand gravity lightDir totalLength maxLength depth ang d cs.isNil i
      (.node st.1 (cs.pushOpt st.2.1), st.2.2)
    else (.node d cs, i)

mutual
/-- Method `Segment.grow(gravity, lightDir, totalLength, maxLength)`.  `depth` and
`ang` are the values of `getDepth()` and of the `angle` getter for this node;
`totalLength`/`maxLength` are the organ totals fixed by `Plant.update` at the
start of the tick and passed through unchanged.  Children created during the
tick are appended at the tail and then grown once, in array order. -/
noncomputable def Seg.grow (rand : ℕ → ℚ) (gravity : ℚ) (lightDir : LightDir)
    (totalLength maxLength : ℚ) (depth : ℕ) (ang : ℝ) : Seg → ℕ → Seg × ℕ
  | .node d cs, i =>
    if d.growing then
      let st := Seg.activeStep rand gravity lightDir totalLength maxLength depth ang d cs.isNil i
      let gcs := Segs.grow rand gravity lightDir totalLength maxLength depth ang cs st.2.2
      match st.2.1 with
      | Option.none => (.node st.1 gcs.1, gcs.2)
      | some c =>
        let gc := Seg.growFresh rand gravity lightDir totalLength maxLength (depth+1)
          (ang + c.dat.angleOffset) c gcs.2
        (.node st.1 (gcs.1.push gc.1), gc.2)
    else
      let gcs := Segs.grow rand gravity lightDir totalLength maxLength depth ang cs i
      (.node d gcs.1, gcs.2)
/-- Recursive growth of a children array, in order; `pdepth`/`pang` are the
parent's depth and absolute angle, from which each child's own are derived
exactly as the getters do. -/
noncomputable def Segs.grow (rand : ℕ → ℚ) (gravity : ℚ) (lightDir : LightDir)
    (totalLength maxLength : ℚ) (pdepth : ℕ) (pang : ℝ) : Segs → ℕ → Segs × ℕ
  | .nil, i => (.nil, i)
  | .cons c rest, i =>
    let gc := Seg.grow rand gravity lightDir totalLength maxLength (pdepth+1)
      (pang + c.dat.angleOffset) c i
    let grest := Segs.grow rand gravity lightDir totalLength maxLength pdepth pang rest gc.2
    (.cons gc.1 grest.1, grest.2)
end

/-- The `Plant` object: two parentless segment trees plus the organ maxima. -/
structure Plant where
  variety : VarietyKey
  age : ℕ
  maxShootLength : ℚ
  maxRootLength : ℚ
  shoot : Seg
  root : Seg

/-- The `Plant` constructor.  One shared `jitter` draw is stored as the
`angleOffset` of both parentless segments; `gravity` and `lightDir` are
accepted but unused, as in the source. -/
noncomputable def Plant.new (vk : VarietyKey) (gravity : ℚ) (lightDir : LightDir)
    (rand : ℕ → ℚ) (i : ℕ) : Plant × ℕ :=
  let v := VARIETIES vk
  let jitter : ℚ := (rand i - 1/2) * (8/100)
  let sh := Seg.create false vk (jitter : ℝ) false 0 rand (i+1)
  let rt := Seg.create true vk (jitter : ℝ) false 0 rand sh.2
  ({ variety := vk, age := 0
     maxShootLength := v.maxStemLen, maxRootLength := v.maxRootLen
     shoot := sh.1, root := rt.1 }, rt.2)

/-- Method `Plant.update(gravity, lightDir)`: age gate of 8 ticks, then grow both
organs against their own pre-tick totals and configured maxima. -/
noncomputable def Plant.update (rand : ℕ → ℚ) (gravity : ℚ) (lightDir : LightDir)
    (p : Plant) (i : ℕ) : Plant × ℕ :=
  let p1 : Plant := { p with age := p.age + 1 }
  if p1.age < 8 then (p1, i)
  else
    let shootLen := p.shoot.totalLength
    let rootLen := p.root.totalLength
    let gs := Seg.grow rand gravity lightDir shootLen p.maxShootLength 0
      p.shoot.parentlessAngle p.shoot i
    let gr := Seg.grow rand gravity lightDir rootLen p.maxRootLength 0
      p.root.parentlessAngle p.root gs.2
    ({ p1 with shoot := gs.1, root := gr.1 }, gr.2)

/-- Method `Plant.isFullyGrown()`: conjunction over both organ trees. -/
def Plant.isFullyGrown (p : Plant) : Bool :=
  p.shoot.isFullyGrown && p.root.isFullyGrown

/-- Iterated update ticks with a fixed environment. -/
noncomputable def Plant.updateN (rand : ℕ → ℚ) (gravity : ℚ) (lightDir : LightDir) :
    ℕ → Plant × ℕ → Plant × ℕ
  | 0, s => s
  | n+1, s => Plant.updateN rand gravity lightDir n (Plant.update rand gravity lightDir s.1 s.2)

/-! ### Angle-erased twin model

The growth dynamics — lengths, flags, leaves, children structure, oracle
cursor — never read an angle: angles are only computed and stored.  The
erased model below is the same program with the `angleOffset` field (and the
parameters feeding only it) removed; every control decision and every cursor
step is literally identical.  It is kernel computable, and the commuting
lemmas below let concrete runs of the real model be evaluated on it. -/

/-- Scalar fields of a segment minus the real-valued `angleOffset`. -/
structure ESegData where
  isRoot : Bool
  isBranch : Bool
  variety : VarietyKey
  targetLength : ℚ
  length : ℚ
  growing : Bool
  leaves : List Leaf
  nextLeafSide : ℤ
  hasBranched : Bool
  baseWidth : ℚ
deriving DecidableEq, Repr

mutual
/-- Angle-erased segment tree. -/
inductive ESeg where
  | node : ESegData → ESegs → ESeg
/-- Angle-erased children array. -/
inductive ESegs where
  | nil : ESegs
  | cons : ESeg → ESegs → ESegs
end

/-- Scalar data of an erased segment. -/
def ESeg.dat : ESeg → ESegData
  | .node d _ => d

/-- Children of an erased segment. -/
def ESeg.children : ESeg → ESegs
  | .node _ cs => cs

/-- Emptiness test. -/
def ESegs.isNil : ESegs → Bool
  | .nil => true
  | .cons _ _ => false

/-- Append one child at the end. -/
def ESegs.push : ESegs → ESeg → ESegs
  | .nil, c => .cons c .nil
  | .cons a rest, c => .cons a (rest.push c)

/-- Index lookup. -/
def ESegs.get? : ESegs → ℕ → Option ESeg
  | .nil, _ => Option.none
  | .cons a _, 0 => some a
  | .cons _ rest, n+1 => rest.get? n

/-- Push an optional child. -/
def ESegs.pushOpt : ESegs → Option ESeg → ESegs
  | cs, Option.none => cs
  | cs, some c => cs.push c

mutual
/-- Boolean equality on erased segments. -/
def ESeg.beq : ESeg → ESeg → Bool
  | .node d cs, .node e ds => decide (d = e) && ESegs.beq cs ds
/-- Boolean equality on erased children arrays. -/
def ESegs.beq : ESegs → ESegs → Bool
  | .nil, .nil => true
  | .cons a as, .cons b bs => ESeg.beq a b && ESegs.beq as bs
  | _, _ => false
end

mutual
theorem ESeg.beq_iff : ∀ a b : ESeg, ESeg.beq a b = true ↔ a = b
  | .node d cs, .node e ds => by
    simp only [ESeg.beq, Bool.and_eq_true, decide_eq_true_eq, ESeg.node.injEq]
    exact and_congr Iff.rfl (ESegs.beqAll_iff cs ds)
theorem ESegs.beqAll_iff : ∀ a b : ESegs, ESegs.beq a b = true ↔ a = b
  | .nil, .nil => by simp [ESegs.beq]
  | .nil, .cons _ _ => by simp [ESegs.beq]
  | .cons _ _, .nil => by simp [ESegs.beq]
  | .cons a as, .cons b bs => by
    simp only [ESegs.beq, Bool.and_eq_true, ESegs.cons.injEq]
    exact and_congr (ESeg.beq_iff a b) (ESegs.beqAll_iff as bs)
end

instance : DecidableEq ESeg := fun a b => decidable_of_iff _ (ESeg.beq_iff a b)

instance : DecidableEq ESegs := fun a b => decidable_of_iff _ (ESegs.beqAll_iff a b)

/-- Erased `Segment` constructor: same fields, same single oracle draw. -/
def ESeg.create (isRoot : Bool) (vk : VarietyKey) (isBranch : Bool)
    (depth : ℕ) (rand : ℕ → ℚ) (i : ℕ) : ESeg × ℕ :=
  let v := VARIETIES vk
  let gf : ℚ := (62/100) ^ depth
  let baseFactor := if isRoot then v.rootWidth else v.stemWidth
  let w := max (baseFactor * gf) (1/2)
  (.node
    { isRoot := isRoot, isBranch := isBranch, variety := vk
      targetLength := if isRoot then 10 else 12
      length := 1/10
      growing := true
      leaves := []
      nextLeafSide := if rand i < 1/2 then 1 else -1
      hasBranched := false
      baseWidth := if isBranch then w * (7/10) else w }
    .nil, i + 1)

mutual
/-- Erased `totalLength()`. -/
def ESeg.totalLength : ESeg → ℚ
  | .node d cs => d.length + cs.totalLength
/-- Erased children sum. -/
def ESegs.totalLength : ESegs → ℚ
  | .nil => 0
  | .cons c rest => c.totalLength + rest.totalLength
end

mutual
/-- Erased `isFullyGrown()`. -/
def ESeg.isFullyGrown : ESeg → Bool
  | .node d cs => !d.growing && cs.isFullyGrown
/-- Erased children conjunction. -/
def ESegs.isFullyGrown : ESegs → Bool
  | .nil => true
  | .cons c rest => c.isFullyGrown && rest.isFullyGrown
end

/-- Erased per-node active-growth step: identical control flow and cursor
arithmetic to `Seg.activeStep` (the leaf and branching blocks are literally
the same shared functions), with the angle computations removed; the single
tropism-noise draw at cursor `i2` and the two branch-geometry draws are of
course still consumed. -/
def ESeg.activeStep (rand : ℕ → ℚ) (totalLength maxLength : ℚ) (depth : ℕ)
    (d : ESegData) (noChildren : Bool) (i : ℕ) : ESegData × Option ESeg × ℕ :=
  let v := VARIETIES d.variety
  let r := if d.isRoot then v.rootGrowthRate else v.growthRate
  let growthMultiplier : ℚ := if d.isBranch then 7/10 else 1
  let len1 := d.length + r * (5/2) * growthMultiplier
  let lf := leafBlock rand d.isRoot d.isBranch d.leaves d.nextLeafSide len1 i
  let bt := branchTake rand d.isRoot d.isBranch d.hasBranched d.targetLength len1 depth lf.2.2
  let bc : Option ESeg :=
    if bt.1 then some (ESeg.create false d.variety true (depth+1) rand (bt.2+2)).1
    else Option.none
  let i2 := if bt.1 then bt.2 + 3 else bt.2
  let tp : Bool × Option ESeg × ℕ :=
    if len1 ≥ d.targetLength ∧ (noChildren && !bt.1) = true then
      if totalLength < maxLength then
        (false, some (ESeg.create d.isRoot d.variety d.isBranch (depth+1) rand (i2+1)).1, i2 + 2)
      else (false, Option.none, i2)
    else (true, Option.none, i2)
  ({ d with
      length := len1
      leaves := lf.1
      nextLeafSide := lf.2.1
      hasBranched := d.hasBranched || bt.1
      growing := tp.1 },
   (match bc with
    | some b => some b
    | Option.none => tp.2.1),
   tp.2.2)

/-- Erased same-tick growth of a freshly pushed child. -/
def ESeg.growFresh (rand : ℕ → ℚ) (totalLength maxLength : ℚ) (depth : ℕ) :
    ESeg → ℕ → ESeg × ℕ
  | .node d cs, i =>
    if d.growing then
      let st := ESeg.activeStep rand totalLength maxLength depth d cs.isNil i
      (.node st.1 (cs.pushOpt st.2.1), st.2.2)
    else (.node d cs, i)

mutual
/-- Erased `Segment.grow`. -/
def ESeg.grow (rand : ℕ → ℚ) (totalLength maxLength : ℚ) (depth : ℕ) :
    ESeg → ℕ → ESeg × ℕ
  | .node d cs, i =>
    if d.growing then
      let st := ESeg.activeStep rand totalLength maxLength depth d cs.isNil i
      let gcs := ESegs.grow rand totalLength maxLength depth cs st.2.2
      match st.2.1 with
      | Option.none => (.node st.1 gcs.1, gcs.2)
      | some c =>
        let gc := ESeg.growFresh rand totalLength maxLength (depth+1) c gcs.2
        (.node st.1 (gcs.1.push gc.1), gc.2)
    else
      let gcs := ESegs.grow rand totalLength maxLength depth cs i
      (.node d gcs.1, gcs.2)
/-- Erased growth of a children array. -/
def ESegs.grow (rand : ℕ → ℚ) (totalLength maxLength : ℚ) (pdepth : ℕ) :
    ESegs → ℕ → ESegs × ℕ
  | .nil, i => (.nil, i)
  | .cons c rest, i =>
    let gc := ESeg.grow rand totalLength maxLength (pdepth+1) c i
    let grest := ESegs.grow rand totalLength maxLength pdepth rest gc.2
    (.cons gc.1 grest.1, grest.2)
end

/-- Erased `Plant`. -/
structure EPlant where
  variety : VarietyKey
  age : ℕ
  maxShootLength : ℚ
  maxRootLength : ℚ
  shoot : ESeg
  root : ESeg
deriving DecidableEq

/-- Erased `Plant` constructor: the jitter draw at cursor `i` is consumed
(it only feeds the erased `angleOffset`), then the two segments each draw
once. -/
def EPlant.new (vk : VarietyKey) (rand : ℕ → ℚ) (i : ℕ) : EPlant × ℕ :=
  let v := VARIETIES vk
  let sh := ESeg.create false vk false 0 rand (i+1)
  let rt := ESeg.create true vk false 0 rand sh.2
  ({ variety := vk, age := 0
     maxShootLength := v.maxStemLen, maxRootLength := v.maxRootLen
     shoot := sh.1, root := rt.1 }, rt.2)

/-- Erased `Plant.update`. -/
def EPlant.update (rand : ℕ → ℚ) (p : EPlant) (i : ℕ) : EPlant × ℕ :=
  let p1 : EPlant := { p with age := p.age + 1 }
  if p1.age < 8 then (p1, i)
  else
    let shootLen := p.shoot.totalLength
    let rootLen := p.root.totalLength
    let gs := ESeg.grow rand shootLen p.maxShootLength 0 p.shoot i
    let gr := ESeg.grow rand rootLen p.maxRootLength 0 p.root gs.2
    ({ p1 with shoot := gs.1, root := gr.1 }, gr.2)

/-- Erased iterated ticks. -/
def EPlant.updateN (rand : ℕ → ℚ) : ℕ → EPlant × ℕ → EPlant × ℕ
  | 0, s => s
  | n+1, s => EPlant.updateN rand n (EPlant.update rand s.1 s.2)

/-! ### Erasure and its commutation with the dynamics -/

/-- Forget the `angleOffset` field. -/
def SegData.erase (d : SegData) : ESegData :=
  { isRoot := d.isRoot, isBranch := d.isBranch, variety := d.variety
    targetLength := d.targetLength, length := d.length, growing := d.growing
    leaves := d.leaves, nextLeafSide := d.nextLeafSide
    hasBranched := d.hasBranched, baseWidth := d.baseWidth }

mutual
/-- Erase a segment tree. -/
def Seg.erase : Seg → ESeg
  | .node d cs => .node d.erase cs.erase
/-- Erase a children array. -/
def Segs.erase : Segs → ESegs
  | .nil => .nil
  | .cons c rest => .cons c.erase rest.erase
end

/-- Erase a plant. -/
def Plant.erase (p : Plant) : EPlant :=
  { variety := p.variety, age := p.age
    maxShootLength := p.maxShootLength, maxRootLength := p.maxRootLength
    shoot := p.shoot.erase, root := p.root.erase }

theorem Seg.erase_create (isRoot : Bool) (vk : VarietyKey) (a : ℝ) (isBranch : Bool)
    (depth : ℕ) (rand : ℕ → ℚ) (i : ℕ) :
    (Seg.create isRoot vk a isBranch depth rand i).1.erase
      = (ESeg.create isRoot vk isBranch depth rand i).1 ∧
    (Seg.create isRoot vk a isBranch depth rand i).2
      = (ESeg.create isRoot vk isBranch depth rand i).2 := by
  constructor <;> rfl

theorem Segs.erase_push : ∀ (cs : Segs) (c : Seg), (cs.push c).erase = cs.erase.push c.erase
  | .nil, _ => rfl
  | .cons a rest, c => congrArg (ESegs.cons a.erase) (Segs.erase_push rest c)

theorem Segs.erase_pushOpt : ∀ (cs : Segs) (c : Option Seg),
    (cs.pushOpt c).erase = cs.erase.pushOpt (c.map Seg.erase)
  | _, Option.none => rfl
  | cs, some c => Segs.erase_push cs c

theorem Segs.erase_isNil (cs : Segs) : cs.erase.isNil = cs.isNil := by
  cases cs <;> rfl

theorem SegData.erase_growing (d : SegData) : d.erase.growing = d.growing := rfl

set_option maxHeartbeats 2000000 in
theorem Seg.erase_activeStep (rand : ℕ → ℚ) (gravity : ℚ) (lightDir : LightDir)
    (tot maxL : ℚ) (depth : ℕ) (ang : ℝ) (d : SegData) (nc : Bool) (i : ℕ) :
    ESeg.activeStep rand tot maxL depth d.erase nc i
      = ((Seg.activeStep rand gravity lightDir tot maxL depth ang d nc i).1.erase,
         (Seg.activeStep rand gravity lightDir tot maxL depth ang d nc i).2.1.map Seg.erase,
         (Seg.activeStep rand gravity lightDir tot maxL depth ang d nc i).2.2) := by
  simp only [Seg.activeStep, ESeg.activeStep, SegData.erase]
  split_ifs <;> rfl

theorem Seg.erase_growFresh (rand : ℕ → ℚ) (gravity : ℚ) (lightDir : LightDir)
    (tot maxL : ℚ) (depth : ℕ) (ang : ℝ) (t : Seg) (i : ℕ) :
    ESeg.growFresh rand tot maxL depth t.erase i
      = ((Seg.growFresh rand gravity lightDir tot maxL depth ang t i).1.erase,
         (Seg.growFresh rand gravity lightDir tot maxL depth ang t i).2) := by
  obtain ⟨d, cs⟩ := t
  simp only [Seg.growFresh, Seg.erase, ESeg.growFresh, Segs.erase_isNil,
    Seg.erase_activeStep rand gravity lightDir tot maxL depth ang d cs.isNil i,
    SegData.erase_growing]
  by_cases hg : d.growing = true
  · simp only [hg, if_true, Segs.erase_pushOpt, Seg.erase]
  · simp only [hg, Bool.false_eq_true, if_false, Seg.erase]

mutual
theorem Seg.erase_grow (rand : ℕ → ℚ) (gravity : ℚ) (lightDir : LightDir) (tot maxL : ℚ) :
    ∀ (depth : ℕ) (ang : ℝ) (t : Seg) (i : ℕ),
    ESeg.grow rand tot maxL depth t.erase i
      = ((Seg.grow rand gravity lightDir tot maxL depth ang t i).1.erase,
         (Seg.grow rand gravity lightDir tot maxL depth ang t i).2)
  | depth, ang, .node d cs, i => by
    simp only [Seg.erase, Seg.grow, ESeg.grow, Segs.erase_isNil,
      Seg.erase_activeStep rand gravity lightDir tot maxL depth ang d cs.isNil i,
      SegData.erase_growing,
      Segs.erase_growAll rand gravity lightDir tot maxL depth ang cs]
    by_cases hg : d.growing = true
    · simp only [hg, if_true]
      cases hbc : (Seg.activeStep rand gravity lightDir tot maxL depth ang d cs.isNil i).2.1 with
      | none => simp only [Option.map_none, Option.map_none', Seg.erase]
      | some c =>
        simp only [Option.map_some, Option.map_some', Seg.erase,
          Seg.erase_growFresh rand gravity lightDir tot maxL (depth+1) (ang + c.dat.angleOffset) c,
          Segs.erase_push]
    · simp only [hg, Bool.false_eq_true, if_false, Seg.erase]
termination_by depth ang t i => sizeOf t

theorem Segs.erase_growAll (rand : ℕ → ℚ) (gravity : ℚ) (lightDir : LightDir) (tot maxL : ℚ) :
    ∀ (pdepth : ℕ) (pang : ℝ) (cs : Segs) (i : ℕ),
    ESegs.grow rand tot maxL pdepth cs.erase i
      = ((Segs.grow rand gravity lightDir tot maxL pdepth pang cs i).1.erase,
         (Segs.grow rand gravity lightDir tot maxL pdepth pang cs i).2)
  | pdepth, pang, .nil, i => rfl
  | pdepth, pang, .cons c rest, i => by
    simp only [Segs.erase, Segs.grow, ESegs.grow, Seg.erase,
      Seg.erase_grow rand gravity lightDir tot maxL (pdepth+1) (pang + c.dat.angleOffset) c i,
      Segs.erase_growAll rand gravity lightDir tot maxL pdepth pang rest]
termination_by pdepth pang cs i => sizeOf cs
end

mutual
theorem Seg.erase_totalLength : ∀ t : Seg, t.erase.totalLength = t.totalLength
  | .node d cs => by
    simp only [Seg.erase, Seg.totalLength, ESeg.totalLength, Segs.erase_totalLengthAll cs]
    rfl
theorem Segs.erase_totalLengthAll : ∀ cs : Segs, cs.erase.totalLength = cs.totalLength
  | .nil => rfl
  | .cons c rest => by
    simp only [Segs.erase, Segs.totalLength, ESegs.totalLength,
      Seg.erase_totalLength c, Segs.erase_totalLengthAll rest]
end

mutual
theorem Seg.erase_isFullyGrown : ∀ t : Seg, t.erase.isFullyGrown = t.isFullyGrown
  | .node d cs => by
    simp only [Seg.erase, Seg.isFullyGrown, ESeg.isFullyGrown, Segs.erase_isFullyGrownAll cs]
    rfl
theorem Segs.erase_isFullyGrownAll : ∀ cs : Segs, cs.erase.isFullyGrown = cs.isFullyGrown
  | .nil => rfl
  | .cons c rest => by
    simp only [Segs.erase, Segs.isFullyGrown, ESegs.isFullyGrown,
      Seg.erase_isFullyGrown c, Segs.erase_isFullyGrownAll rest]
end

/-- Erased `Plant.isFullyGrown`. -/
def EPlant.isFullyGrown (p : EPlant) : Bool :=
  p.shoot.isFullyGrown && p.root.isFullyGrown

theorem Plant.erase_new (vk : VarietyKey) (gravity : ℚ) (lightDir : LightDir)
    (rand : ℕ → ℚ) (i : ℕ) :
    EPlant.new vk rand i
      = ((Plant.new vk gravity lightDir rand i).1.erase,
         (Plant.new vk gravity lightDir rand i).2) := rfl

theorem Plant.erase_update (rand : ℕ → ℚ) (gravity : ℚ) (lightDir : LightDir)
    (p : Plant) (i : ℕ) :
    EPlant.update rand p.erase i
      = ((Plant.update rand gravity lightDir p i).1.erase,
         (Plant.update rand gravity lightDir p i).2) := by
  simp only [Plant.update, EPlant.update, Plant.erase, Seg.erase_totalLength]
  by_cases ha : p.age + 1 < 8
  · simp only [ha, if_true]
  · simp only [ha, if_false,
      Seg.erase_grow rand gravity lightDir p.shoot.totalLength p.maxShootLength 0
        p.shoot.parentlessAngle p.shoot i,
      Seg.erase_grow rand gravity lightDir p.root.totalLength p.maxRootLength 0
        p.root.parentlessAngle p.root
        ((Seg.grow rand gravity lightDir p.shoot.totalLength p.maxShootLength 0
          p.shoot.parentlessAngle p.shoot i).2)]

theorem Plant.erase_updateN (rand : ℕ → ℚ) (gravity : ℚ) (lightDir : LightDir) :
    ∀ (n : ℕ) (p : Plant) (i : ℕ),
    EPlant.updateN rand n (p.erase, i)
      = ((Plant.updateN rand gravity lightDir n (p, i)).1.erase,
         (Plant.updateN rand gravity lightDir n (p, i)).2)
  | 0, p, i => rfl
  | n+1, p, i => by
    simp only [Plant.updateN, EPlant.updateN, Plant.erase_update rand gravity lightDir p i,
      Plant.erase_updateN rand gravity lightDir n]

theorem Plant.erase_isFullyGrownBoth (p : Plant) :
    p.erase.isFullyGrown = p.isFullyGrown := by
  simp only [Plant.isFullyGrown, EPlant.isFullyGrown, Plant.erase,
    Seg.erase_isFullyGrown]


/-! ### Structural facts about one active-growth step -/

/-- Number of children. -/
def Segs.len : Segs → ℕ
  | .nil => 0
  | .cons _ rest => rest.len + 1

set_option maxHeartbeats 1000000 in
/-- Fields never written by the active step are preserved. -/
theorem Seg.activeStep_preserves (rand : ℕ → ℚ) (gravity : ℚ) (lightDir : LightDir)
    (tot maxL : ℚ) (depth : ℕ) (ang : ℝ) (d : SegData) (nc : Bool) (i : ℕ) :
    (Seg.activeStep rand gravity lightDir tot maxL depth ang d nc i).1.isRoot = d.isRoot ∧
    (Seg.activeStep rand gravity lightDir tot maxL depth ang d nc i).1.isBranch = d.isBranch ∧
    (Seg.activeStep rand gravity lightDir tot maxL depth ang d nc i).1.variety = d.variety ∧
    (Seg.activeStep rand gravity lightDir tot maxL depth ang d nc i).1.angleOffset = d.angleOffset ∧
    (Seg.activeStep rand gravity lightDir tot maxL depth ang d nc i).1.targetLength = d.targetLength ∧
    (Seg.activeStep rand gravity lightDir tot maxL depth ang d nc i).1.baseWidth = d.baseWidth :=
  ⟨rfl, rfl, rfl, rfl, rfl, rfl⟩

set_option maxHeartbeats 1000000 in
/-- The length increment of one active step: growth rate times `2.5`, times
the `0.7` branch multiplier. -/
theorem Seg.activeStep_length (rand : ℕ → ℚ) (gravity : ℚ) (lightDir : LightDir)
    (tot maxL : ℚ) (depth : ℕ) (ang : ℝ) (d : SegData) (nc : Bool) (i : ℕ) :
    (Seg.activeStep rand gravity lightDir tot maxL depth ang d nc i).1.length
      = d.length + (if d.isRoot then (VARIETIES d.variety).rootGrowthRate
          else (VARIETIES d.variety).growthRate) * (5/2)
          * (if d.isBranch then 7/10 else 1) := rfl

theorem branchTake_fst_true (rand : ℕ → ℚ) (isRoot isBranch hasBranched : Bool)
    (targetLength len1 : ℚ) (depth : ℕ) (i1 : ℕ) :
    (branchTake rand isRoot isBranch hasBranched targetLength len1 depth i1).1 = true →
      isRoot = false ∧ isBranch = false ∧ hasBranched = false ∧
      len1 > targetLength * (6/10) ∧ depth < 5 := by
  simp only [branchTake]
  split_ifs with h
  · exact fun _ => h
  · simp

set_option maxHeartbeats 1000000 in
/-- Deactivation rule of one active step, stated through the branching gate
`bt` it actually consults: the `growing` flag drops exactly when the
incremented length has reached the per-segment target, the children array
was empty when the tick began, and no branch was pushed during the tick;
`hasBranched` records exactly whether the gate fired, and it can only fire
on a segment that had not branched before.  The organ ceiling plays no role
in deactivation, only in spawning. -/
theorem Seg.activeStep_growing (rand : ℕ → ℚ) (gravity : ℚ) (lightDir : LightDir)
    (tot maxL : ℚ) (depth : ℕ) (ang : ℝ) (d : SegData) (nc : Bool) (i : ℕ) :
    ∃ bt : Bool × ℕ,
      (bt.1 = true → d.hasBranched = false ∧ d.isBranch = false ∧ d.isRoot = false ∧ depth < 5) ∧
      (Seg.activeStep rand gravity lightDir tot maxL depth ang d nc i).1.hasBranched
        = (d.hasBranched || bt.1) ∧
      ((Seg.activeStep rand gravity lightDir tot maxL depth ang d nc i).1.growing = false ↔
        ((Seg.activeStep rand gravity lightDir tot maxL depth ang d nc i).1.length
            ≥ d.targetLength ∧ nc = true ∧ bt.1 = false)) := by
  refine ⟨branchTake rand d.isRoot d.isBranch d.hasBranched d.targetLength
    (d.length + (if d.isRoot then (VARIETIES d.variety).rootGrowthRate
      else (VARIETIES d.variety).growthRate) * (5/2) * (if d.isBranch then 7/10 else 1))
    depth
    (leafBlock rand d.isRoot d.isBranch d.leaves d.nextLeafSide
      (d.length + (if d.isRoot then (VARIETIES d.variety).rootGrowthRate
        else (VARIETIES d.variety).growthRate) * (5/2) * (if d.isBranch then 7/10 else 1))
      i).2.2, ?_, ?_, ?_⟩
  · intro h
    have := branchTake_fst_true _ _ _ _ _ _ _ _ h
    exact ⟨this.2.2.1, this.2.1, this.1, this.2.2.2.2⟩
  · rfl
  · simp only [Seg.activeStep]
    split_ifs with h1 h2 <;>
      simp_all only [Bool.and_eq_true, Bool.not_eq_true', ge_iff_le, true_and, and_true,
        true_iff, false_iff, not_and, Bool.not_eq_false] <;>
      tauto

/-- The branching gate cannot fire when any eligibility conjunct fails. -/
theorem branchTake_not_eligible (rand : ℕ → ℚ) (isRoot isBranch hasBranched : Bool)
    (targetLength len1 : ℚ) (depth : ℕ) (i1 : ℕ)
    (h : isRoot = true ∨ isBranch = true ∨ hasBranched = true ∨ ¬ depth < 5) :
    branchTake rand isRoot isBranch hasBranched targetLength len1 depth i1 = (false, i1) := by
  simp only [branchTake]
  rw [if_neg]
  rintro ⟨e1, e2, e3, -, e5⟩
  rcases h with h | h | h | h <;> simp_all

set_option maxHeartbeats 2000000 in
/-- Classification of the at most one child pushed by an active step: either
a branch offshoot (the parent keeps growing) or a continuation (the parent
deactivates, the child inherits `isRoot` and `isBranch`, and the organ total
was below the ceiling).  Either way the child starts growing. -/
theorem Seg.activeStep_child (rand : ℕ → ℚ) (gravity : ℚ) (lightDir : LightDir)
    (tot maxL : ℚ) (depth : ℕ) (ang : ℝ) (d : SegData) (nc : Bool) (i : ℕ) :
    ∀ c : Seg, (Seg.activeStep rand gravity lightDir tot maxL depth ang d nc i).2.1 = some c →
      c.dat.growing = true ∧ c.children = Segs.nil ∧
      (((Seg.activeStep rand gravity lightDir tot maxL depth ang d nc i).1.growing = true ∧
          c.dat.isBranch = true ∧ c.dat.isRoot = false) ∨
       ((Seg.activeStep rand gravity lightDir tot maxL depth ang d nc i).1.growing = false ∧
          c.dat.isBranch = d.isBranch ∧ c.dat.isRoot = d.isRoot ∧ tot < maxL)) := by
  intro c hc
  simp only [Seg.activeStep] at hc ⊢
  split_ifs at hc ⊢ <;>
      simp only [Option.some.injEq, reduceCtorEq] at hc <;>
      try subst hc
  all_goals
    simp_all only [Seg.create, Seg.dat, Seg.children, Bool.not_true, Bool.and_false,
      Bool.false_eq_true, and_false, true_and, Bool.and_true, Bool.not_false, and_true]
  all_goals tauto

set_option maxHeartbeats 2000000 in
/-- When the branching gate is ineligible (root segment, branch segment,
already branched, or at/beyond the depth cap), the only child an active step
can push is a continuation: the parent deactivates, the child inherits both
flags, and the organ total was below the ceiling. -/
theorem Seg.activeStep_child_not_eligible (rand : ℕ → ℚ) (gravity : ℚ) (lightDir : LightDir)
    (tot maxL : ℚ) (depth : ℕ) (ang : ℝ) (d : SegData) (nc : Bool) (i : ℕ)
    (h : d.isRoot = true ∨ d.isBranch = true ∨ d.hasBranched = true ∨ ¬ depth < 5) :
    ∀ c : Seg, (Seg.activeStep rand gravity lightDir tot maxL depth ang d nc i).2.1 = some c →
      (Seg.activeStep rand gravity lightDir tot maxL depth ang d nc i).1.growing = false ∧
      c.dat.isBranch = d.isBranch ∧ c.dat.isRoot = d.isRoot ∧
      c.dat.growing = true ∧ c.children = Segs.nil ∧ tot < maxL := by
  intro c hc
  simp only [Seg.activeStep, branchTake_not_eligible rand d.isRoot d.isBranch d.hasBranched
    d.targetLength _ depth _ h] at hc ⊢
  split_ifs at hc ⊢ <;>
      simp only [Option.some.injEq, reduceCtorEq] at hc <;>
      try subst hc
  all_goals
    simp_all only [Seg.create, Seg.dat, Seg.children, Bool.not_true, Bool.and_false,
      Bool.false_eq_true, and_false, true_and, Bool.and_true, Bool.not_false, and_true]
  all_goals tauto

theorem Segs.push_len : ∀ (cs : Segs) (c : Seg), (cs.push c).len = cs.len + 1
  | .nil, _ => rfl
  | .cons a rest, c => by simp only [Segs.push, Segs.len, Segs.push_len rest c]

theorem Segs.get?_push : ∀ (cs : Segs) (k : ℕ) (x c : Seg),
    cs.get? k = some c → (cs.push x).get? k = some c
  | .nil, k, x, c => by simp [Segs.get?]
  | .cons a rest, 0, x, c => fun h => h
  | .cons a rest, k+1, x, c => Segs.get?_push rest k x c

theorem Segs.grow_len (rand : ℕ → ℚ) (gravity : ℚ) (lightDir : LightDir) (tot maxL : ℚ) :
    ∀ (pdepth : ℕ) (pang : ℝ) (cs : Segs) (i : ℕ),
    (Segs.grow rand gravity lightDir tot maxL pdepth pang cs i).1.len = cs.len
  | _, _, .nil, _ => rfl
  | pdepth, pang, .cons c rest, i => by
    simp only [Segs.grow, Segs.len,
      Segs.grow_len rand gravity lightDir tot maxL pdepth pang rest]

theorem Segs.grow_get? (rand : ℕ → ℚ) (gravity : ℚ) (lightDir : LightDir) (tot maxL : ℚ) :
    ∀ (pdepth : ℕ) (pang : ℝ) (cs : Segs) (i : ℕ) (k : ℕ) (c : Seg),
    cs.get? k = some c →
    ∃ j : ℕ, (Segs.grow rand gravity lightDir tot maxL pdepth pang cs i).1.get? k
      = some (Seg.grow rand gravity lightDir tot maxL (pdepth+1)
          (pang + c.dat.angleOffset) c j).1
  | _, _, .nil, _, k, c => by simp [Segs.get?]
  | pdepth, pang, .cons a rest, i, 0, c => fun h => by
    obtain rfl : a = c := by simpa [Segs.get?] using h
    exact ⟨i, rfl⟩
  | pdepth, pang, .cons a rest, i, k+1, c => fun h =>
    Segs.grow_get? rand gravity lightDir tot maxL pdepth pang rest _ k c h

/-- Path lookup in a segment tree: `getPath [k₁, k₂, ...]` follows child
`k₁`, then `k₂`, and so on. -/
def Seg.getPath : List ℕ → Seg → Option Seg
  | [], t => some t
  | k :: p, .node _ cs =>
    match cs.get? k with
    | some c => Seg.getPath p c
    | Option.none => Option.none

set_option maxHeartbeats 2000000 in
/-- How one `grow` tick acts on the segment at any fixed path: the segment
survives at the same position; its identity fields (`angleOffset` included)
are unchanged; an inactive segment is left entirely untouched; an active
segment deactivates exactly when its incremented length has reached the
per-segment target, its children array was empty at the start of the tick,
and no branch was pushed during the tick; and the children array gains at
most one element, which requires the parent to stay growing (branch
offshoot) or the organ total to be below the ceiling (continuation). -/
theorem Seg.getPath_grow (rand : ℕ → ℚ) (gravity : ℚ) (lightDir : LightDir) (tot maxL : ℚ) :
    ∀ (path : List ℕ) (depth : ℕ) (ang : ℝ) (t : Seg) (i : ℕ) (s : Seg),
    Seg.getPath path t = some s →
    ∃ s' : Seg,
      Seg.getPath path (Seg.grow rand gravity lightDir tot maxL depth ang t i).1 = some s' ∧
      s'.dat.angleOffset = s.dat.angleOffset ∧
      s'.dat.isBranch = s.dat.isBranch ∧
      s'.dat.isRoot = s.dat.isRoot ∧
      s'.dat.targetLength = s.dat.targetLength ∧
      (s.dat.growing = false → s'.dat = s.dat) ∧
      (s.dat.growing = true →
        (s'.dat.growing = false ↔
          (s'.dat.length ≥ s.dat.targetLength ∧ s.children.isNil = true ∧
           s'.dat.hasBranched = s.dat.hasBranched))) ∧
      (s'.children.len = s.children.len ∨
        (s'.children.len = s.children.len + 1 ∧ (s'.dat.growing = true ∨ tot < maxL)))
  | [], depth, ang, t, i, s => by
    intro h
    simp only [Seg.getPath, Option.some.injEq] at h
    subst h
    obtain ⟨d, cs⟩ := t
    by_cases hg : d.growing = true
    · -- active node: data via activeStep, children possibly extended
      obtain ⟨bt, hbt1, hbt2, hbt3⟩ :=
        Seg.activeStep_growing rand gravity lightDir tot maxL depth ang d cs.isNil i
      have hpres :=
        Seg.activeStep_preserves rand gravity lightDir tot maxL depth ang d cs.isNil i
      simp only [Seg.grow, hg, if_true]
      cases hopt : (Seg.activeStep rand gravity lightDir tot maxL depth ang d cs.isNil i).2.1 with
      | none =>
        refine ⟨_, rfl, hpres.2.2.2.1, hpres.2.1, hpres.1, hpres.2.2.2.2.1, ?_, ?_, ?_⟩
        · simp only [Seg.dat]
          intro hf
          exact absurd hf (by simp [hg])
        · intro _
          simp only [Seg.dat, Seg.children]
          cases hb : bt.1 with
          | false =>
            rw [hb] at hbt2 hbt3
            simp only [Bool.or_false] at hbt2
            rw [hbt3, hbt2]
            simp
          | true =>
            have hhb := (hbt1 hb).1
            rw [hb] at hbt2 hbt3
            simp only [Bool.or_true] at hbt2
            rw [hbt2, hhb]
            simp [hbt3]
        · simp only [Seg.children,
            Segs.grow_len rand gravity lightDir tot maxL depth ang cs]
          exact Or.inl trivial
      | some c =>
        obtain ⟨-, -, hclass⟩ :=
          Seg.activeStep_child rand gravity lightDir tot maxL depth ang d cs.isNil i c hopt
        refine ⟨_, rfl, hpres.2.2.2.1, hpres.2.1, hpres.1, hpres.2.2.2.2.1, ?_, ?_, ?_⟩
        · simp only [Seg.dat]
          intro hf
          exact absurd hf (by simp [hg])
        · intro _
          simp only [Seg.dat, Seg.children]
          cases hb : bt.1 with
          | false =>
            rw [hb] at hbt2 hbt3
            simp only [Bool.or_false] at hbt2
            rw [hbt3, hbt2]
            simp
          | true =>
            have hhb := (hbt1 hb).1
            rw [hb] at hbt2 hbt3
            simp only [Bool.or_true] at hbt2
            rw [hbt2, hhb]
            simp [hbt3]
        · simp only [Seg.children, Segs.push_len,
            Segs.grow_len rand gravity lightDir tot maxL depth ang cs]
          refine Or.inr ⟨by simp, ?_⟩
          simp only [Seg.dat]
          rcases hclass with ⟨hgrow, -⟩ | ⟨-, -, -, hlt⟩
          · exact Or.inl hgrow
          · exact Or.inr hlt
    · -- inactive node: data untouched, children grown in place
      simp only [Bool.not_eq_true] at hg
      simp only [Seg.grow, hg, Bool.false_eq_true, if_false]
      refine ⟨_, rfl, rfl, rfl, rfl, rfl, fun _ => rfl, ?_, ?_⟩
      · simp only [Seg.dat, hg]
        intro hf
        simp at hf
      · simp only [Seg.children,
          Segs.grow_len rand gravity lightDir tot maxL depth ang cs]
        exact Or.inl trivial
  | k :: p, depth, ang, t, i, s => by
    intro h
    obtain ⟨d, cs⟩ := t
    simp only [Seg.getPath] at h
    cases hck : cs.get? k with
    | none => rw [hck] at h; exact absurd h (by simp)
    | some c =>
      rw [hck] at h
      by_cases hg : d.growing = true
      · simp only [Seg.grow, hg, if_true]
        cases hopt : (Seg.activeStep rand gravity lightDir tot maxL depth ang d cs.isNil i).2.1 with
        | none =>
          obtain ⟨j, hj⟩ := Segs.grow_get? rand gravity lightDir tot maxL depth ang cs
            (Seg.activeStep rand gravity lightDir tot maxL depth ang d cs.isNil i).2.2 k c hck
          obtain ⟨s', hs', hrest⟩ :=
            Seg.getPath_grow rand gravity lightDir tot maxL p (depth+1)
              (ang + c.dat.angleOffset) c j s h
          exact ⟨s', by simp only [Seg.getPath, hj, hs'], hrest⟩
        | some c2 =>
          obtain ⟨j, hj⟩ := Segs.grow_get? rand gravity lightDir tot maxL depth ang cs
            (Seg.activeStep rand gravity lightDir tot maxL depth ang d cs.isNil i).2.2 k c hck
          have hj2 := Segs.get?_push _ k
            (Seg.growFresh rand gravity lightDir tot maxL (depth+1) (ang + c2.dat.angleOffset) c2
              (Segs.grow rand gravity lightDir tot maxL depth ang cs
                (Seg.activeStep rand gravity lightDir tot maxL depth ang d cs.isNil i).2.2).2).1 _ hj
          obtain ⟨s', hs', hrest⟩ :=
            Seg.getPath_grow rand gravity lightDir tot maxL p (depth+1)
              (ang + c.dat.angleOffset) c j s h
          exact ⟨s', by simp only [Seg.getPath, hj2, hs'], hrest⟩
      · simp only [Bool.not_eq_true] at hg
        simp only [Seg.grow, hg, Bool.false_eq_true, if_false]
        obtain ⟨j, hj⟩ := Segs.grow_get? rand gravity lightDir tot maxL depth ang cs i k c hck
        obtain ⟨s', hs', hrest⟩ :=
          Seg.getPath_grow rand gravity lightDir tot maxL p (depth+1)
            (ang + c.dat.angleOffset) c j s h
        exact ⟨s', by simp only [Seg.getPath, hj, hs'], hrest⟩

/-! ### Branch-flag invariants -/

theorem Seg.grow_dat_isBranch (rand : ℕ → ℚ) (gravity : ℚ) (lightDir : LightDir)
    (tot maxL : ℚ) (depth : ℕ) (ang : ℝ) (t : Seg) (i : ℕ) :
    (Seg.grow rand gravity lightDir tot maxL depth ang t i).1.dat.isBranch = t.dat.isBranch ∧
    (Seg.grow rand gravity lightDir tot maxL depth ang t i).1.dat.isRoot = t.dat.isRoot := by
  obtain ⟨d, cs⟩ := t
  have hp := Seg.activeStep_preserves rand gravity lightDir tot maxL depth ang d cs.isNil i
  by_cases hg : d.growing = true
  · simp only [Seg.grow, hg, if_true]
    cases hopt : (Seg.activeStep rand gravity lightDir tot maxL depth ang d cs.isNil i).2.1 with
    | none => exact ⟨hp.2.1, hp.1⟩
    | some c => exact ⟨hp.2.1, hp.1⟩
  · simp only [Bool.not_eq_true] at hg
    simp only [Seg.grow, hg, Bool.false_eq_true, if_false]
    exact ⟨rfl, rfl⟩

theorem Seg.growFresh_dat_isBranch (rand : ℕ → ℚ) (gravity : ℚ) (lightDir : LightDir)
    (tot maxL : ℚ) (depth : ℕ) (ang : ℝ) (t : Seg) (i : ℕ) :
    (Seg.growFresh rand gravity lightDir tot maxL depth ang t i).1.dat.isBranch
      = t.dat.isBranch := by
  obtain ⟨d, cs⟩ := t
  have hp := Seg.activeStep_preserves rand gravity lightDir tot maxL depth ang d cs.isNil i
  by_cases hg : d.growing = true
  · simp only [Seg.growFresh, hg, if_true]
    exact hp.2.1
  · simp only [Bool.not_eq_true] at hg
    simp only [Seg.growFresh, hg, Bool.false_eq_true, if_false]

mutual
/-- Every child of a branch segment is itself a branch segment, hereditarily
(the heredity invariant of branch chains). -/
def Seg.branchClosed : Seg → Bool
  | .node d cs => (!d.isBranch || cs.allBranch) && cs.branchClosed
/-- All top-level members of the array carry `isBranch = true`. -/
def Segs.allBranch : Segs → Bool
  | .nil => true
  | .cons c rest => c.dat.isBranch && rest.allBranch
/-- Conjunction of `branchClosed` over every member. -/
def Segs.branchClosed : Segs → Bool
  | .nil => true
  | .cons c rest => c.branchClosed && rest.branchClosed
end

theorem Segs.allBranch_push : ∀ (cs : Segs) (c : Seg),
    (cs.push c).allBranch = (cs.allBranch && c.dat.isBranch)
  | .nil, c => by simp [Segs.push, Segs.allBranch]
  | .cons a rest, c => by
    simp [Segs.push, Segs.allBranch, Segs.allBranch_push rest c, Bool.and_assoc]

theorem Segs.grow_allBranch (rand : ℕ → ℚ) (gravity : ℚ) (lightDir : LightDir)
    (tot maxL : ℚ) : ∀ (pdepth : ℕ) (pang : ℝ) (cs : Segs) (i : ℕ),
    cs.allBranch = true →
    (Segs.grow rand gravity lightDir tot maxL pdepth pang cs i).1.allBranch = true
  | _, _, .nil, _, _ => rfl
  | pdepth, pang, .cons c rest, i, h => by
    simp only [Segs.allBranch, Bool.and_eq_true] at h
    simp only [Segs.grow, Segs.allBranch, Bool.and_eq_true,
      (Seg.grow_dat_isBranch rand gravity lightDir tot maxL (pdepth+1)
        (pang + c.dat.angleOffset) c i).1, h.1, true_and]
    exact Segs.grow_allBranch rand gravity lightDir tot maxL pdepth pang rest _ h.2

/-- The same-tick growth of a freshly created child always yields a
hereditarily branch-closed subtree. -/
theorem Seg.growFresh_branchClosed (rand : ℕ → ℚ) (gravity : ℚ) (lightDir : LightDir)
    (tot maxL : ℚ) (depth : ℕ) (ang : ℝ) (d : SegData) (i : ℕ) :
    (Seg.growFresh rand gravity lightDir tot maxL depth ang (.node d .nil) i).1.branchClosed
      = true := by
  by_cases hg : d.growing = true
  · simp only [Seg.growFresh, hg, if_true, Segs.isNil]
    cases hopt : (Seg.activeStep rand gravity lightDir tot maxL depth ang d true i).2.1 with
    | none =>
      simp [hopt, Segs.pushOpt, Seg.branchClosed, Segs.branchClosed, Segs.allBranch]
    | some c =>
      obtain ⟨-, hcnil, hclass⟩ :=
        Seg.activeStep_child rand gravity lightDir tot maxL depth ang d true i c hopt
      obtain ⟨dc, ccs⟩ := c
      simp only [Seg.children] at hcnil
      subst hcnil
      have hp := (Seg.activeStep_preserves rand gravity lightDir tot maxL depth ang d true i).2.1
      simp only [hopt, Segs.pushOpt, Segs.push, Seg.branchClosed, Segs.branchClosed,
        Segs.allBranch, Seg.dat, Bool.and_true, Bool.and_eq_true] at hclass ⊢
      rcases hclass with ⟨-, hcb, -⟩ | ⟨-, hcb, -⟩ <;>
        simp only [hcb, hp, Bool.or_true, and_true, true_and] <;>
        cases d.isBranch <;> cases dc.isBranch <;> simp_all
  · simp only [Bool.not_eq_true] at hg
    simp [Seg.growFresh, hg, Seg.branchClosed, Segs.branchClosed, Segs.allBranch]

theorem Segs.branchClosed_push : ∀ (cs : Segs) (c : Seg),
    (cs.push c).branchClosed = (cs.branchClosed && c.branchClosed)
  | .nil, c => by simp [Segs.push, Segs.branchClosed]
  | .cons a rest, c => by
    simp [Segs.push, Segs.branchClosed, Segs.branchClosed_push rest c, Bool.and_assoc]

mutual
/-- One `grow` tick preserves the branch-heredity invariant. -/
theorem Seg.grow_branchClosed (rand : ℕ → ℚ) (gravity : ℚ) (lightDir : LightDir)
    (tot maxL : ℚ) : ∀ (depth : ℕ) (ang : ℝ) (t : Seg) (i : ℕ),
    t.branchClosed = true →
    (Seg.grow rand gravity lightDir tot maxL depth ang t i).1.branchClosed = true
  | depth, ang, .node d cs, i, h => by
    simp only [Seg.branchClosed, Bool.and_eq_true, Bool.or_eq_true, Bool.not_eq_true'] at h
    have hrec := Segs.grow_branchClosedAll rand gravity lightDir tot maxL depth ang cs
    by_cases hg : d.growing = true
    · simp only [Seg.grow, hg, if_true]
      have hp := (Seg.activeStep_preserves rand gravity lightDir tot maxL depth ang d
        cs.isNil i).2.1
      cases hopt : (Seg.activeStep rand gravity lightDir tot maxL depth ang d cs.isNil i).2.1 with
      | none =>
        simp only [Seg.branchClosed, Bool.and_eq_true, Bool.or_eq_true, Bool.not_eq_true', hp]
        refine ⟨?_, hrec _ h.2⟩
        rcases h.1 with hb | hb
        · exact Or.inl hb
        · exact Or.inr (Segs.grow_allBranch rand gravity lightDir tot maxL depth ang cs _ hb)
      | some c =>
        obtain ⟨-, hcnil, hclass⟩ :=
          Seg.activeStep_child rand gravity lightDir tot maxL depth ang d cs.isNil i c hopt
        obtain ⟨dc, ccs⟩ := c
        simp only [Seg.children] at hcnil
        subst hcnil
        simp only [Seg.branchClosed, Bool.and_eq_true, Bool.or_eq_true, Bool.not_eq_true',
          hp, Segs.allBranch_push, Segs.branchClosed_push]
        refine ⟨?_, hrec _ h.2, Seg.growFresh_branchClosed rand gravity lightDir tot maxL
          (depth+1) _ dc _⟩
        by_cases hdb : d.isBranch = true
        · -- parent is a branch: old children are branches, and so is the new child
          have hall : cs.allBranch = true := by
            rcases h.1 with hb | hb
            · rw [hdb] at hb; cases hb
            · exact hb
          simp only [Seg.dat] at hclass
          refine Or.inr ⟨Segs.grow_allBranch rand gravity lightDir tot maxL
            depth ang cs _ hall, ?_⟩
          rw [Seg.growFresh_dat_isBranch, Seg.dat]
          rcases hclass with ⟨-, hcb, -⟩ | ⟨-, hcb, -⟩
          · exact hcb
          · rw [hcb, hdb]
        · simp only [Bool.not_eq_true] at hdb
          exact Or.inl hdb
    · simp only [Bool.not_eq_true] at hg
      simp only [Seg.grow, hg, Bool.false_eq_true, if_false, Seg.branchClosed,
        Bool.and_eq_true, Bool.or_eq_true, Bool.not_eq_true']
      refine ⟨?_, hrec _ h.2⟩
      rcases h.1 with hb | hb
      · exact Or.inl hb
      · exact Or.inr (Segs.grow_allBranch rand gravity lightDir tot maxL depth ang cs _ hb)
termination_by depth ang t i => sizeOf t

theorem Segs.grow_branchClosedAll (rand : ℕ → ℚ) (gravity : ℚ) (lightDir : LightDir)
    (tot maxL : ℚ) : ∀ (pdepth : ℕ) (pang : ℝ) (cs : Segs) (i : ℕ),
    cs.branchClosed = true →
    (Segs.grow rand gravity lightDir tot maxL pdepth pang cs i).1.branchClosed = true
  | _, _, .nil, _, _ => rfl
  | pdepth, pang, .cons c rest, i, h => by
    simp only [Segs.branchClosed, Bool.and_eq_true] at h
    simp only [Segs.grow, Segs.branchClosed, Bool.and_eq_true]
    exact ⟨Seg.grow_branchClosed rand gravity lightDir tot maxL (pdepth+1)
        (pang + c.dat.angleOffset) c i h.1,
      Segs.grow_branchClosedAll rand gravity lightDir tot maxL pdepth pang rest _ h.2⟩
termination_by pdepth pang cs i => sizeOf cs
end

mutual
/-- No non-branch segment at depth `dp ≥ 5` has a child with
`isBranch = true`: every `isBranch` child that deep sits on a branch
segment, i.e. is a continuation of a branch chain, never a fresh offshoot. -/
def Seg.noDeepOffshoot : ℕ → Seg → Bool
  | dp, .node d cs =>
    (!(decide (5 ≤ dp)) || d.isBranch || cs.noneBranch) && cs.noDeepOffshootAll (dp+1)
/-- No top-level member of the array carries `isBranch = true`. -/
def Segs.noneBranch : Segs → Bool
  | .nil => true
  | .cons c rest => !c.dat.isBranch && rest.noneBranch
/-- Conjunction of `noDeepOffshoot dp` over every member (all of them sit at depth `dp`). -/
def Segs.noDeepOffshootAll : ℕ → Segs → Bool
  | _, .nil => true
  | dp, .cons c rest => c.noDeepOffshoot dp && rest.noDeepOffshootAll dp
end

theorem Segs.noneBranch_push : ∀ (cs : Segs) (c : Seg),
    (cs.push c).noneBranch = (cs.noneBranch && !c.dat.isBranch)
  | .nil, c => by simp [Segs.push, Segs.noneBranch]
  | .cons a rest, c => by
    simp [Segs.push, Segs.noneBranch, Segs.noneBranch_push rest c, Bool.and_assoc]

theorem Segs.noDeepOffshootAll_push : ∀ (cs : Segs) (c : Seg) (dp : ℕ),
    (cs.push c).noDeepOffshootAll dp = (cs.noDeepOffshootAll dp && c.noDeepOffshoot dp)
  | .nil, c, dp => by simp [Segs.push, Segs.noDeepOffshootAll]
  | .cons a rest, c, dp => by
    simp [Segs.push, Segs.noDeepOffshootAll, Segs.noDeepOffshootAll_push rest c dp,
      Bool.and_assoc]

theorem Segs.grow_noneBranch (rand : ℕ → ℚ) (gravity : ℚ) (lightDir : LightDir)
    (tot maxL : ℚ) : ∀ (pdepth : ℕ) (pang : ℝ) (cs : Segs) (i : ℕ),
    cs.noneBranch = true →
    (Segs.grow rand gravity lightDir tot maxL pdepth pang cs i).1.noneBranch = true
  | _, _, .nil, _, _ => rfl
  | pdepth, pang, .cons c rest, i, h => by
    simp only [Segs.noneBranch, Bool.and_eq_true, Bool.not_eq_true'] at h
    simp only [Segs.grow, Segs.noneBranch, Bool.and_eq_true, Bool.not_eq_true',
      (Seg.grow_dat_isBranch rand gravity lightDir tot maxL (pdepth+1)
        (pang + c.dat.angleOffset) c i).1, h.1, true_and]
    exact Segs.grow_noneBranch rand gravity lightDir tot maxL pdepth pang rest _ h.2

/-- The same-tick growth of a freshly created childless segment satisfies the
deep-offshoot invariant at any depth. -/
theorem Seg.growFresh_noDeepOffshoot (rand : ℕ → ℚ) (gravity : ℚ) (lightDir : LightDir)
    (tot maxL : ℚ) (dp : ℕ) (ang : ℝ) (d : SegData) (i : ℕ) :
    (Seg.growFresh rand gravity lightDir tot maxL dp ang (.node d .nil) i).1.noDeepOffshoot dp
      = true := by
  by_cases hg : d.growing = true
  · simp only [Seg.growFresh, hg, if_true, Segs.isNil]
    cases hopt : (Seg.activeStep rand gravity lightDir tot maxL dp ang d true i).2.1 with
    | none =>
      simp [hopt, Segs.pushOpt, Seg.noDeepOffshoot, Segs.noDeepOffshootAll, Segs.noneBranch]
    | some c =>
      obtain ⟨-, hcnil, hclass⟩ :=
        Seg.activeStep_child rand gravity lightDir tot maxL dp ang d true i c hopt
      obtain ⟨dc, ccs⟩ := c
      simp only [Seg.children] at hcnil
      subst hcnil
      simp only [Seg.dat] at hclass
      have hp := (Seg.activeStep_preserves rand gravity lightDir tot maxL dp ang d true i).2.1
      simp only [hopt, Segs.pushOpt, Segs.push, Seg.noDeepOffshoot, Segs.noDeepOffshootAll,
        Segs.noneBranch, Seg.dat, Bool.and_true, Bool.and_eq_true, hp]
      by_cases hdeep : 5 ≤ dp
      · -- at or beyond the cap, an offshoot is impossible: only a continuation
        have := Seg.activeStep_child_not_eligible rand gravity lightDir tot maxL dp ang d
          true i (Or.inr (Or.inr (Or.inr (by omega)))) (.node dc .nil) hopt
        simp only [Seg.dat] at this
        by_cases hdb : d.isBranch = true
        · simp [hdb, hdeep]
        · simp only [Bool.not_eq_true] at hdb
          rw [this.2.1, hdb]
          simp [hdeep]
      · simp [hdeep]
  · simp only [Bool.not_eq_true] at hg
    simp [Seg.growFresh, hg, Seg.noDeepOffshoot, Segs.noDeepOffshootAll, Segs.noneBranch]

mutual
/-- One `grow` tick preserves the deep-offshoot invariant, provided the
invariant index matches the depth the tick is run at. -/
theorem Seg.grow_noDeepOffshoot (rand : ℕ → ℚ) (gravity : ℚ) (lightDir : LightDir)
    (tot maxL : ℚ) : ∀ (depth : ℕ) (ang : ℝ) (t : Seg) (i : ℕ),
    t.noDeepOffshoot depth = true →
    (Seg.grow rand gravity lightDir tot maxL depth ang t i).1.noDeepOffshoot depth = true
  | depth, ang, .node d cs, i, h => by
    simp only [Seg.noDeepOffshoot, Bool.and_eq_true, Bool.or_eq_true,
      Bool.not_eq_true', decide_eq_false_iff_not, not_le] at h
    have hrec := Segs.grow_noDeepOffshootAll rand gravity lightDir tot maxL depth ang cs
    by_cases hg : d.growing = true
    · simp only [Seg.grow, hg, if_true]
      have hp := (Seg.activeStep_preserves rand gravity lightDir tot maxL depth ang d
        cs.isNil i).2.1
      cases hopt : (Seg.activeStep rand gravity lightDir tot maxL depth ang d cs.isNil i).2.1 with
      | none =>
        simp only [Seg.noDeepOffshoot, Bool.and_eq_true, Bool.or_eq_true, Bool.not_eq_true',
          decide_eq_false_iff_not, not_le, hp]
        refine ⟨?_, hrec _ h.2⟩
        rcases h.1 with (hb | hb) | hb
        · exact Or.inl (Or.inl hb)
        · exact Or.inl (Or.inr hb)
        · exact Or.inr
            (Segs.grow_noneBranch rand gravity lightDir tot maxL depth ang cs _ hb)
      | some c =>
        obtain ⟨-, hcnil, -⟩ :=
          Seg.activeStep_child rand gravity lightDir tot maxL depth ang d cs.isNil i c hopt
        obtain ⟨dc, ccs⟩ := c
        simp only [Seg.children] at hcnil
        subst hcnil
        simp only [Seg.noDeepOffshoot, Bool.and_eq_true, Bool.or_eq_true, Bool.not_eq_true',
          decide_eq_false_iff_not, not_le, hp, Segs.noneBranch_push,
          Segs.noDeepOffshootAll_push]
        refine ⟨?_, hrec _ h.2,
          Seg.growFresh_noDeepOffshoot rand gravity lightDir tot maxL (depth+1) _ dc _⟩
        by_cases hdeep : 5 ≤ depth
        · by_cases hdb : d.isBranch = true
          · exact Or.inl (Or.inr hdb)
          · simp only [Bool.not_eq_true] at hdb
            have hne := Seg.activeStep_child_not_eligible rand gravity lightDir tot maxL
              depth ang d cs.isNil i (Or.inr (Or.inr (Or.inr (by omega)))) (.node dc .nil) hopt
            simp only [Seg.dat] at hne
            have hold : cs.noneBranch = true := by
              rcases h.1 with (hb | hb) | hb
              · omega
              · rw [hdb] at hb; cases hb
              · exact hb
            refine Or.inr ?_
            refine ⟨Segs.grow_noneBranch rand gravity lightDir tot maxL depth ang cs _ hold, ?_⟩
            rw [Seg.growFresh_dat_isBranch, Seg.dat, hne.2.1]
            exact hdb
        · exact Or.inl (Or.inl (by omega))
    · simp only [Bool.not_eq_true] at hg
      simp only [Seg.grow, hg, Bool.false_eq_true, if_false, Seg.noDeepOffshoot,
        Bool.and_eq_true, Bool.or_eq_true, Bool.not_eq_true', decide_eq_false_iff_not, not_le]
      refine ⟨?_, hrec _ h.2⟩
      rcases h.1 with (hb | hb) | hb
      · exact Or.inl (Or.inl hb)
      · exact Or.inl (Or.inr hb)
      · exact Or.inr
          (Segs.grow_noneBranch rand gravity lightDir tot maxL depth ang cs _ hb)
termination_by depth ang t i => sizeOf t

theorem Segs.grow_noDeepOffshootAll (rand : ℕ → ℚ) (gravity : ℚ) (lightDir : LightDir)
    (tot maxL : ℚ) : ∀ (pdepth : ℕ) (pang : ℝ) (cs : Segs) (i : ℕ),
    cs.noDeepOffshootAll (pdepth+1) = true →
    (Segs.grow rand gravity lightDir tot maxL pdepth pang cs i).1.noDeepOffshootAll (pdepth+1)
      = true
  | _, _, .nil, _, _ => rfl
  | pdepth, pang, .cons c rest, i, h => by
    simp only [Segs.noDeepOffshootAll, Bool.and_eq_true] at h
    simp only [Segs.grow, Segs.noDeepOffshootAll, Bool.and_eq_true]
    exact ⟨Seg.grow_noDeepOffshoot rand gravity lightDir tot maxL (pdepth+1)
        (pang + c.dat.angleOffset) c i h.1,
      Segs.grow_noDeepOffshootAll rand gravity lightDir tot maxL pdepth pang rest _ h.2⟩
termination_by pdepth pang cs i => sizeOf cs
end

mutual
/-- A fully grown tree is left exactly as it is by a `grow` tick, cursor
included: inactive segments neither mutate nor consume randomness. -/
theorem Seg.grow_of_fullyGrown (rand : ℕ → ℚ) (gravity : ℚ) (lightDir : LightDir)
    (tot maxL : ℚ) : ∀ (depth : ℕ) (ang : ℝ) (t : Seg) (i : ℕ),
    t.isFullyGrown = true →
    Seg.grow rand gravity lightDir tot maxL depth ang t i = (t, i)
  | depth, ang, .node d cs, i, h => by
    simp only [Seg.isFullyGrown, Bool.and_eq_true, Bool.not_eq_true'] at h
    simp only [Seg.grow, h.1, Bool.false_eq_true, if_false,
      Segs.grow_of_fullyGrownAll rand gravity lightDir tot maxL depth ang cs i h.2]
termination_by depth ang t i => sizeOf t

theorem Segs.grow_of_fullyGrownAll (rand : ℕ → ℚ) (gravity : ℚ) (lightDir : LightDir)
    (tot maxL : ℚ) : ∀ (pdepth : ℕ) (pang : ℝ) (cs : Segs) (i : ℕ),
    cs.isFullyGrown = true →
    Segs.grow rand gravity lightDir tot maxL pdepth pang cs i = (cs, i)
  | _, _, .nil, _, _ => rfl
  | pdepth, pang, .cons c rest, i, h => by
    simp only [Segs.isFullyGrown, Bool.and_eq_true] at h
    simp only [Segs.grow,
      Seg.grow_of_fullyGrown rand gravity lightDir tot maxL (pdepth+1)
        (pang + c.dat.angleOffset) c i h.1,
      Segs.grow_of_fullyGrownAll rand gravity lightDir tot maxL pdepth pang rest i h.2]
termination_by pdepth pang cs i => sizeOf cs
end

/-! ### Reachable plant states -/

/-- Plant states that actually arise in the simulator: a freshly constructed
plant, or any update tick applied to a reachable state.  The oracle is
constrained to the range of `Math.random`. -/
inductive ReachablePlant : Plant → Prop where
  | init (vk : VarietyKey) (gravity : ℚ) (lightDir : LightDir) (rand : ℕ → ℚ) (i : ℕ)
      (hr : ∀ n, 0 ≤ rand n ∧ rand n < 1) :
      ReachablePlant (Plant.new vk gravity lightDir rand i).1
  | step (p : Plant) (gravity : ℚ) (lightDir : LightDir) (rand : ℕ → ℚ) (i : ℕ)
      (hr : ∀ n, 0 ≤ rand n ∧ rand n < 1) (hp : ReachablePlant p) :
      ReachablePlant (Plant.update rand gravity lightDir p i).1

theorem Plant.new_invariants (vk : VarietyKey) (gravity : ℚ) (lightDir : LightDir)
    (rand : ℕ → ℚ) (i : ℕ) :
    ((Plant.new vk gravity lightDir rand i).1.shoot.branchClosed = true ∧
     (Plant.new vk gravity lightDir rand i).1.root.branchClosed = true) ∧
    ((Plant.new vk gravity lightDir rand i).1.shoot.noDeepOffshoot 0 = true ∧
     (Plant.new vk gravity lightDir rand i).1.root.noDeepOffshoot 0 = true) := by
  simp [Plant.new, Seg.create, Seg.branchClosed, Seg.noDeepOffshoot, Segs.allBranch,
    Segs.noneBranch, Segs.branchClosed, Segs.noDeepOffshootAll]

theorem Plant.update_invariants (rand : ℕ → ℚ) (gravity : ℚ) (lightDir : LightDir)
    (p : Plant) (i : ℕ)
    (h1 : p.shoot.branchClosed = true) (h2 : p.root.branchClosed = true)
    (h3 : p.shoot.noDeepOffshoot 0 = true) (h4 : p.root.noDeepOffshoot 0 = true) :
    ((Plant.update rand gravity lightDir p i).1.shoot.branchClosed = true ∧
     (Plant.update rand gravity lightDir p i).1.root.branchClosed = true) ∧
    ((Plant.update rand gravity lightDir p i).1.shoot.noDeepOffshoot 0 = true ∧
     (Plant.update rand gravity lightDir p i).1.root.noDeepOffshoot 0 = true) := by
  simp only [Plant.update]
  by_cases ha : p.age + 1 < 8
  · simp only [ha, if_true]
    exact ⟨⟨h1, h2⟩, h3, h4⟩
  · simp only [ha, if_false]
    exact ⟨⟨Seg.grow_branchClosed rand gravity lightDir _ _ 0 _ _ _ h1,
        Seg.grow_branchClosed rand gravity lightDir _ _ 0 _ _ _ h2⟩,
      Seg.grow_noDeepOffshoot rand gravity lightDir _ _ 0 _ _ _ h3,
      Seg.grow_noDeepOffshoot rand gravity lightDir _ _ 0 _ _ _ h4⟩

/-- Both hereditary branch invariants hold of every reachable plant state. -/
theorem ReachablePlant.invariants (p : Plant) (h : ReachablePlant p) :
    (p.shoot.branchClosed = true ∧ p.root.branchClosed = true) ∧
    (p.shoot.noDeepOffshoot 0 = true ∧ p.root.noDeepOffshoot 0 = true) := by
  induction h with
  | init vk gravity lightDir rand i hr => exact Plant.new_invariants vk gravity lightDir rand i
  | step q gravity lightDir rand i hr hq ih =>
    exact Plant.update_invariants rand gravity lightDir q i ih.1.1 ih.1.2 ih.2.1 ih.2.2

/-! ### Iterated organ ticks -/

/-- The arguments a single organ-level `grow` call receives from
`Plant.update`: the oracle, the environment, and the organ totals. -/
structure GrowEnv where
  rand : ℕ → ℚ
  gravity : ℚ
  lightDir : LightDir
  totalLength : ℚ
  maxLength : ℚ

/-- Any number of organ-level grow ticks, each entered at depth `0` with the
parentless `angle` getter value, exactly as `Plant.update` enters the trees. -/
noncomputable def Seg.applyGrows : List GrowEnv → Seg × ℕ → Seg × ℕ
  | [], s => s
  | e :: es, (t, i) =>
    Seg.applyGrows es
      (Seg.grow e.rand e.gravity e.lightDir e.totalLength e.maxLength 0 t.parentlessAngle t i)

/-- Across any number of ticks, a segment survives at its path, its stored
`angleOffset` is bit-identical, and once inactive its scalar data is frozen
entirely. -/
theorem Seg.applyGrows_getPath :
    ∀ (es : List GrowEnv) (t : Seg) (i : ℕ) (path : List ℕ) (s : Seg),
    Seg.getPath path t = some s →
    ∃ s' : Seg, Seg.getPath path (Seg.applyGrows es (t, i)).1 = some s' ∧
      s'.dat.angleOffset = s.dat.angleOffset ∧
      (s.dat.growing = false → s'.dat = s.dat)
  | [], t, i, path, s => fun h => ⟨s, h, rfl, fun _ => rfl⟩
  | e :: es, t, i, path, s => fun h => by
    obtain ⟨s1, hs1, hoff, hbr, hroot, htl, hfrozen, hgrow, hlen⟩ :=
      Seg.getPath_grow e.rand e.gravity e.lightDir e.totalLength e.maxLength path 0
        t.parentlessAngle t i s h
    obtain ⟨s2, hs2, hoff2, hfrozen2⟩ :=
      Seg.applyGrows_getPath es
        (Seg.grow e.rand e.gravity e.lightDir e.totalLength e.maxLength 0
          t.parentlessAngle t i).1
        (Seg.grow e.rand e.gravity e.lightDir e.totalLength e.maxLength 0
          t.parentlessAngle t i).2 path s1 hs1
    refine ⟨s2, by simpa [Seg.applyGrows] using hs2, by rw [hoff2, hoff], ?_⟩
    intro hng
    have h1 := hfrozen hng
    have : s1.dat.growing = false := by rw [h1, hng]
    rw [hfrozen2 this, h1]

/-! ### The simulation driver -/

/-- One recorded `GrowthSample` row (`recordPoint`). -/
structure Sample where
  time : ℚ
  variety : VarietyKey
  gravity : ℚ
  light : LightDir
  stemLen : ℚ
  rootDep : ℚ
  branches : ℕ

/-- One recorded comparison row (`recordComparePoint`). -/
structure CSample where
  time : ℚ
  stemLen : ℚ
  rootDep : ℚ

mutual
/-- Helper `countBranches`: children with `isBranch` set, counted recursively. -/
def Seg.countBranches : Seg → ℕ
  | .node _ cs => cs.countBranches
/-- Branch count of a children array, each child contributing its flag and
its own recursive count. -/
def Segs.countBranches : Segs → ℕ
  | .nil => 0
  | .cons c rest => (if c.dat.isBranch then 1 else 0) + c.countBranches + rest.countBranches
end

/-- Model of `Number.prototype.toFixed(1)` followed by `parseFloat`: round to
one decimal place. -/
def toFixed1 (q : ℚ) : ℚ := (⌊q * 10 + 1/2⌋ : ℤ) / 10

/-- The slice of the `App` state that the simulation driver reads and
writes (canvas, camera and DOM handles are presentation-only). -/
structure AppState where
  isRunning : Bool
  isComplete : Bool
  startTime : ℚ
  elapsedMs : ℚ
  gravity : ℚ
  lightDir : LightDir
  variety : VarietyKey
  compareMode : Bool
  plant : Option Plant
  comparePlant : Option Plant
  dataPoints : List Sample
  compareData : List CSample

/-- The sample `recordPoint` builds from the current app state and plant. -/
noncomputable def mkSample (s : AppState) (pl : Plant) : Sample :=
  { time := s.elapsedMs / 60000
    variety := s.variety
    gravity := s.gravity
    light := s.lightDir
    stemLen := toFixed1 pl.shoot.totalLength
    rootDep := toFixed1 pl.root.totalLength
    branches := pl.shoot.countBranches }

/-- Function `recordPoint()`: no-op without a plant, else append one sample to the
treatment series. -/
noncomputable def recordPoint (s : AppState) : AppState :=
  match s.plant with
  | Option.none => s
  | some pl => { s with dataPoints := s.dataPoints ++ [mkSample s pl] }

/-- Function `startExperiment()`: a strict no-op while already running; otherwise
construct the treatment plant (and the Earth control plant when comparison
mode is on and gravity is not `1`), raise `isRunning`, clear `isComplete`,
and rebase the clock. -/
noncomputable def startExperiment (rand : ℕ → ℚ) (now : ℚ) (s : AppState) (i : ℕ) :
    AppState × ℕ :=
  if s.isRunning = true then (s, i)
  else
    let np := Plant.new s.variety s.gravity s.lightDir rand i
    let cmp : Option Plant × ℕ :=
      if s.compareMode = true ∧ s.gravity ≠ 1 then
        let cp := Plant.new s.variety 1 s.lightDir rand np.2
        (some cp.1, cp.2)
      else (Option.none, np.2)
    ({ s with
        plant := some np.1
        isRunning := true
        isComplete := false
        startTime := now - s.elapsedMs
        comparePlant := cmp.1
        compareData := if s.compareMode = true ∧ s.gravity ≠ 1 then s.compareData else [] },
     cmp.2)

/-- One `animate()` frame: gate on `isRunning`, advance the clock, update and
sample the treatment plant (maturity first, then the 8-second cadence), then
update and sample the control plant.  Scheduling of the next frame is
external. -/
noncomputable def animate (rand : ℕ → ℚ) (now : ℚ) (s : AppState) (i : ℕ) :
    AppState × ℕ :=
  if s.isRunning = false then (s, i)
  else
    let s1 : AppState := { s with elapsedMs := now - s.startTime }
    let step2 : AppState × ℕ :=
      match s1.plant with
      | Option.none => (s1, i)
      | some pl =>
        let up := Plant.update rand s1.gravity s1.lightDir pl i
        let s2 : AppState := { s1 with plant := some up.1 }
        let s3 : AppState :=
          if s2.isComplete = false ∧ up.1.isFullyGrown = true then
            recordPoint { s2 with isComplete := true, isRunning := false }
          else s2
        let s4 : AppState :=
          if (⌊s3.elapsedMs / 8000⌋ > (s3.dataPoints.length : ℤ)) ∧ s3.isRunning = true then
            recordPoint s3
          else s3
        (s4, up.2)
    match step2.1.comparePlant with
    | Option.none => step2
    | some cp =>
      let up2 := Plant.update rand 1 step2.1.lightDir cp step2.2
      let s5 : AppState := { step2.1 with comparePlant := some up2.1 }
      let s6 : AppState :=
        if (⌊s5.elapsedMs / 8000⌋ > (s5.compareData.length : ℤ)) ∧ s5.isRunning = true then
          { s5 with compareData := s5.compareData ++
              [{ time := s5.elapsedMs / 60000
                 stemLen := toFixed1 up2.1.shoot.totalLength
                 rootDep := toFixed1 up2.1.root.totalLength }] }
        else s5
      (s6, up2.2)

/-- Iterated `animate` frames at given clock readings. -/
noncomputable def animateSeq (rand : ℕ → ℚ) : List ℚ → AppState × ℕ → AppState × ℕ
  | [], s => s
  | now :: nows, s => animateSeq rand nows (animate rand now s.1 s.2)

/-! ### Properties of the angle-normalisation loops -/

theorem ceilStepGt (d : ℝ) (h : d > Real.pi) :
    (⌈(d - 2 * Real.pi - Real.pi) / (2 * Real.pi)⌉).toNat
      < (⌈(d - Real.pi) / (2 * Real.pi)⌉).toNat := by
  have hpi := Real.pi_pos
  have harg : (d - 2 * Real.pi - Real.pi) / (2 * Real.pi)
      = (d - Real.pi) / (2 * Real.pi) - 1 := by
    field_simp
    ring
  have hpos : (0 : ℤ) < ⌈(d - Real.pi) / (2 * Real.pi)⌉ := by
    apply Int.ceil_pos.mpr
    apply div_pos (by linarith) (by linarith)
  rw [harg, Int.ceil_sub_one]
  omega

theorem ceilStepLt (d : ℝ) (h : d < -Real.pi) :
    (⌈(-Real.pi - (d + 2 * Real.pi)) / (2 * Real.pi)⌉).toNat
      < (⌈(-Real.pi - d) / (2 * Real.pi)⌉).toNat := by
  have hpi := Real.pi_pos
  have harg : (-Real.pi - (d + 2 * Real.pi)) / (2 * Real.pi)
      = (-Real.pi - d) / (2 * Real.pi) - 1 := by
    field_simp
    ring
  have hpos : (0 : ℤ) < ⌈(-Real.pi - d) / (2 * Real.pi)⌉ := by
    apply Int.ceil_pos.mpr
    apply div_pos (by linarith) (by linarith)
  rw [harg, Int.ceil_sub_one]
  omega

theorem whileGtPi_le : ∀ d : ℝ, whileGtPi d ≤ Real.pi
  | d => by
    rw [whileGtPi]
    split_ifs with h
    · exact whileGtPi_le (d - 2 * Real.pi)
    · linarith
termination_by d => (⌈(d - Real.pi) / (2 * Real.pi)⌉).toNat
decreasing_by
  exact ceilStepGt _ (by assumption)

theorem whileGtPi_modEq : ∀ d : ℝ, ∃ k : ℤ, whileGtPi d = d - 2 * Real.pi * k
  | d => by
    rw [whileGtPi]
    split_ifs with h
    · obtain ⟨k, hk⟩ := whileGtPi_modEq (d - 2 * Real.pi)
      refine ⟨k + 1, ?_⟩
      rw [hk]
      push_cast
      ring
    · exact ⟨0, by push_cast; ring⟩
termination_by d => (⌈(d - Real.pi) / (2 * Real.pi)⌉).toNat
decreasing_by
  exact ceilStepGt _ (by assumption)

theorem whileLtNegPi_ge : ∀ d : ℝ, -Real.pi ≤ whileLtNegPi d
  | d => by
    rw [whileLtNegPi]
    split_ifs with h
    · exact whileLtNegPi_ge (d + 2 * Real.pi)
    · linarith
termination_by d => (⌈(-Real.pi - d) / (2 * Real.pi)⌉).toNat
decreasing_by
  exact ceilStepLt _ (by assumption)

theorem whileLtNegPi_le : ∀ d : ℝ, d ≤ Real.pi → whileLtNegPi d ≤ Real.pi
  | d => by
    intro hd
    rw [whileLtNegPi]
    split_ifs with h
    · exact whileLtNegPi_le (d + 2 * Real.pi) (by have := Real.pi_pos; linarith)
    · exact hd
termination_by d => (⌈(-Real.pi - d) / (2 * Real.pi)⌉).toNat
decreasing_by
  exact ceilStepLt _ (by assumption)

theorem whileLtNegPi_modEq : ∀ d : ℝ, ∃ k : ℤ, whileLtNegPi d = d + 2 * Real.pi * k
  | d => by
    rw [whileLtNegPi]
    split_ifs with h
    · obtain ⟨k, hk⟩ := whileLtNegPi_modEq (d + 2 * Real.pi)
      refine ⟨k + 1, ?_⟩
      rw [hk]
      push_cast
      ring
    · exact ⟨0, by push_cast; ring⟩
termination_by d => (⌈(-Real.pi - d) / (2 * Real.pi)⌉).toNat
decreasing_by
  exact ceilStepLt _ (by assumption)

/-! ### Driver lemmas -/

theorem animate_not_running (rand : ℕ → ℚ) (now : ℚ) (s : AppState) (i : ℕ)
    (h : s.isRunning = false) : animate rand now s i = (s, i) := by
  unfold animate
  simp [h]

theorem animateSeq_not_running (rand : ℕ → ℚ) :
    ∀ (nows : List ℚ) (s : AppState) (i : ℕ), s.isRunning = false →
    animateSeq rand nows (s, i) = (s, i)
  | [], s, i, _ => rfl
  | now :: nows, s, i, h => by
    rw [animateSeq, animate_not_running rand now s i h,
      animateSeq_not_running rand nows s i h]

/-! ### The concrete oracle and trace used by the counterexamples -/

/-- A fixed oracle: every `Math.random()` call returns `0.1` (a legal value,
and one that makes every `< 0.15` branch draw succeed). -/
def rand01 : ℕ → ℚ := fun _ => 1/10

theorem rand01_range : ∀ n : ℕ, 0 ≤ rand01 n ∧ rand01 n < 1 :=
  fun _ => ⟨by norm_num [rand01], by norm_num [rand01]⟩

/-- The cress plant grown by the counterexample runs: constructed at cursor
`0`, gravity `1`, no directional light, oracle `rand01`, then `n` update
ticks. -/
noncomputable def traceP (n : ℕ) : Plant :=
  (Plant.updateN rand01 1 LightDir.none n (Plant.new VarietyKey.cress 1 LightDir.none rand01 0)).1

theorem Seg.erase_dat (t : Seg) : t.erase.dat = t.dat.erase := by cases t; rfl

theorem Seg.erase_children (t : Seg) : t.erase.children = t.children.erase := by cases t; rfl

/-- Erased mirror of `Segs.allBranch`. -/
def ESegs.allBranch : ESegs → Bool
  | .nil => true
  | .cons c rest => c.dat.isBranch && rest.allBranch

theorem Segs.erase_allBranch : ∀ cs : Segs, cs.erase.allBranch = cs.allBranch
  | .nil => rfl
  | .cons c rest => by
    simp only [Segs.erase, ESegs.allBranch, Segs.allBranch, Segs.erase_allBranch rest]
    cases c
    rfl

mutual
/-- Direct violation checker for the branch-depth-cap claim: some segment at
depth ≥ 5 (the argument counts ancestors) has a child with `isBranch`. -/
def Seg.deepBranchViol : ℕ → Seg → Bool
  | dp, .node _ cs => (decide (5 ≤ dp) && !cs.noneBranch) || cs.deepBranchViolAny (dp+1)
/-- Disjunction of `deepBranchViol` over the members. -/
def Segs.deepBranchViolAny : ℕ → Segs → Bool
  | _, .nil => false
  | dp, .cons c rest => c.deepBranchViol dp || rest.deepBranchViolAny dp
end

/-- Erased mirror of `Segs.noneBranch`. -/
def ESegs.noneBranch : ESegs → Bool
  | .nil => true
  | .cons c rest => !c.dat.isBranch && rest.noneBranch

mutual
/-- Erased mirror of `Seg.deepBranchViol`. -/
def ESeg.deepBranchViol : ℕ → ESeg → Bool
  | dp, .node _ cs => (decide (5 ≤ dp) && !cs.noneBranch) || cs.deepBranchViolAny (dp+1)
/-- Erased mirror of `Segs.deepBranchViolAny`. -/
def ESegs.deepBranchViolAny : ℕ → ESegs → Bool
  | _, .nil => false
  | dp, .cons c rest => c.deepBranchViol dp || rest.deepBranchViolAny dp
end

theorem Segs.erase_noneBranch : ∀ cs : Segs, cs.erase.noneBranch = cs.noneBranch
  | .nil => rfl
  | .cons c rest => by
    simp only [Segs.erase, ESegs.noneBranch, Segs.noneBranch, Segs.erase_noneBranch rest]
    cases c
    rfl

mutual
theorem Seg.erase_deepBranchViol : ∀ (dp : ℕ) (t : Seg),
    t.erase.deepBranchViol dp = t.deepBranchViol dp
  | dp, .node d cs => by
    simp only [Seg.erase, ESeg.deepBranchViol, Seg.deepBranchViol,
      Segs.erase_noneBranch cs, Segs.erase_deepBranchViolAny (dp+1) cs]
theorem Segs.erase_deepBranchViolAny : ∀ (dp : ℕ) (cs : Segs),
    cs.erase.deepBranchViolAny dp = cs.deepBranchViolAny dp
  | _, .nil => rfl
  | dp, .cons c rest => by
    simp only [Segs.erase, ESegs.deepBranchViolAny, Segs.deepBranchViolAny,
      Seg.erase_deepBranchViol dp c, Segs.erase_deepBranchViolAny dp rest]
end

/-- Erased mirror of `Seg.totalLength`, as a plant-level projection pair. -/
theorem Plant.erase_shoot (p : Plant) : p.erase.shoot = p.shoot.erase := rfl

theorem Plant.erase_root (p : Plant) : p.erase.root = p.root.erase := rfl

theorem Plant.erase_maxRootLength (p : Plant) : p.erase.maxRootLength = p.maxRootLength := rfl

/-- Additivity of iterated erased ticks. -/
theorem EPlant.updateN_add (rand : ℕ → ℚ) :
    ∀ (a b : ℕ) (s : EPlant × ℕ),
    EPlant.updateN rand (a + b) s = EPlant.updateN rand b (EPlant.updateN rand a s)
  | 0, b, s => by simp only [Nat.zero_add, EPlant.updateN]
  | a+1, b, s => by
    rw [show a + 1 + b = (a + b) + 1 by omega]
    simp only [EPlant.updateN]
    exact EPlant.updateN_add rand a b _

/-! ### Single-tick maturity preservation -/

theorem Plant.update_of_fullyGrown (rand : ℕ → ℚ) (gravity : ℚ) (lightDir : LightDir)
    (p : Plant) (i : ℕ) (h : p.isFullyGrown = true) :
    (Plant.update rand gravity lightDir p i).1.shoot = p.shoot ∧
    (Plant.update rand gravity lightDir p i).1.root = p.root := by
  simp only [Plant.isFullyGrown, Bool.and_eq_true] at h
  simp only [Plant.update]
  by_cases ha : p.age + 1 < 8
  · simp [ha]
  · simp only [ha, if_false]
    exact ⟨by rw [Seg.grow_of_fullyGrown rand gravity lightDir _ _ 0 _ _ _ h.1],
      by rw [Seg.grow_of_fullyGrown rand gravity lightDir _ _ 0 _ _ _ h.1,
        Seg.grow_of_fullyGrown rand gravity lightDir _ _ 0 _ _ _ h.2]⟩

/-! ### The ten claims -/

/-- C1 (amended).  On an active tick, a segment's `growthActive` flag drops
exactly when its incremented length has reached its per-segment target, its
children array was empty when the tick began — **any** child, a branch
offshoot included, blocks deactivation, not only a continuation child — and
no branch was pushed during the tick; and once the flag is false it stays
false after any further number of organ ticks.  The original claim's
"regardless of whether the segment has previously spawned a branch child" is
refuted by `growth_deactivation_cex`. -/
theorem growth_deactivation_rule (rand : ℕ → ℚ) (gravity : ℚ) (lightDir : LightDir)
    (tot maxL : ℚ) (depth : ℕ) (ang : ℝ) (t : Seg) (i : ℕ) (path : List ℕ) (s : Seg)
    (h : Seg.getPath path t = some s) (hg : s.dat.growing = true) :
    ∃ s' : Seg,
      Seg.getPath path (Seg.grow rand gravity lightDir tot maxL depth ang t i).1 = some s' ∧
      (s'.dat.growing = false ↔
        (s'.dat.length ≥ s.dat.targetLength ∧ s.children.isNil = true ∧
         s'.dat.hasBranched = s.dat.hasBranched)) ∧
      (s'.dat.growing = false →
        ∀ (es : List GrowEnv) (j : ℕ),
          ∃ s2 : Seg,
            Seg.getPath path (Seg.applyGrows es
              ((Seg.grow rand gravity lightDir tot maxL depth ang t i).1, j)).1 = some s2 ∧
            s2.dat.growing = false) := by
  obtain ⟨s', hs', hoff, hbr, hroot, htl, hfrozen, hiff, hlen⟩ :=
    Seg.getPath_grow rand gravity lightDir tot maxL path depth ang t i s h
  refine ⟨s', hs', hiff hg, ?_⟩
  intro hng es j
  obtain ⟨s2, hs2, hoff2, hfrozen2⟩ := Seg.applyGrows_getPath es _ j path s' hs'
  exact ⟨s2, hs2, by rw [hfrozen2 hng, hng]⟩

theorem growth_deactivation_rule_witness :
    Seg.getPath [] (Seg.node
      { isRoot := false, isBranch := false, variety := VarietyKey.cress, angleOffset := 0
        targetLength := 12, length := 1/10, growing := true, leaves := []
        nextLeafSide := 1, hasBranched := false, baseWidth := 1 } Segs.nil)
      = some (Seg.node
      { isRoot := false, isBranch := false, variety := VarietyKey.cress, angleOffset := 0
        targetLength := 12, length := 1/10, growing := true, leaves := []
        nextLeafSide := 1, hasBranched := false, baseWidth := 1 } Segs.nil) ∧
    ∃ s' : Seg,
      Seg.getPath [] (Seg.grow rand01 1 LightDir.none 0 240 0 0 (Seg.node
        { isRoot := false, isBranch := false, variety := VarietyKey.cress, angleOffset := 0
          targetLength := 12, length := 1/10, growing := true, leaves := []
          nextLeafSide := 1, hasBranched := false, baseWidth := 1 } Segs.nil) 0).1 = some s' ∧
      (s'.dat.growing = false ↔
        (s'.dat.length ≥ (12 : ℚ) ∧ Segs.isNil Segs.nil = true ∧
         s'.dat.hasBranched = false)) ∧
      (s'.dat.growing = false →
        ∀ (es : List GrowEnv) (j : ℕ),
          ∃ s2 : Seg,
            Seg.getPath [] (Seg.applyGrows es
              ((Seg.grow rand01 1 LightDir.none 0 240 0 0 (Seg.node
                { isRoot := false, isBranch := false, variety := VarietyKey.cress
                  angleOffset := 0, targetLength := 12, length := 1/10, growing := true
                  leaves := [], nextLeafSide := 1, hasBranched := false
                  baseWidth := 1 } Segs.nil) 0).1, j)).1 = some s2 ∧
            s2.dat.growing = false) :=
  ⟨rfl, growth_deactivation_rule rand01 1 LightDir.none 0 240 0 0 _ 0 [] _ rfl rfl⟩

/-- C2 (amended).  The branch-depth cap governs only branch *offshoots*: in
every reachable plant state, a segment at depth ≥ 5 that is not itself a
branch segment never has a child with `isBranch = true`.  The original
unconditional claim fails for branch chains — a branch continuation child
inherits `isBranch` and chains cross depth 5 (`branch_depth_cap_cex`). -/
theorem branch_depth_cap_invariant (p : Plant) (hp : ReachablePlant p) :
    p.shoot.noDeepOffshoot 0 = true ∧ p.root.noDeepOffshoot 0 = true :=
  ⟨(ReachablePlant.invariants p hp).2.1, (ReachablePlant.invariants p hp).2.2⟩

theorem branch_depth_cap_witness :
    (Plant.new VarietyKey.cress 1 LightDir.none rand01 0).1.shoot.noDeepOffshoot 0 = true ∧
    (Plant.new VarietyKey.cress 1 LightDir.none rand01 0).1.root.noDeepOffshoot 0 = true :=
  branch_depth_cap_invariant (Plant.new VarietyKey.cress 1 LightDir.none rand01 0).1
    (ReachablePlant.init VarietyKey.cress 1 LightDir.none rand01 0 rand01_range)

/-- C3 (amended).  The organ length ceiling gates only continuation
*spawning*, not growth: during one organ tick entered with the pre-tick
organ total `tot`, any segment's children array gains at most one member,
and it can gain one with the segment deactivating (a continuation) only if
`tot < maxL`.  Active segments keep elongating past the ceiling, so the
total can exceed the configured maximum by more than one single-tick
increment (`organ_ceiling_cex`). -/
theorem organ_ceiling_gates_spawning (rand : ℕ → ℚ) (gravity : ℚ) (lightDir : LightDir)
    (tot maxL : ℚ) (depth : ℕ) (ang : ℝ) (t : Seg) (i : ℕ) (path : List ℕ) (s : Seg)
    (h : Seg.getPath path t = some s) :
    ∃ s' : Seg,
      Seg.getPath path (Seg.grow rand gravity lightDir tot maxL depth ang t i).1 = some s' ∧
      (s'.children.len = s.children.len ∨
        (s'.children.len = s.children.len + 1 ∧ (s'.dat.growing = true ∨ tot < maxL))) := by
  obtain ⟨s', hs', hoff, hbr, hroot, htl, hfrozen, hiff, hlen⟩ :=
    Seg.getPath_grow rand gravity lightDir tot maxL path depth ang t i s h
  exact ⟨s', hs', hlen⟩

theorem organ_ceiling_witness :
    Seg.getPath [] (Seg.node
      { isRoot := true, isBranch := false, variety := VarietyKey.cress, angleOffset := 0
        targetLength := 10, length := 1/10, growing := true, leaves := []
        nextLeafSide := 1, hasBranched := false, baseWidth := 1 } Segs.nil)
      = some (Seg.node
      { isRoot := true, isBranch := false, variety := VarietyKey.cress, angleOffset := 0
        targetLength := 10, length := 1/10, growing := true, leaves := []
        nextLeafSide := 1, hasBranched := false, baseWidth := 1 } Segs.nil) ∧
    ∃ s' : Seg,
      Seg.getPath [] (Seg.grow rand01 1 LightDir.none 0 120 0 0 (Seg.node
        { isRoot := true, isBranch := false, variety := VarietyKey.cress, angleOffset := 0
          targetLength := 10, length := 1/10, growing := true, leaves := []
          nextLeafSide := 1, hasBranched := false, baseWidth := 1 } Segs.nil) 0).1 = some s' ∧
      (s'.children.len = (Segs.nil).len ∨
        (s'.children.len = (Segs.nil).len + 1 ∧ (s'.dat.growing = true ∨ (0 : ℚ) < 120))) :=
  ⟨rfl, organ_ceiling_gates_spawning rand01 1 LightDir.none 0 120 0 0 _ 0 [] _ rfl⟩

/-- C4 (confirmed).  Maturity is monotone: once `Plant.isFullyGrown()` is
true, any number of further update ticks leave both organ trees — hence the
flag — exactly as they are; no segment resumes growth and no new growing
segment is added. -/
theorem maturity_monotone (rand : ℕ → ℚ) (gravity : ℚ) (lightDir : LightDir) :
    ∀ (n : ℕ) (p : Plant) (i : ℕ), p.isFullyGrown = true →
    (Plant.updateN rand gravity lightDir n (p, i)).1.isFullyGrown = true ∧
    (Plant.updateN rand gravity lightDir n (p, i)).1.shoot = p.shoot ∧
    (Plant.updateN rand gravity lightDir n (p, i)).1.root = p.root
  | 0, p, i, h => ⟨h, rfl, rfl⟩
  | n+1, p, i, h => by
    obtain ⟨hs, hr⟩ := Plant.update_of_fullyGrown rand gravity lightDir p i h
    have hfg : (Plant.update rand gravity lightDir p i).1.isFullyGrown = true := by
      simp only [Plant.isFullyGrown] at h ⊢
      rw [hs, hr]
      exact h
    obtain ⟨h1, h2, h3⟩ := maturity_monotone rand gravity lightDir n
      (Plant.update rand gravity lightDir p i).1 (Plant.update rand gravity lightDir p i).2 hfg
    refine ⟨?_, ?_, ?_⟩
    · simpa only [Plant.updateN, Prod.mk.eta] using h1
    · simp only [Plant.updateN, Prod.mk.eta]
      rw [h2, hs]
    · simp only [Plant.updateN, Prod.mk.eta]
      rw [h3, hr]

/-- A concrete fully grown plant used by the C4 witness. -/
def maturePW : Plant :=
  { variety := VarietyKey.cress, age := 20, maxShootLength := 240, maxRootLength := 120
    shoot := Seg.node
      { isRoot := false, isBranch := false, variety := VarietyKey.cress, angleOffset := 0
        targetLength := 12, length := 12, growing := false, leaves := []
        nextLeafSide := 1, hasBranched := false, baseWidth := 1 } Segs.nil
    root := Seg.node
      { isRoot := true, isBranch := false, variety := VarietyKey.cress, angleOffset := 0
        targetLength := 10, length := 10, growing := false, leaves := []
        nextLeafSide := 1, hasBranched := false, baseWidth := 1 } Segs.nil }

theorem maturity_monotone_witness :
    maturePW.isFullyGrown = true ∧
    (Plant.updateN rand01 1 LightDir.none 3 (maturePW, 0)).1.isFullyGrown = true ∧
    (Plant.updateN rand01 1 LightDir.none 3 (maturePW, 0)).1.shoot = maturePW.shoot :=
  ⟨rfl, (maturity_monotone rand01 1 LightDir.none 3 maturePW 0 rfl).1,
    (maturity_monotone rand01 1 LightDir.none 3 maturePW 0 rfl).2.1⟩

/-- C5 (amended).  At construction the two parentless segments share one
random jitter draw, stored in both segments' `angleOffset`; but the
parentless `angle` getter ignores the stored offset and gravity entirely and
returns the fixed canonical verticals: `-π/2` for the shoot and `π/2` for
the root, under every gravity value.  The original claim's "jitter term
included in both parentless segments' absolute angles" (and the randomized
zero-gravity pairing) is refuted by `parentless_angle_jitter_cex`. -/
theorem parentless_angles_opposed (vk : VarietyKey) (gravity : ℚ) (lightDir : LightDir)
    (rand : ℕ → ℚ) (i : ℕ) :
    (Plant.new vk gravity lightDir rand i).1.shoot.parentlessAngle = -(Real.pi / 2) ∧
    (Plant.new vk gravity lightDir rand i).1.root.parentlessAngle = Real.pi / 2 ∧
    (Plant.new vk gravity lightDir rand i).1.shoot.dat.angleOffset
      = (((rand i - 1/2) * (8/100) : ℚ) : ℝ) ∧
    (Plant.new vk gravity lightDir rand i).1.root.dat.angleOffset
      = (Plant.new vk gravity lightDir rand i).1.shoot.dat.angleOffset :=
  ⟨rfl, rfl, rfl, rfl⟩

theorem parentless_angle_jitter_cex :
    ((rand01 0 - 1/2) * (8/100) : ℚ) = (-4/125 : ℚ) ∧
    (Plant.new VarietyKey.cress 1 LightDir.none rand01 0).1.shoot.dat.angleOffset
      = (((-4/125 : ℚ)) : ℝ) ∧
    (Plant.new VarietyKey.cress 1 LightDir.none rand01 0).1.shoot.parentlessAngle
      = -(Real.pi / 2) ∧
    (Plant.new VarietyKey.cress 1 LightDir.none rand01 0).1.shoot.parentlessAngle
      ≠ -(Real.pi / 2)
        + (Plant.new VarietyKey.cress 1 LightDir.none rand01 0).1.shoot.dat.angleOffset := by
  have hq : ((rand01 0 - 1/2) * (8/100) : ℚ) = (-4/125 : ℚ) := by norm_num [rand01]
  refine ⟨hq, ?_, rfl, ?_⟩
  · show (((rand01 0 - 1/2) * (8/100) : ℚ) : ℝ) = (((-4/125 : ℚ)) : ℝ)
    exact_mod_cast hq
  · show -(Real.pi / 2)
      ≠ -(Real.pi / 2) + (((rand01 0 - 1/2) * (8/100) : ℚ) : ℝ)
    rw [hq]
    push_cast
    intro h
    linarith

/-- C6 (confirmed).  A segment's `angleOffsetFromParent` is fixed at
construction: across any number of subsequent organ grow ticks (entered
exactly as `Plant.update` enters them), the segment at any path still holds
a bit-identical stored offset. -/
theorem angleOffset_immutable (es : List GrowEnv) (t : Seg) (i : ℕ)
    (path : List ℕ) (s : Seg) (h : Seg.getPath path t = some s) :
    ∃ s' : Seg, Seg.getPath path (Seg.applyGrows es (t, i)).1 = some s' ∧
      s'.dat.angleOffset = s.dat.angleOffset := by
  obtain ⟨s', h1, h2, _⟩ := Seg.applyGrows_getPath es t i path s h
  exact ⟨s', h1, h2⟩

theorem angleOffset_immutable_witness :
    Seg.getPath [] maturePW.shoot = some maturePW.shoot ∧
    ∃ s' : Seg,
      Seg.getPath [] (Seg.applyGrows
        [{ rand := rand01, gravity := 1, lightDir := LightDir.none
           totalLength := 12, maxLength := 240 }] (maturePW.shoot, 0)).1 = some s' ∧
      s'.dat.angleOffset = maturePW.shoot.dat.angleOffset :=
  ⟨rfl, angleOffset_immutable
    [{ rand := rand01, gravity := 1, lightDir := LightDir.none
       totalLength := 12, maxLength := 240 }] maturePW.shoot 0 [] maturePW.shoot rfl⟩

/-- C8 (confirmed).  `startExperiment()` while the driver is already running
is a complete no-op: the state and the oracle cursor are returned exactly as
they were. -/
theorem start_noop_when_running (rand : ℕ → ℚ) (now : ℚ) (s : AppState) (i : ℕ)
    (h : s.isRunning = true) : startExperiment rand now s i = (s, i) := by
  unfold startExperiment
  simp [h]

theorem start_noop_witness :
    startExperiment rand01 5
      { isRunning := true, isComplete := false, startTime := 0, elapsedMs := 0
        gravity := 1, lightDir := LightDir.none, variety := VarietyKey.cress
        compareMode := false, plant := Option.none, comparePlant := Option.none
        dataPoints := [], compareData := [] } 0
      = ({ isRunning := true, isComplete := false, startTime := 0, elapsedMs := 0
           gravity := 1, lightDir := LightDir.none, variety := VarietyKey.cress
           compareMode := false, plant := Option.none, comparePlant := Option.none
           dataPoints := [], compareData := [] }, 0) :=
  start_noop_when_running rand01 5 _ 0 rfl

/-- C9 (confirmed).  `angleDiff(a, b)` returns the shortest signed rotation
from `b` to `a`: a value in `[-π, π]` that differs from `a - b` by an
integer multiple of `2π`. -/
theorem angleDiff_shortest_rotation (a b : ℝ) :
    (-Real.pi ≤ angleDiff a b ∧ angleDiff a b ≤ Real.pi) ∧
    ∃ k : ℤ, angleDiff a b - (a - b) = 2 * Real.pi * k := by
  unfold angleDiff
  refine ⟨⟨whileLtNegPi_ge _, whileLtNegPi_le _ (whileGtPi_le _)⟩, ?_⟩
  obtain ⟨k1, h1⟩ := whileGtPi_modEq (a - b)
  obtain ⟨k2, h2⟩ := whileLtNegPi_modEq (whileGtPi (a - b))
  refine ⟨k2 - k1, ?_⟩
  rw [h2, h1]
  push_cast
  ring

/-- The gate of `leafBlock` fails on branch segments: no leaf is placed and
no oracle draw is consumed. -/
theorem leafBlock_branch (rand : ℕ → ℚ) (isRoot : Bool) (leaves : List Leaf) (side : ℤ)
    (len1 : ℚ) (i : ℕ) :
    leafBlock rand isRoot true leaves side len1 i = (leaves, side, i) := by
  simp [leafBlock]

/-- C10 (confirmed).  Branch segments and their continuations: an active
tick of a branch segment advances its length by the `0.7`-multiplied
increment, places no leaf, and can push only a continuation child — the
parent deactivates and the child inherits `isBranch = true` — never a
further branch offshoot; and hereditarily, in every reachable plant state
every child of a branch segment is itself a branch segment. -/
theorem branch_chain_heredity (rand : ℕ → ℚ) (gravity : ℚ) (lightDir : LightDir)
    (tot maxL : ℚ) (depth : ℕ) (ang : ℝ) (d : SegData) (nc : Bool) (i : ℕ) (p : Plant)
    (hd : d.isBranch = true) (hp : ReachablePlant p) :
    (Seg.activeStep rand gravity lightDir tot maxL depth ang d nc i).1.length
      = d.length + (if d.isRoot then (VARIETIES d.variety).rootGrowthRate
          else (VARIETIES d.variety).growthRate) * (5/2) * (7/10) ∧
    (Seg.activeStep rand gravity lightDir tot maxL depth ang d nc i).1.leaves = d.leaves ∧
    (∀ c : Seg, (Seg.activeStep rand gravity lightDir tot maxL depth ang d nc i).2.1 = some c →
      (Seg.activeStep rand gravity lightDir tot maxL depth ang d nc i).1.growing = false ∧
      c.dat.isBranch = true ∧ c.dat.growing = true) ∧
    (p.shoot.branchClosed = true ∧ p.root.branchClosed = true) := by
  refine ⟨?_, ?_, ?_, (ReachablePlant.invariants p hp).1⟩
  · rw [Seg.activeStep_length, hd]
    norm_num
  · simp only [Seg.activeStep, hd, leafBlock_branch]
  · intro c hc
    obtain ⟨h1, h2, h3, h4, h5, h6⟩ := Seg.activeStep_child_not_eligible rand gravity lightDir
      tot maxL depth ang d nc i (Or.inr (Or.inl hd)) c hc
    exact ⟨h1, by rw [h2, hd], h4⟩

theorem branch_chain_heredity_witness :
    ({ isRoot := false, isBranch := true, variety := VarietyKey.cress, angleOffset := 0
       targetLength := 12, length := 1/10, growing := true, leaves := []
       nextLeafSide := 1, hasBranched := false, baseWidth := 1 } : SegData).isBranch = true ∧
    (Seg.activeStep rand01 1 LightDir.none 0 240 1 0
      { isRoot := false, isBranch := true, variety := VarietyKey.cress, angleOffset := 0
        targetLength := 12, length := 1/10, growing := true, leaves := []
        nextLeafSide := 1, hasBranched := false, baseWidth := 1 } true 0).1.leaves = [] ∧
    ((Plant.new VarietyKey.bean 1 LightDir.none rand01 0).1.shoot.branchClosed = true ∧
     (Plant.new VarietyKey.bean 1 LightDir.none rand01 0).1.root.branchClosed = true) :=
  ⟨rfl,
    (branch_chain_heredity rand01 1 LightDir.none 0 240 1 0
      { isRoot := false, isBranch := true, variety := VarietyKey.cress, angleOffset := 0
        targetLength := 12, length := 1/10, growing := true, leaves := []
        nextLeafSide := 1, hasBranched := false, baseWidth := 1 } true 0
      (Plant.new VarietyKey.bean 1 LightDir.none rand01 0).1 rfl
      (ReachablePlant.init VarietyKey.bean 1 LightDir.none rand01 0 rand01_range)).2.1,
    (branch_chain_heredity rand01 1 LightDir.none 0 240 1 0
      { isRoot := false, isBranch := true, variety := VarietyKey.cress, angleOffset := 0
        targetLength := 12, length := 1/10, growing := true, leaves := []
        nextLeafSide := 1, hasBranched := false, baseWidth := 1 } true 0
      (Plant.new VarietyKey.bean 1 LightDir.none rand01 0).1 rfl
      (ReachablePlant.init VarietyKey.bean 1 LightDir.none rand01 0 rand01_range)).2.2.2⟩

/-- C7 (confirmed).  The frame in which the plant first reports fully grown
sets `isComplete`, halts the run (`isRunning := false`), appends exactly one
final sample to the treatment series, and every animation frame delivered
afterwards — under any oracle and clock — leaves the state untouched, so no
further sample is ever appended. -/
theorem complete_halts_sampling
    (rand : ℕ → ℚ) (now : ℚ) (s : AppState) (i : ℕ) (pl : Plant)
    (hrun : s.isRunning = true) (hpl : s.plant = some pl) (hnc : s.isComplete = false)
    (hmat : (Plant.update rand s.gravity s.lightDir pl i).1.isFullyGrown = true) :
    (animate rand now s i).1.isComplete = true ∧
    (animate rand now s i).1.isRunning = false ∧
    (∃ smp : Sample, (animate rand now s i).1.dataPoints = s.dataPoints ++ [smp]) ∧
    (∀ (rand2 : ℕ → ℚ) (nows : List ℚ),
      animateSeq rand2 nows (animate rand now s i) = animate rand now s i) := by
  obtain ⟨isR, isC, st, el, g, ld, vty, cm, plo, cpo, dps, cds⟩ := s
  simp only at hrun hnc hpl hmat
  subst hrun hnc hpl
  have key : ((animate rand now
      ⟨true, false, st, el, g, ld, vty, cm, some pl, cpo, dps, cds⟩ i).1.isComplete = true ∧
    (animate rand now
      ⟨true, false, st, el, g, ld, vty, cm, some pl, cpo, dps, cds⟩ i).1.isRunning = false) ∧
    ∃ smp : Sample, (animate rand now
      ⟨true, false, st, el, g, ld, vty, cm, some pl, cpo, dps, cds⟩ i).1.dataPoints
        = dps ++ [smp] := by
    simp only [animate, Bool.true_eq_false, if_false, hmat, and_true, recordPoint, mkSample]
    cases cpo with
    | none => simp [recordPoint, mkSample]
    | some cp => simp [recordPoint, mkSample]
  refine ⟨key.1.1, key.1.2, key.2, ?_⟩
  intro rand2 nows
  have hpair : animate rand now
      ⟨true, false, st, el, g, ld, vty, cm, some pl, cpo, dps, cds⟩ i
    = ((animate rand now
        ⟨true, false, st, el, g, ld, vty, cm, some pl, cpo, dps, cds⟩ i).1,
       (animate rand now
        ⟨true, false, st, el, g, ld, vty, cm, some pl, cpo, dps, cds⟩ i).2) := rfl
  rw [hpair, animateSeq_not_running rand2 nows _ _ key.1.2]

/-- Driver state used by the C7 witness: running, not complete, holding a
plant that reports fully grown on the next update. -/
def drvW : AppState :=
  { isRunning := true, isComplete := false, startTime := 0, elapsedMs := 0
    gravity := 1, lightDir := LightDir.none, variety := VarietyKey.cress
    compareMode := false, plant := some maturePW, comparePlant := Option.none
    dataPoints := [], compareData := [] }

theorem complete_halts_witness :
    (animate rand01 7 drvW 0).1.isComplete = true ∧
    (animate rand01 7 drvW 0).1.isRunning = false ∧
    (∃ smp : Sample, (animate rand01 7 drvW 0).1.dataPoints = drvW.dataPoints ++ [smp]) ∧
    (∀ (rand2 : ℕ → ℚ) (nows : List ℚ),
      animateSeq rand2 nows (animate rand01 7 drvW 0) = animate rand01 7 drvW 0) :=
  complete_halts_sampling rand01 7 drvW 0 maturePW rfl rfl rfl rfl
/-! ### Concrete erased trace literals and chunked evaluation -/

/-- Erased simulator state after 0 ticks of the counterexample run. -/
def ET0 : EPlant × ℕ :=
  (⟨.cress, 0, 240, 120,
  .node ⟨false, false, .cress, 12, (1/10), true, [], 1, false, (11/5)⟩ (.nil),
  .node ⟨true, false, .cress, 10, (1/10), true, [], 1, false, (8/5)⟩ (.nil)⟩, 3)

theorem accT0 : EPlant.new VarietyKey.cress rand01 0 = ET0 := by
  with_unfolding_all rfl

/-- Erased simulator state after 6 ticks of the counterexample run. -/
def ET6 : EPlant × ℕ :=
  (⟨.cress, 6, 240, 120,
  .node ⟨false, false, .cress, 12, (1/10), true, [], 1, false, (11/5)⟩ (.nil),
  .node ⟨true, false, .cress, 10, (1/10), true, [], 1, false, (8/5)⟩ (.nil)⟩, 3)

theorem chunkT0 : EPlant.updateN rand01 6 ET0 = ET6 := by
  with_unfolding_all rfl

theorem accT6 : EPlant.updateN rand01 6 (EPlant.new VarietyKey.cress rand01 0) = ET6 := by
  rw [show (6 : ℕ) = 0 + 6 by norm_num, EPlant.updateN_add, accT0]
  exact chunkT0

/-- Erased simulator state after 12 ticks of the counterexample run. -/
def ET12 : EPlant × ℕ :=
  (⟨.cress, 12, 240, 120,
  .node ⟨false, false, .cress, 12, (63/80), true, [], 1, false, (11/5)⟩ (.nil),
  .node ⟨true, false, .cress, 10, (3/5), true, [], 1, false, (8/5)⟩ (.nil)⟩, 3)

theorem chunkT6 : EPlant.updateN rand01 6 ET6 = ET12 := by
  with_unfolding_all rfl

theorem accT12 : EPlant.updateN rand01 12 (EPlant.new VarietyKey.cress rand01 0) = ET12 := by
  rw [show (12 : ℕ) = 6 + 6 by norm_num, EPlant.updateN_add, accT6]
  exact chunkT6

/-- Erased simulator state after 18 ticks of the counterexample run. -/
def ET18 : EPlant × ℕ :=
  (⟨.cress, 18, 240, 120,
  .node ⟨false, false, .cress, 12, (129/80), true, [], 1, false, (11/5)⟩ (.nil),
  .node ⟨true, false, .cress, 10, (6/5), true, [], 1, false, (8/5)⟩ (.nil)⟩, 3)

theorem chunkT12 : EPlant.updateN rand01 6 ET12 = ET18 := by
  with_unfolding_all rfl

theorem accT18 : EPlant.updateN rand01 18 (EPlant.new VarietyKey.cress rand01 0) = ET18 := by
  rw [show (18 : ℕ) = 12 + 6 by norm_num, EPlant.updateN_add, accT12]
  exact chunkT12

/-- Erased simulator state after 24 ticks of the counterexample run. -/
def ET24 : EPlant × ℕ :=
  (⟨.cress, 24, 240, 120,
  .node ⟨false, false, .cress, 12, (39/16), true, [], 1, false, (11/5)⟩ (.nil),
  .node ⟨true, false, .cress, 10, (9/5), true, [], 1, false, (8/5)⟩ (.nil)⟩, 3)

theorem chunkT18 : EPlant.updateN rand01 6 ET18 = ET24 := by
  with_unfolding_all rfl

theorem accT24 : EPlant.updateN rand01 24 (EPlant.new VarietyKey.cress rand01 0) = ET24 := by
  rw [show (24 : ℕ) = 18 + 6 by norm_num, EPlant.updateN_add, accT18]
  exact chunkT18

/-- Erased simulator state after 30 ticks of the counterexample run. -/
def ET30 : EPlant × ℕ :=
  (⟨.cress, 30, 240, 120,
  .node ⟨false, false, .cress, 12, (261/80), true, [], 1, false, (11/5)⟩ (.nil),
  .node ⟨true, false, .cress, 10, (12/5), true, [], 1, false, (8/5)⟩ (.nil)⟩, 5)

theorem chunkT24 : EPlant.updateN rand01 6 ET24 = ET30 := by
  with_unfolding_all rfl

theorem accT30 : EPlant.updateN rand01 30 (EPlant.new VarietyKey.cress rand01 0) = ET30 := by
  rw [show (30 : ℕ) = 24 + 6 by norm_num, EPlant.updateN_add, accT24]
  exact chunkT24

/-- Erased simulator state after 36 ticks of the counterexample run. -/
def ET36 : EPlant × ℕ :=
  (⟨.cress, 36, 240, 120,
  .node ⟨false, false, .cress, 12, (327/80), true, [], 1, false, (11/5)⟩ (.nil),
  .node ⟨true, false, .cress, 10, 3, true, [], 1, false, (8/5)⟩ (.nil)⟩, 11)

theorem chunkT30 : EPlant.updateN rand01 6 ET30 = ET36 := by
  with_unfolding_all rfl

theorem accT36 : EPlant.updateN rand01 36 (EPlant.new VarietyKey.cress rand01 0) = ET36 := by
  rw [show (36 : ℕ) = 30 + 6 by norm_num, EPlant.updateN_add, accT30]
  exact chunkT30

/-- Erased simulator state after 42 ticks of the counterexample run. -/
def ET42 : EPlant × ℕ :=
  (⟨.cress, 42, 240, 120,
  .node ⟨false, false, .cress, 12, (393/80), true, [], 1, false, (11/5)⟩ (.nil),
  .node ⟨true, false, .cress, 10, (18/5), true, [], 1, false, (8/5)⟩ (.nil)⟩, 17)

theorem chunkT36 : EPlant.updateN rand01 6 ET36 = ET42 := by
  with_unfolding_all rfl

theorem accT42 : EPlant.updateN rand01 42 (EPlant.new VarietyKey.cress rand01 0) = ET42 := by
  rw [show (42 : ℕ) = 36 + 6 by norm_num, EPlant.updateN_add, accT36]
  exact chunkT36

/-- Erased simulator state after 48 ticks of the counterexample run. -/
def ET48 : EPlant × ℕ :=
  (⟨.cress, 48, 240, 120,
  .node ⟨false, false, .cress, 12, (459/80), true, [], 1, false, (11/5)⟩ (.nil),
  .node ⟨true, false, .cress, 10, (21/5), true, [], 1, false, (8/5)⟩ (.nil)⟩, 23)

theorem chunkT42 : EPlant.updateN rand01 6 ET42 = ET48 := by
  with_unfolding_all rfl

theorem accT48 : EPlant.updateN rand01 48 (EPlant.new VarietyKey.cress rand01 0) = ET48 := by
  rw [show (48 : ℕ) = 42 + 6 by norm_num, EPlant.updateN_add, accT42]
  exact chunkT42

/-- Erased simulator state after 54 ticks of the counterexample run. -/
def ET54 : EPlant × ℕ :=
  (⟨.cress, 54, 240, 120,
  .node ⟨false, false, .cress, 12, (105/16), true, [], 1, false, (11/5)⟩ (.nil),
  .node ⟨true, false, .cress, 10, (24/5), true, [], 1, false, (8/5)⟩ (.nil)⟩, 29)

theorem chunkT48 : EPlant.updateN rand01 6 ET48 = ET54 := by
  with_unfolding_all rfl

theorem accT54 : EPlant.updateN rand01 54 (EPlant.new VarietyKey.cress rand01 0) = ET54 := by
  rw [show (54 : ℕ) = 48 + 6 by norm_num, EPlant.updateN_add, accT48]
  exact chunkT48

/-- Erased simulator state after 60 ticks of the counterexample run. -/
def ET60 : EPlant × ℕ :=
  (⟨.cress, 60, 240, 120,
  .node ⟨false, false, .cress, 12, (591/80), true, [], 1, true, (11/5)⟩ (.cons (.node ⟨false, true, .cress, 12, (117/400), true, [], 1, false, (2387/2500)⟩ (.nil)) (.nil)),
  .node ⟨true, false, .cress, 10, (27/5), true, [], 1, false, (8/5)⟩ (.nil)⟩, 39)

theorem chunkT54 : EPlant.updateN rand01 6 ET54 = ET60 := by
  with_unfolding_all rfl

theorem accT60 : EPlant.updateN rand01 60 (EPlant.new VarietyKey.cress rand01 0) = ET60 := by
  rw [show (60 : ℕ) = 54 + 6 by norm_num, EPlant.updateN_add, accT54]
  exact chunkT54

/-- Erased simulator state after 66 ticks of the counterexample run. -/
def ET66 : EPlant × ℕ :=
  (⟨.cress, 66, 240, 120,
  .node ⟨false, false, .cress, 12, (657/80), true, [], 1, true, (11/5)⟩ (.cons (.node ⟨false, true, .cress, 12, (87/100), true, [], 1, false, (2387/2500)⟩ (.nil)) (.nil)),
  .node ⟨true, false, .cress, 10, 6, true, [], 1, false, (8/5)⟩ (.nil)⟩, 45)

theorem chunkT60 : EPlant.updateN rand01 6 ET60 = ET66 := by
  with_unfolding_all rfl

theorem accT66 : EPlant.updateN rand01 66 (EPlant.new VarietyKey.cress rand01 0) = ET66 := by
  rw [show (66 : ℕ) = 60 + 6 by norm_num, EPlant.updateN_add, accT60]
  exact chunkT60

/-- Erased simulator state after 72 ticks of the counterexample run. -/
def ET72 : EPlant × ℕ :=
  (⟨.cress, 72, 240, 120,
  .node ⟨false, false, .cress, 12, (723/80), true, [⟨(679/80), 1, (19/25)⟩], (-1), true, (11/5)⟩ (.cons (.node ⟨false, true, .cress, 12, (579/400), true, [], 1, false, (2387/2500)⟩ (.nil)) (.nil)),
  .node ⟨true, false, .cress, 10, (33/5), true, [], 1, false, (8/5)⟩ (.nil)⟩, 52)

theorem chunkT66 : EPlant.updateN rand01 6 ET66 = ET72 := by
  with_unfolding_all rfl

theorem accT72 : EPlant.updateN rand01 72 (EPlant.new VarietyKey.cress rand01 0) = ET72 := by
  rw [show (72 : ℕ) = 66 + 6 by norm_num, EPlant.updateN_add, accT66]
  exact chunkT66

/-- Erased simulator state after 78 ticks of the counterexample run. -/
def ET78 : EPlant × ℕ :=
  (⟨.cress, 78, 240, 120,
  .node ⟨false, false, .cress, 12, (789/80), true, [⟨(679/80), 1, (19/25)⟩], (-1), true, (11/5)⟩ (.cons (.node ⟨false, true, .cress, 12, (81/40), true, [], 1, false, (2387/2500)⟩ (.nil)) (.nil)),
  .node ⟨true, false, .cress, 10, (36/5), true, [], 1, false, (8/5)⟩ (.nil)⟩, 58)

theorem chunkT72 : EPlant.updateN rand01 6 ET72 = ET78 := by
  with_unfolding_all rfl

theorem accT78 : EPlant.updateN rand01 78 (EPlant.new VarietyKey.cress rand01 0) = ET78 := by
  rw [show (78 : ℕ) = 72 + 6 by norm_num, EPlant.updateN_add, accT72]
  exact chunkT72

/-- Erased simulator state after 84 ticks of the counterexample run. -/
def ET84 : EPlant × ℕ :=
  (⟨.cress, 84, 240, 120,
  .node ⟨false, false, .cress, 12, (171/16), true, [⟨(679/80), 1, (19/25)⟩], (-1), true, (11/5)⟩ (.cons (.node ⟨false, true, .cress, 12, (1041/400), true, [], 1, false, (2387/2500)⟩ (.nil)) (.nil)),
  .node ⟨true, false, .cress, 10, (39/5), true, [], 1, false, (8/5)⟩ (.nil)⟩, 64)

theorem chunkT78 : EPlant.updateN rand01 6 ET78 = ET84 := by
  with_unfolding_all rfl

theorem accT84 : EPlant.updateN rand01 84 (EPlant.new VarietyKey.cress rand01 0) = ET84 := by
  rw [show (84 : ℕ) = 78 + 6 by norm_num, EPlant.updateN_add, accT78]
  exact chunkT78

/-- Erased simulator state after 90 ticks of the counterexample run. -/
def ET90 : EPlant × ℕ :=
  (⟨.cress, 90, 240, 120,
  .node ⟨false, false, .cress, 12, (921/80), true, [⟨(679/80), 1, (19/25)⟩], (-1), true, (11/5)⟩ (.cons (.node ⟨false, true, .cress, 12, (159/50), true, [], 1, false, (2387/2500)⟩ (.nil)) (.nil)),
  .node ⟨true, false, .cress, 10, (42/5), true, [], 1, false, (8/5)⟩ (.nil)⟩, 70)

theorem chunkT84 : EPlant.updateN rand01 6 ET84 = ET90 := by
  with_unfolding_all rfl

theorem accT90 : EPlant.updateN rand01 90 (EPlant.new VarietyKey.cress rand01 0) = ET90 := by
  rw [show (90 : ℕ) = 84 + 6 by norm_num, EPlant.updateN_add, accT84]
  exact chunkT84

/-- Erased simulator state after 96 ticks of the counterexample run. -/
def ET96 : EPlant × ℕ :=
  (⟨.cress, 96, 240, 120,
  .node ⟨false, false, .cress, 12, (987/80), true, [⟨(679/80), 1, (19/25)⟩], (-1), true, (11/5)⟩ (.cons (.node ⟨false, true, .cress, 12, (1503/400), true, [], 1, false, (2387/2500)⟩ (.nil)) (.nil)),
  .node ⟨true, false, .cress, 10, 9, true, [], 1, false, (8/5)⟩ (.nil)⟩, 76)

theorem chunkT90 : EPlant.updateN rand01 6 ET90 = ET96 := by
  with_unfolding_all rfl

theorem accT96 : EPlant.updateN rand01 96 (EPlant.new VarietyKey.cress rand01 0) = ET96 := by
  rw [show (96 : ℕ) = 90 + 6 by norm_num, EPlant.updateN_add, accT90]
  exact chunkT90

/-- Erased simulator state after 100 ticks of the counterexample run. -/
def ET100 : EPlant × ℕ :=
  (⟨.cress, 100, 240, 120,
  .node ⟨false, false, .cress, 12, (1031/80), true, [⟨(679/80), 1, (19/25)⟩], (-1), true, (11/5)⟩ (.cons (.node ⟨false, true, .cress, 12, (1657/400), true, [], 1, false, (2387/2500)⟩ (.nil)) (.nil)),
  .node ⟨true, false, .cress, 10, (47/5), true, [], 1, false, (8/5)⟩ (.nil)⟩, 80)

theorem chunkT96 : EPlant.updateN rand01 4 ET96 = ET100 := by
  with_unfolding_all rfl

theorem accT100 : EPlant.updateN rand01 100 (EPlant.new VarietyKey.cress rand01 0) = ET100 := by
  rw [show (100 : ℕ) = 96 + 4 by norm_num, EPlant.updateN_add, accT96]
  exact chunkT96

/-- Erased simulator state after 106 ticks of the counterexample run. -/
def ET106 : EPlant × ℕ :=
  (⟨.cress, 106, 240, 120,
  .node ⟨false, false, .cress, 12, (1097/80), true, [⟨(679/80), 1, (19/25)⟩], (-1), true, (11/5)⟩ (.cons (.node ⟨false, true, .cress, 12, (118/25), true, [], 1, false, (2387/2500)⟩ (.nil)) (.nil)),
  .node ⟨true, false, .cress, 10, 10, false, [], 1, false, (8/5)⟩ (.cons (.node ⟨true, false, .cress, 10, (1/5), true, [], 1, false, (124/125)⟩ (.nil)) (.nil))⟩, 88)

theorem chunkT100 : EPlant.updateN rand01 6 ET100 = ET106 := by
  with_unfolding_all rfl

theorem accT106 : EPlant.updateN rand01 106 (EPlant.new VarietyKey.cress rand01 0) = ET106 := by
  rw [show (106 : ℕ) = 100 + 6 by norm_num, EPlant.updateN_add, accT100]
  exact chunkT100

/-- Erased simulator state after 112 ticks of the counterexample run. -/
def ET112 : EPlant × ℕ :=
  (⟨.cress, 112, 240, 120,
  .node ⟨false, false, .cress, 12, (1163/80), true, [⟨(679/80), 1, (19/25)⟩], (-1), true, (11/5)⟩ (.cons (.node ⟨false, true, .cress, 12, (2119/400), true, [], 1, false, (2387/2500)⟩ (.nil)) (.nil)),
  .node ⟨true, false, .cress, 10, 10, false, [], 1, false, (8/5)⟩ (.cons (.node ⟨true, false, .cress, 10, (4/5), true, [], 1, false, (124/125)⟩ (.nil)) (.nil))⟩, 94)

theorem chunkT106 : EPlant.updateN rand01 6 ET106 = ET112 := by
  with_unfolding_all rfl

theorem accT112 : EPlant.updateN rand01 112 (EPlant.new VarietyKey.cress rand01 0) = ET112 := by
  rw [show (112 : ℕ) = 106 + 6 by norm_num, EPlant.updateN_add, accT106]
  exact chunkT106

/-- Erased simulator state after 118 ticks of the counterexample run. -/
def ET118 : EPlant × ℕ :=
  (⟨.cress, 118, 240, 120,
  .node ⟨false, false, .cress, 12, (1229/80), true, [⟨(679/80), 1, (19/25)⟩], (-1), true, (11/5)⟩ (.cons (.node ⟨false, true, .cress, 12, (47/8), true, [], 1, false, (2387/2500)⟩ (.nil)) (.nil)),
  .node ⟨true, false, .cress, 10, 10, false, [], 1, false, (8/5)⟩ (.cons (.node ⟨true, false, .cress, 10, (7/5), true, [], 1, false, (124/125)⟩ (.nil)) (.nil))⟩, 100)

theorem chunkT112 : EPlant.updateN rand01 6 ET112 = ET118 := by
  with_unfolding_all rfl

theorem accT118 : EPlant.updateN rand01 118 (EPlant.new VarietyKey.cress rand01 0) = ET118 := by
  rw [show (118 : ℕ) = 112 + 6 by norm_num, EPlant.updateN_add, accT112]
  exact chunkT112

/-- Erased simulator state after 124 ticks of the counterexample run. -/
def ET124 : EPlant × ℕ :=
  (⟨.cress, 124, 240, 120,
  .node ⟨false, false, .cress, 12, (259/16), true, [⟨(679/80), 1, (19/25)⟩], (-1), true, (11/5)⟩ (.cons (.node ⟨false, true, .cress, 12, (2581/400), true, [], 1, false, (2387/2500)⟩ (.nil)) (.nil)),
  .node ⟨true, false, .cress, 10, 10, false, [], 1, false, (8/5)⟩ (.cons (.node ⟨true, false, .cress, 10, 2, true, [], 1, false, (124/125)⟩ (.nil)) (.nil))⟩, 106)

theorem chunkT118 : EPlant.updateN rand01 6 ET118 = ET124 := by
  with_unfolding_all rfl

theorem accT124 : EPlant.updateN rand01 124 (EPlant.new VarietyKey.cress rand01 0) = ET124 := by
  rw [show (124 : ℕ) = 118 + 6 by norm_num, EPlant.updateN_add, accT118]
  exact chunkT118

/-- Erased simulator state after 130 ticks of the counterexample run. -/
def ET130 : EPlant × ℕ :=
  (⟨.cress, 130, 240, 120,
  .node ⟨false, false, .cress, 12, (1361/80), true, [⟨(679/80), 1, (19/25)⟩, ⟨(1361/80), (-1), (19/25)⟩], 1, true, (11/5)⟩ (.cons (.node ⟨false, true, .cress, 12, (703/100), true, [], 1, false, (2387/2500)⟩ (.nil)) (.nil)),
  .node ⟨true, false, .cress, 10, 10, false, [], 1, false, (8/5)⟩ (.cons (.node ⟨true, false, .cress, 10, (13/5), true, [], 1, false, (124/125)⟩ (.nil)) (.nil))⟩, 113)

theorem chunkT124 : EPlant.updateN rand01 6 ET124 = ET130 := by
  with_unfolding_all rfl

theorem accT130 : EPlant.updateN rand01 130 (EPlant.new VarietyKey.cress rand01 0) = ET130 := by
  rw [show (130 : ℕ) = 124 + 6 by norm_num, EPlant.updateN_add, accT124]
  exact chunkT124

/-- Erased simulator state after 136 ticks of the counterexample run. -/
def ET136 : EPlant × ℕ :=
  (⟨.cress, 136, 240, 120,
  .node ⟨false, false, .cress, 12, (1427/80), true, [⟨(679/80), 1, (19/25)⟩, ⟨(1361/80), (-1), (19/25)⟩], 1, true, (11/5)⟩ (.cons (.node ⟨false, true, .cress, 12, (3043/400), true, [], 1, false, (2387/2500)⟩ (.nil)) (.nil)),
  .node ⟨true, false, .cress, 10, 10, false, [], 1, false, (8/5)⟩ (.cons (.node ⟨true, false, .cress, 10, (16/5), true, [], 1, false, (124/125)⟩ (.nil)) (.nil))⟩, 119)

theorem chunkT130 : EPlant.updateN rand01 6 ET130 = ET136 := by
  with_unfolding_all rfl

theorem accT136 : EPlant.updateN rand01 136 (EPlant.new VarietyKey.cress rand01 0) = ET136 := by
  rw [show (136 : ℕ) = 130 + 6 by norm_num, EPlant.updateN_add, accT130]
  exact chunkT130

/-- Erased simulator state after 142 ticks of the counterexample run. -/
def ET142 : EPlant × ℕ :=
  (⟨.cress, 142, 240, 120,
  .node ⟨false, false, .cress, 12, (1493/80), true, [⟨(679/80), 1, (19/25)⟩, ⟨(1361/80), (-1), (19/25)⟩], 1, true, (11/5)⟩ (.cons (.node ⟨false, true, .cress, 12, (1637/200), true, [], 1, false, (2387/2500)⟩ (.nil)) (.nil)),
  .node ⟨true, false, .cress, 10, 10, false, [], 1, false, (8/5)⟩ (.cons (.node ⟨true, false, .cress, 10, (19/5), true, [], 1, false, (124/125)⟩ (.nil)) (.nil))⟩, 125)

theorem chunkT136 : EPlant.updateN rand01 6 ET136 = ET142 := by
  with_unfolding_all rfl

theorem accT142 : EPlant.updateN rand01 142 (EPlant.new VarietyKey.cress rand01 0) = ET142 := by
  rw [show (142 : ℕ) = 136 + 6 by norm_num, EPlant.updateN_add, accT136]
  exact chunkT136

/-- Erased simulator state after 148 ticks of the counterexample run. -/
def ET148 : EPlant × ℕ :=
  (⟨.cress, 148, 240, 120,
  .node ⟨false, false, .cress, 12, (1559/80), true, [⟨(679/80), 1, (19/25)⟩, ⟨(1361/80), (-1), (19/25)⟩], 1, true, (11/5)⟩ (.cons (.node ⟨false, true, .cress, 12, (701/80), true, [], 1, false, (2387/2500)⟩ (.nil)) (.nil)),
  .node ⟨true, false, .cress, 10, 10, false, [], 1, false, (8/5)⟩ (.cons (.node ⟨true, false, .cress, 10, (22/5), true, [], 1, false, (124/125)⟩ (.nil)) (.nil))⟩, 131)

theorem chunkT142 : EPlant.updateN rand01 6 ET142 = ET148 := by
  with_unfolding_all rfl

theorem accT148 : EPlant.updateN rand01 148 (EPlant.new VarietyKey.cress rand01 0) = ET148 := by
  rw [show (148 : ℕ) = 142 + 6 by norm_num, EPlant.updateN_add, accT142]
  exact chunkT142

/-- Erased simulator state after 154 ticks of the counterexample run. -/
def ET154 : EPlant × ℕ :=
  (⟨.cress, 154, 240, 120,
  .node ⟨false, false, .cress, 12, (325/16), true, [⟨(679/80), 1, (19/25)⟩, ⟨(1361/80), (-1), (19/25)⟩], 1, true, (11/5)⟩ (.cons (.node ⟨false, true, .cress, 12, (467/50), true, [], 1, false, (2387/2500)⟩ (.nil)) (.nil)),
  .node ⟨true, false, .cress, 10, 10, false, [], 1, false, (8/5)⟩ (.cons (.node ⟨true, false, .cress, 10, 5, true, [], 1, false, (124/125)⟩ (.nil)) (.nil))⟩, 137)

theorem chunkT148 : EPlant.updateN rand01 6 ET148 = ET154 := by
  with_unfolding_all rfl

theorem accT154 : EPlant.updateN rand01 154 (EPlant.new VarietyKey.cress rand01 0) = ET154 := by
  rw [show (154 : ℕ) = 148 + 6 by norm_num, EPlant.updateN_add, accT148]
  exact chunkT148

/-- Erased simulator state after 160 ticks of the counterexample run. -/
def ET160 : EPlant × ℕ :=
  (⟨.cress, 160, 240, 120,
  .node ⟨false, false, .cress, 12, (1691/80), true, [⟨(679/80), 1, (19/25)⟩, ⟨(1361/80), (-1), (19/25)⟩], 1, true, (11/5)⟩ (.cons (.node ⟨false, true, .cress, 12, (3967/400), true, [], 1, false, (2387/2500)⟩ (.nil)) (.nil)),
  .node ⟨true, false, .cress, 10, 10, false, [], 1, false, (8/5)⟩ (.cons (.node ⟨true, false, .cress, 10, (28/5), true, [], 1, false, (124/125)⟩ (.nil)) (.nil))⟩, 143)

theorem chunkT154 : EPlant.updateN rand01 6 ET154 = ET160 := by
  with_unfolding_all rfl

theorem accT160 : EPlant.updateN rand01 160 (EPlant.new VarietyKey.cress rand01 0) = ET160 := by
  rw [show (160 : ℕ) = 154 + 6 by norm_num, EPlant.updateN_add, accT154]
  exact chunkT154

/-- Erased simulator state after 166 ticks of the counterexample run. -/
def ET166 : EPlant × ℕ :=
  (⟨.cress, 166, 240, 120,
  .node ⟨false, false, .cress, 12, (1757/80), true, [⟨(679/80), 1, (19/25)⟩, ⟨(1361/80), (-1), (19/25)⟩], 1, true, (11/5)⟩ (.cons (.node ⟨false, true, .cress, 12, (2099/200), true, [], 1, false, (2387/2500)⟩ (.nil)) (.nil)),
  .node ⟨true, false, .cress, 10, 10, false, [], 1, false, (8/5)⟩ (.cons (.node ⟨true, false, .cress, 10, (31/5), true, [], 1, false, (124/125)⟩ (.nil)) (.nil))⟩, 149)

theorem chunkT160 : EPlant.updateN rand01 6 ET160 = ET166 := by
  with_unfolding_all rfl

theorem accT166 : EPlant.updateN rand01 166 (EPlant.new VarietyKey.cress rand01 0) = ET166 := by
  rw [show (166 : ℕ) = 160 + 6 by norm_num, EPlant.updateN_add, accT160]
  exact chunkT160

/-- Erased simulator state after 172 ticks of the counterexample run. -/
def ET172 : EPlant × ℕ :=
  (⟨.cress, 172, 240, 120,
  .node ⟨false, false, .cress, 12, (1823/80), true, [⟨(679/80), 1, (19/25)⟩, ⟨(1361/80), (-1), (19/25)⟩], 1, true, (11/5)⟩ (.cons (.node ⟨false, true, .cress, 12, (4429/400), true, [], 1, false, (2387/2500)⟩ (.nil)) (.nil)),
  .node ⟨true, false, .cress, 10, 10, false, [], 1, false, (8/5)⟩ (.cons (.node ⟨true, false, .cress, 10, (34/5), true, [], 1, false, (124/125)⟩ (.nil)) (.nil))⟩, 155)

theorem chunkT166 : EPlant.updateN rand01 6 ET166 = ET172 := by
  with_unfolding_all rfl

theorem accT172 : EPlant.updateN rand01 172 (EPlant.new VarietyKey.cress rand01 0) = ET172 := by
  rw [show (172 : ℕ) = 166 + 6 by norm_num, EPlant.updateN_add, accT166]
  exact chunkT166

/-- Erased simulator state after 178 ticks of the counterexample run. -/
def ET178 : EPlant × ℕ :=
  (⟨.cress, 178, 240, 120,
  .node ⟨false, false, .cress, 12, (1889/80), true, [⟨(679/80), 1, (19/25)⟩, ⟨(1361/80), (-1), (19/25)⟩], 1, true, (11/5)⟩ (.cons (.node ⟨false, true, .cress, 12, (233/20), true, [], 1, false, (2387/2500)⟩ (.nil)) (.nil)),
  .node ⟨true, false, .cress, 10, 10, false, [], 1, false, (8/5)⟩ (.cons (.node ⟨true, false, .cress, 10, (37/5), true, [], 1, false, (124/125)⟩ (.nil)) (.nil))⟩, 161)

theorem chunkT172 : EPlant.updateN rand01 6 ET172 = ET178 := by
  with_unfolding_all rfl

theorem accT178 : EPlant.updateN rand01 178 (EPlant.new VarietyKey.cress rand01 0) = ET178 := by
  rw [show (178 : ℕ) = 172 + 6 by norm_num, EPlant.updateN_add, accT172]
  exact chunkT172

/-- Erased simulator state after 184 ticks of the counterexample run. -/
def ET184 : EPlant × ℕ :=
  (⟨.cress, 184, 240, 120,
  .node ⟨false, false, .cress, 12, (391/16), true, [⟨(679/80), 1, (19/25)⟩, ⟨(1361/80), (-1), (19/25)⟩], 1, true, (11/5)⟩ (.cons (.node ⟨false, true, .cress, 12, (2407/200), false, [], 1, false, (2387/2500)⟩ (.cons (.node ⟨false, true, .cress, 12, (311/800), true, [], 1, false, (73997/125000)⟩ (.nil)) (.nil))) (.nil)),
  .node ⟨true, false, .cress, 10, 10, false, [], 1, false, (8/5)⟩ (.cons (.node ⟨true, false, .cress, 10, 8, true, [], 1, false, (124/125)⟩ (.nil)) (.nil))⟩, 169)

theorem chunkT178 : EPlant.updateN rand01 6 ET178 = ET184 := by
  with_unfolding_all rfl

theorem accT184 : EPlant.updateN rand01 184 (EPlant.new VarietyKey.cress rand01 0) = ET184 := by
  rw [show (184 : ℕ) = 178 + 6 by norm_num, EPlant.updateN_add, accT178]
  exact chunkT178

/-- Erased simulator state after 190 ticks of the counterexample run. -/
def ET190 : EPlant × ℕ :=
  (⟨.cress, 190, 240, 120,
  .node ⟨false, false, .cress, 12, (2021/80), true, [⟨(679/80), 1, (19/25)⟩, ⟨(1361/80), (-1), (19/25)⟩], 1, true, (11/5)⟩ (.cons (.node ⟨false, true, .cress, 12, (2407/200), false, [], 1, false, (2387/2500)⟩ (.cons (.node ⟨false, true, .cress, 12, (773/800), true, [], 1, false, (73997/125000)⟩ (.nil)) (.nil))) (.nil)),
  .node ⟨true, false, .cress, 10, 10, false, [], 1, false, (8/5)⟩ (.cons (.node ⟨true, false, .cress, 10, (43/5), true, [], 1, false, (124/125)⟩ (.nil)) (.nil))⟩, 175)

theorem chunkT184 : EPlant.updateN rand01 6 ET184 = ET190 := by
  with_unfolding_all rfl

theorem accT190 : EPlant.updateN rand01 190 (EPlant.new VarietyKey.cress rand01 0) = ET190 := by
  rw [show (190 : ℕ) = 184 + 6 by norm_num, EPlant.updateN_add, accT184]
  exact chunkT184

/-- Erased simulator state after 196 ticks of the counterexample run. -/
def ET196 : EPlant × ℕ :=
  (⟨.cress, 196, 240, 120,
  .node ⟨false, false, .cress, 12, (2087/80), true, [⟨(679/80), 1, (19/25)⟩, ⟨(1361/80), (-1), (19/25)⟩, ⟨(2043/80), 1, (19/25)⟩], (-1), true, (11/5)⟩ (.cons (.node ⟨false, true, .cress, 12, (2407/200), false, [], 1, false, (2387/2500)⟩ (.cons (.node ⟨false, true, .cress, 12, (247/160), true, [], 1, false, (73997/125000)⟩ (.nil)) (.nil))) (.nil)),
  .node ⟨true, false, .cress, 10, 10, false, [], 1, false, (8/5)⟩ (.cons (.node ⟨true, false, .cress, 10, (46/5), true, [], 1, false, (124/125)⟩ (.nil)) (.nil))⟩, 182)

theorem chunkT190 : EPlant.updateN rand01 6 ET190 = ET196 := by
  with_unfolding_all rfl

theorem accT196 : EPlant.updateN rand01 196 (EPlant.new VarietyKey.cress rand01 0) = ET196 := by
  rw [show (196 : ℕ) = 190 + 6 by norm_num, EPlant.updateN_add, accT190]
  exact chunkT190

/-- Erased simulator state after 202 ticks of the counterexample run. -/
def ET202 : EPlant × ℕ :=
  (⟨.cress, 202, 240, 120,
  .node ⟨false, false, .cress, 12, (2153/80), true, [⟨(679/80), 1, (19/25)⟩, ⟨(1361/80), (-1), (19/25)⟩, ⟨(2043/80), 1, (19/25)⟩], (-1), true, (11/5)⟩ (.cons (.node ⟨false, true, .cress, 12, (2407/200), false, [], 1, false, (2387/2500)⟩ (.cons (.node ⟨false, true, .cress, 12, (1697/800), true, [], 1, false, (73997/125000)⟩ (.nil)) (.nil))) (.nil)),
  .node ⟨true, false, .cress, 10, 10, false, [], 1, false, (8/5)⟩ (.cons (.node ⟨true, false, .cress, 10, (49/5), true, [], 1, false, (124/125)⟩ (.nil)) (.nil))⟩, 188)

theorem chunkT196 : EPlant.updateN rand01 6 ET196 = ET202 := by
  with_unfolding_all rfl

theorem accT202 : EPlant.updateN rand01 202 (EPlant.new VarietyKey.cress rand01 0) = ET202 := by
  rw [show (202 : ℕ) = 196 + 6 by norm_num, EPlant.updateN_add, accT196]
  exact chunkT196

/-- Erased simulator state after 208 ticks of the counterexample run. -/
def ET208 : EPlant × ℕ :=
  (⟨.cress, 208, 240, 120,
  .node ⟨false, false, .cress, 12, (2219/80), true, [⟨(679/80), 1, (19/25)⟩, ⟨(1361/80), (-1), (19/25)⟩, ⟨(2043/80), 1, (19/25)⟩], (-1), true, (11/5)⟩ (.cons (.node ⟨false, true, .cress, 12, (2407/200), false, [], 1, false, (2387/2500)⟩ (.cons (.node ⟨false, true, .cress, 12, (2159/800), true, [], 1, false, (73997/125000)⟩ (.nil)) (.nil))) (.nil)),
  .node ⟨true, false, .cress, 10, 10, false, [], 1, false, (8/5)⟩ (.cons (.node ⟨true, false, .cress, 10, 10, false, [], 1, false, (124/125)⟩ (.cons (.node ⟨true, false, .cress, 10, (3/5), true, [], 1, false, (1922/3125)⟩ (.nil)) (.nil))) (.nil))⟩, 196)

theorem chunkT202 : EPlant.updateN rand01 6 ET202 = ET208 := by
  with_unfolding_all rfl

theorem accT208 : EPlant.updateN rand01 208 (EPlant.new VarietyKey.cress rand01 0) = ET208 := by
  rw [show (208 : ℕ) = 202 + 6 by norm_num, EPlant.updateN_add, accT202]
  exact chunkT202

/-- Erased simulator state after 214 ticks of the counterexample run. -/
def ET214 : EPlant × ℕ :=
  (⟨.cress, 214, 240, 120,
  .node ⟨false, false, .cress, 12, (457/16), true, [⟨(679/80), 1, (19/25)⟩, ⟨(1361/80), (-1), (19/25)⟩, ⟨(2043/80), 1, (19/25)⟩], (-1), true, (11/5)⟩ (.cons (.node ⟨false, true, .cress, 12, (2407/200), false, [], 1, false, (2387/2500)⟩ (.cons (.node ⟨false, true, .cress, 12, (2621/800), true, [], 1, false, (73997/125000)⟩ (.nil)) (.nil))) (.nil)),
  .node ⟨true, false, .cress, 10, 10, false, [], 1, false, (8/5)⟩ (.cons (.node ⟨true, false, .cress, 10, 10, false, [], 1, false, (124/125)⟩ (.cons (.node ⟨true, false, .cress, 10, (6/5), true, [], 1, false, (1922/3125)⟩ (.nil)) (.nil))) (.nil))⟩, 202)

theorem chunkT208 : EPlant.updateN rand01 6 ET208 = ET214 := by
  with_unfolding_all rfl

theorem accT214 : EPlant.updateN rand01 214 (EPlant.new VarietyKey.cress rand01 0) = ET214 := by
  rw [show (214 : ℕ) = 208 + 6 by norm_num, EPlant.updateN_add, accT208]
  exact chunkT208

/-- Erased simulator state after 220 ticks of the counterexample run. -/
def ET220 : EPlant × ℕ :=
  (⟨.cress, 220, 240, 120,
  .node ⟨false, false, .cress, 12, (2351/80), true, [⟨(679/80), 1, (19/25)⟩, ⟨(1361/80), (-1), (19/25)⟩, ⟨(2043/80), 1, (19/25)⟩], (-1), true, (11/5)⟩ (.cons (.node ⟨false, true, .cress, 12, (2407/200), false, [], 1, false, (2387/2500)⟩ (.cons (.node ⟨false, true, .cress, 12, (3083/800), true, [], 1, false, (73997/125000)⟩ (.nil)) (.nil))) (.nil)),
  .node ⟨true, false, .cress, 10, 10, false, [], 1, false, (8/5)⟩ (.cons (.node ⟨true, false, .cress, 10, 10, false, [], 1, false, (124/125)⟩ (.cons (.node ⟨true, false, .cress, 10, (9/5), true, [], 1, false, (1922/3125)⟩ (.nil)) (.nil))) (.nil))⟩, 208)

theorem chunkT214 : EPlant.updateN rand01 6 ET214 = ET220 := by
  with_unfolding_all rfl

theorem accT220 : EPlant.updateN rand01 220 (EPlant.new VarietyKey.cress rand01 0) = ET220 := by
  rw [show (220 : ℕ) = 214 + 6 by norm_num, EPlant.updateN_add, accT214]
  exact chunkT214

/-- Erased simulator state after 226 ticks of the counterexample run. -/
def ET226 : EPlant × ℕ :=
  (⟨.cress, 226, 240, 120,
  .node ⟨false, false, .cress, 12, (2417/80), true, [⟨(679/80), 1, (19/25)⟩, ⟨(1361/80), (-1), (19/25)⟩, ⟨(2043/80), 1, (19/25)⟩], (-1), true, (11/5)⟩ (.cons (.node ⟨false, true, .cress, 12, (2407/200), false, [], 1, false, (2387/2500)⟩ (.cons (.node ⟨false, true, .cress, 12, (709/160), true, [], 1, false, (73997/125000)⟩ (.nil)) (.nil))) (.nil)),
  .node ⟨true, false, .cress, 10, 10, false, [], 1, false, (8/5)⟩ (.cons (.node ⟨true, false, .cress, 10, 10, false, [], 1, false, (124/125)⟩ (.cons (.node ⟨true, false, .cress, 10, (12/5), true, [], 1, false, (1922/3125)⟩ (.nil)) (.nil))) (.nil))⟩, 214)

theorem chunkT220 : EPlant.updateN rand01 6 ET220 = ET226 := by
  with_unfolding_all rfl

theorem accT226 : EPlant.updateN rand01 226 (EPlant.new VarietyKey.cress rand01 0) = ET226 := by
  rw [show (226 : ℕ) = 220 + 6 by norm_num, EPlant.updateN_add, accT220]
  exact chunkT220

/-- Erased simulator state after 232 ticks of the counterexample run. -/
def ET232 : EPlant × ℕ :=
  (⟨.cress, 232, 240, 120,
  .node ⟨false, false, .cress, 12, (2483/80), true, [⟨(679/80), 1, (19/25)⟩, ⟨(1361/80), (-1), (19/25)⟩, ⟨(2043/80), 1, (19/25)⟩], (-1), true, (11/5)⟩ (.cons (.node ⟨false, true, .cress, 12, (2407/200), false, [], 1, false, (2387/2500)⟩ (.cons (.node ⟨false, true, .cress, 12, (4007/800), true, [], 1, false, (73997/125000)⟩ (.nil)) (.nil))) (.nil)),
  .node ⟨true, false, .cress, 10, 10, false, [], 1, false, (8/5)⟩ (.cons (.node ⟨true, false, .cress, 10, 10, false, [], 1, false, (124/125)⟩ (.cons (.node ⟨true, false, .cress, 10, 3, true, [], 1, false, (1922/3125)⟩ (.nil)) (.nil))) (.nil))⟩, 220)

theorem chunkT226 : EPlant.updateN rand01 6 ET226 = ET232 := by
  with_unfolding_all rfl

theorem accT232 : EPlant.updateN rand01 232 (EPlant.new VarietyKey.cress rand01 0) = ET232 := by
  rw [show (232 : ℕ) = 226 + 6 by norm_num, EPlant.updateN_add, accT226]
  exact chunkT226

/-- Erased simulator state after 238 ticks of the counterexample run. -/
def ET238 : EPlant × ℕ :=
  (⟨.cress, 238, 240, 120,
  .node ⟨false, false, .cress, 12, (2549/80), true, [⟨(679/80), 1, (19/25)⟩, ⟨(1361/80), (-1), (19/25)⟩, ⟨(2043/80), 1, (19/25)⟩], (-1), true, (11/5)⟩ (.cons (.node ⟨false, true, .cress, 12, (2407/200), false, [], 1, false, (2387/2500)⟩ (.cons (.node ⟨false, true, .cress, 12, (4469/800), true, [], 1, false, (73997/125000)⟩ (.nil)) (.nil))) (.nil)),
  .node ⟨true, false, .cress, 10, 10, false, [], 1, false, (8/5)⟩ (.cons (.node ⟨true, false, .cress, 10, 10, false, [], 1, false, (124/125)⟩ (.cons (.node ⟨true, false, .cress, 10, (18/5), true, [], 1, false, (1922/3125)⟩ (.nil)) (.nil))) (.nil))⟩, 226)

theorem chunkT232 : EPlant.updateN rand01 6 ET232 = ET238 := by
  with_unfolding_all rfl

theorem accT238 : EPlant.updateN rand01 238 (EPlant.new VarietyKey.cress rand01 0) = ET238 := by
  rw [show (238 : ℕ) = 232 + 6 by norm_num, EPlant.updateN_add, accT232]
  exact chunkT232

/-- Erased simulator state after 244 ticks of the counterexample run. -/
def ET244 : EPlant × ℕ :=
  (⟨.cress, 244, 240, 120,
  .node ⟨false, false, .cress, 12, (523/16), true, [⟨(679/80), 1, (19/25)⟩, ⟨(1361/80), (-1), (19/25)⟩, ⟨(2043/80), 1, (19/25)⟩], (-1), true, (11/5)⟩ (.cons (.node ⟨false, true, .cress, 12, (2407/200), false, [], 1, false, (2387/2500)⟩ (.cons (.node ⟨false, true, .cress, 12, (4931/800), true, [], 1, false, (73997/125000)⟩ (.nil)) (.nil))) (.nil)),
  .node ⟨true, false, .cress, 10, 10, false, [], 1, false, (8/5)⟩ (.cons (.node ⟨true, false, .cress, 10, 10, false, [], 1, false, (124/125)⟩ (.cons (.node ⟨true, false, .cress, 10, (21/5), true, [], 1, false, (1922/3125)⟩ (.nil)) (.nil))) (.nil))⟩, 232)

theorem chunkT238 : EPlant.updateN rand01 6 ET238 = ET244 := by
  with_unfolding_all rfl

theorem accT244 : EPlant.updateN rand01 244 (EPlant.new VarietyKey.cress rand01 0) = ET244 := by
  rw [show (244 : ℕ) = 238 + 6 by norm_num, EPlant.updateN_add, accT238]
  exact chunkT238

/-- Erased simulator state after 250 ticks of the counterexample run. -/
def ET250 : EPlant × ℕ :=
  (⟨.cress, 250, 240, 120,
  .node ⟨false, false, .cress, 12, (2681/80), true, [⟨(679/80), 1, (19/25)⟩, ⟨(1361/80), (-1), (19/25)⟩, ⟨(2043/80), 1, (19/25)⟩], (-1), true, (11/5)⟩ (.cons (.node ⟨false, true, .cress, 12, (2407/200), false, [], 1, false, (2387/2500)⟩ (.cons (.node ⟨false, true, .cress, 12, (5393/800), true, [], 1, false, (73997/125000)⟩ (.nil)) (.nil))) (.nil)),
  .node ⟨true, false, .cress, 10, 10, false, [], 1, false, (8/5)⟩ (.cons (.node ⟨true, false, .cress, 10, 10, false, [], 1, false, (124/125)⟩ (.cons (.node ⟨true, false, .cress, 10, (24/5), true, [], 1, false, (1922/3125)⟩ (.nil)) (.nil))) (.nil))⟩, 238)

theorem chunkT244 : EPlant.updateN rand01 6 ET244 = ET250 := by
  with_unfolding_all rfl

theorem accT250 : EPlant.updateN rand01 250 (EPlant.new VarietyKey.cress rand01 0) = ET250 := by
  rw [show (250 : ℕ) = 244 + 6 by norm_num, EPlant.updateN_add, accT244]
  exact chunkT244

/-- Erased simulator state after 256 ticks of the counterexample run. -/
def ET256 : EPlant × ℕ :=
  (⟨.cress, 256, 240, 120,
  .node ⟨false, false, .cress, 12, (2747/80), true, [⟨(679/80), 1, (19/25)⟩, ⟨(1361/80), (-1), (19/25)⟩, ⟨(2043/80), 1, (19/25)⟩, ⟨(545/16), (-1), (19/25)⟩], 1, true, (11/5)⟩ (.cons (.node ⟨false, true, .cress, 12, (2407/200), false, [], 1, false, (2387/2500)⟩ (.cons (.node ⟨false, true, .cress, 12, (1171/160), true, [], 1, false, (73997/125000)⟩ (.nil)) (.nil))) (.nil)),
  .node ⟨true, false, .cress, 10, 10, false, [], 1, false, (8/5)⟩ (.cons (.node ⟨true, false, .cress, 10, 10, false, [], 1, false, (124/125)⟩ (.cons (.node ⟨true, false, .cress, 10, (27/5), true, [], 1, false, (1922/3125)⟩ (.nil)) (.nil))) (.nil))⟩, 245)

theorem chunkT250 : EPlant.updateN rand01 6 ET250 = ET256 := by
  with_unfolding_all rfl

theorem accT256 : EPlant.updateN rand01 256 (EPlant.new VarietyKey.cress rand01 0) = ET256 := by
  rw [show (256 : ℕ) = 250 + 6 by norm_num, EPlant.updateN_add, accT250]
  exact chunkT250

/-- Erased simulator state after 262 ticks of the counterexample run. -/
def ET262 : EPlant × ℕ :=
  (⟨.cress, 262, 240, 120,
  .node ⟨false, false, .cress, 12, (2813/80), true, [⟨(679/80), 1, (19/25)⟩, ⟨(1361/80), (-1), (19/25)⟩, ⟨(2043/80), 1, (19/25)⟩, ⟨(545/16), (-1), (19/25)⟩], 1, true, (11/5)⟩ (.cons (.node ⟨false, true, .cress, 12, (2407/200), false, [], 1, false, (2387/2500)⟩ (.cons (.node ⟨false, true, .cress, 12, (6317/800), true, [], 1, false, (73997/125000)⟩ (.nil)) (.nil))) (.nil)),
  .node ⟨true, false, .cress, 10, 10, false, [], 1, false, (8/5)⟩ (.cons (.node ⟨true, false, .cress, 10, 10, false, [], 1, false, (124/125)⟩ (.cons (.node ⟨true, false, .cress, 10, 6, true, [], 1, false, (1922/3125)⟩ (.nil)) (.nil))) (.nil))⟩, 251)

theorem chunkT256 : EPlant.updateN rand01 6 ET256 = ET262 := by
  with_unfolding_all rfl

theorem accT262 : EPlant.updateN rand01 262 (EPlant.new VarietyKey.cress rand01 0) = ET262 := by
  rw [show (262 : ℕ) = 256 + 6 by norm_num, EPlant.updateN_add, accT256]
  exact chunkT256

/-- Erased simulator state after 268 ticks of the counterexample run. -/
def ET268 : EPlant × ℕ :=
  (⟨.cress, 268, 240, 120,
  .node ⟨false, false, .cress, 12, (2879/80), true, [⟨(679/80), 1, (19/25)⟩, ⟨(1361/80), (-1), (19/25)⟩, ⟨(2043/80), 1, (19/25)⟩, ⟨(545/16), (-1), (19/25)⟩], 1, true, (11/5)⟩ (.cons (.node ⟨false, true, .cress, 12, (2407/200), false, [], 1, false, (2387/2500)⟩ (.cons (.node ⟨false, true, .cress, 12, (6779/800), true, [], 1, false, (73997/125000)⟩ (.nil)) (.nil))) (.nil)),
  .node ⟨true, false, .cress, 10, 10, false, [], 1, false, (8/5)⟩ (.cons (.node ⟨true, false, .cress, 10, 10, false, [], 1, false, (124/125)⟩ (.cons (.node ⟨true, false, .cress, 10, (33/5), true, [], 1, false, (1922/3125)⟩ (.nil)) (.nil))) (.nil))⟩, 257)

theorem chunkT262 : EPlant.updateN rand01 6 ET262 = ET268 := by
  with_unfolding_all rfl

theorem accT268 : EPlant.updateN rand01 268 (EPlant.new VarietyKey.cress rand01 0) = ET268 := by
  rw [show (268 : ℕ) = 262 + 6 by norm_num, EPlant.updateN_add, accT262]
  exact chunkT262

/-- Erased simulator state after 274 ticks of the counterexample run. -/
def ET274 : EPlant × ℕ :=
  (⟨.cress, 274, 240, 120,
  .node ⟨false, false, .cress, 12, (589/16), true, [⟨(679/80), 1, (19/25)⟩, ⟨(1361/80), (-1), (19/25)⟩, ⟨(2043/80), 1, (19/25)⟩, ⟨(545/16), (-1), (19/25)⟩], 1, true, (11/5)⟩ (.cons (.node ⟨false, true, .cress, 12, (2407/200), false, [], 1, false, (2387/2500)⟩ (.cons (.node ⟨false, true, .cress, 12, (7241/800), true, [], 1, false, (73997/125000)⟩ (.nil)) (.nil))) (.nil)),
  .node ⟨true, false, .cress, 10, 10, false, [], 1, false, (8/5)⟩ (.cons (.node ⟨true, false, .cress, 10, 10, false, [], 1, false, (124/125)⟩ (.cons (.node ⟨true, false, .cress, 10, (36/5), true, [], 1, false, (1922/3125)⟩ (.nil)) (.nil))) (.nil))⟩, 263)

theorem chunkT268 : EPlant.updateN rand01 6 ET268 = ET274 := by
  with_unfolding_all rfl

theorem accT274 : EPlant.updateN rand01 274 (EPlant.new VarietyKey.cress rand01 0) = ET274 := by
  rw [show (274 : ℕ) = 268 + 6 by norm_num, EPlant.updateN_add, accT268]
  exact chunkT268

/-- Erased simulator state after 280 ticks of the counterexample run. -/
def ET280 : EPlant × ℕ :=
  (⟨.cress, 280, 240, 120,
  .node ⟨false, false, .cress, 12, (3011/80), true, [⟨(679/80), 1, (19/25)⟩, ⟨(1361/80), (-1), (19/25)⟩, ⟨(2043/80), 1, (19/25)⟩, ⟨(545/16), (-1), (19/25)⟩], 1, true, (11/5)⟩ (.cons (.node ⟨false, true, .cress, 12, (2407/200), false, [], 1, false, (2387/2500)⟩ (.cons (.node ⟨false, true, .cress, 12, (7703/800), true, [], 1, false, (73997/125000)⟩ (.nil)) (.nil))) (.nil)),
  .node ⟨true, false, .cress, 10, 10, false, [], 1, false, (8/5)⟩ (.cons (.node ⟨true, false, .cress, 10, 10, false, [], 1, false, (124/125)⟩ (.cons (.node ⟨true, false, .cress, 10, (39/5), true, [], 1, false, (1922/3125)⟩ (.nil)) (.nil))) (.nil))⟩, 269)

theorem chunkT274 : EPlant.updateN rand01 6 ET274 = ET280 := by
  with_unfolding_all rfl

theorem accT280 : EPlant.updateN rand01 280 (EPlant.new VarietyKey.cress rand01 0) = ET280 := by
  rw [show (280 : ℕ) = 274 + 6 by norm_num, EPlant.updateN_add, accT274]
  exact chunkT274

/-- Erased simulator state after 286 ticks of the counterexample run. -/
def ET286 : EPlant × ℕ :=
  (⟨.cress, 286, 240, 120,
  .node ⟨false, false, .cress, 12, (3077/80), true, [⟨(679/80), 1, (19/25)⟩, ⟨(1361/80), (-1), (19/25)⟩, ⟨(2043/80), 1, (19/25)⟩, ⟨(545/16), (-1), (19/25)⟩], 1, true, (11/5)⟩ (.cons (.node ⟨false, true, .cress, 12, (2407/200), false, [], 1, false, (2387/2500)⟩ (.cons (.node ⟨false, true, .cress, 12, (1633/160), true, [], 1, false, (73997/125000)⟩ (.nil)) (.nil))) (.nil)),
  .node ⟨true, false, .cress, 10, 10, false, [], 1, false, (8/5)⟩ (.cons (.node ⟨true, false, .cress, 10, 10, false, [], 1, false, (124/125)⟩ (.cons (.node ⟨true, false, .cress, 10, (42/5), true, [], 1, false, (1922/3125)⟩ (.nil)) (.nil))) (.nil))⟩, 275)

theorem chunkT280 : EPlant.updateN rand01 6 ET280 = ET286 := by
  with_unfolding_all rfl

theorem accT286 : EPlant.updateN rand01 286 (EPlant.new VarietyKey.cress rand01 0) = ET286 := by
  rw [show (286 : ℕ) = 280 + 6 by norm_num, EPlant.updateN_add, accT280]
  exact chunkT280

/-- Erased simulator state after 292 ticks of the counterexample run. -/
def ET292 : EPlant × ℕ :=
  (⟨.cress, 292, 240, 120,
  .node ⟨false, false, .cress, 12, (3143/80), true, [⟨(679/80), 1, (19/25)⟩, ⟨(1361/80), (-1), (19/25)⟩, ⟨(2043/80), 1, (19/25)⟩, ⟨(545/16), (-1), (19/25)⟩], 1, true, (11/5)⟩ (.cons (.node ⟨false, true, .cress, 12, (2407/200), false, [], 1, false, (2387/2500)⟩ (.cons (.node ⟨false, true, .cress, 12, (8627/800), true, [], 1, false, (73997/125000)⟩ (.nil)) (.nil))) (.nil)),
  .node ⟨true, false, .cress, 10, 10, false, [], 1, false, (8/5)⟩ (.cons (.node ⟨true, false, .cress, 10, 10, false, [], 1, false, (124/125)⟩ (.cons (.node ⟨true, false, .cress, 10, 9, true, [], 1, false, (1922/3125)⟩ (.nil)) (.nil))) (.nil))⟩, 281)

theorem chunkT286 : EPlant.updateN rand01 6 ET286 = ET292 := by
  with_unfolding_all rfl

theorem accT292 : EPlant.updateN rand01 292 (EPlant.new VarietyKey.cress rand01 0) = ET292 := by
  rw [show (292 : ℕ) = 286 + 6 by norm_num, EPlant.updateN_add, accT286]
  exact chunkT286

/-- Erased simulator state after 298 ticks of the counterexample run. -/
def ET298 : EPlant × ℕ :=
  (⟨.cress, 298, 240, 120,
  .node ⟨false, false, .cress, 12, (3209/80), true, [⟨(679/80), 1, (19/25)⟩, ⟨(1361/80), (-1), (19/25)⟩, ⟨(2043/80), 1, (19/25)⟩, ⟨(545/16), (-1), (19/25)⟩], 1, true, (11/5)⟩ (.cons (.node ⟨false, true, .cress, 12, (2407/200), false, [], 1, false, (2387/2500)⟩ (.cons (.node ⟨false, true, .cress, 12, (9089/800), true, [], 1, false, (73997/125000)⟩ (.nil)) (.nil))) (.nil)),
  .node ⟨true, false, .cress, 10, 10, false, [], 1, false, (8/5)⟩ (.cons (.node ⟨true, false, .cress, 10, 10, false, [], 1, false, (124/125)⟩ (.cons (.node ⟨true, false, .cress, 10, (48/5), true, [], 1, false, (1922/3125)⟩ (.nil)) (.nil))) (.nil))⟩, 287)

theorem chunkT292 : EPlant.updateN rand01 6 ET292 = ET298 := by
  with_unfolding_all rfl

theorem accT298 : EPlant.updateN rand01 298 (EPlant.new VarietyKey.cress rand01 0) = ET298 := by
  rw [show (298 : ℕ) = 292 + 6 by norm_num, EPlant.updateN_add, accT292]
  exact chunkT292

/-- Erased simulator state after 304 ticks of the counterexample run. -/
def ET304 : EPlant × ℕ :=
  (⟨.cress, 304, 240, 120,
  .node ⟨false, false, .cress, 12, (655/16), true, [⟨(679/80), 1, (19/25)⟩, ⟨(1361/80), (-1), (19/25)⟩, ⟨(2043/80), 1, (19/25)⟩, ⟨(545/16), (-1), (19/25)⟩], 1, true, (11/5)⟩ (.cons (.node ⟨false, true, .cress, 12, (2407/200), false, [], 1, false, (2387/2500)⟩ (.cons (.node ⟨false, true, .cress, 12, (9551/800), true, [], 1, false, (73997/125000)⟩ (.nil)) (.nil))) (.nil)),
  .node ⟨true, false, .cress, 10, 10, false, [], 1, false, (8/5)⟩ (.cons (.node ⟨true, false, .cress, 10, 10, false, [], 1, false, (124/125)⟩ (.cons (.node ⟨true, false, .cress, 10, 10, false, [], 1, false, (1922/3125)⟩ (.cons (.node ⟨true, false, .cress, 10, (2/5), true, [], 1, false, (1/2)⟩ (.nil)) (.nil))) (.nil))) (.nil))⟩, 295)

theorem chunkT298 : EPlant.updateN rand01 6 ET298 = ET304 := by
  with_unfolding_all rfl

theorem accT304 : EPlant.updateN rand01 304 (EPlant.new VarietyKey.cress rand01 0) = ET304 := by
  rw [show (304 : ℕ) = 298 + 6 by norm_num, EPlant.updateN_add, accT298]
  exact chunkT298

/-- Erased simulator state after 310 ticks of the counterexample run. -/
def ET310 : EPlant × ℕ :=
  (⟨.cress, 310, 240, 120,
  .node ⟨false, false, .cress, 12, (3341/80), true, [⟨(679/80), 1, (19/25)⟩, ⟨(1361/80), (-1), (19/25)⟩, ⟨(2043/80), 1, (19/25)⟩, ⟨(545/16), (-1), (19/25)⟩], 1, true, (11/5)⟩ (.cons (.node ⟨false, true, .cress, 12, (2407/200), false, [], 1, false, (2387/2500)⟩ (.cons (.node ⟨false, true, .cress, 12, (2407/200), false, [], 1, false, (73997/125000)⟩ (.cons (.node ⟨false, true, .cress, 12, (271/400), true, [], 1, false, (2293907/6250000)⟩ (.nil)) (.nil))) (.nil))) (.nil)),
  .node ⟨true, false, .cress, 10, 10, false, [], 1, false, (8/5)⟩ (.cons (.node ⟨true, false, .cress, 10, 10, false, [], 1, false, (124/125)⟩ (.cons (.node ⟨true, false, .cress, 10, 10, false, [], 1, false, (1922/3125)⟩ (.cons (.node ⟨true, false, .cress, 10, 1, true, [], 1, false, (1/2)⟩ (.nil)) (.nil))) (.nil))) (.nil))⟩, 303)

theorem chunkT304 : EPlant.updateN rand01 6 ET304 = ET310 := by
  with_unfolding_all rfl

theorem accT310 : EPlant.updateN rand01 310 (EPlant.new VarietyKey.cress rand01 0) = ET310 := by
  rw [show (310 : ℕ) = 304 + 6 by norm_num, EPlant.updateN_add, accT304]
  exact chunkT304

/-- Erased simulator state after 316 ticks of the counterexample run. -/
def ET316 : EPlant × ℕ :=
  (⟨.cress, 316, 240, 120,
  .node ⟨false, false, .cress, 12, (3407/80), true, [⟨(679/80), 1, (19/25)⟩, ⟨(1361/80), (-1), (19/25)⟩, ⟨(2043/80), 1, (19/25)⟩, ⟨(545/16), (-1), (19/25)⟩, ⟨(3407/80), 1, (19/25)⟩], (-1), true, (11/5)⟩ (.cons (.node ⟨false, true, .cress, 12, (2407/200), false, [], 1, false, (2387/2500)⟩ (.cons (.node ⟨false, true, .cress, 12, (2407/200), false, [], 1, false, (73997/125000)⟩ (.cons (.node ⟨false, true, .cress, 12, (251/200), true, [], 1, false, (2293907/6250000)⟩ (.nil)) (.nil))) (.nil))) (.nil)),
  .node ⟨true, false, .cress, 10, 10, false, [], 1, false, (8/5)⟩ (.cons (.node ⟨true, false, .cress, 10, 10, false, [], 1, false, (124/125)⟩ (.cons (.node ⟨true, false, .cress, 10, 10, false, [], 1, false, (1922/3125)⟩ (.cons (.node ⟨true, false, .cress, 10, (8/5), true, [], 1, false, (1/2)⟩ (.nil)) (.nil))) (.nil))) (.nil))⟩, 310)

theorem chunkT310 : EPlant.updateN rand01 6 ET310 = ET316 := by
  with_unfolding_all rfl

theorem accT316 : EPlant.updateN rand01 316 (EPlant.new VarietyKey.cress rand01 0) = ET316 := by
  rw [show (316 : ℕ) = 310 + 6 by norm_num, EPlant.updateN_add, accT310]
  exact chunkT310

/-- Erased simulator state after 322 ticks of the counterexample run. -/
def ET322 : EPlant × ℕ :=
  (⟨.cress, 322, 240, 120,
  .node ⟨false, false, .cress, 12, (3473/80), true, [⟨(679/80), 1, (19/25)⟩, ⟨(1361/80), (-1), (19/25)⟩, ⟨(2043/80), 1, (19/25)⟩, ⟨(545/16), (-1), (19/25)⟩, ⟨(3407/80), 1, (19/25)⟩], (-1), true, (11/5)⟩ (.cons (.node ⟨false, true, .cress, 12, (2407/200), false, [], 1, false, (2387/2500)⟩ (.cons (.node ⟨false, true, .cress, 12, (2407/200), false, [], 1, false, (73997/125000)⟩ (.cons (.node ⟨false, true, .cress, 12, (733/400), true, [], 1, false, (2293907/6250000)⟩ (.nil)) (.nil))) (.nil))) (.nil)),
  .node ⟨true, false, .cress, 10, 10, false, [], 1, false, (8/5)⟩ (.cons (.node ⟨true, false, .cress, 10, 10, false, [], 1, false, (124/125)⟩ (.cons (.node ⟨true, false, .cress, 10, 10, false, [], 1, false, (1922/3125)⟩ (.cons (.node ⟨true, false, .cress, 10, (11/5), true, [], 1, false, (1/2)⟩ (.nil)) (.nil))) (.nil))) (.nil))⟩, 316)

theorem chunkT316 : EPlant.updateN rand01 6 ET316 = ET322 := by
  with_unfolding_all rfl

theorem accT322 : EPlant.updateN rand01 322 (EPlant.new VarietyKey.cress rand01 0) = ET322 := by
  rw [show (322 : ℕ) = 316 + 6 by norm_num, EPlant.updateN_add, accT316]
  exact chunkT316

/-- Erased simulator state after 328 ticks of the counterexample run. -/
def ET328 : EPlant × ℕ :=
  (⟨.cress, 328, 240, 120,
  .node ⟨false, false, .cress, 12, (3539/80), true, [⟨(679/80), 1, (19/25)⟩, ⟨(1361/80), (-1), (19/25)⟩, ⟨(2043/80), 1, (19/25)⟩, ⟨(545/16), (-1), (19/25)⟩, ⟨(3407/80), 1, (19/25)⟩], (-1), true, (11/5)⟩ (.cons (.node ⟨false, true, .cress, 12, (2407/200), false, [], 1, false, (2387/2500)⟩ (.cons (.node ⟨false, true, .cress, 12, (2407/200), false, [], 1, false, (73997/125000)⟩ (.cons (.node ⟨false, true, .cress, 12, (241/100), true, [], 1, false, (2293907/6250000)⟩ (.nil)) (.nil))) (.nil))) (.nil)),
  .node ⟨true, false, .cress, 10, 10, false, [], 1, false, (8/5)⟩ (.cons (.node ⟨true, false, .cress, 10, 10, false, [], 1, false, (124/125)⟩ (.cons (.node ⟨true, false, .cress, 10, 10, false, [], 1, false, (1922/3125)⟩ (.cons (.node ⟨true, false, .cress, 10, (14/5), true, [], 1, false, (1/2)⟩ (.nil)) (.nil))) (.nil))) (.nil))⟩, 322)

theorem chunkT322 : EPlant.updateN rand01 6 ET322 = ET328 := by
  with_unfolding_all rfl

theorem accT328 : EPlant.updateN rand01 328 (EPlant.new VarietyKey.cress rand01 0) = ET328 := by
  rw [show (328 : ℕ) = 322 + 6 by norm_num, EPlant.updateN_add, accT322]
  exact chunkT322

/-- Erased simulator state after 334 ticks of the counterexample run. -/
def ET334 : EPlant × ℕ :=
  (⟨.cress, 334, 240, 120,
  .node ⟨false, false, .cress, 12, (721/16), true, [⟨(679/80), 1, (19/25)⟩, ⟨(1361/80), (-1), (19/25)⟩, ⟨(2043/80), 1, (19/25)⟩, ⟨(545/16), (-1), (19/25)⟩, ⟨(3407/80), 1, (19/25)⟩], (-1), true, (11/5)⟩ (.cons (.node ⟨false, true, .cress, 12, (2407/200), false, [], 1, false, (2387/2500)⟩ (.cons (.node ⟨false, true, .cress, 12, (2407/200), false, [], 1, false, (73997/125000)⟩ (.cons (.node ⟨false, true, .cress, 12, (239/80), true, [], 1, false, (2293907/6250000)⟩ (.nil)) (.nil))) (.nil))) (.nil)),
  .node ⟨true, false, .cress, 10, 10, false, [], 1, false, (8/5)⟩ (.cons (.node ⟨true, false, .cress, 10, 10, false, [], 1, false, (124/125)⟩ (.cons (.node ⟨true, false, .cress, 10, 10, false, [], 1, false, (1922/3125)⟩ (.cons (.node ⟨true, false, .cress, 10, (17/5), true, [], 1, false, (1/2)⟩ (.nil)) (.nil))) (.nil))) (.nil))⟩, 328)

theorem chunkT328 : EPlant.updateN rand01 6 ET328 = ET334 := by
  with_unfolding_all rfl

theorem accT334 : EPlant.updateN rand01 334 (EPlant.new VarietyKey.cress rand01 0) = ET334 := by
  rw [show (334 : ℕ) = 328 + 6 by norm_num, EPlant.updateN_add, accT328]
  exact chunkT328

/-- Erased simulator state after 340 ticks of the counterexample run. -/
def ET340 : EPlant × ℕ :=
  (⟨.cress, 340, 240, 120,
  .node ⟨false, false, .cress, 12, (3671/80), true, [⟨(679/80), 1, (19/25)⟩, ⟨(1361/80), (-1), (19/25)⟩, ⟨(2043/80), 1, (19/25)⟩, ⟨(545/16), (-1), (19/25)⟩, ⟨(3407/80), 1, (19/25)⟩], (-1), true, (11/5)⟩ (.cons (.node ⟨false, true, .cress, 12, (2407/200), false, [], 1, false, (2387/2500)⟩ (.cons (.node ⟨false, true, .cress, 12, (2407/200), false, [], 1, false, (73997/125000)⟩ (.cons (.node ⟨false, true, .cress, 12, (713/200), true, [], 1, false, (2293907/6250000)⟩ (.nil)) (.nil))) (.nil))) (.nil)),
  .node ⟨true, false, .cress, 10, 10, false, [], 1, false, (8/5)⟩ (.cons (.node ⟨true, false, .cress, 10, 10, false, [], 1, false, (124/125)⟩ (.cons (.node ⟨true, false, .cress, 10, 10, false, [], 1, false, (1922/3125)⟩ (.cons (.node ⟨true, false, .cress, 10, 4, true, [], 1, false, (1/2)⟩ (.nil)) (.nil))) (.nil))) (.nil))⟩, 334)

theorem chunkT334 : EPlant.updateN rand01 6 ET334 = ET340 := by
  with_unfolding_all rfl

theorem accT340 : EPlant.updateN rand01 340 (EPlant.new VarietyKey.cress rand01 0) = ET340 := by
  rw [show (340 : ℕ) = 334 + 6 by norm_num, EPlant.updateN_add, accT334]
  exact chunkT334

/-- Erased simulator state after 346 ticks of the counterexample run. -/
def ET346 : EPlant × ℕ :=
  (⟨.cress, 346, 240, 120,
  .node ⟨false, false, .cress, 12, (3737/80), true, [⟨(679/80), 1, (19/25)⟩, ⟨(1361/80), (-1), (19/25)⟩, ⟨(2043/80), 1, (19/25)⟩, ⟨(545/16), (-1), (19/25)⟩, ⟨(3407/80), 1, (19/25)⟩], (-1), true, (11/5)⟩ (.cons (.node ⟨false, true, .cress, 12, (2407/200), false, [], 1, false, (2387/2500)⟩ (.cons (.node ⟨false, true, .cress, 12, (2407/200), false, [], 1, false, (73997/125000)⟩ (.cons (.node ⟨false, true, .cress, 12, (1657/400), true, [], 1, false, (2293907/6250000)⟩ (.nil)) (.nil))) (.nil))) (.nil)),
  .node ⟨true, false, .cress, 10, 10, false, [], 1, false, (8/5)⟩ (.cons (.node ⟨true, false, .cress, 10, 10, false, [], 1, false, (124/125)⟩ (.cons (.node ⟨true, false, .cress, 10, 10, false, [], 1, false, (1922/3125)⟩ (.cons (.node ⟨true, false, .cress, 10, (23/5), true, [], 1, false, (1/2)⟩ (.nil)) (.nil))) (.nil))) (.nil))⟩, 340)

theorem chunkT340 : EPlant.updateN rand01 6 ET340 = ET346 := by
  with_unfolding_all rfl

theorem accT346 : EPlant.updateN rand01 346 (EPlant.new VarietyKey.cress rand01 0) = ET346 := by
  rw [show (346 : ℕ) = 340 + 6 by norm_num, EPlant.updateN_add, accT340]
  exact chunkT340

/-- Erased simulator state after 352 ticks of the counterexample run. -/
def ET352 : EPlant × ℕ :=
  (⟨.cress, 352, 240, 120,
  .node ⟨false, false, .cress, 12, (3803/80), true, [⟨(679/80), 1, (19/25)⟩, ⟨(1361/80), (-1), (19/25)⟩, ⟨(2043/80), 1, (19/25)⟩, ⟨(545/16), (-1), (19/25)⟩, ⟨(3407/80), 1, (19/25)⟩], (-1), true, (11/5)⟩ (.cons (.node ⟨false, true, .cress, 12, (2407/200), false, [], 1, false, (2387/2500)⟩ (.cons (.node ⟨false, true, .cress, 12, (2407/200), false, [], 1, false, (73997/125000)⟩ (.cons (.node ⟨false, true, .cress, 12, (118/25), true, [], 1, false, (2293907/6250000)⟩ (.nil)) (.nil))) (.nil))) (.nil)),
  .node ⟨true, false, .cress, 10, 10, false, [], 1, false, (8/5)⟩ (.cons (.node ⟨true, false, .cress, 10, 10, false, [], 1, false, (124/125)⟩ (.cons (.node ⟨true, false, .cress, 10, 10, false, [], 1, false, (1922/3125)⟩ (.cons (.node ⟨true, false, .cress, 10, (26/5), true, [], 1, false, (1/2)⟩ (.nil)) (.nil))) (.nil))) (.nil))⟩, 346)

theorem chunkT346 : EPlant.updateN rand01 6 ET346 = ET352 := by
  with_unfolding_all rfl

theorem accT352 : EPlant.updateN rand01 352 (EPlant.new VarietyKey.cress rand01 0) = ET352 := by
  rw [show (352 : ℕ) = 346 + 6 by norm_num, EPlant.updateN_add, accT346]
  exact chunkT346

/-- Erased simulator state after 358 ticks of the counterexample run. -/
def ET358 : EPlant × ℕ :=
  (⟨.cress, 358, 240, 120,
  .node ⟨false, false, .cress, 12, (3869/80), true, [⟨(679/80), 1, (19/25)⟩, ⟨(1361/80), (-1), (19/25)⟩, ⟨(2043/80), 1, (19/25)⟩, ⟨(545/16), (-1), (19/25)⟩, ⟨(3407/80), 1, (19/25)⟩], (-1), true, (11/5)⟩ (.cons (.node ⟨false, true, .cress, 12, (2407/200), false, [], 1, false, (2387/2500)⟩ (.cons (.node ⟨false, true, .cress, 12, (2407/200), false, [], 1, false, (73997/125000)⟩ (.cons (.node ⟨false, true, .cress, 12, (2119/400), true, [], 1, false, (2293907/6250000)⟩ (.nil)) (.nil))) (.nil))) (.nil)),
  .node ⟨true, false, .cress, 10, 10, false, [], 1, false, (8/5)⟩ (.cons (.node ⟨true, false, .cress, 10, 10, false, [], 1, false, (124/125)⟩ (.cons (.node ⟨true, false, .cress, 10, 10, false, [], 1, false, (1922/3125)⟩ (.cons (.node ⟨true, false, .cress, 10, (29/5), true, [], 1, false, (1/2)⟩ (.nil)) (.nil))) (.nil))) (.nil))⟩, 352)

theorem chunkT352 : EPlant.updateN rand01 6 ET352 = ET358 := by
  with_unfolding_all rfl

theorem accT358 : EPlant.updateN rand01 358 (EPlant.new VarietyKey.cress rand01 0) = ET358 := by
  rw [show (358 : ℕ) = 352 + 6 by norm_num, EPlant.updateN_add, accT352]
  exact chunkT352

/-- Erased simulator state after 364 ticks of the counterexample run. -/
def ET364 : EPlant × ℕ :=
  (⟨.cress, 364, 240, 120,
  .node ⟨false, false, .cress, 12, (787/16), true, [⟨(679/80), 1, (19/25)⟩, ⟨(1361/80), (-1), (19/25)⟩, ⟨(2043/80), 1, (19/25)⟩, ⟨(545/16), (-1), (19/25)⟩, ⟨(3407/80), 1, (19/25)⟩], (-1), true, (11/5)⟩ (.cons (.node ⟨false, true, .cress, 12, (2407/200), false, [], 1, false, (2387/2500)⟩ (.cons (.node ⟨false, true, .cress, 12, (2407/200), false, [], 1, false, (73997/125000)⟩ (.cons (.node ⟨false, true, .cress, 12, (47/8), true, [], 1, false, (2293907/6250000)⟩ (.nil)) (.nil))) (.nil))) (.nil)),
  .node ⟨true, false, .cress, 10, 10, false, [], 1, false, (8/5)⟩ (.cons (.node ⟨true, false, .cress, 10, 10, false, [], 1, false, (124/125)⟩ (.cons (.node ⟨true, false, .cress, 10, 10, false, [], 1, false, (1922/3125)⟩ (.cons (.node ⟨true, false, .cress, 10, (32/5), true, [], 1, false, (1/2)⟩ (.nil)) (.nil))) (.nil))) (.nil))⟩, 358)

theorem chunkT358 : EPlant.updateN rand01 6 ET358 = ET364 := by
  with_unfolding_all rfl

theorem accT364 : EPlant.updateN rand01 364 (EPlant.new VarietyKey.cress rand01 0) = ET364 := by
  rw [show (364 : ℕ) = 358 + 6 by norm_num, EPlant.updateN_add, accT358]
  exact chunkT358

/-- Erased simulator state after 370 ticks of the counterexample run. -/
def ET370 : EPlant × ℕ :=
  (⟨.cress, 370, 240, 120,
  .node ⟨false, false, .cress, 12, (4001/80), true, [⟨(679/80), 1, (19/25)⟩, ⟨(1361/80), (-1), (19/25)⟩, ⟨(2043/80), 1, (19/25)⟩, ⟨(545/16), (-1), (19/25)⟩, ⟨(3407/80), 1, (19/25)⟩], (-1), true, (11/5)⟩ (.cons (.node ⟨false, true, .cress, 12, (2407/200), false, [], 1, false, (2387/2500)⟩ (.cons (.node ⟨false, true, .cress, 12, (2407/200), false, [], 1, false, (73997/125000)⟩ (.cons (.node ⟨false, true, .cress, 12, (2581/400), true, [], 1, false, (2293907/6250000)⟩ (.nil)) (.nil))) (.nil))) (.nil)),
  .node ⟨true, false, .cress, 10, 10, false, [], 1, false, (8/5)⟩ (.cons (.node ⟨true, false, .cress, 10, 10, false, [], 1, false, (124/125)⟩ (.cons (.node ⟨true, false, .cress, 10, 10, false, [], 1, false, (1922/3125)⟩ (.cons (.node ⟨true, false, .cress, 10, 7, true, [], 1, false, (1/2)⟩ (.nil)) (.nil))) (.nil))) (.nil))⟩, 364)

theorem chunkT364 : EPlant.updateN rand01 6 ET364 = ET370 := by
  with_unfolding_all rfl

theorem accT370 : EPlant.updateN rand01 370 (EPlant.new VarietyKey.cress rand01 0) = ET370 := by
  rw [show (370 : ℕ) = 364 + 6 by norm_num, EPlant.updateN_add, accT364]
  exact chunkT364

/-- Erased simulator state after 376 ticks of the counterexample run. -/
def ET376 : EPlant × ℕ :=
  (⟨.cress, 376, 240, 120,
  .node ⟨false, false, .cress, 12, (4067/80), true, [⟨(679/80), 1, (19/25)⟩, ⟨(1361/80), (-1), (19/25)⟩, ⟨(2043/80), 1, (19/25)⟩, ⟨(545/16), (-1), (19/25)⟩, ⟨(3407/80), 1, (19/25)⟩], (-1), true, (11/5)⟩ (.cons (.node ⟨false, true, .cress, 12, (2407/200), false, [], 1, false, (2387/2500)⟩ (.cons (.node ⟨false, true, .cress, 12, (2407/200), false, [], 1, false, (73997/125000)⟩ (.cons (.node ⟨false, true, .cress, 12, (703/100), true, [], 1, false, (2293907/6250000)⟩ (.nil)) (.nil))) (.nil))) (.nil)),
  .node ⟨true, false, .cress, 10, 10, false, [], 1, false, (8/5)⟩ (.cons (.node ⟨true, false, .cress, 10, 10, false, [], 1, false, (124/125)⟩ (.cons (.node ⟨true, false, .cress, 10, 10, false, [], 1, false, (1922/3125)⟩ (.cons (.node ⟨true, false, .cress, 10, (38/5), true, [], 1, false, (1/2)⟩ (.nil)) (.nil))) (.nil))) (.nil))⟩, 370)

theorem chunkT370 : EPlant.updateN rand01 6 ET370 = ET376 := by
  with_unfolding_all rfl

theorem accT376 : EPlant.updateN rand01 376 (EPlant.new VarietyKey.cress rand01 0) = ET376 := by
  rw [show (376 : ℕ) = 370 + 6 by norm_num, EPlant.updateN_add, accT370]
  exact chunkT370

/-- Erased simulator state after 382 ticks of the counterexample run. -/
def ET382 : EPlant × ℕ :=
  (⟨.cress, 382, 240, 120,
  .node ⟨false, false, .cress, 12, (4133/80), true, [⟨(679/80), 1, (19/25)⟩, ⟨(1361/80), (-1), (19/25)⟩, ⟨(2043/80), 1, (19/25)⟩, ⟨(545/16), (-1), (19/25)⟩, ⟨(3407/80), 1, (19/25)⟩, ⟨(4089/80), (-1), (19/25)⟩], 1, true, (11/5)⟩ (.cons (.node ⟨false, true, .cress, 12, (2407/200), false, [], 1, false, (2387/2500)⟩ (.cons (.node ⟨false, true, .cress, 12, (2407/200), false, [], 1, false, (73997/125000)⟩ (.cons (.node ⟨false, true, .cress, 12, (3043/400), true, [], 1, false, (2293907/6250000)⟩ (.nil)) (.nil))) (.nil))) (.nil)),
  .node ⟨true, false, .cress, 10, 10, false, [], 1, false, (8/5)⟩ (.cons (.node ⟨true, false, .cress, 10, 10, false, [], 1, false, (124/125)⟩ (.cons (.node ⟨true, false, .cress, 10, 10, false, [], 1, false, (1922/3125)⟩ (.cons (.node ⟨true, false, .cress, 10, (41/5), true, [], 1, false, (1/2)⟩ (.nil)) (.nil))) (.nil))) (.nil))⟩, 377)

theorem chunkT376 : EPlant.updateN rand01 6 ET376 = ET382 := by
  with_unfolding_all rfl

theorem accT382 : EPlant.updateN rand01 382 (EPlant.new VarietyKey.cress rand01 0) = ET382 := by
  rw [show (382 : ℕ) = 376 + 6 by norm_num, EPlant.updateN_add, accT376]
  exact chunkT376

/-- Erased simulator state after 388 ticks of the counterexample run. -/
def ET388 : EPlant × ℕ :=
  (⟨.cress, 388, 240, 120,
  .node ⟨false, false, .cress, 12, (4199/80), true, [⟨(679/80), 1, (19/25)⟩, ⟨(1361/80), (-1), (19/25)⟩, ⟨(2043/80), 1, (19/25)⟩, ⟨(545/16), (-1), (19/25)⟩, ⟨(3407/80), 1, (19/25)⟩, ⟨(4089/80), (-1), (19/25)⟩], 1, true, (11/5)⟩ (.cons (.node ⟨false, true, .cress, 12, (2407/200), false, [], 1, false, (2387/2500)⟩ (.cons (.node ⟨false, true, .cress, 12, (2407/200), false, [], 1, false, (73997/125000)⟩ (.cons (.node ⟨false, true, .cress, 12, (1637/200), true, [], 1, false, (2293907/6250000)⟩ (.nil)) (.nil))) (.nil))) (.nil)),
  .node ⟨true, false, .cress, 10, 10, false, [], 1, false, (8/5)⟩ (.cons (.node ⟨true, false, .cress, 10, 10, false, [], 1, false, (124/125)⟩ (.cons (.node ⟨true, false, .cress, 10, 10, false, [], 1, false, (1922/3125)⟩ (.cons (.node ⟨true, false, .cress, 10, (44/5), true, [], 1, false, (1/2)⟩ (.nil)) (.nil))) (.nil))) (.nil))⟩, 383)

theorem chunkT382 : EPlant.updateN rand01 6 ET382 = ET388 := by
  with_unfolding_all rfl

theorem accT388 : EPlant.updateN rand01 388 (EPlant.new VarietyKey.cress rand01 0) = ET388 := by
  rw [show (388 : ℕ) = 382 + 6 by norm_num, EPlant.updateN_add, accT382]
  exact chunkT382

/-- Erased simulator state after 394 ticks of the counterexample run. -/
def ET394 : EPlant × ℕ :=
  (⟨.cress, 394, 240, 120,
  .node ⟨false, false, .cress, 12, (853/16), true, [⟨(679/80), 1, (19/25)⟩, ⟨(1361/80), (-1), (19/25)⟩, ⟨(2043/80), 1, (19/25)⟩, ⟨(545/16), (-1), (19/25)⟩, ⟨(3407/80), 1, (19/25)⟩, ⟨(4089/80), (-1), (19/25)⟩], 1, true, (11/5)⟩ (.cons (.node ⟨false, true, .cress, 12, (2407/200), false, [], 1, false, (2387/2500)⟩ (.cons (.node ⟨false, true, .cress, 12, (2407/200), false, [], 1, false, (73997/125000)⟩ (.cons (.node ⟨false, true, .cress, 12, (701/80), true, [], 1, false, (2293907/6250000)⟩ (.nil)) (.nil))) (.nil))) (.nil)),
  .node ⟨true, false, .cress, 10, 10, false, [], 1, false, (8/5)⟩ (.cons (.node ⟨true, false, .cress, 10, 10, false, [], 1, false, (124/125)⟩ (.cons (.node ⟨true, false, .cress, 10, 10, false, [], 1, false, (1922/3125)⟩ (.cons (.node ⟨true, false, .cress, 10, (47/5), true, [], 1, false, (1/2)⟩ (.nil)) (.nil))) (.nil))) (.nil))⟩, 389)

theorem chunkT388 : EPlant.updateN rand01 6 ET388 = ET394 := by
  with_unfolding_all rfl

theorem accT394 : EPlant.updateN rand01 394 (EPlant.new VarietyKey.cress rand01 0) = ET394 := by
  rw [show (394 : ℕ) = 388 + 6 by norm_num, EPlant.updateN_add, accT388]
  exact chunkT388

/-- Erased simulator state after 400 ticks of the counterexample run. -/
def ET400 : EPlant × ℕ :=
  (⟨.cress, 400, 240, 120,
  .node ⟨false, false, .cress, 12, (4331/80), true, [⟨(679/80), 1, (19/25)⟩, ⟨(1361/80), (-1), (19/25)⟩, ⟨(2043/80), 1, (19/25)⟩, ⟨(545/16), (-1), (19/25)⟩, ⟨(3407/80), 1, (19/25)⟩, ⟨(4089/80), (-1), (19/25)⟩], 1, true, (11/5)⟩ (.cons (.node ⟨false, true, .cress, 12, (2407/200), false, [], 1, false, (2387/2500)⟩ (.cons (.node ⟨false, true, .cress, 12, (2407/200), false, [], 1, false, (73997/125000)⟩ (.cons (.node ⟨false, true, .cress, 12, (467/50), true, [], 1, false, (2293907/6250000)⟩ (.nil)) (.nil))) (.nil))) (.nil)),
  .node ⟨true, false, .cress, 10, 10, false, [], 1, false, (8/5)⟩ (.cons (.node ⟨true, false, .cress, 10, 10, false, [], 1, false, (124/125)⟩ (.cons (.node ⟨true, false, .cress, 10, 10, false, [], 1, false, (1922/3125)⟩ (.cons (.node ⟨true, false, .cress, 10, 10, false, [], 1, false, (1/2)⟩ (.cons (.node ⟨true, false, .cress, 10, (1/5), true, [], 1, false, (1/2)⟩ (.nil)) (.nil))) (.nil))) (.nil))) (.nil))⟩, 397)

theorem chunkT394 : EPlant.updateN rand01 6 ET394 = ET400 := by
  with_unfolding_all rfl

theorem accT400 : EPlant.updateN rand01 400 (EPlant.new VarietyKey.cress rand01 0) = ET400 := by
  rw [show (400 : ℕ) = 394 + 6 by norm_num, EPlant.updateN_add, accT394]
  exact chunkT394

/-- Erased simulator state after 406 ticks of the counterexample run. -/
def ET406 : EPlant × ℕ :=
  (⟨.cress, 406, 240, 120,
  .node ⟨false, false, .cress, 12, (4397/80), true, [⟨(679/80), 1, (19/25)⟩, ⟨(1361/80), (-1), (19/25)⟩, ⟨(2043/80), 1, (19/25)⟩, ⟨(545/16), (-1), (19/25)⟩, ⟨(3407/80), 1, (19/25)⟩, ⟨(4089/80), (-1), (19/25)⟩], 1, true, (11/5)⟩ (.cons (.node ⟨false, true, .cress, 12, (2407/200), false, [], 1, false, (2387/2500)⟩ (.cons (.node ⟨false, true, .cress, 12, (2407/200), false, [], 1, false, (73997/125000)⟩ (.cons (.node ⟨false, true, .cress, 12, (3967/400), true, [], 1, false, (2293907/6250000)⟩ (.nil)) (.nil))) (.nil))) (.nil)),
  .node ⟨true, false, .cress, 10, 10, false, [], 1, false, (8/5)⟩ (.cons (.node ⟨true, false, .cress, 10, 10, false, [], 1, false, (124/125)⟩ (.cons (.node ⟨true, false, .cress, 10, 10, false, [], 1, false, (1922/3125)⟩ (.cons (.node ⟨true, false, .cress, 10, 10, false, [], 1, false, (1/2)⟩ (.cons (.node ⟨true, false, .cress, 10, (4/5), true, [], 1, false, (1/2)⟩ (.nil)) (.nil))) (.nil))) (.nil))) (.nil))⟩, 403)

theorem chunkT400 : EPlant.updateN rand01 6 ET400 = ET406 := by
  with_unfolding_all rfl

theorem accT406 : EPlant.updateN rand01 406 (EPlant.new VarietyKey.cress rand01 0) = ET406 := by
  rw [show (406 : ℕ) = 400 + 6 by norm_num, EPlant.updateN_add, accT400]
  exact chunkT400

/-- Erased simulator state after 412 ticks of the counterexample run. -/
def ET412 : EPlant × ℕ :=
  (⟨.cress, 412, 240, 120,
  .node ⟨false, false, .cress, 12, (4463/80), true, [⟨(679/80), 1, (19/25)⟩, ⟨(1361/80), (-1), (19/25)⟩, ⟨(2043/80), 1, (19/25)⟩, ⟨(545/16), (-1), (19/25)⟩, ⟨(3407/80), 1, (19/25)⟩, ⟨(4089/80), (-1), (19/25)⟩], 1, true, (11/5)⟩ (.cons (.node ⟨false, true, .cress, 12, (2407/200), false, [], 1, false, (2387/2500)⟩ (.cons (.node ⟨false, true, .cress, 12, (2407/200), false, [], 1, false, (73997/125000)⟩ (.cons (.node ⟨false, true, .cress, 12, (2099/200), true, [], 1, false, (2293907/6250000)⟩ (.nil)) (.nil))) (.nil))) (.nil)),
  .node ⟨true, false, .cress, 10, 10, false, [], 1, false, (8/5)⟩ (.cons (.node ⟨true, false, .cress, 10, 10, false, [], 1, false, (124/125)⟩ (.cons (.node ⟨true, false, .cress, 10, 10, false, [], 1, false, (1922/3125)⟩ (.cons (.node ⟨true, false, .cress, 10, 10, false, [], 1, false, (1/2)⟩ (.cons (.node ⟨true, false, .cress, 10, (7/5), true, [], 1, false, (1/2)⟩ (.nil)) (.nil))) (.nil))) (.nil))) (.nil))⟩, 409)

theorem chunkT406 : EPlant.updateN rand01 6 ET406 = ET412 := by
  with_unfolding_all rfl

theorem accT412 : EPlant.updateN rand01 412 (EPlant.new VarietyKey.cress rand01 0) = ET412 := by
  rw [show (412 : ℕ) = 406 + 6 by norm_num, EPlant.updateN_add, accT406]
  exact chunkT406

/-- Erased simulator state after 418 ticks of the counterexample run. -/
def ET418 : EPlant × ℕ :=
  (⟨.cress, 418, 240, 120,
  .node ⟨false, false, .cress, 12, (4529/80), true, [⟨(679/80), 1, (19/25)⟩, ⟨(1361/80), (-1), (19/25)⟩, ⟨(2043/80), 1, (19/25)⟩, ⟨(545/16), (-1), (19/25)⟩, ⟨(3407/80), 1, (19/25)⟩, ⟨(4089/80), (-1), (19/25)⟩], 1, true, (11/5)⟩ (.cons (.node ⟨false, true, .cress, 12, (2407/200), false, [], 1, false, (2387/2500)⟩ (.cons (.node ⟨false, true, .cress, 12, (2407/200), false, [], 1, false, (73997/125000)⟩ (.cons (.node ⟨false, true, .cress, 12, (4429/400), true, [], 1, false, (2293907/6250000)⟩ (.nil)) (.nil))) (.nil))) (.nil)),
  .node ⟨true, false, .cress, 10, 10, false, [], 1, false, (8/5)⟩ (.cons (.node ⟨true, false, .cress, 10, 10, false, [], 1, false, (124/125)⟩ (.cons (.node ⟨true, false, .cress, 10, 10, false, [], 1, false, (1922/3125)⟩ (.cons (.node ⟨true, false, .cress, 10, 10, false, [], 1, false, (1/2)⟩ (.cons (.node ⟨true, false, .cress, 10, 2, true, [], 1, false, (1/2)⟩ (.nil)) (.nil))) (.nil))) (.nil))) (.nil))⟩, 415)

theorem chunkT412 : EPlant.updateN rand01 6 ET412 = ET418 := by
  with_unfolding_all rfl

theorem accT418 : EPlant.updateN rand01 418 (EPlant.new VarietyKey.cress rand01 0) = ET418 := by
  rw [show (418 : ℕ) = 412 + 6 by norm_num, EPlant.updateN_add, accT412]
  exact chunkT412

/-- Erased simulator state after 424 ticks of the counterexample run. -/
def ET424 : EPlant × ℕ :=
  (⟨.cress, 424, 240, 120,
  .node ⟨false, false, .cress, 12, (919/16), true, [⟨(679/80), 1, (19/25)⟩, ⟨(1361/80), (-1), (19/25)⟩, ⟨(2043/80), 1, (19/25)⟩, ⟨(545/16), (-1), (19/25)⟩, ⟨(3407/80), 1, (19/25)⟩, ⟨(4089/80), (-1), (19/25)⟩], 1, true, (11/5)⟩ (.cons (.node ⟨false, true, .cress, 12, (2407/200), false, [], 1, false, (2387/2500)⟩ (.cons (.node ⟨false, true, .cress, 12, (2407/200), false, [], 1, false, (73997/125000)⟩ (.cons (.node ⟨false, true, .cress, 12, (233/20), true, [], 1, false, (2293907/6250000)⟩ (.nil)) (.nil))) (.nil))) (.nil)),
  .node ⟨true, false, .cress, 10, 10, false, [], 1, false, (8/5)⟩ (.cons (.node ⟨true, false, .cress, 10, 10, false, [], 1, false, (124/125)⟩ (.cons (.node ⟨true, false, .cress, 10, 10, false, [], 1, false, (1922/3125)⟩ (.cons (.node ⟨true, false, .cress, 10, 10, false, [], 1, false, (1/2)⟩ (.cons (.node ⟨true, false, .cress, 10, (13/5), true, [], 1, false, (1/2)⟩ (.nil)) (.nil))) (.nil))) (.nil))) (.nil))⟩, 421)

theorem chunkT418 : EPlant.updateN rand01 6 ET418 = ET424 := by
  with_unfolding_all rfl

theorem accT424 : EPlant.updateN rand01 424 (EPlant.new VarietyKey.cress rand01 0) = ET424 := by
  rw [show (424 : ℕ) = 418 + 6 by norm_num, EPlant.updateN_add, accT418]
  exact chunkT418

/-- Erased simulator state after 430 ticks of the counterexample run. -/
def ET430 : EPlant × ℕ :=
  (⟨.cress, 430, 240, 120,
  .node ⟨false, false, .cress, 12, (4661/80), true, [⟨(679/80), 1, (19/25)⟩, ⟨(1361/80), (-1), (19/25)⟩, ⟨(2043/80), 1, (19/25)⟩, ⟨(545/16), (-1), (19/25)⟩, ⟨(3407/80), 1, (19/25)⟩, ⟨(4089/80), (-1), (19/25)⟩], 1, true, (11/5)⟩ (.cons (.node ⟨false, true, .cress, 12, (2407/200), false, [], 1, false, (2387/2500)⟩ (.cons (.node ⟨false, true, .cress, 12, (2407/200), false, [], 1, false, (73997/125000)⟩ (.cons (.node ⟨false, true, .cress, 12, (2407/200), false, [], 1, false, (2293907/6250000)⟩ (.cons (.node ⟨false, true, .cress, 12, (311/800), true, [], 1, false, (7/20)⟩ (.nil)) (.nil))) (.nil))) (.nil))) (.nil)),
  .node ⟨true, false, .cress, 10, 10, false, [], 1, false, (8/5)⟩ (.cons (.node ⟨true, false, .cress, 10, 10, false, [], 1, false, (124/125)⟩ (.cons (.node ⟨true, false, .cress, 10, 10, false, [], 1, false, (1922/3125)⟩ (.cons (.node ⟨true, false, .cress, 10, 10, false, [], 1, false, (1/2)⟩ (.cons (.node ⟨true, false, .cress, 10, (16/5), true, [], 1, false, (1/2)⟩ (.nil)) (.nil))) (.nil))) (.nil))) (.nil))⟩, 429)

theorem chunkT424 : EPlant.updateN rand01 6 ET424 = ET430 := by
  with_unfolding_all rfl

theorem accT430 : EPlant.updateN rand01 430 (EPlant.new VarietyKey.cress rand01 0) = ET430 := by
  rw [show (430 : ℕ) = 424 + 6 by norm_num, EPlant.updateN_add, accT424]
  exact chunkT424

/-- Erased simulator state after 436 ticks of the counterexample run. -/
def ET436 : EPlant × ℕ :=
  (⟨.cress, 436, 240, 120,
  .node ⟨false, false, .cress, 12, (4727/80), true, [⟨(679/80), 1, (19/25)⟩, ⟨(1361/80), (-1), (19/25)⟩, ⟨(2043/80), 1, (19/25)⟩, ⟨(545/16), (-1), (19/25)⟩, ⟨(3407/80), 1, (19/25)⟩, ⟨(4089/80), (-1), (19/25)⟩], 1, true, (11/5)⟩ (.cons (.node ⟨false, true, .cress, 12, (2407/200), false, [], 1, false, (2387/2500)⟩ (.cons (.node ⟨false, true, .cress, 12, (2407/200), false, [], 1, false, (73997/125000)⟩ (.cons (.node ⟨false, true, .cress, 12, (2407/200), false, [], 1, false, (2293907/6250000)⟩ (.cons (.node ⟨false, true, .cress, 12, (773/800), true, [], 1, false, (7/20)⟩ (.nil)) (.nil))) (.nil))) (.nil))) (.nil)),
  .node ⟨true, false, .cress, 10, 10, false, [], 1, false, (8/5)⟩ (.cons (.node ⟨true, false, .cress, 10, 10, false, [], 1, false, (124/125)⟩ (.cons (.node ⟨true, false, .cress, 10, 10, false, [], 1, false, (1922/3125)⟩ (.cons (.node ⟨true, false, .cress, 10, 10, false, [], 1, false, (1/2)⟩ (.cons (.node ⟨true, false, .cress, 10, (19/5), true, [], 1, false, (1/2)⟩ (.nil)) (.nil))) (.nil))) (.nil))) (.nil))⟩, 435)

theorem chunkT430 : EPlant.updateN rand01 6 ET430 = ET436 := by
  with_unfolding_all rfl

theorem accT436 : EPlant.updateN rand01 436 (EPlant.new VarietyKey.cress rand01 0) = ET436 := by
  rw [show (436 : ℕ) = 430 + 6 by norm_num, EPlant.updateN_add, accT430]
  exact chunkT430

/-- Erased simulator state after 442 ticks of the counterexample run. -/
def ET442 : EPlant × ℕ :=
  (⟨.cress, 442, 240, 120,
  .node ⟨false, false, .cress, 12, (4793/80), true, [⟨(679/80), 1, (19/25)⟩, ⟨(1361/80), (-1), (19/25)⟩, ⟨(2043/80), 1, (19/25)⟩, ⟨(545/16), (-1), (19/25)⟩, ⟨(3407/80), 1, (19/25)⟩, ⟨(4089/80), (-1), (19/25)⟩, ⟨(4771/80), 1, (19/25)⟩], (-1), true, (11/5)⟩ (.cons (.node ⟨false, true, .cress, 12, (2407/200), false, [], 1, false, (2387/2500)⟩ (.cons (.node ⟨false, true, .cress, 12, (2407/200), false, [], 1, false, (73997/125000)⟩ (.cons (.node ⟨false, true, .cress, 12, (2407/200), false, [], 1, false, (2293907/6250000)⟩ (.cons (.node ⟨false, true, .cress, 12, (247/160), true, [], 1, false, (7/20)⟩ (.nil)) (.nil))) (.nil))) (.nil))) (.nil)),
  .node ⟨true, false, .cress, 10, 10, false, [], 1, false, (8/5)⟩ (.cons (.node ⟨true, false, .cress, 10, 10, false, [], 1, false, (124/125)⟩ (.cons (.node ⟨true, false, .cress, 10, 10, false, [], 1, false, (1922/3125)⟩ (.cons (.node ⟨true, false, .cress, 10, 10, false, [], 1, false, (1/2)⟩ (.cons (.node ⟨true, false, .cress, 10, (22/5), true, [], 1, false, (1/2)⟩ (.nil)) (.nil))) (.nil))) (.nil))) (.nil))⟩, 442)

theorem chunkT436 : EPlant.updateN rand01 6 ET436 = ET442 := by
  with_unfolding_all rfl

theorem accT442 : EPlant.updateN rand01 442 (EPlant.new VarietyKey.cress rand01 0) = ET442 := by
  rw [show (442 : ℕ) = 436 + 6 by norm_num, EPlant.updateN_add, accT436]
  exact chunkT436

/-- Erased simulator state after 448 ticks of the counterexample run. -/
def ET448 : EPlant × ℕ :=
  (⟨.cress, 448, 240, 120,
  .node ⟨false, false, .cress, 12, (4859/80), true, [⟨(679/80), 1, (19/25)⟩, ⟨(1361/80), (-1), (19/25)⟩, ⟨(2043/80), 1, (19/25)⟩, ⟨(545/16), (-1), (19/25)⟩, ⟨(3407/80), 1, (19/25)⟩, ⟨(4089/80), (-1), (19/25)⟩, ⟨(4771/80), 1, (19/25)⟩], (-1), true, (11/5)⟩ (.cons (.node ⟨false, true, .cress, 12, (2407/200), false, [], 1, false, (2387/2500)⟩ (.cons (.node ⟨false, true, .cress, 12, (2407/200), false, [], 1, false, (73997/125000)⟩ (.cons (.node ⟨false, true, .cress, 12, (2407/200), false, [], 1, false, (2293907/6250000)⟩ (.cons (.node ⟨false, true, .cress, 12, (1697/800), true, [], 1, false, (7/20)⟩ (.nil)) (.nil))) (.nil))) (.nil))) (.nil)),
  .node ⟨true, false, .cress, 10, 10, false, [], 1, false, (8/5)⟩ (.cons (.node ⟨true, false, .cress, 10, 10, false, [], 1, false, (124/125)⟩ (.cons (.node ⟨true, false, .cress, 10, 10, false, [], 1, false, (1922/3125)⟩ (.cons (.node ⟨true, false, .cress, 10, 10, false, [], 1, false, (1/2)⟩ (.cons (.node ⟨true, false, .cress, 10, 5, true, [], 1, false, (1/2)⟩ (.nil)) (.nil))) (.nil))) (.nil))) (.nil))⟩, 448)

theorem chunkT442 : EPlant.updateN rand01 6 ET442 = ET448 := by
  with_unfolding_all rfl

theorem accT448 : EPlant.updateN rand01 448 (EPlant.new VarietyKey.cress rand01 0) = ET448 := by
  rw [show (448 : ℕ) = 442 + 6 by norm_num, EPlant.updateN_add, accT442]
  exact chunkT442

/-- Erased simulator state after 454 ticks of the counterexample run. -/
def ET454 : EPlant × ℕ :=
  (⟨.cress, 454, 240, 120,
  .node ⟨false, false, .cress, 12, (985/16), true, [⟨(679/80), 1, (19/25)⟩, ⟨(1361/80), (-1), (19/25)⟩, ⟨(2043/80), 1, (19/25)⟩, ⟨(545/16), (-1), (19/25)⟩, ⟨(3407/80), 1, (19/25)⟩, ⟨(4089/80), (-1), (19/25)⟩, ⟨(4771/80), 1, (19/25)⟩], (-1), true, (11/5)⟩ (.cons (.node ⟨false, true, .cress, 12, (2407/200), false, [], 1, false, (2387/2500)⟩ (.cons (.node ⟨false, true, .cress, 12, (2407/200), false, [], 1, false, (73997/125000)⟩ (.cons (.node ⟨false, true, .cress, 12, (2407/200), false, [], 1, false, (2293907/6250000)⟩ (.cons (.node ⟨false, true, .cress, 12, (2159/800), true, [], 1, false, (7/20)⟩ (.nil)) (.nil))) (.nil))) (.nil))) (.nil)),
  .node ⟨true, false, .cress, 10, 10, false, [], 1, false, (8/5)⟩ (.cons (.node ⟨true, false, .cress, 10, 10, false, [], 1, false, (124/125)⟩ (.cons (.node ⟨true, false, .cress, 10, 10, false, [], 1, false, (1922/3125)⟩ (.cons (.node ⟨true, false, .cress, 10, 10, false, [], 1, false, (1/2)⟩ (.cons (.node ⟨true, false, .cress, 10, (28/5), true, [], 1, false, (1/2)⟩ (.nil)) (.nil))) (.nil))) (.nil))) (.nil))⟩, 454)

theorem chunkT448 : EPlant.updateN rand01 6 ET448 = ET454 := by
  with_unfolding_all rfl

theorem accT454 : EPlant.updateN rand01 454 (EPlant.new VarietyKey.cress rand01 0) = ET454 := by
  rw [show (454 : ℕ) = 448 + 6 by norm_num, EPlant.updateN_add, accT448]
  exact chunkT448

/-- Erased simulator state after 460 ticks of the counterexample run. -/
def ET460 : EPlant × ℕ :=
  (⟨.cress, 460, 240, 120,
  .node ⟨false, false, .cress, 12, (4991/80), true, [⟨(679/80), 1, (19/25)⟩, ⟨(1361/80), (-1), (19/25)⟩, ⟨(2043/80), 1, (19/25)⟩, ⟨(545/16), (-1), (19/25)⟩, ⟨(3407/80), 1, (19/25)⟩, ⟨(4089/80), (-1), (19/25)⟩, ⟨(4771/80), 1, (19/25)⟩], (-1), true, (11/5)⟩ (.cons (.node ⟨false, true, .cress, 12, (2407/200), false, [], 1, false, (2387/2500)⟩ (.cons (.node ⟨false, true, .cress, 12, (2407/200), false, [], 1, false, (73997/125000)⟩ (.cons (.node ⟨false, true, .cress, 12, (2407/200), false, [], 1, false, (2293907/6250000)⟩ (.cons (.node ⟨false, true, .cress, 12, (2621/800), true, [], 1, false, (7/20)⟩ (.nil)) (.nil))) (.nil))) (.nil))) (.nil)),
  .node ⟨true, false, .cress, 10, 10, false, [], 1, false, (8/5)⟩ (.cons (.node ⟨true, false, .cress, 10, 10, false, [], 1, false, (124/125)⟩ (.cons (.node ⟨true, false, .cress, 10, 10, false, [], 1, false, (1922/3125)⟩ (.cons (.node ⟨true, false, .cress, 10, 10, false, [], 1, false, (1/2)⟩ (.cons (.node ⟨true, false, .cress, 10, (31/5), true, [], 1, false, (1/2)⟩ (.nil)) (.nil))) (.nil))) (.nil))) (.nil))⟩, 460)

theorem chunkT454 : EPlant.updateN rand01 6 ET454 = ET460 := by
  with_unfolding_all rfl

theorem accT460 : EPlant.updateN rand01 460 (EPlant.new VarietyKey.cress rand01 0) = ET460 := by
  rw [show (460 : ℕ) = 454 + 6 by norm_num, EPlant.updateN_add, accT454]
  exact chunkT454

/-- Erased simulator state after 466 ticks of the counterexample run. -/
def ET466 : EPlant × ℕ :=
  (⟨.cress, 466, 240, 120,
  .node ⟨false, false, .cress, 12, (5057/80), true, [⟨(679/80), 1, (19/25)⟩, ⟨(1361/80), (-1), (19/25)⟩, ⟨(2043/80), 1, (19/25)⟩, ⟨(545/16), (-1), (19/25)⟩, ⟨(3407/80), 1, (19/25)⟩, ⟨(4089/80), (-1), (19/25)⟩, ⟨(4771/80), 1, (19/25)⟩], (-1), true, (11/5)⟩ (.cons (.node ⟨false, true, .cress, 12, (2407/200), false, [], 1, false, (2387/2500)⟩ (.cons (.node ⟨false, true, .cress, 12, (2407/200), false, [], 1, false, (73997/125000)⟩ (.cons (.node ⟨false, true, .cress, 12, (2407/200), false, [], 1, false, (2293907/6250000)⟩ (.cons (.node ⟨false, true, .cress, 12, (3083/800), true, [], 1, false, (7/20)⟩ (.nil)) (.nil))) (.nil))) (.nil))) (.nil)),
  .node ⟨true, false, .cress, 10, 10, false, [], 1, false, (8/5)⟩ (.cons (.node ⟨true, false, .cress, 10, 10, false, [], 1, false, (124/125)⟩ (.cons (.node ⟨true, false, .cress, 10, 10, false, [], 1, false, (1922/3125)⟩ (.cons (.node ⟨true, false, .cress, 10, 10, false, [], 1, false, (1/2)⟩ (.cons (.node ⟨true, false, .cress, 10, (34/5), true, [], 1, false, (1/2)⟩ (.nil)) (.nil))) (.nil))) (.nil))) (.nil))⟩, 466)

theorem chunkT460 : EPlant.updateN rand01 6 ET460 = ET466 := by
  with_unfolding_all rfl

theorem accT466 : EPlant.updateN rand01 466 (EPlant.new VarietyKey.cress rand01 0) = ET466 := by
  rw [show (466 : ℕ) = 460 + 6 by norm_num, EPlant.updateN_add, accT460]
  exact chunkT460

/-- Erased simulator state after 472 ticks of the counterexample run. -/
def ET472 : EPlant × ℕ :=
  (⟨.cress, 472, 240, 120,
  .node ⟨false, false, .cress, 12, (5123/80), true, [⟨(679/80), 1, (19/25)⟩, ⟨(1361/80), (-1), (19/25)⟩, ⟨(2043/80), 1, (19/25)⟩, ⟨(545/16), (-1), (19/25)⟩, ⟨(3407/80), 1, (19/25)⟩, ⟨(4089/80), (-1), (19/25)⟩, ⟨(4771/80), 1, (19/25)⟩], (-1), true, (11/5)⟩ (.cons (.node ⟨false, true, .cress, 12, (2407/200), false, [], 1, false, (2387/2500)⟩ (.cons (.node ⟨false, true, .cress, 12, (2407/200), false, [], 1, false, (73997/125000)⟩ (.cons (.node ⟨false, true, .cress, 12, (2407/200), false, [], 1, false, (2293907/6250000)⟩ (.cons (.node ⟨false, true, .cress, 12, (709/160), true, [], 1, false, (7/20)⟩ (.nil)) (.nil))) (.nil))) (.nil))) (.nil)),
  .node ⟨true, false, .cress, 10, 10, false, [], 1, false, (8/5)⟩ (.cons (.node ⟨true, false, .cress, 10, 10, false, [], 1, false, (124/125)⟩ (.cons (.node ⟨true, false, .cress, 10, 10, false, [], 1, false, (1922/3125)⟩ (.cons (.node ⟨true, false, .cress, 10, 10, false, [], 1, false, (1/2)⟩ (.cons (.node ⟨true, false, .cress, 10, (37/5), true, [], 1, false, (1/2)⟩ (.nil)) (.nil))) (.nil))) (.nil))) (.nil))⟩, 472)

theorem chunkT466 : EPlant.updateN rand01 6 ET466 = ET472 := by
  with_unfolding_all rfl

theorem accT472 : EPlant.updateN rand01 472 (EPlant.new VarietyKey.cress rand01 0) = ET472 := by
  rw [show (472 : ℕ) = 466 + 6 by norm_num, EPlant.updateN_add, accT466]
  exact chunkT466

/-- Erased simulator state after 478 ticks of the counterexample run. -/
def ET478 : EPlant × ℕ :=
  (⟨.cress, 478, 240, 120,
  .node ⟨false, false, .cress, 12, (5189/80), true, [⟨(679/80), 1, (19/25)⟩, ⟨(1361/80), (-1), (19/25)⟩, ⟨(2043/80), 1, (19/25)⟩, ⟨(545/16), (-1), (19/25)⟩, ⟨(3407/80), 1, (19/25)⟩, ⟨(4089/80), (-1), (19/25)⟩, ⟨(4771/80), 1, (19/25)⟩], (-1), true, (11/5)⟩ (.cons (.node ⟨false, true, .cress, 12, (2407/200), false, [], 1, false, (2387/2500)⟩ (.cons (.node ⟨false, true, .cress, 12, (2407/200), false, [], 1, false, (73997/125000)⟩ (.cons (.node ⟨false, true, .cress, 12, (2407/200), false, [], 1, false, (2293907/6250000)⟩ (.cons (.node ⟨false, true, .cress, 12, (4007/800), true, [], 1, false, (7/20)⟩ (.nil)) (.nil))) (.nil))) (.nil))) (.nil)),
  .node ⟨true, false, .cress, 10, 10, false, [], 1, false, (8/5)⟩ (.cons (.node ⟨true, false, .cress, 10, 10, false, [], 1, false, (124/125)⟩ (.cons (.node ⟨true, false, .cress, 10, 10, false, [], 1, false, (1922/3125)⟩ (.cons (.node ⟨true, false, .cress, 10, 10, false, [], 1, false, (1/2)⟩ (.cons (.node ⟨true, false, .cress, 10, 8, true, [], 1, false, (1/2)⟩ (.nil)) (.nil))) (.nil))) (.nil))) (.nil))⟩, 478)

theorem chunkT472 : EPlant.updateN rand01 6 ET472 = ET478 := by
  with_unfolding_all rfl

theorem accT478 : EPlant.updateN rand01 478 (EPlant.new VarietyKey.cress rand01 0) = ET478 := by
  rw [show (478 : ℕ) = 472 + 6 by norm_num, EPlant.updateN_add, accT472]
  exact chunkT472

/-- Erased simulator state after 484 ticks of the counterexample run. -/
def ET484 : EPlant × ℕ :=
  (⟨.cress, 484, 240, 120,
  .node ⟨false, false, .cress, 12, (1051/16), true, [⟨(679/80), 1, (19/25)⟩, ⟨(1361/80), (-1), (19/25)⟩, ⟨(2043/80), 1, (19/25)⟩, ⟨(545/16), (-1), (19/25)⟩, ⟨(3407/80), 1, (19/25)⟩, ⟨(4089/80), (-1), (19/25)⟩, ⟨(4771/80), 1, (19/25)⟩], (-1), true, (11/5)⟩ (.cons (.node ⟨false, true, .cress, 12, (2407/200), false, [], 1, false, (2387/2500)⟩ (.cons (.node ⟨false, true, .cress, 12, (2407/200), false, [], 1, false, (73997/125000)⟩ (.cons (.node ⟨false, true, .cress, 12, (2407/200), false, [], 1, false, (2293907/6250000)⟩ (.cons (.node ⟨false, true, .cress, 12, (4469/800), true, [], 1, false, (7/20)⟩ (.nil)) (.nil))) (.nil))) (.nil))) (.nil)),
  .node ⟨true, false, .cress, 10, 10, false, [], 1, false, (8/5)⟩ (.cons (.node ⟨true, false, .cress, 10, 10, false, [], 1, false, (124/125)⟩ (.cons (.node ⟨true, false, .cress, 10, 10, false, [], 1, false, (1922/3125)⟩ (.cons (.node ⟨true, false, .cress, 10, 10, false, [], 1, false, (1/2)⟩ (.cons (.node ⟨true, false, .cress, 10, (43/5), true, [], 1, false, (1/2)⟩ (.nil)) (.nil))) (.nil))) (.nil))) (.nil))⟩, 484)

theorem chunkT478 : EPlant.updateN rand01 6 ET478 = ET484 := by
  with_unfolding_all rfl

theorem accT484 : EPlant.updateN rand01 484 (EPlant.new VarietyKey.cress rand01 0) = ET484 := by
  rw [show (484 : ℕ) = 478 + 6 by norm_num, EPlant.updateN_add, accT478]
  exact chunkT478

/-- Erased simulator state after 490 ticks of the counterexample run. -/
def ET490 : EPlant × ℕ :=
  (⟨.cress, 490, 240, 120,
  .node ⟨false, false, .cress, 12, (5321/80), true, [⟨(679/80), 1, (19/25)⟩, ⟨(1361/80), (-1), (19/25)⟩, ⟨(2043/80), 1, (19/25)⟩, ⟨(545/16), (-1), (19/25)⟩, ⟨(3407/80), 1, (19/25)⟩, ⟨(4089/80), (-1), (19/25)⟩, ⟨(4771/80), 1, (19/25)⟩], (-1), true, (11/5)⟩ (.cons (.node ⟨false, true, .cress, 12, (2407/200), false, [], 1, false, (2387/2500)⟩ (.cons (.node ⟨false, true, .cress, 12, (2407/200), false, [], 1, false, (73997/125000)⟩ (.cons (.node ⟨false, true, .cress, 12, (2407/200), false, [], 1, false, (2293907/6250000)⟩ (.cons (.node ⟨false, true, .cress, 12, (4931/800), true, [], 1, false, (7/20)⟩ (.nil)) (.nil))) (.nil))) (.nil))) (.nil)),
  .node ⟨true, false, .cress, 10, 10, false, [], 1, false, (8/5)⟩ (.cons (.node ⟨true, false, .cress, 10, 10, false, [], 1, false, (124/125)⟩ (.cons (.node ⟨true, false, .cress, 10, 10, false, [], 1, false, (1922/3125)⟩ (.cons (.node ⟨true, false, .cress, 10, 10, false, [], 1, false, (1/2)⟩ (.cons (.node ⟨true, false, .cress, 10, (46/5), true, [], 1, false, (1/2)⟩ (.nil)) (.nil))) (.nil))) (.nil))) (.nil))⟩, 490)

theorem chunkT484 : EPlant.updateN rand01 6 ET484 = ET490 := by
  with_unfolding_all rfl

theorem accT490 : EPlant.updateN rand01 490 (EPlant.new VarietyKey.cress rand01 0) = ET490 := by
  rw [show (490 : ℕ) = 484 + 6 by norm_num, EPlant.updateN_add, accT484]
  exact chunkT484

/-- Erased simulator state after 496 ticks of the counterexample run. -/
def ET496 : EPlant × ℕ :=
  (⟨.cress, 496, 240, 120,
  .node ⟨false, false, .cress, 12, (5387/80), true, [⟨(679/80), 1, (19/25)⟩, ⟨(1361/80), (-1), (19/25)⟩, ⟨(2043/80), 1, (19/25)⟩, ⟨(545/16), (-1), (19/25)⟩, ⟨(3407/80), 1, (19/25)⟩, ⟨(4089/80), (-1), (19/25)⟩, ⟨(4771/80), 1, (19/25)⟩], (-1), true, (11/5)⟩ (.cons (.node ⟨false, true, .cress, 12, (2407/200), false, [], 1, false, (2387/2500)⟩ (.cons (.node ⟨false, true, .cress, 12, (2407/200), false, [], 1, false, (73997/125000)⟩ (.cons (.node ⟨false, true, .cress, 12, (2407/200), false, [], 1, false, (2293907/6250000)⟩ (.cons (.node ⟨false, true, .cress, 12, (5393/800), true, [], 1, false, (7/20)⟩ (.nil)) (.nil))) (.nil))) (.nil))) (.nil)),
  .node ⟨true, false, .cress, 10, 10, false, [], 1, false, (8/5)⟩ (.cons (.node ⟨true, false, .cress, 10, 10, false, [], 1, false, (124/125)⟩ (.cons (.node ⟨true, false, .cress, 10, 10, false, [], 1, false, (1922/3125)⟩ (.cons (.node ⟨true, false, .cress, 10, 10, false, [], 1, false, (1/2)⟩ (.cons (.node ⟨true, false, .cress, 10, (49/5), true, [], 1, false, (1/2)⟩ (.nil)) (.nil))) (.nil))) (.nil))) (.nil))⟩, 496)

theorem chunkT490 : EPlant.updateN rand01 6 ET490 = ET496 := by
  with_unfolding_all rfl

theorem accT496 : EPlant.updateN rand01 496 (EPlant.new VarietyKey.cress rand01 0) = ET496 := by
  rw [show (496 : ℕ) = 490 + 6 by norm_num, EPlant.updateN_add, accT490]
  exact chunkT490

/-- Erased simulator state after 502 ticks of the counterexample run. -/
def ET502 : EPlant × ℕ :=
  (⟨.cress, 502, 240, 120,
  .node ⟨false, false, .cress, 12, (5453/80), true, [⟨(679/80), 1, (19/25)⟩, ⟨(1361/80), (-1), (19/25)⟩, ⟨(2043/80), 1, (19/25)⟩, ⟨(545/16), (-1), (19/25)⟩, ⟨(3407/80), 1, (19/25)⟩, ⟨(4089/80), (-1), (19/25)⟩, ⟨(4771/80), 1, (19/25)⟩, ⟨(5453/80), (-1), (19/25)⟩], 1, true, (11/5)⟩ (.cons (.node ⟨false, true, .cress, 12, (2407/200), false, [], 1, false, (2387/2500)⟩ (.cons (.node ⟨false, true, .cress, 12, (2407/200), false, [], 1, false, (73997/125000)⟩ (.cons (.node ⟨false, true, .cress, 12, (2407/200), false, [], 1, false, (2293907/6250000)⟩ (.cons (.node ⟨false, true, .cress, 12, (1171/160), true, [], 1, false, (7/20)⟩ (.nil)) (.nil))) (.nil))) (.nil))) (.nil)),
  .node ⟨true, false, .cress, 10, 10, false, [], 1, false, (8/5)⟩ (.cons (.node ⟨true, false, .cress, 10, 10, false, [], 1, false, (124/125)⟩ (.cons (.node ⟨true, false, .cress, 10, 10, false, [], 1, false, (1922/3125)⟩ (.cons (.node ⟨true, false, .cress, 10, 10, false, [], 1, false, (1/2)⟩ (.cons (.node ⟨true, false, .cress, 10, 10, false, [], 1, false, (1/2)⟩ (.cons (.node ⟨true, false, .cress, 10, (3/5), true, [], 1, false, (1/2)⟩ (.nil)) (.nil))) (.nil))) (.nil))) (.nil))) (.nil))⟩, 505)

theorem chunkT496 : EPlant.updateN rand01 6 ET496 = ET502 := by
  with_unfolding_all rfl

theorem accT502 : EPlant.updateN rand01 502 (EPlant.new VarietyKey.cress rand01 0) = ET502 := by
  rw [show (502 : ℕ) = 496 + 6 by norm_num, EPlant.updateN_add, accT496]
  exact chunkT496

/-- Erased simulator state after 508 ticks of the counterexample run. -/
def ET508 : EPlant × ℕ :=
  (⟨.cress, 508, 240, 120,
  .node ⟨false, false, .cress, 12, (5519/80), true, [⟨(679/80), 1, (19/25)⟩, ⟨(1361/80), (-1), (19/25)⟩, ⟨(2043/80), 1, (19/25)⟩, ⟨(545/16), (-1), (19/25)⟩, ⟨(3407/80), 1, (19/25)⟩, ⟨(4089/80), (-1), (19/25)⟩, ⟨(4771/80), 1, (19/25)⟩, ⟨(5453/80), (-1), (19/25)⟩], 1, true, (11/5)⟩ (.cons (.node ⟨false, true, .cress, 12, (2407/200), false, [], 1, false, (2387/2500)⟩ (.cons (.node ⟨false, true, .cress, 12, (2407/200), false, [], 1, false, (73997/125000)⟩ (.cons (.node ⟨false, true, .cress, 12, (2407/200), false, [], 1, false, (2293907/6250000)⟩ (.cons (.node ⟨false, true, .cress, 12, (6317/800), true, [], 1, false, (7/20)⟩ (.nil)) (.nil))) (.nil))) (.nil))) (.nil)),
  .node ⟨true, false, .cress, 10, 10, false, [], 1, false, (8/5)⟩ (.cons (.node ⟨true, false, .cress, 10, 10, false, [], 1, false, (124/125)⟩ (.cons (.node ⟨true, false, .cress, 10, 10, false, [], 1, false, (1922/3125)⟩ (.cons (.node ⟨true, false, .cress, 10, 10, false, [], 1, false, (1/2)⟩ (.cons (.node ⟨true, false, .cress, 10, 10, false, [], 1, false, (1/2)⟩ (.cons (.node ⟨true, false, .cress, 10, (6/5), true, [], 1, false, (1/2)⟩ (.nil)) (.nil))) (.nil))) (.nil))) (.nil))) (.nil))⟩, 511)

theorem chunkT502 : EPlant.updateN rand01 6 ET502 = ET508 := by
  with_unfolding_all rfl

theorem accT508 : EPlant.updateN rand01 508 (EPlant.new VarietyKey.cress rand01 0) = ET508 := by
  rw [show (508 : ℕ) = 502 + 6 by norm_num, EPlant.updateN_add, accT502]
  exact chunkT502

/-- Erased simulator state after 514 ticks of the counterexample run. -/
def ET514 : EPlant × ℕ :=
  (⟨.cress, 514, 240, 120,
  .node ⟨false, false, .cress, 12, (1117/16), true, [⟨(679/80), 1, (19/25)⟩, ⟨(1361/80), (-1), (19/25)⟩, ⟨(2043/80), 1, (19/25)⟩, ⟨(545/16), (-1), (19/25)⟩, ⟨(3407/80), 1, (19/25)⟩, ⟨(4089/80), (-1), (19/25)⟩, ⟨(4771/80), 1, (19/25)⟩, ⟨(5453/80), (-1), (19/25)⟩], 1, true, (11/5)⟩ (.cons (.node ⟨false, true, .cress, 12, (2407/200), false, [], 1, false, (2387/2500)⟩ (.cons (.node ⟨false, true, .cress, 12, (2407/200), false, [], 1, false, (73997/125000)⟩ (.cons (.node ⟨false, true, .cress, 12, (2407/200), false, [], 1, false, (2293907/6250000)⟩ (.cons (.node ⟨false, true, .cress, 12, (6779/800), true, [], 1, false, (7/20)⟩ (.nil)) (.nil))) (.nil))) (.nil))) (.nil)),
  .node ⟨true, false, .cress, 10, 10, false, [], 1, false, (8/5)⟩ (.cons (.node ⟨true, false, .cress, 10, 10, false, [], 1, false, (124/125)⟩ (.cons (.node ⟨true, false, .cress, 10, 10, false, [], 1, false, (1922/3125)⟩ (.cons (.node ⟨true, false, .cress, 10, 10, false, [], 1, false, (1/2)⟩ (.cons (.node ⟨true, false, .cress, 10, 10, false, [], 1, false, (1/2)⟩ (.cons (.node ⟨true, false, .cress, 10, (9/5), true, [], 1, false, (1/2)⟩ (.nil)) (.nil))) (.nil))) (.nil))) (.nil))) (.nil))⟩, 517)

theorem chunkT508 : EPlant.updateN rand01 6 ET508 = ET514 := by
  with_unfolding_all rfl

theorem accT514 : EPlant.updateN rand01 514 (EPlant.new VarietyKey.cress rand01 0) = ET514 := by
  rw [show (514 : ℕ) = 508 + 6 by norm_num, EPlant.updateN_add, accT508]
  exact chunkT508

/-- Erased simulator state after 520 ticks of the counterexample run. -/
def ET520 : EPlant × ℕ :=
  (⟨.cress, 520, 240, 120,
  .node ⟨false, false, .cress, 12, (5651/80), true, [⟨(679/80), 1, (19/25)⟩, ⟨(1361/80), (-1), (19/25)⟩, ⟨(2043/80), 1, (19/25)⟩, ⟨(545/16), (-1), (19/25)⟩, ⟨(3407/80), 1, (19/25)⟩, ⟨(4089/80), (-1), (19/25)⟩, ⟨(4771/80), 1, (19/25)⟩, ⟨(5453/80), (-1), (19/25)⟩], 1, true, (11/5)⟩ (.cons (.node ⟨false, true, .cress, 12, (2407/200), false, [], 1, false, (2387/2500)⟩ (.cons (.node ⟨false, true, .cress, 12, (2407/200), false, [], 1, false, (73997/125000)⟩ (.cons (.node ⟨false, true, .cress, 12, (2407/200), false, [], 1, false, (2293907/6250000)⟩ (.cons (.node ⟨false, true, .cress, 12, (7241/800), true, [], 1, false, (7/20)⟩ (.nil)) (.nil))) (.nil))) (.nil))) (.nil)),
  .node ⟨true, false, .cress, 10, 10, false, [], 1, false, (8/5)⟩ (.cons (.node ⟨true, false, .cress, 10, 10, false, [], 1, false, (124/125)⟩ (.cons (.node ⟨true, false, .cress, 10, 10, false, [], 1, false, (1922/3125)⟩ (.cons (.node ⟨true, false, .cress, 10, 10, false, [], 1, false, (1/2)⟩ (.cons (.node ⟨true, false, .cress, 10, 10, false, [], 1, false, (1/2)⟩ (.cons (.node ⟨true, false, .cress, 10, (12/5), true, [], 1, false, (1/2)⟩ (.nil)) (.nil))) (.nil))) (.nil))) (.nil))) (.nil))⟩, 523)

theorem chunkT514 : EPlant.updateN rand01 6 ET514 = ET520 := by
  with_unfolding_all rfl

theorem accT520 : EPlant.updateN rand01 520 (EPlant.new VarietyKey.cress rand01 0) = ET520 := by
  rw [show (520 : ℕ) = 514 + 6 by norm_num, EPlant.updateN_add, accT514]
  exact chunkT514

/-- Erased simulator state after 526 ticks of the counterexample run. -/
def ET526 : EPlant × ℕ :=
  (⟨.cress, 526, 240, 120,
  .node ⟨false, false, .cress, 12, (5717/80), true, [⟨(679/80), 1, (19/25)⟩, ⟨(1361/80), (-1), (19/25)⟩, ⟨(2043/80), 1, (19/25)⟩, ⟨(545/16), (-1), (19/25)⟩, ⟨(3407/80), 1, (19/25)⟩, ⟨(4089/80), (-1), (19/25)⟩, ⟨(4771/80), 1, (19/25)⟩, ⟨(5453/80), (-1), (19/25)⟩], 1, true, (11/5)⟩ (.cons (.node ⟨false, true, .cress, 12, (2407/200), false, [], 1, false, (2387/2500)⟩ (.cons (.node ⟨false, true, .cress, 12, (2407/200), false, [], 1, false, (73997/125000)⟩ (.cons (.node ⟨false, true, .cress, 12, (2407/200), false, [], 1, false, (2293907/6250000)⟩ (.cons (.node ⟨false, true, .cress, 12, (7703/800), true, [], 1, false, (7/20)⟩ (.nil)) (.nil))) (.nil))) (.nil))) (.nil)),
  .node ⟨true, false, .cress, 10, 10, false, [], 1, false, (8/5)⟩ (.cons (.node ⟨true, false, .cress, 10, 10, false, [], 1, false, (124/125)⟩ (.cons (.node ⟨true, false, .cress, 10, 10, false, [], 1, false, (1922/3125)⟩ (.cons (.node ⟨true, false, .cress, 10, 10, false, [], 1, false, (1/2)⟩ (.cons (.node ⟨true, false, .cress, 10, 10, false, [], 1, false, (1/2)⟩ (.cons (.node ⟨true, false, .cress, 10, 3, true, [], 1, false, (1/2)⟩ (.nil)) (.nil))) (.nil))) (.nil))) (.nil))) (.nil))⟩, 529)

theorem chunkT520 : EPlant.updateN rand01 6 ET520 = ET526 := by
  with_unfolding_all rfl

theorem accT526 : EPlant.updateN rand01 526 (EPlant.new VarietyKey.cress rand01 0) = ET526 := by
  rw [show (526 : ℕ) = 520 + 6 by norm_num, EPlant.updateN_add, accT520]
  exact chunkT520

/-- Erased simulator state after 532 ticks of the counterexample run. -/
def ET532 : EPlant × ℕ :=
  (⟨.cress, 532, 240, 120,
  .node ⟨false, false, .cress, 12, (5783/80), true, [⟨(679/80), 1, (19/25)⟩, ⟨(1361/80), (-1), (19/25)⟩, ⟨(2043/80), 1, (19/25)⟩, ⟨(545/16), (-1), (19/25)⟩, ⟨(3407/80), 1, (19/25)⟩, ⟨(4089/80), (-1), (19/25)⟩, ⟨(4771/80), 1, (19/25)⟩, ⟨(5453/80), (-1), (19/25)⟩], 1, true, (11/5)⟩ (.cons (.node ⟨false, true, .cress, 12, (2407/200), false, [], 1, false, (2387/2500)⟩ (.cons (.node ⟨false, true, .cress, 12, (2407/200), false, [], 1, false, (73997/125000)⟩ (.cons (.node ⟨false, true, .cress, 12, (2407/200), false, [], 1, false, (2293907/6250000)⟩ (.cons (.node ⟨false, true, .cress, 12, (1633/160), true, [], 1, false, (7/20)⟩ (.nil)) (.nil))) (.nil))) (.nil))) (.nil)),
  .node ⟨true, false, .cress, 10, 10, false, [], 1, false, (8/5)⟩ (.cons (.node ⟨true, false, .cress, 10, 10, false, [], 1, false, (124/125)⟩ (.cons (.node ⟨true, false, .cress, 10, 10, false, [], 1, false, (1922/3125)⟩ (.cons (.node ⟨true, false, .cress, 10, 10, false, [], 1, false, (1/2)⟩ (.cons (.node ⟨true, false, .cress, 10, 10, false, [], 1, false, (1/2)⟩ (.cons (.node ⟨true, false, .cress, 10, (18/5), true, [], 1, false, (1/2)⟩ (.nil)) (.nil))) (.nil))) (.nil))) (.nil))) (.nil))⟩, 535)

theorem chunkT526 : EPlant.updateN rand01 6 ET526 = ET532 := by
  with_unfolding_all rfl

theorem accT532 : EPlant.updateN rand01 532 (EPlant.new VarietyKey.cress rand01 0) = ET532 := by
  rw [show (532 : ℕ) = 526 + 6 by norm_num, EPlant.updateN_add, accT526]
  exact chunkT526

/-- Erased simulator state after 538 ticks of the counterexample run. -/
def ET538 : EPlant × ℕ :=
  (⟨.cress, 538, 240, 120,
  .node ⟨false, false, .cress, 12, (5849/80), true, [⟨(679/80), 1, (19/25)⟩, ⟨(1361/80), (-1), (19/25)⟩, ⟨(2043/80), 1, (19/25)⟩, ⟨(545/16), (-1), (19/25)⟩, ⟨(3407/80), 1, (19/25)⟩, ⟨(4089/80), (-1), (19/25)⟩, ⟨(4771/80), 1, (19/25)⟩, ⟨(5453/80), (-1), (19/25)⟩], 1, true, (11/5)⟩ (.cons (.node ⟨false, true, .cress, 12, (2407/200), false, [], 1, false, (2387/2500)⟩ (.cons (.node ⟨false, true, .cress, 12, (2407/200), false, [], 1, false, (73997/125000)⟩ (.cons (.node ⟨false, true, .cress, 12, (2407/200), false, [], 1, false, (2293907/6250000)⟩ (.cons (.node ⟨false, true, .cress, 12, (8627/800), true, [], 1, false, (7/20)⟩ (.nil)) (.nil))) (.nil))) (.nil))) (.nil)),
  .node ⟨true, false, .cress, 10, 10, false, [], 1, false, (8/5)⟩ (.cons (.node ⟨true, false, .cress, 10, 10, false, [], 1, false, (124/125)⟩ (.cons (.node ⟨true, false, .cress, 10, 10, false, [], 1, false, (1922/3125)⟩ (.cons (.node ⟨true, false, .cress, 10, 10, false, [], 1, false, (1/2)⟩ (.cons (.node ⟨true, false, .cress, 10, 10, false, [], 1, false, (1/2)⟩ (.cons (.node ⟨true, false, .cress, 10, (21/5), true, [], 1, false, (1/2)⟩ (.nil)) (.nil))) (.nil))) (.nil))) (.nil))) (.nil))⟩, 541)

theorem chunkT532 : EPlant.updateN rand01 6 ET532 = ET538 := by
  with_unfolding_all rfl

theorem accT538 : EPlant.updateN rand01 538 (EPlant.new VarietyKey.cress rand01 0) = ET538 := by
  rw [show (538 : ℕ) = 532 + 6 by norm_num, EPlant.updateN_add, accT532]
  exact chunkT532

/-- Erased simulator state after 544 ticks of the counterexample run. -/
def ET544 : EPlant × ℕ :=
  (⟨.cress, 544, 240, 120,
  .node ⟨false, false, .cress, 12, (1183/16), true, [⟨(679/80), 1, (19/25)⟩, ⟨(1361/80), (-1), (19/25)⟩, ⟨(2043/80), 1, (19/25)⟩, ⟨(545/16), (-1), (19/25)⟩, ⟨(3407/80), 1, (19/25)⟩, ⟨(4089/80), (-1), (19/25)⟩, ⟨(4771/80), 1, (19/25)⟩, ⟨(5453/80), (-1), (19/25)⟩], 1, true, (11/5)⟩ (.cons (.node ⟨false, true, .cress, 12, (2407/200), false, [], 1, false, (2387/2500)⟩ (.cons (.node ⟨false, true, .cress, 12, (2407/200), false, [], 1, false, (73997/125000)⟩ (.cons (.node ⟨false, true, .cress, 12, (2407/200), false, [], 1, false, (2293907/6250000)⟩ (.cons (.node ⟨false, true, .cress, 12, (9089/800), true, [], 1, false, (7/20)⟩ (.nil)) (.nil))) (.nil))) (.nil))) (.nil)),
  .node ⟨true, false, .cress, 10, 10, false, [], 1, false, (8/5)⟩ (.cons (.node ⟨true, false, .cress, 10, 10, false, [], 1, false, (124/125)⟩ (.cons (.node ⟨true, false, .cress, 10, 10, false, [], 1, false, (1922/3125)⟩ (.cons (.node ⟨true, false, .cress, 10, 10, false, [], 1, false, (1/2)⟩ (.cons (.node ⟨true, false, .cress, 10, 10, false, [], 1, false, (1/2)⟩ (.cons (.node ⟨true, false, .cress, 10, (24/5), true, [], 1, false, (1/2)⟩ (.nil)) (.nil))) (.nil))) (.nil))) (.nil))) (.nil))⟩, 547)

theorem chunkT538 : EPlant.updateN rand01 6 ET538 = ET544 := by
  with_unfolding_all rfl

theorem accT544 : EPlant.updateN rand01 544 (EPlant.new VarietyKey.cress rand01 0) = ET544 := by
  rw [show (544 : ℕ) = 538 + 6 by norm_num, EPlant.updateN_add, accT538]
  exact chunkT538

/-- Erased simulator state after 550 ticks of the counterexample run. -/
def ET550 : EPlant × ℕ :=
  (⟨.cress, 550, 240, 120,
  .node ⟨false, false, .cress, 12, (5981/80), true, [⟨(679/80), 1, (19/25)⟩, ⟨(1361/80), (-1), (19/25)⟩, ⟨(2043/80), 1, (19/25)⟩, ⟨(545/16), (-1), (19/25)⟩, ⟨(3407/80), 1, (19/25)⟩, ⟨(4089/80), (-1), (19/25)⟩, ⟨(4771/80), 1, (19/25)⟩, ⟨(5453/80), (-1), (19/25)⟩], 1, true, (11/5)⟩ (.cons (.node ⟨false, true, .cress, 12, (2407/200), false, [], 1, false, (2387/2500)⟩ (.cons (.node ⟨false, true, .cress, 12, (2407/200), false, [], 1, false, (73997/125000)⟩ (.cons (.node ⟨false, true, .cress, 12, (2407/200), false, [], 1, false, (2293907/6250000)⟩ (.cons (.node ⟨false, true, .cress, 12, (9551/800), true, [], 1, false, (7/20)⟩ (.nil)) (.nil))) (.nil))) (.nil))) (.nil)),
  .node ⟨true, false, .cress, 10, 10, false, [], 1, false, (8/5)⟩ (.cons (.node ⟨true, false, .cress, 10, 10, false, [], 1, false, (124/125)⟩ (.cons (.node ⟨true, false, .cress, 10, 10, false, [], 1, false, (1922/3125)⟩ (.cons (.node ⟨true, false, .cress, 10, 10, false, [], 1, false, (1/2)⟩ (.cons (.node ⟨true, false, .cress, 10, 10, false, [], 1, false, (1/2)⟩ (.cons (.node ⟨true, false, .cress, 10, (27/5), true, [], 1, false, (1/2)⟩ (.nil)) (.nil))) (.nil))) (.nil))) (.nil))) (.nil))⟩, 553)

theorem chunkT544 : EPlant.updateN rand01 6 ET544 = ET550 := by
  with_unfolding_all rfl

theorem accT550 : EPlant.updateN rand01 550 (EPlant.new VarietyKey.cress rand01 0) = ET550 := by
  rw [show (550 : ℕ) = 544 + 6 by norm_num, EPlant.updateN_add, accT544]
  exact chunkT544

/-- Erased simulator state after 556 ticks of the counterexample run. -/
def ET556 : EPlant × ℕ :=
  (⟨.cress, 556, 240, 120,
  .node ⟨false, false, .cress, 12, (6047/80), true, [⟨(679/80), 1, (19/25)⟩, ⟨(1361/80), (-1), (19/25)⟩, ⟨(2043/80), 1, (19/25)⟩, ⟨(545/16), (-1), (19/25)⟩, ⟨(3407/80), 1, (19/25)⟩, ⟨(4089/80), (-1), (19/25)⟩, ⟨(4771/80), 1, (19/25)⟩, ⟨(5453/80), (-1), (19/25)⟩], 1, true, (11/5)⟩ (.cons (.node ⟨false, true, .cress, 12, (2407/200), false, [], 1, false, (2387/2500)⟩ (.cons (.node ⟨false, true, .cress, 12, (2407/200), false, [], 1, false, (73997/125000)⟩ (.cons (.node ⟨false, true, .cress, 12, (2407/200), false, [], 1, false, (2293907/6250000)⟩ (.cons (.node ⟨false, true, .cress, 12, (2407/200), false, [], 1, false, (7/20)⟩ (.cons (.node ⟨false, true, .cress, 12, (271/400), true, [], 1, false, (7/20)⟩ (.nil)) (.nil))) (.nil))) (.nil))) (.nil))) (.nil)),
  .node ⟨true, false, .cress, 10, 10, false, [], 1, false, (8/5)⟩ (.cons (.node ⟨true, false, .cress, 10, 10, false, [], 1, false, (124/125)⟩ (.cons (.node ⟨true, false, .cress, 10, 10, false, [], 1, false, (1922/3125)⟩ (.cons (.node ⟨true, false, .cress, 10, 10, false, [], 1, false, (1/2)⟩ (.cons (.node ⟨true, false, .cress, 10, 10, false, [], 1, false, (1/2)⟩ (.cons (.node ⟨true, false, .cress, 10, 6, true, [], 1, false, (1/2)⟩ (.nil)) (.nil))) (.nil))) (.nil))) (.nil))) (.nil))⟩, 561)

theorem chunkT550 : EPlant.updateN rand01 6 ET550 = ET556 := by
  with_unfolding_all rfl

theorem accT556 : EPlant.updateN rand01 556 (EPlant.new VarietyKey.cress rand01 0) = ET556 := by
  rw [show (556 : ℕ) = 550 + 6 by norm_num, EPlant.updateN_add, accT550]
  exact chunkT550

/-- Erased simulator state after 562 ticks of the counterexample run. -/
def ET562 : EPlant × ℕ :=
  (⟨.cress, 562, 240, 120,
  .node ⟨false, false, .cress, 12, (6113/80), true, [⟨(679/80), 1, (19/25)⟩, ⟨(1361/80), (-1), (19/25)⟩, ⟨(2043/80), 1, (19/25)⟩, ⟨(545/16), (-1), (19/25)⟩, ⟨(3407/80), 1, (19/25)⟩, ⟨(4089/80), (-1), (19/25)⟩, ⟨(4771/80), 1, (19/25)⟩, ⟨(5453/80), (-1), (19/25)⟩], 1, true, (11/5)⟩ (.cons (.node ⟨false, true, .cress, 12, (2407/200), false, [], 1, false, (2387/2500)⟩ (.cons (.node ⟨false, true, .cress, 12, (2407/200), false, [], 1, false, (73997/125000)⟩ (.cons (.node ⟨false, true, .cress, 12, (2407/200), false, [], 1, false, (2293907/6250000)⟩ (.cons (.node ⟨false, true, .cress, 12, (2407/200), false, [], 1, false, (7/20)⟩ (.cons (.node ⟨false, true, .cress, 12, (251/200), true, [], 1, false, (7/20)⟩ (.nil)) (.nil))) (.nil))) (.nil))) (.nil))) (.nil)),
  .node ⟨true, false, .cress, 10, 10, false, [], 1, false, (8/5)⟩ (.cons (.node ⟨true, false, .cress, 10, 10, false, [], 1, false, (124/125)⟩ (.cons (.node ⟨true, false, .cress, 10, 10, false, [], 1, false, (1922/3125)⟩ (.cons (.node ⟨true, false, .cress, 10, 10, false, [], 1, false, (1/2)⟩ (.cons (.node ⟨true, false, .cress, 10, 10, false, [], 1, false, (1/2)⟩ (.cons (.node ⟨true, false, .cress, 10, (33/5), true, [], 1, false, (1/2)⟩ (.nil)) (.nil))) (.nil))) (.nil))) (.nil))) (.nil))⟩, 567)

theorem chunkT556 : EPlant.updateN rand01 6 ET556 = ET562 := by
  with_unfolding_all rfl

theorem accT562 : EPlant.updateN rand01 562 (EPlant.new VarietyKey.cress rand01 0) = ET562 := by
  rw [show (562 : ℕ) = 556 + 6 by norm_num, EPlant.updateN_add, accT556]
  exact chunkT556

/-- Erased simulator state after 568 ticks of the counterexample run. -/
def ET568 : EPlant × ℕ :=
  (⟨.cress, 568, 240, 120,
  .node ⟨false, false, .cress, 12, (6179/80), true, [⟨(679/80), 1, (19/25)⟩, ⟨(1361/80), (-1), (19/25)⟩, ⟨(2043/80), 1, (19/25)⟩, ⟨(545/16), (-1), (19/25)⟩, ⟨(3407/80), 1, (19/25)⟩, ⟨(4089/80), (-1), (19/25)⟩, ⟨(4771/80), 1, (19/25)⟩, ⟨(5453/80), (-1), (19/25)⟩, ⟨(1227/16), 1, (19/25)⟩], (-1), true, (11/5)⟩ (.cons (.node ⟨false, true, .cress, 12, (2407/200), false, [], 1, false, (2387/2500)⟩ (.cons (.node ⟨false, true, .cress, 12, (2407/200), false, [], 1, false, (73997/125000)⟩ (.cons (.node ⟨false, true, .cress, 12, (2407/200), false, [], 1, false, (2293907/6250000)⟩ (.cons (.node ⟨false, true, .cress, 12, (2407/200), false, [], 1, false, (7/20)⟩ (.cons (.node ⟨false, true, .cress, 12, (733/400), true, [], 1, false, (7/20)⟩ (.nil)) (.nil))) (.nil))) (.nil))) (.nil))) (.nil)),
  .node ⟨true, false, .cress, 10, 10, false, [], 1, false, (8/5)⟩ (.cons (.node ⟨true, false, .cress, 10, 10, false, [], 1, false, (124/125)⟩ (.cons (.node ⟨true, false, .cress, 10, 10, false, [], 1, false, (1922/3125)⟩ (.cons (.node ⟨true, false, .cress, 10, 10, false, [], 1, false, (1/2)⟩ (.cons (.node ⟨true, false, .cress, 10, 10, false, [], 1, false, (1/2)⟩ (.cons (.node ⟨true, false, .cress, 10, (36/5), true, [], 1, false, (1/2)⟩ (.nil)) (.nil))) (.nil))) (.nil))) (.nil))) (.nil))⟩, 574)

theorem chunkT562 : EPlant.updateN rand01 6 ET562 = ET568 := by
  with_unfolding_all rfl

theorem accT568 : EPlant.updateN rand01 568 (EPlant.new VarietyKey.cress rand01 0) = ET568 := by
  rw [show (568 : ℕ) = 562 + 6 by norm_num, EPlant.updateN_add, accT562]
  exact chunkT562

/-- Erased simulator state after 574 ticks of the counterexample run. -/
def ET574 : EPlant × ℕ :=
  (⟨.cress, 574, 240, 120,
  .node ⟨false, false, .cress, 12, (1249/16), true, [⟨(679/80), 1, (19/25)⟩, ⟨(1361/80), (-1), (19/25)⟩, ⟨(2043/80), 1, (19/25)⟩, ⟨(545/16), (-1), (19/25)⟩, ⟨(3407/80), 1, (19/25)⟩, ⟨(4089/80), (-1), (19/25)⟩, ⟨(4771/80), 1, (19/25)⟩, ⟨(5453/80), (-1), (19/25)⟩, ⟨(1227/16), 1, (19/25)⟩], (-1), true, (11/5)⟩ (.cons (.node ⟨false, true, .cress, 12, (2407/200), false, [], 1, false, (2387/2500)⟩ (.cons (.node ⟨false, true, .cress, 12, (2407/200), false, [], 1, false, (73997/125000)⟩ (.cons (.node ⟨false, true, .cress, 12, (2407/200), false, [], 1, false, (2293907/6250000)⟩ (.cons (.node ⟨false, true, .cress, 12, (2407/200), false, [], 1, false, (7/20)⟩ (.cons (.node ⟨false, true, .cress, 12, (241/100), true, [], 1, false, (7/20)⟩ (.nil)) (.nil))) (.nil))) (.nil))) (.nil))) (.nil)),
  .node ⟨true, false, .cress, 10, 10, false, [], 1, false, (8/5)⟩ (.cons (.node ⟨true, false, .cress, 10, 10, false, [], 1, false, (124/125)⟩ (.cons (.node ⟨true, false, .cress, 10, 10, false, [], 1, false, (1922/3125)⟩ (.cons (.node ⟨true, false, .cress, 10, 10, false, [], 1, false, (1/2)⟩ (.cons (.node ⟨true, false, .cress, 10, 10, false, [], 1, false, (1/2)⟩ (.cons (.node ⟨true, false, .cress, 10, (39/5), true, [], 1, false, (1/2)⟩ (.nil)) (.nil))) (.nil))) (.nil))) (.nil))) (.nil))⟩, 580)

theorem chunkT568 : EPlant.updateN rand01 6 ET568 = ET574 := by
  with_unfolding_all rfl

theorem accT574 : EPlant.updateN rand01 574 (EPlant.new VarietyKey.cress rand01 0) = ET574 := by
  rw [show (574 : ℕ) = 568 + 6 by norm_num, EPlant.updateN_add, accT568]
  exact chunkT568

/-- Erased simulator state after 580 ticks of the counterexample run. -/
def ET580 : EPlant × ℕ :=
  (⟨.cress, 580, 240, 120,
  .node ⟨false, false, .cress, 12, (6311/80), true, [⟨(679/80), 1, (19/25)⟩, ⟨(1361/80), (-1), (19/25)⟩, ⟨(2043/80), 1, (19/25)⟩, ⟨(545/16), (-1), (19/25)⟩, ⟨(3407/80), 1, (19/25)⟩, ⟨(4089/80), (-1), (19/25)⟩, ⟨(4771/80), 1, (19/25)⟩, ⟨(5453/80), (-1), (19/25)⟩, ⟨(1227/16), 1, (19/25)⟩], (-1), true, (11/5)⟩ (.cons (.node ⟨false, true, .cress, 12, (2407/200), false, [], 1, false, (2387/2500)⟩ (.cons (.node ⟨false, true, .cress, 12, (2407/200), false, [], 1, false, (73997/125000)⟩ (.cons (.node ⟨false, true, .cress, 12, (2407/200), false, [], 1, false, (2293907/6250000)⟩ (.cons (.node ⟨false, true, .cress, 12, (2407/200), false, [], 1, false, (7/20)⟩ (.cons (.node ⟨false, true, .cress, 12, (239/80), true, [], 1, false, (7/20)⟩ (.nil)) (.nil))) (.nil))) (.nil))) (.nil))) (.nil)),
  .node ⟨true, false, .cress, 10, 10, false, [], 1, false, (8/5)⟩ (.cons (.node ⟨true, false, .cress, 10, 10, false, [], 1, false, (124/125)⟩ (.cons (.node ⟨true, false, .cress, 10, 10, false, [], 1, false, (1922/3125)⟩ (.cons (.node ⟨true, false, .cress, 10, 10, false, [], 1, false, (1/2)⟩ (.cons (.node ⟨true, false, .cress, 10, 10, false, [], 1, false, (1/2)⟩ (.cons (.node ⟨true, false, .cress, 10, (42/5), true, [], 1, false, (1/2)⟩ (.nil)) (.nil))) (.nil))) (.nil))) (.nil))) (.nil))⟩, 586)

theorem chunkT574 : EPlant.updateN rand01 6 ET574 = ET580 := by
  with_unfolding_all rfl

theorem accT580 : EPlant.updateN rand01 580 (EPlant.new VarietyKey.cress rand01 0) = ET580 := by
  rw [show (580 : ℕ) = 574 + 6 by norm_num, EPlant.updateN_add, accT574]
  exact chunkT574

/-- Erased simulator state after 586 ticks of the counterexample run. -/
def ET586 : EPlant × ℕ :=
  (⟨.cress, 586, 240, 120,
  .node ⟨false, false, .cress, 12, (6377/80), true, [⟨(679/80), 1, (19/25)⟩, ⟨(1361/80), (-1), (19/25)⟩, ⟨(2043/80), 1, (19/25)⟩, ⟨(545/16), (-1), (19/25)⟩, ⟨(3407/80), 1, (19/25)⟩, ⟨(4089/80), (-1), (19/25)⟩, ⟨(4771/80), 1, (19/25)⟩, ⟨(5453/80), (-1), (19/25)⟩, ⟨(1227/16), 1, (19/25)⟩], (-1), true, (11/5)⟩ (.cons (.node ⟨false, true, .cress, 12, (2407/200), false, [], 1, false, (2387/2500)⟩ (.cons (.node ⟨false, true, .cress, 12, (2407/200), false, [], 1, false, (73997/125000)⟩ (.cons (.node ⟨false, true, .cress, 12, (2407/200), false, [], 1, false, (2293907/6250000)⟩ (.cons (.node ⟨false, true, .cress, 12, (2407/200), false, [], 1, false, (7/20)⟩ (.cons (.node ⟨false, true, .cress, 12, (713/200), true, [], 1, false, (7/20)⟩ (.nil)) (.nil))) (.nil))) (.nil))) (.nil))) (.nil)),
  .node ⟨true, false, .cress, 10, 10, false, [], 1, false, (8/5)⟩ (.cons (.node ⟨true, false, .cress, 10, 10, false, [], 1, false, (124/125)⟩ (.cons (.node ⟨true, false, .cress, 10, 10, false, [], 1, false, (1922/3125)⟩ (.cons (.node ⟨true, false, .cress, 10, 10, false, [], 1, false, (1/2)⟩ (.cons (.node ⟨true, false, .cress, 10, 10, false, [], 1, false, (1/2)⟩ (.cons (.node ⟨true, false, .cress, 10, 9, true, [], 1, false, (1/2)⟩ (.nil)) (.nil))) (.nil))) (.nil))) (.nil))) (.nil))⟩, 592)

theorem chunkT580 : EPlant.updateN rand01 6 ET580 = ET586 := by
  with_unfolding_all rfl

theorem accT586 : EPlant.updateN rand01 586 (EPlant.new VarietyKey.cress rand01 0) = ET586 := by
  rw [show (586 : ℕ) = 580 + 6 by norm_num, EPlant.updateN_add, accT580]
  exact chunkT580

/-- Erased simulator state after 592 ticks of the counterexample run. -/
def ET592 : EPlant × ℕ :=
  (⟨.cress, 592, 240, 120,
  .node ⟨false, false, .cress, 12, (6443/80), true, [⟨(679/80), 1, (19/25)⟩, ⟨(1361/80), (-1), (19/25)⟩, ⟨(2043/80), 1, (19/25)⟩, ⟨(545/16), (-1), (19/25)⟩, ⟨(3407/80), 1, (19/25)⟩, ⟨(4089/80), (-1), (19/25)⟩, ⟨(4771/80), 1, (19/25)⟩, ⟨(5453/80), (-1), (19/25)⟩, ⟨(1227/16), 1, (19/25)⟩], (-1), true, (11/5)⟩ (.cons (.node ⟨false, true, .cress, 12, (2407/200), false, [], 1, false, (2387/2500)⟩ (.cons (.node ⟨false, true, .cress, 12, (2407/200), false, [], 1, false, (73997/125000)⟩ (.cons (.node ⟨false, true, .cress, 12, (2407/200), false, [], 1, false, (2293907/6250000)⟩ (.cons (.node ⟨false, true, .cress, 12, (2407/200), false, [], 1, false, (7/20)⟩ (.cons (.node ⟨false, true, .cress, 12, (1657/400), true, [], 1, false, (7/20)⟩ (.nil)) (.nil))) (.nil))) (.nil))) (.nil))) (.nil)),
  .node ⟨true, false, .cress, 10, 10, false, [], 1, false, (8/5)⟩ (.cons (.node ⟨true, false, .cress, 10, 10, false, [], 1, false, (124/125)⟩ (.cons (.node ⟨true, false, .cress, 10, 10, false, [], 1, false, (1922/3125)⟩ (.cons (.node ⟨true, false, .cress, 10, 10, false, [], 1, false, (1/2)⟩ (.cons (.node ⟨true, false, .cress, 10, 10, false, [], 1, false, (1/2)⟩ (.cons (.node ⟨true, false, .cress, 10, (48/5), true, [], 1, false, (1/2)⟩ (.nil)) (.nil))) (.nil))) (.nil))) (.nil))) (.nil))⟩, 598)

theorem chunkT586 : EPlant.updateN rand01 6 ET586 = ET592 := by
  with_unfolding_all rfl

theorem accT592 : EPlant.updateN rand01 592 (EPlant.new VarietyKey.cress rand01 0) = ET592 := by
  rw [show (592 : ℕ) = 586 + 6 by norm_num, EPlant.updateN_add, accT586]
  exact chunkT586

/-- Erased simulator state after 598 ticks of the counterexample run. -/
def ET598 : EPlant × ℕ :=
  (⟨.cress, 598, 240, 120,
  .node ⟨false, false, .cress, 12, (6509/80), true, [⟨(679/80), 1, (19/25)⟩, ⟨(1361/80), (-1), (19/25)⟩, ⟨(2043/80), 1, (19/25)⟩, ⟨(545/16), (-1), (19/25)⟩, ⟨(3407/80), 1, (19/25)⟩, ⟨(4089/80), (-1), (19/25)⟩, ⟨(4771/80), 1, (19/25)⟩, ⟨(5453/80), (-1), (19/25)⟩, ⟨(1227/16), 1, (19/25)⟩], (-1), true, (11/5)⟩ (.cons (.node ⟨false, true, .cress, 12, (2407/200), false, [], 1, false, (2387/2500)⟩ (.cons (.node ⟨false, true, .cress, 12, (2407/200), false, [], 1, false, (73997/125000)⟩ (.cons (.node ⟨false, true, .cress, 12, (2407/200), false, [], 1, false, (2293907/6250000)⟩ (.cons (.node ⟨false, true, .cress, 12, (2407/200), false, [], 1, false, (7/20)⟩ (.cons (.node ⟨false, true, .cress, 12, (118/25), true, [], 1, false, (7/20)⟩ (.nil)) (.nil))) (.nil))) (.nil))) (.nil))) (.nil)),
  .node ⟨true, false, .cress, 10, 10, false, [], 1, false, (8/5)⟩ (.cons (.node ⟨true, false, .cress, 10, 10, false, [], 1, false, (124/125)⟩ (.cons (.node ⟨true, false, .cress, 10, 10, false, [], 1, false, (1922/3125)⟩ (.cons (.node ⟨true, false, .cress, 10, 10, false, [], 1, false, (1/2)⟩ (.cons (.node ⟨true, false, .cress, 10, 10, false, [], 1, false, (1/2)⟩ (.cons (.node ⟨true, false, .cress, 10, 10, false, [], 1, false, (1/2)⟩ (.cons (.node ⟨true, false, .cress, 10, (2/5), true, [], 1, false, (1/2)⟩ (.nil)) (.nil))) (.nil))) (.nil))) (.nil))) (.nil))) (.nil))⟩, 606)

theorem chunkT592 : EPlant.updateN rand01 6 ET592 = ET598 := by
  with_unfolding_all rfl

theorem accT598 : EPlant.updateN rand01 598 (EPlant.new VarietyKey.cress rand01 0) = ET598 := by
  rw [show (598 : ℕ) = 592 + 6 by norm_num, EPlant.updateN_add, accT592]
  exact chunkT592

/-- Erased simulator state after 604 ticks of the counterexample run. -/
def ET604 : EPlant × ℕ :=
  (⟨.cress, 604, 240, 120,
  .node ⟨false, false, .cress, 12, (1315/16), true, [⟨(679/80), 1, (19/25)⟩, ⟨(1361/80), (-1), (19/25)⟩, ⟨(2043/80), 1, (19/25)⟩, ⟨(545/16), (-1), (19/25)⟩, ⟨(3407/80), 1, (19/25)⟩, ⟨(4089/80), (-1), (19/25)⟩, ⟨(4771/80), 1, (19/25)⟩, ⟨(5453/80), (-1), (19/25)⟩, ⟨(1227/16), 1, (19/25)⟩], (-1), true, (11/5)⟩ (.cons (.node ⟨false, true, .cress, 12, (2407/200), false, [], 1, false, (2387/2500)⟩ (.cons (.node ⟨false, true, .cress, 12, (2407/200), false, [], 1, false, (73997/125000)⟩ (.cons (.node ⟨false, true, .cress, 12, (2407/200), false, [], 1, false, (2293907/6250000)⟩ (.cons (.node ⟨false, true, .cress, 12, (2407/200), false, [], 1, false, (7/20)⟩ (.cons (.node ⟨false, true, .cress, 12, (2119/400), true, [], 1, false, (7/20)⟩ (.nil)) (.nil))) (.nil))) (.nil))) (.nil))) (.nil)),
  .node ⟨true, false, .cress, 10, 10, false, [], 1, false, (8/5)⟩ (.cons (.node ⟨true, false, .cress, 10, 10, false, [], 1, false, (124/125)⟩ (.cons (.node ⟨true, false, .cress, 10, 10, false, [], 1, false, (1922/3125)⟩ (.cons (.node ⟨true, false, .cress, 10, 10, false, [], 1, false, (1/2)⟩ (.cons (.node ⟨true, false, .cress, 10, 10, false, [], 1, false, (1/2)⟩ (.cons (.node ⟨true, false, .cress, 10, 10, false, [], 1, false, (1/2)⟩ (.cons (.node ⟨true, false, .cress, 10, 1, true, [], 1, false, (1/2)⟩ (.nil)) (.nil))) (.nil))) (.nil))) (.nil))) (.nil))) (.nil))⟩, 612)

theorem chunkT598 : EPlant.updateN rand01 6 ET598 = ET604 := by
  with_unfolding_all rfl

theorem accT604 : EPlant.updateN rand01 604 (EPlant.new VarietyKey.cress rand01 0) = ET604 := by
  rw [show (604 : ℕ) = 598 + 6 by norm_num, EPlant.updateN_add, accT598]
  exact chunkT598

/-- Erased simulator state after 610 ticks of the counterexample run. -/
def ET610 : EPlant × ℕ :=
  (⟨.cress, 610, 240, 120,
  .node ⟨false, false, .cress, 12, (6641/80), true, [⟨(679/80), 1, (19/25)⟩, ⟨(1361/80), (-1), (19/25)⟩, ⟨(2043/80), 1, (19/25)⟩, ⟨(545/16), (-1), (19/25)⟩, ⟨(3407/80), 1, (19/25)⟩, ⟨(4089/80), (-1), (19/25)⟩, ⟨(4771/80), 1, (19/25)⟩, ⟨(5453/80), (-1), (19/25)⟩, ⟨(1227/16), 1, (19/25)⟩], (-1), true, (11/5)⟩ (.cons (.node ⟨false, true, .cress, 12, (2407/200), false, [], 1, false, (2387/2500)⟩ (.cons (.node ⟨false, true, .cress, 12, (2407/200), false, [], 1, false, (73997/125000)⟩ (.cons (.node ⟨false, true, .cress, 12, (2407/200), false, [], 1, false, (2293907/6250000)⟩ (.cons (.node ⟨false, true, .cress, 12, (2407/200), false, [], 1, false, (7/20)⟩ (.cons (.node ⟨false, true, .cress, 12, (47/8), true, [], 1, false, (7/20)⟩ (.nil)) (.nil))) (.nil))) (.nil))) (.nil))) (.nil)),
  .node ⟨true, false, .cress, 10, 10, false, [], 1, false, (8/5)⟩ (.cons (.node ⟨true, false, .cress, 10, 10, false, [], 1, false, (124/125)⟩ (.cons (.node ⟨true, false, .cress, 10, 10, false, [], 1, false, (1922/3125)⟩ (.cons (.node ⟨true, false, .cress, 10, 10, false, [], 1, false, (1/2)⟩ (.cons (.node ⟨true, false, .cress, 10, 10, false, [], 1, false, (1/2)⟩ (.cons (.node ⟨true, false, .cress, 10, 10, false, [], 1, false, (1/2)⟩ (.cons (.node ⟨true, false, .cress, 10, (8/5), true, [], 1, false, (1/2)⟩ (.nil)) (.nil))) (.nil))) (.nil))) (.nil))) (.nil))) (.nil))⟩, 618)

theorem chunkT604 : EPlant.updateN rand01 6 ET604 = ET610 := by
  with_unfolding_all rfl

theorem accT610 : EPlant.updateN rand01 610 (EPlant.new VarietyKey.cress rand01 0) = ET610 := by
  rw [show (610 : ℕ) = 604 + 6 by norm_num, EPlant.updateN_add, accT604]
  exact chunkT604

/-- Erased simulator state after 616 ticks of the counterexample run. -/
def ET616 : EPlant × ℕ :=
  (⟨.cress, 616, 240, 120,
  .node ⟨false, false, .cress, 12, (6707/80), true, [⟨(679/80), 1, (19/25)⟩, ⟨(1361/80), (-1), (19/25)⟩, ⟨(2043/80), 1, (19/25)⟩, ⟨(545/16), (-1), (19/25)⟩, ⟨(3407/80), 1, (19/25)⟩, ⟨(4089/80), (-1), (19/25)⟩, ⟨(4771/80), 1, (19/25)⟩, ⟨(5453/80), (-1), (19/25)⟩, ⟨(1227/16), 1, (19/25)⟩], (-1), true, (11/5)⟩ (.cons (.node ⟨false, true, .cress, 12, (2407/200), false, [], 1, false, (2387/2500)⟩ (.cons (.node ⟨false, true, .cress, 12, (2407/200), false, [], 1, false, (73997/125000)⟩ (.cons (.node ⟨false, true, .cress, 12, (2407/200), false, [], 1, false, (2293907/6250000)⟩ (.cons (.node ⟨false, true, .cress, 12, (2407/200), false, [], 1, false, (7/20)⟩ (.cons (.node ⟨false, true, .cress, 12, (2581/400), true, [], 1, false, (7/20)⟩ (.nil)) (.nil))) (.nil))) (.nil))) (.nil))) (.nil)),
  .node ⟨true, false, .cress, 10, 10, false, [], 1, false, (8/5)⟩ (.cons (.node ⟨true, false, .cress, 10, 10, false, [], 1, false, (124/125)⟩ (.cons (.node ⟨true, false, .cress, 10, 10, false, [], 1, false, (1922/3125)⟩ (.cons (.node ⟨true, false, .cress, 10, 10, false, [], 1, false, (1/2)⟩ (.cons (.node ⟨true, false, .cress, 10, 10, false, [], 1, false, (1/2)⟩ (.cons (.node ⟨true, false, .cress, 10, 10, false, [], 1, false, (1/2)⟩ (.cons (.node ⟨true, false, .cress, 10, (11/5), true, [], 1, false, (1/2)⟩ (.nil)) (.nil))) (.nil))) (.nil))) (.nil))) (.nil))) (.nil))⟩, 624)

theorem chunkT610 : EPlant.updateN rand01 6 ET610 = ET616 := by
  with_unfolding_all rfl

theorem accT616 : EPlant.updateN rand01 616 (EPlant.new VarietyKey.cress rand01 0) = ET616 := by
  rw [show (616 : ℕ) = 610 + 6 by norm_num, EPlant.updateN_add, accT610]
  exact chunkT610

/-- Erased simulator state after 622 ticks of the counterexample run. -/
def ET622 : EPlant × ℕ :=
  (⟨.cress, 622, 240, 120,
  .node ⟨false, false, .cress, 12, (6773/80), true, [⟨(679/80), 1, (19/25)⟩, ⟨(1361/80), (-1), (19/25)⟩, ⟨(2043/80), 1, (19/25)⟩, ⟨(545/16), (-1), (19/25)⟩, ⟨(3407/80), 1, (19/25)⟩, ⟨(4089/80), (-1), (19/25)⟩, ⟨(4771/80), 1, (19/25)⟩, ⟨(5453/80), (-1), (19/25)⟩, ⟨(1227/16), 1, (19/25)⟩], (-1), true, (11/5)⟩ (.cons (.node ⟨false, true, .cress, 12, (2407/200), false, [], 1, false, (2387/2500)⟩ (.cons (.node ⟨false, true, .cress, 12, (2407/200), false, [], 1, false, (73997/125000)⟩ (.cons (.node ⟨false, true, .cress, 12, (2407/200), false, [], 1, false, (2293907/6250000)⟩ (.cons (.node ⟨false, true, .cress, 12, (2407/200), false, [], 1, false, (7/20)⟩ (.cons (.node ⟨false, true, .cress, 12, (703/100), true, [], 1, false, (7/20)⟩ (.nil)) (.nil))) (.nil))) (.nil))) (.nil))) (.nil)),
  .node ⟨true, false, .cress, 10, 10, false, [], 1, false, (8/5)⟩ (.cons (.node ⟨true, false, .cress, 10, 10, false, [], 1, false, (124/125)⟩ (.cons (.node ⟨true, false, .cress, 10, 10, false, [], 1, false, (1922/3125)⟩ (.cons (.node ⟨true, false, .cress, 10, 10, false, [], 1, false, (1/2)⟩ (.cons (.node ⟨true, false, .cress, 10, 10, false, [], 1, false, (1/2)⟩ (.cons (.node ⟨true, false, .cress, 10, 10, false, [], 1, false, (1/2)⟩ (.cons (.node ⟨true, false, .cress, 10, (14/5), true, [], 1, false, (1/2)⟩ (.nil)) (.nil))) (.nil))) (.nil))) (.nil))) (.nil))) (.nil))⟩, 630)

theorem chunkT616 : EPlant.updateN rand01 6 ET616 = ET622 := by
  with_unfolding_all rfl

theorem accT622 : EPlant.updateN rand01 622 (EPlant.new VarietyKey.cress rand01 0) = ET622 := by
  rw [show (622 : ℕ) = 616 + 6 by norm_num, EPlant.updateN_add, accT616]
  exact chunkT616

/-- Erased simulator state after 628 ticks of the counterexample run. -/
def ET628 : EPlant × ℕ :=
  (⟨.cress, 628, 240, 120,
  .node ⟨false, false, .cress, 12, (6839/80), true, [⟨(679/80), 1, (19/25)⟩, ⟨(1361/80), (-1), (19/25)⟩, ⟨(2043/80), 1, (19/25)⟩, ⟨(545/16), (-1), (19/25)⟩, ⟨(3407/80), 1, (19/25)⟩, ⟨(4089/80), (-1), (19/25)⟩, ⟨(4771/80), 1, (19/25)⟩, ⟨(5453/80), (-1), (19/25)⟩, ⟨(1227/16), 1, (19/25)⟩, ⟨(6817/80), (-1), (19/25)⟩], 1, true, (11/5)⟩ (.cons (.node ⟨false, true, .cress, 12, (2407/200), false, [], 1, false, (2387/2500)⟩ (.cons (.node ⟨false, true, .cress, 12, (2407/200), false, [], 1, false, (73997/125000)⟩ (.cons (.node ⟨false, true, .cress, 12, (2407/200), false, [], 1, false, (2293907/6250000)⟩ (.cons (.node ⟨false, true, .cress, 12, (2407/200), false, [], 1, false, (7/20)⟩ (.cons (.node ⟨false, true, .cress, 12, (3043/400), true, [], 1, false, (7/20)⟩ (.nil)) (.nil))) (.nil))) (.nil))) (.nil))) (.nil)),
  .node ⟨true, false, .cress, 10, 10, false, [], 1, false, (8/5)⟩ (.cons (.node ⟨true, false, .cress, 10, 10, false, [], 1, false, (124/125)⟩ (.cons (.node ⟨true, false, .cress, 10, 10, false, [], 1, false, (1922/3125)⟩ (.cons (.node ⟨true, false, .cress, 10, 10, false, [], 1, false, (1/2)⟩ (.cons (.node ⟨true, false, .cress, 10, 10, false, [], 1, false, (1/2)⟩ (.cons (.node ⟨true, false, .cress, 10, 10, false, [], 1, false, (1/2)⟩ (.cons (.node ⟨true, false, .cress, 10, (17/5), true, [], 1, false, (1/2)⟩ (.nil)) (.nil))) (.nil))) (.nil))) (.nil))) (.nil))) (.nil))⟩, 637)

theorem chunkT622 : EPlant.updateN rand01 6 ET622 = ET628 := by
  with_unfolding_all rfl

theorem accT628 : EPlant.updateN rand01 628 (EPlant.new VarietyKey.cress rand01 0) = ET628 := by
  rw [show (628 : ℕ) = 622 + 6 by norm_num, EPlant.updateN_add, accT622]
  exact chunkT622

/-- Erased simulator state after 634 ticks of the counterexample run. -/
def ET634 : EPlant × ℕ :=
  (⟨.cress, 634, 240, 120,
  .node ⟨false, false, .cress, 12, (1381/16), true, [⟨(679/80), 1, (19/25)⟩, ⟨(1361/80), (-1), (19/25)⟩, ⟨(2043/80), 1, (19/25)⟩, ⟨(545/16), (-1), (19/25)⟩, ⟨(3407/80), 1, (19/25)⟩, ⟨(4089/80), (-1), (19/25)⟩, ⟨(4771/80), 1, (19/25)⟩, ⟨(5453/80), (-1), (19/25)⟩, ⟨(1227/16), 1, (19/25)⟩, ⟨(6817/80), (-1), (19/25)⟩], 1, true, (11/5)⟩ (.cons (.node ⟨false, true, .cress, 12, (2407/200), false, [], 1, false, (2387/2500)⟩ (.cons (.node ⟨false, true, .cress, 12, (2407/200), false, [], 1, false, (73997/125000)⟩ (.cons (.node ⟨false, true, .cress, 12, (2407/200), false, [], 1, false, (2293907/6250000)⟩ (.cons (.node ⟨false, true, .cress, 12, (2407/200), false, [], 1, false, (7/20)⟩ (.cons (.node ⟨false, true, .cress, 12, (1637/200), true, [], 1, false, (7/20)⟩ (.nil)) (.nil))) (.nil))) (.nil))) (.nil))) (.nil)),
  .node ⟨true, false, .cress, 10, 10, false, [], 1, false, (8/5)⟩ (.cons (.node ⟨true, false, .cress, 10, 10, false, [], 1, false, (124/125)⟩ (.cons (.node ⟨true, false, .cress, 10, 10, false, [], 1, false, (1922/3125)⟩ (.cons (.node ⟨true, false, .cress, 10, 10, false, [], 1, false, (1/2)⟩ (.cons (.node ⟨true, false, .cress, 10, 10, false, [], 1, false, (1/2)⟩ (.cons (.node ⟨true, false, .cress, 10, 10, false, [], 1, false, (1/2)⟩ (.cons (.node ⟨true, false, .cress, 10, 4, true, [], 1, false, (1/2)⟩ (.nil)) (.nil))) (.nil))) (.nil))) (.nil))) (.nil))) (.nil))⟩, 643)

theorem chunkT628 : EPlant.updateN rand01 6 ET628 = ET634 := by
  with_unfolding_all rfl

theorem accT634 : EPlant.updateN rand01 634 (EPlant.new VarietyKey.cress rand01 0) = ET634 := by
  rw [show (634 : ℕ) = 628 + 6 by norm_num, EPlant.updateN_add, accT628]
  exact chunkT628

/-- Erased simulator state after 640 ticks of the counterexample run. -/
def ET640 : EPlant × ℕ :=
  (⟨.cress, 640, 240, 120,
  .node ⟨false, false, .cress, 12, (6971/80), true, [⟨(679/80), 1, (19/25)⟩, ⟨(1361/80), (-1), (19/25)⟩, ⟨(2043/80), 1, (19/25)⟩, ⟨(545/16), (-1), (19/25)⟩, ⟨(3407/80), 1, (19/25)⟩, ⟨(4089/80), (-1), (19/25)⟩, ⟨(4771/80), 1, (19/25)⟩, ⟨(5453/80), (-1), (19/25)⟩, ⟨(1227/16), 1, (19/25)⟩, ⟨(6817/80), (-1), (19/25)⟩], 1, true, (11/5)⟩ (.cons (.node ⟨false, true, .cress, 12, (2407/200), false, [], 1, false, (2387/2500)⟩ (.cons (.node ⟨false, true, .cress, 12, (2407/200), false, [], 1, false, (73997/125000)⟩ (.cons (.node ⟨false, true, .cress, 12, (2407/200), false, [], 1, false, (2293907/6250000)⟩ (.cons (.node ⟨false, true, .cress, 12, (2407/200), false, [], 1, false, (7/20)⟩ (.cons (.node ⟨false, true, .cress, 12, (701/80), true, [], 1, false, (7/20)⟩ (.nil)) (.nil))) (.nil))) (.nil))) (.nil))) (.nil)),
  .node ⟨true, false, .cress, 10, 10, false, [], 1, false, (8/5)⟩ (.cons (.node ⟨true, false, .cress, 10, 10, false, [], 1, false, (124/125)⟩ (.cons (.node ⟨true, false, .cress, 10, 10, false, [], 1, false, (1922/3125)⟩ (.cons (.node ⟨true, false, .cress, 10, 10, false, [], 1, false, (1/2)⟩ (.cons (.node ⟨true, false, .cress, 10, 10, false, [], 1, false, (1/2)⟩ (.cons (.node ⟨true, false, .cress, 10, 10, false, [], 1, false, (1/2)⟩ (.cons (.node ⟨true, false, .cress, 10, (23/5), true, [], 1, false, (1/2)⟩ (.nil)) (.nil))) (.nil))) (.nil))) (.nil))) (.nil))) (.nil))⟩, 649)

theorem chunkT634 : EPlant.updateN rand01 6 ET634 = ET640 := by
  with_unfolding_all rfl

theorem accT640 : EPlant.updateN rand01 640 (EPlant.new VarietyKey.cress rand01 0) = ET640 := by
  rw [show (640 : ℕ) = 634 + 6 by norm_num, EPlant.updateN_add, accT634]
  exact chunkT634

/-- Erased simulator state after 646 ticks of the counterexample run. -/
def ET646 : EPlant × ℕ :=
  (⟨.cress, 646, 240, 120,
  .node ⟨false, false, .cress, 12, (7037/80), true, [⟨(679/80), 1, (19/25)⟩, ⟨(1361/80), (-1), (19/25)⟩, ⟨(2043/80), 1, (19/25)⟩, ⟨(545/16), (-1), (19/25)⟩, ⟨(3407/80), 1, (19/25)⟩, ⟨(4089/80), (-1), (19/25)⟩, ⟨(4771/80), 1, (19/25)⟩, ⟨(5453/80), (-1), (19/25)⟩, ⟨(1227/16), 1, (19/25)⟩, ⟨(6817/80), (-1), (19/25)⟩], 1, true, (11/5)⟩ (.cons (.node ⟨false, true, .cress, 12, (2407/200), false, [], 1, false, (2387/2500)⟩ (.cons (.node ⟨false, true, .cress, 12, (2407/200), false, [], 1, false, (73997/125000)⟩ (.cons (.node ⟨false, true, .cress, 12, (2407/200), false, [], 1, false, (2293907/6250000)⟩ (.cons (.node ⟨false, true, .cress, 12, (2407/200), false, [], 1, false, (7/20)⟩ (.cons (.node ⟨false, true, .cress, 12, (467/50), true, [], 1, false, (7/20)⟩ (.nil)) (.nil))) (.nil))) (.nil))) (.nil))) (.nil)),
  .node ⟨true, false, .cress, 10, 10, false, [], 1, false, (8/5)⟩ (.cons (.node ⟨true, false, .cress, 10, 10, false, [], 1, false, (124/125)⟩ (.cons (.node ⟨true, false, .cress, 10, 10, false, [], 1, false, (1922/3125)⟩ (.cons (.node ⟨true, false, .cress, 10, 10, false, [], 1, false, (1/2)⟩ (.cons (.node ⟨true, false, .cress, 10, 10, false, [], 1, false, (1/2)⟩ (.cons (.node ⟨true, false, .cress, 10, 10, false, [], 1, false, (1/2)⟩ (.cons (.node ⟨true, false, .cress, 10, (26/5), true, [], 1, false, (1/2)⟩ (.nil)) (.nil))) (.nil))) (.nil))) (.nil))) (.nil))) (.nil))⟩, 655)

theorem chunkT640 : EPlant.updateN rand01 6 ET640 = ET646 := by
  with_unfolding_all rfl

theorem accT646 : EPlant.updateN rand01 646 (EPlant.new VarietyKey.cress rand01 0) = ET646 := by
  rw [show (646 : ℕ) = 640 + 6 by norm_num, EPlant.updateN_add, accT640]
  exact chunkT640

/-- Erased simulator state after 652 ticks of the counterexample run. -/
def ET652 : EPlant × ℕ :=
  (⟨.cress, 652, 240, 120,
  .node ⟨false, false, .cress, 12, (7103/80), true, [⟨(679/80), 1, (19/25)⟩, ⟨(1361/80), (-1), (19/25)⟩, ⟨(2043/80), 1, (19/25)⟩, ⟨(545/16), (-1), (19/25)⟩, ⟨(3407/80), 1, (19/25)⟩, ⟨(4089/80), (-1), (19/25)⟩, ⟨(4771/80), 1, (19/25)⟩, ⟨(5453/80), (-1), (19/25)⟩, ⟨(1227/16), 1, (19/25)⟩, ⟨(6817/80), (-1), (19/25)⟩], 1, true, (11/5)⟩ (.cons (.node ⟨false, true, .cress, 12, (2407/200), false, [], 1, false, (2387/2500)⟩ (.cons (.node ⟨false, true, .cress, 12, (2407/200), false, [], 1, false, (73997/125000)⟩ (.cons (.node ⟨false, true, .cress, 12, (2407/200), false, [], 1, false, (2293907/6250000)⟩ (.cons (.node ⟨false, true, .cress, 12, (2407/200), false, [], 1, false, (7/20)⟩ (.cons (.node ⟨false, true, .cress, 12, (3967/400), true, [], 1, false, (7/20)⟩ (.nil)) (.nil))) (.nil))) (.nil))) (.nil))) (.nil)),
  .node ⟨true, false, .cress, 10, 10, false, [], 1, false, (8/5)⟩ (.cons (.node ⟨true, false, .cress, 10, 10, false, [], 1, false, (124/125)⟩ (.cons (.node ⟨true, false, .cress, 10, 10, false, [], 1, false, (1922/3125)⟩ (.cons (.node ⟨true, false, .cress, 10, 10, false, [], 1, false, (1/2)⟩ (.cons (.node ⟨true, false, .cress, 10, 10, false, [], 1, false, (1/2)⟩ (.cons (.node ⟨true, false, .cress, 10, 10, false, [], 1, false, (1/2)⟩ (.cons (.node ⟨true, false, .cress, 10, (29/5), true, [], 1, false, (1/2)⟩ (.nil)) (.nil))) (.nil))) (.nil))) (.nil))) (.nil))) (.nil))⟩, 661)

theorem chunkT646 : EPlant.updateN rand01 6 ET646 = ET652 := by
  with_unfolding_all rfl

theorem accT652 : EPlant.updateN rand01 652 (EPlant.new VarietyKey.cress rand01 0) = ET652 := by
  rw [show (652 : ℕ) = 646 + 6 by norm_num, EPlant.updateN_add, accT646]
  exact chunkT646

/-- Erased simulator state after 658 ticks of the counterexample run. -/
def ET658 : EPlant × ℕ :=
  (⟨.cress, 658, 240, 120,
  .node ⟨false, false, .cress, 12, (7169/80), true, [⟨(679/80), 1, (19/25)⟩, ⟨(1361/80), (-1), (19/25)⟩, ⟨(2043/80), 1, (19/25)⟩, ⟨(545/16), (-1), (19/25)⟩, ⟨(3407/80), 1, (19/25)⟩, ⟨(4089/80), (-1), (19/25)⟩, ⟨(4771/80), 1, (19/25)⟩, ⟨(5453/80), (-1), (19/25)⟩, ⟨(1227/16), 1, (19/25)⟩, ⟨(6817/80), (-1), (19/25)⟩], 1, true, (11/5)⟩ (.cons (.node ⟨false, true, .cress, 12, (2407/200), false, [], 1, false, (2387/2500)⟩ (.cons (.node ⟨false, true, .cress, 12, (2407/200), false, [], 1, false, (73997/125000)⟩ (.cons (.node ⟨false, true, .cress, 12, (2407/200), false, [], 1, false, (2293907/6250000)⟩ (.cons (.node ⟨false, true, .cress, 12, (2407/200), false, [], 1, false, (7/20)⟩ (.cons (.node ⟨false, true, .cress, 12, (2099/200), true, [], 1, false, (7/20)⟩ (.nil)) (.nil))) (.nil))) (.nil))) (.nil))) (.nil)),
  .node ⟨true, false, .cress, 10, 10, false, [], 1, false, (8/5)⟩ (.cons (.node ⟨true, false, .cress, 10, 10, false, [], 1, false, (124/125)⟩ (.cons (.node ⟨true, false, .cress, 10, 10, false, [], 1, false, (1922/3125)⟩ (.cons (.node ⟨true, false, .cress, 10, 10, false, [], 1, false, (1/2)⟩ (.cons (.node ⟨true, false, .cress, 10, 10, false, [], 1, false, (1/2)⟩ (.cons (.node ⟨true, false, .cress, 10, 10, false, [], 1, false, (1/2)⟩ (.cons (.node ⟨true, false, .cress, 10, (32/5), true, [], 1, false, (1/2)⟩ (.nil)) (.nil))) (.nil))) (.nil))) (.nil))) (.nil))) (.nil))⟩, 667)

theorem chunkT652 : EPlant.updateN rand01 6 ET652 = ET658 := by
  with_unfolding_all rfl

theorem accT658 : EPlant.updateN rand01 658 (EPlant.new VarietyKey.cress rand01 0) = ET658 := by
  rw [show (658 : ℕ) = 652 + 6 by norm_num, EPlant.updateN_add, accT652]
  exact chunkT652

/-- Erased simulator state after 664 ticks of the counterexample run. -/
def ET664 : EPlant × ℕ :=
  (⟨.cress, 664, 240, 120,
  .node ⟨false, false, .cress, 12, (1447/16), true, [⟨(679/80), 1, (19/25)⟩, ⟨(1361/80), (-1), (19/25)⟩, ⟨(2043/80), 1, (19/25)⟩, ⟨(545/16), (-1), (19/25)⟩, ⟨(3407/80), 1, (19/25)⟩, ⟨(4089/80), (-1), (19/25)⟩, ⟨(4771/80), 1, (19/25)⟩, ⟨(5453/80), (-1), (19/25)⟩, ⟨(1227/16), 1, (19/25)⟩, ⟨(6817/80), (-1), (19/25)⟩], 1, true, (11/5)⟩ (.cons (.node ⟨false, true, .cress, 12, (2407/200), false, [], 1, false, (2387/2500)⟩ (.cons (.node ⟨false, true, .cress, 12, (2407/200), false, [], 1, false, (73997/125000)⟩ (.cons (.node ⟨false, true, .cress, 12, (2407/200), false, [], 1, false, (2293907/6250000)⟩ (.cons (.node ⟨false, true, .cress, 12, (2407/200), false, [], 1, false, (7/20)⟩ (.cons (.node ⟨false, true, .cress, 12, (4429/400), true, [], 1, false, (7/20)⟩ (.nil)) (.nil))) (.nil))) (.nil))) (.nil))) (.nil)),
  .node ⟨true, false, .cress, 10, 10, false, [], 1, false, (8/5)⟩ (.cons (.node ⟨true, false, .cress, 10, 10, false, [], 1, false, (124/125)⟩ (.cons (.node ⟨true, false, .cress, 10, 10, false, [], 1, false, (1922/3125)⟩ (.cons (.node ⟨true, false, .cress, 10, 10, false, [], 1, false, (1/2)⟩ (.cons (.node ⟨true, false, .cress, 10, 10, false, [], 1, false, (1/2)⟩ (.cons (.node ⟨true, false, .cress, 10, 10, false, [], 1, false, (1/2)⟩ (.cons (.node ⟨true, false, .cress, 10, 7, true, [], 1, false, (1/2)⟩ (.nil)) (.nil))) (.nil))) (.nil))) (.nil))) (.nil))) (.nil))⟩, 673)

theorem chunkT658 : EPlant.updateN rand01 6 ET658 = ET664 := by
  with_unfolding_all rfl

theorem accT664 : EPlant.updateN rand01 664 (EPlant.new VarietyKey.cress rand01 0) = ET664 := by
  rw [show (664 : ℕ) = 658 + 6 by norm_num, EPlant.updateN_add, accT658]
  exact chunkT658

/-- Erased simulator state after 670 ticks of the counterexample run. -/
def ET670 : EPlant × ℕ :=
  (⟨.cress, 670, 240, 120,
  .node ⟨false, false, .cress, 12, (7301/80), true, [⟨(679/80), 1, (19/25)⟩, ⟨(1361/80), (-1), (19/25)⟩, ⟨(2043/80), 1, (19/25)⟩, ⟨(545/16), (-1), (19/25)⟩, ⟨(3407/80), 1, (19/25)⟩, ⟨(4089/80), (-1), (19/25)⟩, ⟨(4771/80), 1, (19/25)⟩, ⟨(5453/80), (-1), (19/25)⟩, ⟨(1227/16), 1, (19/25)⟩, ⟨(6817/80), (-1), (19/25)⟩], 1, true, (11/5)⟩ (.cons (.node ⟨false, true, .cress, 12, (2407/200), false, [], 1, false, (2387/2500)⟩ (.cons (.node ⟨false, true, .cress, 12, (2407/200), false, [], 1, false, (73997/125000)⟩ (.cons (.node ⟨false, true, .cress, 12, (2407/200), false, [], 1, false, (2293907/6250000)⟩ (.cons (.node ⟨false, true, .cress, 12, (2407/200), false, [], 1, false, (7/20)⟩ (.cons (.node ⟨false, true, .cress, 12, (233/20), true, [], 1, false, (7/20)⟩ (.nil)) (.nil))) (.nil))) (.nil))) (.nil))) (.nil)),
  .node ⟨true, false, .cress, 10, 10, false, [], 1, false, (8/5)⟩ (.cons (.node ⟨true, false, .cress, 10, 10, false, [], 1, false, (124/125)⟩ (.cons (.node ⟨true, false, .cress, 10, 10, false, [], 1, false, (1922/3125)⟩ (.cons (.node ⟨true, false, .cress, 10, 10, false, [], 1, false, (1/2)⟩ (.cons (.node ⟨true, false, .cress, 10, 10, false, [], 1, false, (1/2)⟩ (.cons (.node ⟨true, false, .cress, 10, 10, false, [], 1, false, (1/2)⟩ (.cons (.node ⟨true, false, .cress, 10, (38/5), true, [], 1, false, (1/2)⟩ (.nil)) (.nil))) (.nil))) (.nil))) (.nil))) (.nil))) (.nil))⟩, 679)

theorem chunkT664 : EPlant.updateN rand01 6 ET664 = ET670 := by
  with_unfolding_all rfl

theorem accT670 : EPlant.updateN rand01 670 (EPlant.new VarietyKey.cress rand01 0) = ET670 := by
  rw [show (670 : ℕ) = 664 + 6 by norm_num, EPlant.updateN_add, accT664]
  exact chunkT664

/-- Erased simulator state after 676 ticks of the counterexample run. -/
def ET676 : EPlant × ℕ :=
  (⟨.cress, 676, 240, 120,
  .node ⟨false, false, .cress, 12, (7367/80), true, [⟨(679/80), 1, (19/25)⟩, ⟨(1361/80), (-1), (19/25)⟩, ⟨(2043/80), 1, (19/25)⟩, ⟨(545/16), (-1), (19/25)⟩, ⟨(3407/80), 1, (19/25)⟩, ⟨(4089/80), (-1), (19/25)⟩, ⟨(4771/80), 1, (19/25)⟩, ⟨(5453/80), (-1), (19/25)⟩, ⟨(1227/16), 1, (19/25)⟩, ⟨(6817/80), (-1), (19/25)⟩], 1, true, (11/5)⟩ (.cons (.node ⟨false, true, .cress, 12, (2407/200), false, [], 1, false, (2387/2500)⟩ (.cons (.node ⟨false, true, .cress, 12, (2407/200), false, [], 1, false, (73997/125000)⟩ (.cons (.node ⟨false, true, .cress, 12, (2407/200), false, [], 1, false, (2293907/6250000)⟩ (.cons (.node ⟨false, true, .cress, 12, (2407/200), false, [], 1, false, (7/20)⟩ (.cons (.node ⟨false, true, .cress, 12, (2407/200), false, [], 1, false, (7/20)⟩ (.cons (.node ⟨false, true, .cress, 12, (311/800), true, [], 1, false, (7/20)⟩ (.nil)) (.nil))) (.nil))) (.nil))) (.nil))) (.nil))) (.nil)),
  .node ⟨true, false, .cress, 10, 10, false, [], 1, false, (8/5)⟩ (.cons (.node ⟨true, false, .cress, 10, 10, false, [], 1, false, (124/125)⟩ (.cons (.node ⟨true, false, .cress, 10, 10, false, [], 1, false, (1922/3125)⟩ (.cons (.node ⟨true, false, .cress, 10, 10, false, [], 1, false, (1/2)⟩ (.cons (.node ⟨true, false, .cress, 10, 10, false, [], 1, false, (1/2)⟩ (.cons (.node ⟨true, false, .cress, 10, 10, false, [], 1, false, (1/2)⟩ (.cons (.node ⟨true, false, .cress, 10, (41/5), true, [], 1, false, (1/2)⟩ (.nil)) (.nil))) (.nil))) (.nil))) (.nil))) (.nil))) (.nil))⟩, 687)

theorem chunkT670 : EPlant.updateN rand01 6 ET670 = ET676 := by
  with_unfolding_all rfl

theorem accT676 : EPlant.updateN rand01 676 (EPlant.new VarietyKey.cress rand01 0) = ET676 := by
  rw [show (676 : ℕ) = 670 + 6 by norm_num, EPlant.updateN_add, accT670]
  exact chunkT670

/-- Erased simulator state after 680 ticks of the counterexample run. -/
def ET680 : EPlant × ℕ :=
  (⟨.cress, 680, 240, 120,
  .node ⟨false, false, .cress, 12, (7411/80), true, [⟨(679/80), 1, (19/25)⟩, ⟨(1361/80), (-1), (19/25)⟩, ⟨(2043/80), 1, (19/25)⟩, ⟨(545/16), (-1), (19/25)⟩, ⟨(3407/80), 1, (19/25)⟩, ⟨(4089/80), (-1), (19/25)⟩, ⟨(4771/80), 1, (19/25)⟩, ⟨(5453/80), (-1), (19/25)⟩, ⟨(1227/16), 1, (19/25)⟩, ⟨(6817/80), (-1), (19/25)⟩], 1, true, (11/5)⟩ (.cons (.node ⟨false, true, .cress, 12, (2407/200), false, [], 1, false, (2387/2500)⟩ (.cons (.node ⟨false, true, .cress, 12, (2407/200), false, [], 1, false, (73997/125000)⟩ (.cons (.node ⟨false, true, .cress, 12, (2407/200), false, [], 1, false, (2293907/6250000)⟩ (.cons (.node ⟨false, true, .cress, 12, (2407/200), false, [], 1, false, (7/20)⟩ (.cons (.node ⟨false, true, .cress, 12, (2407/200), false, [], 1, false, (7/20)⟩ (.cons (.node ⟨false, true, .cress, 12, (619/800), true, [], 1, false, (7/20)⟩ (.nil)) (.nil))) (.nil))) (.nil))) (.nil))) (.nil))) (.nil)),
  .node ⟨true, false, .cress, 10, 10, false, [], 1, false, (8/5)⟩ (.cons (.node ⟨true, false, .cress, 10, 10, false, [], 1, false, (124/125)⟩ (.cons (.node ⟨true, false, .cress, 10, 10, false, [], 1, false, (1922/3125)⟩ (.cons (.node ⟨true, false, .cress, 10, 10, false, [], 1, false, (1/2)⟩ (.cons (.node ⟨true, false, .cress, 10, 10, false, [], 1, false, (1/2)⟩ (.cons (.node ⟨true, false, .cress, 10, 10, false, [], 1, false, (1/2)⟩ (.cons (.node ⟨true, false, .cress, 10, (43/5), true, [], 1, false, (1/2)⟩ (.nil)) (.nil))) (.nil))) (.nil))) (.nil))) (.nil))) (.nil))⟩, 691)

theorem chunkT676 : EPlant.updateN rand01 4 ET676 = ET680 := by
  with_unfolding_all rfl

theorem accT680 : EPlant.updateN rand01 680 (EPlant.new VarietyKey.cress rand01 0) = ET680 := by
  rw [show (680 : ℕ) = 676 + 4 by norm_num, EPlant.updateN_add, accT676]
  exact chunkT676

/-- Erased simulator state after 686 ticks of the counterexample run. -/
def ET686 : EPlant × ℕ :=
  (⟨.cress, 686, 240, 120,
  .node ⟨false, false, .cress, 12, (7477/80), true, [⟨(679/80), 1, (19/25)⟩, ⟨(1361/80), (-1), (19/25)⟩, ⟨(2043/80), 1, (19/25)⟩, ⟨(545/16), (-1), (19/25)⟩, ⟨(3407/80), 1, (19/25)⟩, ⟨(4089/80), (-1), (19/25)⟩, ⟨(4771/80), 1, (19/25)⟩, ⟨(5453/80), (-1), (19/25)⟩, ⟨(1227/16), 1, (19/25)⟩, ⟨(6817/80), (-1), (19/25)⟩], 1, true, (11/5)⟩ (.cons (.node ⟨false, true, .cress, 12, (2407/200), false, [], 1, false, (2387/2500)⟩ (.cons (.node ⟨false, true, .cress, 12, (2407/200), false, [], 1, false, (73997/125000)⟩ (.cons (.node ⟨false, true, .cress, 12, (2407/200), false, [], 1, false, (2293907/6250000)⟩ (.cons (.node ⟨false, true, .cress, 12, (2407/200), false, [], 1, false, (7/20)⟩ (.cons (.node ⟨false, true, .cress, 12, (2407/200), false, [], 1, false, (7/20)⟩ (.cons (.node ⟨false, true, .cress, 12, (1081/800), true, [], 1, false, (7/20)⟩ (.nil)) (.nil))) (.nil))) (.nil))) (.nil))) (.nil))) (.nil)),
  .node ⟨true, false, .cress, 10, 10, false, [], 1, false, (8/5)⟩ (.cons (.node ⟨true, false, .cress, 10, 10, false, [], 1, false, (124/125)⟩ (.cons (.node ⟨true, false, .cress, 10, 10, false, [], 1, false, (1922/3125)⟩ (.cons (.node ⟨true, false, .cress, 10, 10, false, [], 1, false, (1/2)⟩ (.cons (.node ⟨true, false, .cress, 10, 10, false, [], 1, false, (1/2)⟩ (.cons (.node ⟨true, false, .cress, 10, 10, false, [], 1, false, (1/2)⟩ (.cons (.node ⟨true, false, .cress, 10, (46/5), true, [], 1, false, (1/2)⟩ (.nil)) (.nil))) (.nil))) (.nil))) (.nil))) (.nil))) (.nil))⟩, 697)

theorem chunkT680 : EPlant.updateN rand01 6 ET680 = ET686 := by
  with_unfolding_all rfl

theorem accT686 : EPlant.updateN rand01 686 (EPlant.new VarietyKey.cress rand01 0) = ET686 := by
  rw [show (686 : ℕ) = 680 + 6 by norm_num, EPlant.updateN_add, accT680]
  exact chunkT680

/-- Erased simulator state after 692 ticks of the counterexample run. -/
def ET692 : EPlant × ℕ :=
  (⟨.cress, 692, 240, 120,
  .node ⟨false, false, .cress, 12, (7543/80), true, [⟨(679/80), 1, (19/25)⟩, ⟨(1361/80), (-1), (19/25)⟩, ⟨(2043/80), 1, (19/25)⟩, ⟨(545/16), (-1), (19/25)⟩, ⟨(3407/80), 1, (19/25)⟩, ⟨(4089/80), (-1), (19/25)⟩, ⟨(4771/80), 1, (19/25)⟩, ⟨(5453/80), (-1), (19/25)⟩, ⟨(1227/16), 1, (19/25)⟩, ⟨(6817/80), (-1), (19/25)⟩, ⟨(7499/80), 1, (19/25)⟩], (-1), true, (11/5)⟩ (.cons (.node ⟨false, true, .cress, 12, (2407/200), false, [], 1, false, (2387/2500)⟩ (.cons (.node ⟨false, true, .cress, 12, (2407/200), false, [], 1, false, (73997/125000)⟩ (.cons (.node ⟨false, true, .cress, 12, (2407/200), false, [], 1, false, (2293907/6250000)⟩ (.cons (.node ⟨false, true, .cress, 12, (2407/200), false, [], 1, false, (7/20)⟩ (.cons (.node ⟨false, true, .cress, 12, (2407/200), false, [], 1, false, (7/20)⟩ (.cons (.node ⟨false, true, .cress, 12, (1543/800), true, [], 1, false, (7/20)⟩ (.nil)) (.nil))) (.nil))) (.nil))) (.nil))) (.nil))) (.nil)),
  .node ⟨true, false, .cress, 10, 10, false, [], 1, false, (8/5)⟩ (.cons (.node ⟨true, false, .cress, 10, 10, false, [], 1, false, (124/125)⟩ (.cons (.node ⟨true, false, .cress, 10, 10, false, [], 1, false, (1922/3125)⟩ (.cons (.node ⟨true, false, .cress, 10, 10, false, [], 1, false, (1/2)⟩ (.cons (.node ⟨true, false, .cress, 10, 10, false, [], 1, false, (1/2)⟩ (.cons (.node ⟨true, false, .cress, 10, 10, false, [], 1, false, (1/2)⟩ (.cons (.node ⟨true, false, .cress, 10, (49/5), true, [], 1, false, (1/2)⟩ (.nil)) (.nil))) (.nil))) (.nil))) (.nil))) (.nil))) (.nil))⟩, 704)

theorem chunkT686 : EPlant.updateN rand01 6 ET686 = ET692 := by
  with_unfolding_all rfl

theorem accT692 : EPlant.updateN rand01 692 (EPlant.new VarietyKey.cress rand01 0) = ET692 := by
  rw [show (692 : ℕ) = 686 + 6 by norm_num, EPlant.updateN_add, accT686]
  exact chunkT686

/-- Erased simulator state after 698 ticks of the counterexample run. -/
def ET698 : EPlant × ℕ :=
  (⟨.cress, 698, 240, 120,
  .node ⟨false, false, .cress, 12, (7609/80), true, [⟨(679/80), 1, (19/25)⟩, ⟨(1361/80), (-1), (19/25)⟩, ⟨(2043/80), 1, (19/25)⟩, ⟨(545/16), (-1), (19/25)⟩, ⟨(3407/80), 1, (19/25)⟩, ⟨(4089/80), (-1), (19/25)⟩, ⟨(4771/80), 1, (19/25)⟩, ⟨(5453/80), (-1), (19/25)⟩, ⟨(1227/16), 1, (19/25)⟩, ⟨(6817/80), (-1), (19/25)⟩, ⟨(7499/80), 1, (19/25)⟩], (-1), true, (11/5)⟩ (.cons (.node ⟨false, true, .cress, 12, (2407/200), false, [], 1, false, (2387/2500)⟩ (.cons (.node ⟨false, true, .cress, 12, (2407/200), false, [], 1, false, (73997/125000)⟩ (.cons (.node ⟨false, true, .cress, 12, (2407/200), false, [], 1, false, (2293907/6250000)⟩ (.cons (.node ⟨false, true, .cress, 12, (2407/200), false, [], 1, false, (7/20)⟩ (.cons (.node ⟨false, true, .cress, 12, (2407/200), false, [], 1, false, (7/20)⟩ (.cons (.node ⟨false, true, .cress, 12, (401/160), true, [], 1, false, (7/20)⟩ (.nil)) (.nil))) (.nil))) (.nil))) (.nil))) (.nil))) (.nil)),
  .node ⟨true, false, .cress, 10, 10, false, [], 1, false, (8/5)⟩ (.cons (.node ⟨true, false, .cress, 10, 10, false, [], 1, false, (124/125)⟩ (.cons (.node ⟨true, false, .cress, 10, 10, false, [], 1, false, (1922/3125)⟩ (.cons (.node ⟨true, false, .cress, 10, 10, false, [], 1, false, (1/2)⟩ (.cons (.node ⟨true, false, .cress, 10, 10, false, [], 1, false, (1/2)⟩ (.cons (.node ⟨true, false, .cress, 10, 10, false, [], 1, false, (1/2)⟩ (.cons (.node ⟨true, false, .cress, 10, 10, false, [], 1, false, (1/2)⟩ (.cons (.node ⟨true, false, .cress, 10, (3/5), true, [], 1, false, (1/2)⟩ (.nil)) (.nil))) (.nil))) (.nil))) (.nil))) (.nil))) (.nil))) (.nil))⟩, 712)

theorem chunkT692 : EPlant.updateN rand01 6 ET692 = ET698 := by
  with_unfolding_all rfl

theorem accT698 : EPlant.updateN rand01 698 (EPlant.new VarietyKey.cress rand01 0) = ET698 := by
  rw [show (698 : ℕ) = 692 + 6 by norm_num, EPlant.updateN_add, accT692]
  exact chunkT692

/-- Erased simulator state after 704 ticks of the counterexample run. -/
def ET704 : EPlant × ℕ :=
  (⟨.cress, 704, 240, 120,
  .node ⟨false, false, .cress, 12, (1535/16), true, [⟨(679/80), 1, (19/25)⟩, ⟨(1361/80), (-1), (19/25)⟩, ⟨(2043/80), 1, (19/25)⟩, ⟨(545/16), (-1), (19/25)⟩, ⟨(3407/80), 1, (19/25)⟩, ⟨(4089/80), (-1), (19/25)⟩, ⟨(4771/80), 1, (19/25)⟩, ⟨(5453/80), (-1), (19/25)⟩, ⟨(1227/16), 1, (19/25)⟩, ⟨(6817/80), (-1), (19/25)⟩, ⟨(7499/80), 1, (19/25)⟩], (-1), true, (11/5)⟩ (.cons (.node ⟨false, true, .cress, 12, (2407/200), false, [], 1, false, (2387/2500)⟩ (.cons (.node ⟨false, true, .cress, 12, (2407/200), false, [], 1, false, (73997/125000)⟩ (.cons (.node ⟨false, true, .cress, 12, (2407/200), false, [], 1, false, (2293907/6250000)⟩ (.cons (.node ⟨false, true, .cress, 12, (2407/200), false, [], 1, false, (7/20)⟩ (.cons (.node ⟨false, true, .cress, 12, (2407/200), false, [], 1, false, (7/20)⟩ (.cons (.node ⟨false, true, .cress, 12, (2467/800), true, [], 1, false, (7/20)⟩ (.nil)) (.nil))) (.nil))) (.nil))) (.nil))) (.nil))) (.nil)),
  .node ⟨true, false, .cress, 10, 10, false, [], 1, false, (8/5)⟩ (.cons (.node ⟨true, false, .cress, 10, 10, false, [], 1, false, (124/125)⟩ (.cons (.node ⟨true, false, .cress, 10, 10, false, [], 1, false, (1922/3125)⟩ (.cons (.node ⟨true, false, .cress, 10, 10, false, [], 1, false, (1/2)⟩ (.cons (.node ⟨true, false, .cress, 10, 10, false, [], 1, false, (1/2)⟩ (.cons (.node ⟨true, false, .cress, 10, 10, false, [], 1, false, (1/2)⟩ (.cons (.node ⟨true, false, .cress, 10, 10, false, [], 1, false, (1/2)⟩ (.cons (.node ⟨true, false, .cress, 10, (6/5), true, [], 1, false, (1/2)⟩ (.nil)) (.nil))) (.nil))) (.nil))) (.nil))) (.nil))) (.nil))) (.nil))⟩, 718)

theorem chunkT698 : EPlant.updateN rand01 6 ET698 = ET704 := by
  with_unfolding_all rfl

theorem accT704 : EPlant.updateN rand01 704 (EPlant.new VarietyKey.cress rand01 0) = ET704 := by
  rw [show (704 : ℕ) = 698 + 6 by norm_num, EPlant.updateN_add, accT698]
  exact chunkT698

/-- Erased simulator state after 710 ticks of the counterexample run. -/
def ET710 : EPlant × ℕ :=
  (⟨.cress, 710, 240, 120,
  .node ⟨false, false, .cress, 12, (7741/80), true, [⟨(679/80), 1, (19/25)⟩, ⟨(1361/80), (-1), (19/25)⟩, ⟨(2043/80), 1, (19/25)⟩, ⟨(545/16), (-1), (19/25)⟩, ⟨(3407/80), 1, (19/25)⟩, ⟨(4089/80), (-1), (19/25)⟩, ⟨(4771/80), 1, (19/25)⟩, ⟨(5453/80), (-1), (19/25)⟩, ⟨(1227/16), 1, (19/25)⟩, ⟨(6817/80), (-1), (19/25)⟩, ⟨(7499/80), 1, (19/25)⟩], (-1), true, (11/5)⟩ (.cons (.node ⟨false, true, .cress, 12, (2407/200), false, [], 1, false, (2387/2500)⟩ (.cons (.node ⟨false, true, .cress, 12, (2407/200), false, [], 1, false, (73997/125000)⟩ (.cons (.node ⟨false, true, .cress, 12, (2407/200), false, [], 1, false, (2293907/6250000)⟩ (.cons (.node ⟨false, true, .cress, 12, (2407/200), false, [], 1, false, (7/20)⟩ (.cons (.node ⟨false, true, .cress, 12, (2407/200), false, [], 1, false, (7/20)⟩ (.cons (.node ⟨false, true, .cress, 12, (2929/800), true, [], 1, false, (7/20)⟩ (.nil)) (.nil))) (.nil))) (.nil))) (.nil))) (.nil))) (.nil)),
  .node ⟨true, false, .cress, 10, 10, false, [], 1, false, (8/5)⟩ (.cons (.node ⟨true, false, .cress, 10, 10, false, [], 1, false, (124/125)⟩ (.cons (.node ⟨true, false, .cress, 10, 10, false, [], 1, false, (1922/3125)⟩ (.cons (.node ⟨true, false, .cress, 10, 10, false, [], 1, false, (1/2)⟩ (.cons (.node ⟨true, false, .cress, 10, 10, false, [], 1, false, (1/2)⟩ (.cons (.node ⟨true, false, .cress, 10, 10, false, [], 1, false, (1/2)⟩ (.cons (.node ⟨true, false, .cress, 10, 10, false, [], 1, false, (1/2)⟩ (.cons (.node ⟨true, false, .cress, 10, (9/5), true, [], 1, false, (1/2)⟩ (.nil)) (.nil))) (.nil))) (.nil))) (.nil))) (.nil))) (.nil))) (.nil))⟩, 724)

theorem chunkT704 : EPlant.updateN rand01 6 ET704 = ET710 := by
  with_unfolding_all rfl

theorem accT710 : EPlant.updateN rand01 710 (EPlant.new VarietyKey.cress rand01 0) = ET710 := by
  rw [show (710 : ℕ) = 704 + 6 by norm_num, EPlant.updateN_add, accT704]
  exact chunkT704

/-- Erased simulator state after 716 ticks of the counterexample run. -/
def ET716 : EPlant × ℕ :=
  (⟨.cress, 716, 240, 120,
  .node ⟨false, false, .cress, 12, (7807/80), true, [⟨(679/80), 1, (19/25)⟩, ⟨(1361/80), (-1), (19/25)⟩, ⟨(2043/80), 1, (19/25)⟩, ⟨(545/16), (-1), (19/25)⟩, ⟨(3407/80), 1, (19/25)⟩, ⟨(4089/80), (-1), (19/25)⟩, ⟨(4771/80), 1, (19/25)⟩, ⟨(5453/80), (-1), (19/25)⟩, ⟨(1227/16), 1, (19/25)⟩, ⟨(6817/80), (-1), (19/25)⟩, ⟨(7499/80), 1, (19/25)⟩], (-1), true, (11/5)⟩ (.cons (.node ⟨false, true, .cress, 12, (2407/200), false, [], 1, false, (2387/2500)⟩ (.cons (.node ⟨false, true, .cress, 12, (2407/200), false, [], 1, false, (73997/125000)⟩ (.cons (.node ⟨false, true, .cress, 12, (2407/200), false, [], 1, false, (2293907/6250000)⟩ (.cons (.node ⟨false, true, .cress, 12, (2407/200), false, [], 1, false, (7/20)⟩ (.cons (.node ⟨false, true, .cress, 12, (2407/200), false, [], 1, false, (7/20)⟩ (.cons (.node ⟨false, true, .cress, 12, (3391/800), true, [], 1, false, (7/20)⟩ (.nil)) (.nil))) (.nil))) (.nil))) (.nil))) (.nil))) (.nil)),
  .node ⟨true, false, .cress, 10, 10, false, [], 1, false, (8/5)⟩ (.cons (.node ⟨true, false, .cress, 10, 10, false, [], 1, false, (124/125)⟩ (.cons (.node ⟨true, false, .cress, 10, 10, false, [], 1, false, (1922/3125)⟩ (.cons (.node ⟨true, false, .cress, 10, 10, false, [], 1, false, (1/2)⟩ (.cons (.node ⟨true, false, .cress, 10, 10, false, [], 1, false, (1/2)⟩ (.cons (.node ⟨true, false, .cress, 10, 10, false, [], 1, false, (1/2)⟩ (.cons (.node ⟨true, false, .cress, 10, 10, false, [], 1, false, (1/2)⟩ (.cons (.node ⟨true, false, .cress, 10, (12/5), true, [], 1, false, (1/2)⟩ (.nil)) (.nil))) (.nil))) (.nil))) (.nil))) (.nil))) (.nil))) (.nil))⟩, 730)

theorem chunkT710 : EPlant.updateN rand01 6 ET710 = ET716 := by
  with_unfolding_all rfl

theorem accT716 : EPlant.updateN rand01 716 (EPlant.new VarietyKey.cress rand01 0) = ET716 := by
  rw [show (716 : ℕ) = 710 + 6 by norm_num, EPlant.updateN_add, accT710]
  exact chunkT710

/-- Erased simulator state after 722 ticks of the counterexample run. -/
def ET722 : EPlant × ℕ :=
  (⟨.cress, 722, 240, 120,
  .node ⟨false, false, .cress, 12, (7873/80), true, [⟨(679/80), 1, (19/25)⟩, ⟨(1361/80), (-1), (19/25)⟩, ⟨(2043/80), 1, (19/25)⟩, ⟨(545/16), (-1), (19/25)⟩, ⟨(3407/80), 1, (19/25)⟩, ⟨(4089/80), (-1), (19/25)⟩, ⟨(4771/80), 1, (19/25)⟩, ⟨(5453/80), (-1), (19/25)⟩, ⟨(1227/16), 1, (19/25)⟩, ⟨(6817/80), (-1), (19/25)⟩, ⟨(7499/80), 1, (19/25)⟩], (-1), true, (11/5)⟩ (.cons (.node ⟨false, true, .cress, 12, (2407/200), false, [], 1, false, (2387/2500)⟩ (.cons (.node ⟨false, true, .cress, 12, (2407/200), false, [], 1, false, (73997/125000)⟩ (.cons (.node ⟨false, true, .cress, 12, (2407/200), false, [], 1, false, (2293907/6250000)⟩ (.cons (.node ⟨false, true, .cress, 12, (2407/200), false, [], 1, false, (7/20)⟩ (.cons (.node ⟨false, true, .cress, 12, (2407/200), false, [], 1, false, (7/20)⟩ (.cons (.node ⟨false, true, .cress, 12, (3853/800), true, [], 1, false, (7/20)⟩ (.nil)) (.nil))) (.nil))) (.nil))) (.nil))) (.nil))) (.nil)),
  .node ⟨true, false, .cress, 10, 10, false, [], 1, false, (8/5)⟩ (.cons (.node ⟨true, false, .cress, 10, 10, false, [], 1, false, (124/125)⟩ (.cons (.node ⟨true, false, .cress, 10, 10, false, [], 1, false, (1922/3125)⟩ (.cons (.node ⟨true, false, .cress, 10, 10, false, [], 1, false, (1/2)⟩ (.cons (.node ⟨true, false, .cress, 10, 10, false, [], 1, false, (1/2)⟩ (.cons (.node ⟨true, false, .cress, 10, 10, false, [], 1, false, (1/2)⟩ (.cons (.node ⟨true, false, .cress, 10, 10, false, [], 1, false, (1/2)⟩ (.cons (.node ⟨true, false, .cress, 10, 3, true, [], 1, false, (1/2)⟩ (.nil)) (.nil))) (.nil))) (.nil))) (.nil))) (.nil))) (.nil))) (.nil))⟩, 736)

theorem chunkT716 : EPlant.updateN rand01 6 ET716 = ET722 := by
  with_unfolding_all rfl

theorem accT722 : EPlant.updateN rand01 722 (EPlant.new VarietyKey.cress rand01 0) = ET722 := by
  rw [show (722 : ℕ) = 716 + 6 by norm_num, EPlant.updateN_add, accT716]
  exact chunkT716

/-- Erased simulator state after 728 ticks of the counterexample run. -/
def ET728 : EPlant × ℕ :=
  (⟨.cress, 728, 240, 120,
  .node ⟨false, false, .cress, 12, (7939/80), true, [⟨(679/80), 1, (19/25)⟩, ⟨(1361/80), (-1), (19/25)⟩, ⟨(2043/80), 1, (19/25)⟩, ⟨(545/16), (-1), (19/25)⟩, ⟨(3407/80), 1, (19/25)⟩, ⟨(4089/80), (-1), (19/25)⟩, ⟨(4771/80), 1, (19/25)⟩, ⟨(5453/80), (-1), (19/25)⟩, ⟨(1227/16), 1, (19/25)⟩, ⟨(6817/80), (-1), (19/25)⟩, ⟨(7499/80), 1, (19/25)⟩], (-1), true, (11/5)⟩ (.cons (.node ⟨false, true, .cress, 12, (2407/200), false, [], 1, false, (2387/2500)⟩ (.cons (.node ⟨false, true, .cress, 12, (2407/200), false, [], 1, false, (73997/125000)⟩ (.cons (.node ⟨false, true, .cress, 12, (2407/200), false, [], 1, false, (2293907/6250000)⟩ (.cons (.node ⟨false, true, .cress, 12, (2407/200), false, [], 1, false, (7/20)⟩ (.cons (.node ⟨false, true, .cress, 12, (2407/200), false, [], 1, false, (7/20)⟩ (.cons (.node ⟨false, true, .cress, 12, (863/160), true, [], 1, false, (7/20)⟩ (.nil)) (.nil))) (.nil))) (.nil))) (.nil))) (.nil))) (.nil)),
  .node ⟨true, false, .cress, 10, 10, false, [], 1, false, (8/5)⟩ (.cons (.node ⟨true, false, .cress, 10, 10, false, [], 1, false, (124/125)⟩ (.cons (.node ⟨true, false, .cress, 10, 10, false, [], 1, false, (1922/3125)⟩ (.cons (.node ⟨true, false, .cress, 10, 10, false, [], 1, false, (1/2)⟩ (.cons (.node ⟨true, false, .cress, 10, 10, false, [], 1, false, (1/2)⟩ (.cons (.node ⟨true, false, .cress, 10, 10, false, [], 1, false, (1/2)⟩ (.cons (.node ⟨true, false, .cress, 10, 10, false, [], 1, false, (1/2)⟩ (.cons (.node ⟨true, false, .cress, 10, (18/5), true, [], 1, false, (1/2)⟩ (.nil)) (.nil))) (.nil))) (.nil))) (.nil))) (.nil))) (.nil))) (.nil))⟩, 742)

theorem chunkT722 : EPlant.updateN rand01 6 ET722 = ET728 := by
  with_unfolding_all rfl

theorem accT728 : EPlant.updateN rand01 728 (EPlant.new VarietyKey.cress rand01 0) = ET728 := by
  rw [show (728 : ℕ) = 722 + 6 by norm_num, EPlant.updateN_add, accT722]
  exact chunkT722

/-- Erased simulator state after 734 ticks of the counterexample run. -/
def ET734 : EPlant × ℕ :=
  (⟨.cress, 734, 240, 120,
  .node ⟨false, false, .cress, 12, (1601/16), true, [⟨(679/80), 1, (19/25)⟩, ⟨(1361/80), (-1), (19/25)⟩, ⟨(2043/80), 1, (19/25)⟩, ⟨(545/16), (-1), (19/25)⟩, ⟨(3407/80), 1, (19/25)⟩, ⟨(4089/80), (-1), (19/25)⟩, ⟨(4771/80), 1, (19/25)⟩, ⟨(5453/80), (-1), (19/25)⟩, ⟨(1227/16), 1, (19/25)⟩, ⟨(6817/80), (-1), (19/25)⟩, ⟨(7499/80), 1, (19/25)⟩], (-1), true, (11/5)⟩ (.cons (.node ⟨false, true, .cress, 12, (2407/200), false, [], 1, false, (2387/2500)⟩ (.cons (.node ⟨false, true, .cress, 12, (2407/200), false, [], 1, false, (73997/125000)⟩ (.cons (.node ⟨false, true, .cress, 12, (2407/200), false, [], 1, false, (2293907/6250000)⟩ (.cons (.node ⟨false, true, .cress, 12, (2407/200), false, [], 1, false, (7/20)⟩ (.cons (.node ⟨false, true, .cress, 12, (2407/200), false, [], 1, false, (7/20)⟩ (.cons (.node ⟨false, true, .cress, 12, (4777/800), true, [], 1, false, (7/20)⟩ (.nil)) (.nil))) (.nil))) (.nil))) (.nil))) (.nil))) (.nil)),
  .node ⟨true, false, .cress, 10, 10, false, [], 1, false, (8/5)⟩ (.cons (.node ⟨true, false, .cress, 10, 10, false, [], 1, false, (124/125)⟩ (.cons (.node ⟨true, false, .cress, 10, 10, false, [], 1, false, (1922/3125)⟩ (.cons (.node ⟨true, false, .cress, 10, 10, false, [], 1, false, (1/2)⟩ (.cons (.node ⟨true, false, .cress, 10, 10, false, [], 1, false, (1/2)⟩ (.cons (.node ⟨true, false, .cress, 10, 10, false, [], 1, false, (1/2)⟩ (.cons (.node ⟨true, false, .cress, 10, 10, false, [], 1, false, (1/2)⟩ (.cons (.node ⟨true, false, .cress, 10, (21/5), true, [], 1, false, (1/2)⟩ (.nil)) (.nil))) (.nil))) (.nil))) (.nil))) (.nil))) (.nil))) (.nil))⟩, 748)

theorem chunkT728 : EPlant.updateN rand01 6 ET728 = ET734 := by
  with_unfolding_all rfl

theorem accT734 : EPlant.updateN rand01 734 (EPlant.new VarietyKey.cress rand01 0) = ET734 := by
  rw [show (734 : ℕ) = 728 + 6 by norm_num, EPlant.updateN_add, accT728]
  exact chunkT728

/-- Erased simulator state after 740 ticks of the counterexample run. -/
def ET740 : EPlant × ℕ :=
  (⟨.cress, 740, 240, 120,
  .node ⟨false, false, .cress, 12, (8071/80), true, [⟨(679/80), 1, (19/25)⟩, ⟨(1361/80), (-1), (19/25)⟩, ⟨(2043/80), 1, (19/25)⟩, ⟨(545/16), (-1), (19/25)⟩, ⟨(3407/80), 1, (19/25)⟩, ⟨(4089/80), (-1), (19/25)⟩, ⟨(4771/80), 1, (19/25)⟩, ⟨(5453/80), (-1), (19/25)⟩, ⟨(1227/16), 1, (19/25)⟩, ⟨(6817/80), (-1), (19/25)⟩, ⟨(7499/80), 1, (19/25)⟩], (-1), true, (11/5)⟩ (.cons (.node ⟨false, true, .cress, 12, (2407/200), false, [], 1, false, (2387/2500)⟩ (.cons (.node ⟨false, true, .cress, 12, (2407/200), false, [], 1, false, (73997/125000)⟩ (.cons (.node ⟨false, true, .cress, 12, (2407/200), false, [], 1, false, (2293907/6250000)⟩ (.cons (.node ⟨false, true, .cress, 12, (2407/200), false, [], 1, false, (7/20)⟩ (.cons (.node ⟨false, true, .cress, 12, (2407/200), false, [], 1, false, (7/20)⟩ (.cons (.node ⟨false, true, .cress, 12, (5239/800), true, [], 1, false, (7/20)⟩ (.nil)) (.nil))) (.nil))) (.nil))) (.nil))) (.nil))) (.nil)),
  .node ⟨true, false, .cress, 10, 10, false, [], 1, false, (8/5)⟩ (.cons (.node ⟨true, false, .cress, 10, 10, false, [], 1, false, (124/125)⟩ (.cons (.node ⟨true, false, .cress, 10, 10, false, [], 1, false, (1922/3125)⟩ (.cons (.node ⟨true, false, .cress, 10, 10, false, [], 1, false, (1/2)⟩ (.cons (.node ⟨true, false, .cress, 10, 10, false, [], 1, false, (1/2)⟩ (.cons (.node ⟨true, false, .cress, 10, 10, false, [], 1, false, (1/2)⟩ (.cons (.node ⟨true, false, .cress, 10, 10, false, [], 1, false, (1/2)⟩ (.cons (.node ⟨true, false, .cress, 10, (24/5), true, [], 1, false, (1/2)⟩ (.nil)) (.nil))) (.nil))) (.nil))) (.nil))) (.nil))) (.nil))) (.nil))⟩, 754)

theorem chunkT734 : EPlant.updateN rand01 6 ET734 = ET740 := by
  with_unfolding_all rfl

theorem accT740 : EPlant.updateN rand01 740 (EPlant.new VarietyKey.cress rand01 0) = ET740 := by
  rw [show (740 : ℕ) = 734 + 6 by norm_num, EPlant.updateN_add, accT734]
  exact chunkT734

/-- Erased simulator state after 746 ticks of the counterexample run. -/
def ET746 : EPlant × ℕ :=
  (⟨.cress, 746, 240, 120,
  .node ⟨false, false, .cress, 12, (8137/80), true, [⟨(679/80), 1, (19/25)⟩, ⟨(1361/80), (-1), (19/25)⟩, ⟨(2043/80), 1, (19/25)⟩, ⟨(545/16), (-1), (19/25)⟩, ⟨(3407/80), 1, (19/25)⟩, ⟨(4089/80), (-1), (19/25)⟩, ⟨(4771/80), 1, (19/25)⟩, ⟨(5453/80), (-1), (19/25)⟩, ⟨(1227/16), 1, (19/25)⟩, ⟨(6817/80), (-1), (19/25)⟩, ⟨(7499/80), 1, (19/25)⟩], (-1), true, (11/5)⟩ (.cons (.node ⟨false, true, .cress, 12, (2407/200), false, [], 1, false, (2387/2500)⟩ (.cons (.node ⟨false, true, .cress, 12, (2407/200), false, [], 1, false, (73997/125000)⟩ (.cons (.node ⟨false, true, .cress, 12, (2407/200), false, [], 1, false, (2293907/6250000)⟩ (.cons (.node ⟨false, true, .cress, 12, (2407/200), false, [], 1, false, (7/20)⟩ (.cons (.node ⟨false, true, .cress, 12, (2407/200), false, [], 1, false, (7/20)⟩ (.cons (.node ⟨false, true, .cress, 12, (5701/800), true, [], 1, false, (7/20)⟩ (.nil)) (.nil))) (.nil))) (.nil))) (.nil))) (.nil))) (.nil)),
  .node ⟨true, false, .cress, 10, 10, false, [], 1, false, (8/5)⟩ (.cons (.node ⟨true, false, .cress, 10, 10, false, [], 1, false, (124/125)⟩ (.cons (.node ⟨true, false, .cress, 10, 10, false, [], 1, false, (1922/3125)⟩ (.cons (.node ⟨true, false, .cress, 10, 10, false, [], 1, false, (1/2)⟩ (.cons (.node ⟨true, false, .cress, 10, 10, false, [], 1, false, (1/2)⟩ (.cons (.node ⟨true, false, .cress, 10, 10, false, [], 1, false, (1/2)⟩ (.cons (.node ⟨true, false, .cress, 10, 10, false, [], 1, false, (1/2)⟩ (.cons (.node ⟨true, false, .cress, 10, (27/5), true, [], 1, false, (1/2)⟩ (.nil)) (.nil))) (.nil))) (.nil))) (.nil))) (.nil))) (.nil))) (.nil))⟩, 760)

theorem chunkT740 : EPlant.updateN rand01 6 ET740 = ET746 := by
  with_unfolding_all rfl

theorem accT746 : EPlant.updateN rand01 746 (EPlant.new VarietyKey.cress rand01 0) = ET746 := by
  rw [show (746 : ℕ) = 740 + 6 by norm_num, EPlant.updateN_add, accT740]
  exact chunkT740

/-- Erased simulator state after 752 ticks of the counterexample run. -/
def ET752 : EPlant × ℕ :=
  (⟨.cress, 752, 240, 120,
  .node ⟨false, false, .cress, 12, (8203/80), true, [⟨(679/80), 1, (19/25)⟩, ⟨(1361/80), (-1), (19/25)⟩, ⟨(2043/80), 1, (19/25)⟩, ⟨(545/16), (-1), (19/25)⟩, ⟨(3407/80), 1, (19/25)⟩, ⟨(4089/80), (-1), (19/25)⟩, ⟨(4771/80), 1, (19/25)⟩, ⟨(5453/80), (-1), (19/25)⟩, ⟨(1227/16), 1, (19/25)⟩, ⟨(6817/80), (-1), (19/25)⟩, ⟨(7499/80), 1, (19/25)⟩, ⟨(8181/80), (-1), (19/25)⟩], 1, true, (11/5)⟩ (.cons (.node ⟨false, true, .cress, 12, (2407/200), false, [], 1, false, (2387/2500)⟩ (.cons (.node ⟨false, true, .cress, 12, (2407/200), false, [], 1, false, (73997/125000)⟩ (.cons (.node ⟨false, true, .cress, 12, (2407/200), false, [], 1, false, (2293907/6250000)⟩ (.cons (.node ⟨false, true, .cress, 12, (2407/200), false, [], 1, false, (7/20)⟩ (.cons (.node ⟨false, true, .cress, 12, (2407/200), false, [], 1, false, (7/20)⟩ (.cons (.node ⟨false, true, .cress, 12, (6163/800), true, [], 1, false, (7/20)⟩ (.nil)) (.nil))) (.nil))) (.nil))) (.nil))) (.nil))) (.nil)),
  .node ⟨true, false, .cress, 10, 10, false, [], 1, false, (8/5)⟩ (.cons (.node ⟨true, false, .cress, 10, 10, false, [], 1, false, (124/125)⟩ (.cons (.node ⟨true, false, .cress, 10, 10, false, [], 1, false, (1922/3125)⟩ (.cons (.node ⟨true, false, .cress, 10, 10, false, [], 1, false, (1/2)⟩ (.cons (.node ⟨true, false, .cress, 10, 10, false, [], 1, false, (1/2)⟩ (.cons (.node ⟨true, false, .cress, 10, 10, false, [], 1, false, (1/2)⟩ (.cons (.node ⟨true, false, .cress, 10, 10, false, [], 1, false, (1/2)⟩ (.cons (.node ⟨true, false, .cress, 10, 6, true, [], 1, false, (1/2)⟩ (.nil)) (.nil))) (.nil))) (.nil))) (.nil))) (.nil))) (.nil))) (.nil))⟩, 767)

theorem chunkT746 : EPlant.updateN rand01 6 ET746 = ET752 := by
  with_unfolding_all rfl

theorem accT752 : EPlant.updateN rand01 752 (EPlant.new VarietyKey.cress rand01 0) = ET752 := by
  rw [show (752 : ℕ) = 746 + 6 by norm_num, EPlant.updateN_add, accT746]
  exact chunkT746

/-- Erased simulator state after 758 ticks of the counterexample run. -/
def ET758 : EPlant × ℕ :=
  (⟨.cress, 758, 240, 120,
  .node ⟨false, false, .cress, 12, (8269/80), true, [⟨(679/80), 1, (19/25)⟩, ⟨(1361/80), (-1), (19/25)⟩, ⟨(2043/80), 1, (19/25)⟩, ⟨(545/16), (-1), (19/25)⟩, ⟨(3407/80), 1, (19/25)⟩, ⟨(4089/80), (-1), (19/25)⟩, ⟨(4771/80), 1, (19/25)⟩, ⟨(5453/80), (-1), (19/25)⟩, ⟨(1227/16), 1, (19/25)⟩, ⟨(6817/80), (-1), (19/25)⟩, ⟨(7499/80), 1, (19/25)⟩, ⟨(8181/80), (-1), (19/25)⟩], 1, true, (11/5)⟩ (.cons (.node ⟨false, true, .cress, 12, (2407/200), false, [], 1, false, (2387/2500)⟩ (.cons (.node ⟨false, true, .cress, 12, (2407/200), false, [], 1, false, (73997/125000)⟩ (.cons (.node ⟨false, true, .cress, 12, (2407/200), false, [], 1, false, (2293907/6250000)⟩ (.cons (.node ⟨false, true, .cress, 12, (2407/200), false, [], 1, false, (7/20)⟩ (.cons (.node ⟨false, true, .cress, 12, (2407/200), false, [], 1, false, (7/20)⟩ (.cons (.node ⟨false, true, .cress, 12, (265/32), true, [], 1, false, (7/20)⟩ (.nil)) (.nil))) (.nil))) (.nil))) (.nil))) (.nil))) (.nil)),
  .node ⟨true, false, .cress, 10, 10, false, [], 1, false, (8/5)⟩ (.cons (.node ⟨true, false, .cress, 10, 10, false, [], 1, false, (124/125)⟩ (.cons (.node ⟨true, false, .cress, 10, 10, false, [], 1, false, (1922/3125)⟩ (.cons (.node ⟨true, false, .cress, 10, 10, false, [], 1, false, (1/2)⟩ (.cons (.node ⟨true, false, .cress, 10, 10, false, [], 1, false, (1/2)⟩ (.cons (.node ⟨true, false, .cress, 10, 10, false, [], 1, false, (1/2)⟩ (.cons (.node ⟨true, false, .cress, 10, 10, false, [], 1, false, (1/2)⟩ (.cons (.node ⟨true, false, .cress, 10, (33/5), true, [], 1, false, (1/2)⟩ (.nil)) (.nil))) (.nil))) (.nil))) (.nil))) (.nil))) (.nil))) (.nil))⟩, 773)

theorem chunkT752 : EPlant.updateN rand01 6 ET752 = ET758 := by
  with_unfolding_all rfl

theorem accT758 : EPlant.updateN rand01 758 (EPlant.new VarietyKey.cress rand01 0) = ET758 := by
  rw [show (758 : ℕ) = 752 + 6 by norm_num, EPlant.updateN_add, accT752]
  exact chunkT752

/-- Erased simulator state after 764 ticks of the counterexample run. -/
def ET764 : EPlant × ℕ :=
  (⟨.cress, 764, 240, 120,
  .node ⟨false, false, .cress, 12, (1667/16), true, [⟨(679/80), 1, (19/25)⟩, ⟨(1361/80), (-1), (19/25)⟩, ⟨(2043/80), 1, (19/25)⟩, ⟨(545/16), (-1), (19/25)⟩, ⟨(3407/80), 1, (19/25)⟩, ⟨(4089/80), (-1), (19/25)⟩, ⟨(4771/80), 1, (19/25)⟩, ⟨(5453/80), (-1), (19/25)⟩, ⟨(1227/16), 1, (19/25)⟩, ⟨(6817/80), (-1), (19/25)⟩, ⟨(7499/80), 1, (19/25)⟩, ⟨(8181/80), (-1), (19/25)⟩], 1, true, (11/5)⟩ (.cons (.node ⟨false, true, .cress, 12, (2407/200), false, [], 1, false, (2387/2500)⟩ (.cons (.node ⟨false, true, .cress, 12, (2407/200), false, [], 1, false, (73997/125000)⟩ (.cons (.node ⟨false, true, .cress, 12, (2407/200), false, [], 1, false, (2293907/6250000)⟩ (.cons (.node ⟨false, true, .cress, 12, (2407/200), false, [], 1, false, (7/20)⟩ (.cons (.node ⟨false, true, .cress, 12, (2407/200), false, [], 1, false, (7/20)⟩ (.cons (.node ⟨false, true, .cress, 12, (7087/800), true, [], 1, false, (7/20)⟩ (.nil)) (.nil))) (.nil))) (.nil))) (.nil))) (.nil))) (.nil)),
  .node ⟨true, false, .cress, 10, 10, false, [], 1, false, (8/5)⟩ (.cons (.node ⟨true, false, .cress, 10, 10, false, [], 1, false, (124/125)⟩ (.cons (.node ⟨true, false, .cress, 10, 10, false, [], 1, false, (1922/3125)⟩ (.cons (.node ⟨true, false, .cress, 10, 10, false, [], 1, false, (1/2)⟩ (.cons (.node ⟨true, false, .cress, 10, 10, false, [], 1, false, (1/2)⟩ (.cons (.node ⟨true, false, .cress, 10, 10, false, [], 1, false, (1/2)⟩ (.cons (.node ⟨true, false, .cress, 10, 10, false, [], 1, false, (1/2)⟩ (.cons (.node ⟨true, false, .cress, 10, (36/5), true, [], 1, false, (1/2)⟩ (.nil)) (.nil))) (.nil))) (.nil))) (.nil))) (.nil))) (.nil))) (.nil))⟩, 779)

theorem chunkT758 : EPlant.updateN rand01 6 ET758 = ET764 := by
  with_unfolding_all rfl

theorem accT764 : EPlant.updateN rand01 764 (EPlant.new VarietyKey.cress rand01 0) = ET764 := by
  rw [show (764 : ℕ) = 758 + 6 by norm_num, EPlant.updateN_add, accT758]
  exact chunkT758

/-- Erased simulator state after 770 ticks of the counterexample run. -/
def ET770 : EPlant × ℕ :=
  (⟨.cress, 770, 240, 120,
  .node ⟨false, false, .cress, 12, (8401/80), true, [⟨(679/80), 1, (19/25)⟩, ⟨(1361/80), (-1), (19/25)⟩, ⟨(2043/80), 1, (19/25)⟩, ⟨(545/16), (-1), (19/25)⟩, ⟨(3407/80), 1, (19/25)⟩, ⟨(4089/80), (-1), (19/25)⟩, ⟨(4771/80), 1, (19/25)⟩, ⟨(5453/80), (-1), (19/25)⟩, ⟨(1227/16), 1, (19/25)⟩, ⟨(6817/80), (-1), (19/25)⟩, ⟨(7499/80), 1, (19/25)⟩, ⟨(8181/80), (-1), (19/25)⟩], 1, true, (11/5)⟩ (.cons (.node ⟨false, true, .cress, 12, (2407/200), false, [], 1, false, (2387/2500)⟩ (.cons (.node ⟨false, true, .cress, 12, (2407/200), false, [], 1, false, (73997/125000)⟩ (.cons (.node ⟨false, true, .cress, 12, (2407/200), false, [], 1, false, (2293907/6250000)⟩ (.cons (.node ⟨false, true, .cress, 12, (2407/200), false, [], 1, false, (7/20)⟩ (.cons (.node ⟨false, true, .cress, 12, (2407/200), false, [], 1, false, (7/20)⟩ (.cons (.node ⟨false, true, .cress, 12, (7549/800), true, [], 1, false, (7/20)⟩ (.nil)) (.nil))) (.nil))) (.nil))) (.nil))) (.nil))) (.nil)),
  .node ⟨true, false, .cress, 10, 10, false, [], 1, false, (8/5)⟩ (.cons (.node ⟨true, false, .cress, 10, 10, false, [], 1, false, (124/125)⟩ (.cons (.node ⟨true, false, .cress, 10, 10, false, [], 1, false, (1922/3125)⟩ (.cons (.node ⟨true, false, .cress, 10, 10, false, [], 1, false, (1/2)⟩ (.cons (.node ⟨true, false, .cress, 10, 10, false, [], 1, false, (1/2)⟩ (.cons (.node ⟨true, false, .cress, 10, 10, false, [], 1, false, (1/2)⟩ (.cons (.node ⟨true, false, .cress, 10, 10, false, [], 1, false, (1/2)⟩ (.cons (.node ⟨true, false, .cress, 10, (39/5), true, [], 1, false, (1/2)⟩ (.nil)) (.nil))) (.nil))) (.nil))) (.nil))) (.nil))) (.nil))) (.nil))⟩, 785)

theorem chunkT764 : EPlant.updateN rand01 6 ET764 = ET770 := by
  with_unfolding_all rfl

theorem accT770 : EPlant.updateN rand01 770 (EPlant.new VarietyKey.cress rand01 0) = ET770 := by
  rw [show (770 : ℕ) = 764 + 6 by norm_num, EPlant.updateN_add, accT764]
  exact chunkT764

/-- Erased simulator state after 776 ticks of the counterexample run. -/
def ET776 : EPlant × ℕ :=
  (⟨.cress, 776, 240, 120,
  .node ⟨false, false, .cress, 12, (8467/80), true, [⟨(679/80), 1, (19/25)⟩, ⟨(1361/80), (-1), (19/25)⟩, ⟨(2043/80), 1, (19/25)⟩, ⟨(545/16), (-1), (19/25)⟩, ⟨(3407/80), 1, (19/25)⟩, ⟨(4089/80), (-1), (19/25)⟩, ⟨(4771/80), 1, (19/25)⟩, ⟨(5453/80), (-1), (19/25)⟩, ⟨(1227/16), 1, (19/25)⟩, ⟨(6817/80), (-1), (19/25)⟩, ⟨(7499/80), 1, (19/25)⟩, ⟨(8181/80), (-1), (19/25)⟩], 1, true, (11/5)⟩ (.cons (.node ⟨false, true, .cress, 12, (2407/200), false, [], 1, false, (2387/2500)⟩ (.cons (.node ⟨false, true, .cress, 12, (2407/200), false, [], 1, false, (73997/125000)⟩ (.cons (.node ⟨false, true, .cress, 12, (2407/200), false, [], 1, false, (2293907/6250000)⟩ (.cons (.node ⟨false, true, .cress, 12, (2407/200), false, [], 1, false, (7/20)⟩ (.cons (.node ⟨false, true, .cress, 12, (2407/200), false, [], 1, false, (7/20)⟩ (.cons (.node ⟨false, true, .cress, 12, (8011/800), true, [], 1, false, (7/20)⟩ (.nil)) (.nil))) (.nil))) (.nil))) (.nil))) (.nil))) (.nil)),
  .node ⟨true, false, .cress, 10, 10, false, [], 1, false, (8/5)⟩ (.cons (.node ⟨true, false, .cress, 10, 10, false, [], 1, false, (124/125)⟩ (.cons (.node ⟨true, false, .cress, 10, 10, false, [], 1, false, (1922/3125)⟩ (.cons (.node ⟨true, false, .cress, 10, 10, false, [], 1, false, (1/2)⟩ (.cons (.node ⟨true, false, .cress, 10, 10, false, [], 1, false, (1/2)⟩ (.cons (.node ⟨true, false, .cress, 10, 10, false, [], 1, false, (1/2)⟩ (.cons (.node ⟨true, false, .cress, 10, 10, false, [], 1, false, (1/2)⟩ (.cons (.node ⟨true, false, .cress, 10, (42/5), true, [], 1, false, (1/2)⟩ (.nil)) (.nil))) (.nil))) (.nil))) (.nil))) (.nil))) (.nil))) (.nil))⟩, 791)

theorem chunkT770 : EPlant.updateN rand01 6 ET770 = ET776 := by
  with_unfolding_all rfl

theorem accT776 : EPlant.updateN rand01 776 (EPlant.new VarietyKey.cress rand01 0) = ET776 := by
  rw [show (776 : ℕ) = 770 + 6 by norm_num, EPlant.updateN_add, accT770]
  exact chunkT770

/-- Erased simulator state after 782 ticks of the counterexample run. -/
def ET782 : EPlant × ℕ :=
  (⟨.cress, 782, 240, 120,
  .node ⟨false, false, .cress, 12, (8533/80), true, [⟨(679/80), 1, (19/25)⟩, ⟨(1361/80), (-1), (19/25)⟩, ⟨(2043/80), 1, (19/25)⟩, ⟨(545/16), (-1), (19/25)⟩, ⟨(3407/80), 1, (19/25)⟩, ⟨(4089/80), (-1), (19/25)⟩, ⟨(4771/80), 1, (19/25)⟩, ⟨(5453/80), (-1), (19/25)⟩, ⟨(1227/16), 1, (19/25)⟩, ⟨(6817/80), (-1), (19/25)⟩, ⟨(7499/80), 1, (19/25)⟩, ⟨(8181/80), (-1), (19/25)⟩], 1, true, (11/5)⟩ (.cons (.node ⟨false, true, .cress, 12, (2407/200), false, [], 1, false, (2387/2500)⟩ (.cons (.node ⟨false, true, .cress, 12, (2407/200), false, [], 1, false, (73997/125000)⟩ (.cons (.node ⟨false, true, .cress, 12, (2407/200), false, [], 1, false, (2293907/6250000)⟩ (.cons (.node ⟨false, true, .cress, 12, (2407/200), false, [], 1, false, (7/20)⟩ (.cons (.node ⟨false, true, .cress, 12, (2407/200), false, [], 1, false, (7/20)⟩ (.cons (.node ⟨false, true, .cress, 12, (8473/800), true, [], 1, false, (7/20)⟩ (.nil)) (.nil))) (.nil))) (.nil))) (.nil))) (.nil))) (.nil)),
  .node ⟨true, false, .cress, 10, 10, false, [], 1, false, (8/5)⟩ (.cons (.node ⟨true, false, .cress, 10, 10, false, [], 1, false, (124/125)⟩ (.cons (.node ⟨true, false, .cress, 10, 10, false, [], 1, false, (1922/3125)⟩ (.cons (.node ⟨true, false, .cress, 10, 10, false, [], 1, false, (1/2)⟩ (.cons (.node ⟨true, false, .cress, 10, 10, false, [], 1, false, (1/2)⟩ (.cons (.node ⟨true, false, .cress, 10, 10, false, [], 1, false, (1/2)⟩ (.cons (.node ⟨true, false, .cress, 10, 10, false, [], 1, false, (1/2)⟩ (.cons (.node ⟨true, false, .cress, 10, 9, true, [], 1, false, (1/2)⟩ (.nil)) (.nil))) (.nil))) (.nil))) (.nil))) (.nil))) (.nil))) (.nil))⟩, 797)

theorem chunkT776 : EPlant.updateN rand01 6 ET776 = ET782 := by
  with_unfolding_all rfl

theorem accT782 : EPlant.updateN rand01 782 (EPlant.new VarietyKey.cress rand01 0) = ET782 := by
  rw [show (782 : ℕ) = 776 + 6 by norm_num, EPlant.updateN_add, accT776]
  exact chunkT776

/-- Erased simulator state after 788 ticks of the counterexample run. -/
def ET788 : EPlant × ℕ :=
  (⟨.cress, 788, 240, 120,
  .node ⟨false, false, .cress, 12, (8599/80), true, [⟨(679/80), 1, (19/25)⟩, ⟨(1361/80), (-1), (19/25)⟩, ⟨(2043/80), 1, (19/25)⟩, ⟨(545/16), (-1), (19/25)⟩, ⟨(3407/80), 1, (19/25)⟩, ⟨(4089/80), (-1), (19/25)⟩, ⟨(4771/80), 1, (19/25)⟩, ⟨(5453/80), (-1), (19/25)⟩, ⟨(1227/16), 1, (19/25)⟩, ⟨(6817/80), (-1), (19/25)⟩, ⟨(7499/80), 1, (19/25)⟩, ⟨(8181/80), (-1), (19/25)⟩], 1, true, (11/5)⟩ (.cons (.node ⟨false, true, .cress, 12, (2407/200), false, [], 1, false, (2387/2500)⟩ (.cons (.node ⟨false, true, .cress, 12, (2407/200), false, [], 1, false, (73997/125000)⟩ (.cons (.node ⟨false, true, .cress, 12, (2407/200), false, [], 1, false, (2293907/6250000)⟩ (.cons (.node ⟨false, true, .cress, 12, (2407/200), false, [], 1, false, (7/20)⟩ (.cons (.node ⟨false, true, .cress, 12, (2407/200), false, [], 1, false, (7/20)⟩ (.cons (.node ⟨false, true, .cress, 12, (1787/160), true, [], 1, false, (7/20)⟩ (.nil)) (.nil))) (.nil))) (.nil))) (.nil))) (.nil))) (.nil)),
  .node ⟨true, false, .cress, 10, 10, false, [], 1, false, (8/5)⟩ (.cons (.node ⟨true, false, .cress, 10, 10, false, [], 1, false, (124/125)⟩ (.cons (.node ⟨true, false, .cress, 10, 10, false, [], 1, false, (1922/3125)⟩ (.cons (.node ⟨true, false, .cress, 10, 10, false, [], 1, false, (1/2)⟩ (.cons (.node ⟨true, false, .cress, 10, 10, false, [], 1, false, (1/2)⟩ (.cons (.node ⟨true, false, .cress, 10, 10, false, [], 1, false, (1/2)⟩ (.cons (.node ⟨true, false, .cress, 10, 10, false, [], 1, false, (1/2)⟩ (.cons (.node ⟨true, false, .cress, 10, (48/5), true, [], 1, false, (1/2)⟩ (.nil)) (.nil))) (.nil))) (.nil))) (.nil))) (.nil))) (.nil))) (.nil))⟩, 803)

theorem chunkT782 : EPlant.updateN rand01 6 ET782 = ET788 := by
  with_unfolding_all rfl

theorem accT788 : EPlant.updateN rand01 788 (EPlant.new VarietyKey.cress rand01 0) = ET788 := by
  rw [show (788 : ℕ) = 782 + 6 by norm_num, EPlant.updateN_add, accT782]
  exact chunkT782

/-- Erased simulator state after 794 ticks of the counterexample run. -/
def ET794 : EPlant × ℕ :=
  (⟨.cress, 794, 240, 120,
  .node ⟨false, false, .cress, 12, (1733/16), true, [⟨(679/80), 1, (19/25)⟩, ⟨(1361/80), (-1), (19/25)⟩, ⟨(2043/80), 1, (19/25)⟩, ⟨(545/16), (-1), (19/25)⟩, ⟨(3407/80), 1, (19/25)⟩, ⟨(4089/80), (-1), (19/25)⟩, ⟨(4771/80), 1, (19/25)⟩, ⟨(5453/80), (-1), (19/25)⟩, ⟨(1227/16), 1, (19/25)⟩, ⟨(6817/80), (-1), (19/25)⟩, ⟨(7499/80), 1, (19/25)⟩, ⟨(8181/80), (-1), (19/25)⟩], 1, true, (11/5)⟩ (.cons (.node ⟨false, true, .cress, 12, (2407/200), false, [], 1, false, (2387/2500)⟩ (.cons (.node ⟨false, true, .cress, 12, (2407/200), false, [], 1, false, (73997/125000)⟩ (.cons (.node ⟨false, true, .cress, 12, (2407/200), false, [], 1, false, (2293907/6250000)⟩ (.cons (.node ⟨false, true, .cress, 12, (2407/200), false, [], 1, false, (7/20)⟩ (.cons (.node ⟨false, true, .cress, 12, (2407/200), false, [], 1, false, (7/20)⟩ (.cons (.node ⟨false, true, .cress, 12, (9397/800), true, [], 1, false, (7/20)⟩ (.nil)) (.nil))) (.nil))) (.nil))) (.nil))) (.nil))) (.nil)),
  .node ⟨true, false, .cress, 10, 10, false, [], 1, false, (8/5)⟩ (.cons (.node ⟨true, false, .cress, 10, 10, false, [], 1, false, (124/125)⟩ (.cons (.node ⟨true, false, .cress, 10, 10, false, [], 1, false, (1922/3125)⟩ (.cons (.node ⟨true, false, .cress, 10, 10, false, [], 1, false, (1/2)⟩ (.cons (.node ⟨true, false, .cress, 10, 10, false, [], 1, false, (1/2)⟩ (.cons (.node ⟨true, false, .cress, 10, 10, false, [], 1, false, (1/2)⟩ (.cons (.node ⟨true, false, .cress, 10, 10, false, [], 1, false, (1/2)⟩ (.cons (.node ⟨true, false, .cress, 10, 10, false, [], 1, false, (1/2)⟩ (.cons (.node ⟨true, false, .cress, 10, (2/5), true, [], 1, false, (1/2)⟩ (.nil)) (.nil))) (.nil))) (.nil))) (.nil))) (.nil))) (.nil))) (.nil))) (.nil))⟩, 811)

theorem chunkT788 : EPlant.updateN rand01 6 ET788 = ET794 := by
  with_unfolding_all rfl

theorem accT794 : EPlant.updateN rand01 794 (EPlant.new VarietyKey.cress rand01 0) = ET794 := by
  rw [show (794 : ℕ) = 788 + 6 by norm_num, EPlant.updateN_add, accT788]
  exact chunkT788

/-- Erased simulator state after 800 ticks of the counterexample run. -/
def ET800 : EPlant × ℕ :=
  (⟨.cress, 800, 240, 120,
  .node ⟨false, false, .cress, 12, (8731/80), true, [⟨(679/80), 1, (19/25)⟩, ⟨(1361/80), (-1), (19/25)⟩, ⟨(2043/80), 1, (19/25)⟩, ⟨(545/16), (-1), (19/25)⟩, ⟨(3407/80), 1, (19/25)⟩, ⟨(4089/80), (-1), (19/25)⟩, ⟨(4771/80), 1, (19/25)⟩, ⟨(5453/80), (-1), (19/25)⟩, ⟨(1227/16), 1, (19/25)⟩, ⟨(6817/80), (-1), (19/25)⟩, ⟨(7499/80), 1, (19/25)⟩, ⟨(8181/80), (-1), (19/25)⟩], 1, true, (11/5)⟩ (.cons (.node ⟨false, true, .cress, 12, (2407/200), false, [], 1, false, (2387/2500)⟩ (.cons (.node ⟨false, true, .cress, 12, (2407/200), false, [], 1, false, (73997/125000)⟩ (.cons (.node ⟨false, true, .cress, 12, (2407/200), false, [], 1, false, (2293907/6250000)⟩ (.cons (.node ⟨false, true, .cress, 12, (2407/200), false, [], 1, false, (7/20)⟩ (.cons (.node ⟨false, true, .cress, 12, (2407/200), false, [], 1, false, (7/20)⟩ (.cons (.node ⟨false, true, .cress, 12, (2407/200), false, [], 1, false, (7/20)⟩ (.cons (.node ⟨false, true, .cress, 12, (97/200), true, [], 1, false, (7/20)⟩ (.nil)) (.nil))) (.nil))) (.nil))) (.nil))) (.nil))) (.nil))) (.nil)),
  .node ⟨true, false, .cress, 10, 10, false, [], 1, false, (8/5)⟩ (.cons (.node ⟨true, false, .cress, 10, 10, false, [], 1, false, (124/125)⟩ (.cons (.node ⟨true, false, .cress, 10, 10, false, [], 1, false, (1922/3125)⟩ (.cons (.node ⟨true, false, .cress, 10, 10, false, [], 1, false, (1/2)⟩ (.cons (.node ⟨true, false, .cress, 10, 10, false, [], 1, false, (1/2)⟩ (.cons (.node ⟨true, false, .cress, 10, 10, false, [], 1, false, (1/2)⟩ (.cons (.node ⟨true, false, .cress, 10, 10, false, [], 1, false, (1/2)⟩ (.cons (.node ⟨true, false, .cress, 10, 10, false, [], 1, false, (1/2)⟩ (.cons (.node ⟨true, false, .cress, 10, 1, true, [], 1, false, (1/2)⟩ (.nil)) (.nil))) (.nil))) (.nil))) (.nil))) (.nil))) (.nil))) (.nil))) (.nil))⟩, 819)

theorem chunkT794 : EPlant.updateN rand01 6 ET794 = ET800 := by
  with_unfolding_all rfl

theorem accT800 : EPlant.updateN rand01 800 (EPlant.new VarietyKey.cress rand01 0) = ET800 := by
  rw [show (800 : ℕ) = 794 + 6 by norm_num, EPlant.updateN_add, accT794]
  exact chunkT794

/-- Erased simulator state after 806 ticks of the counterexample run. -/
def ET806 : EPlant × ℕ :=
  (⟨.cress, 806, 240, 120,
  .node ⟨false, false, .cress, 12, (8797/80), true, [⟨(679/80), 1, (19/25)⟩, ⟨(1361/80), (-1), (19/25)⟩, ⟨(2043/80), 1, (19/25)⟩, ⟨(545/16), (-1), (19/25)⟩, ⟨(3407/80), 1, (19/25)⟩, ⟨(4089/80), (-1), (19/25)⟩, ⟨(4771/80), 1, (19/25)⟩, ⟨(5453/80), (-1), (19/25)⟩, ⟨(1227/16), 1, (19/25)⟩, ⟨(6817/80), (-1), (19/25)⟩, ⟨(7499/80), 1, (19/25)⟩, ⟨(8181/80), (-1), (19/25)⟩], 1, true, (11/5)⟩ (.cons (.node ⟨false, true, .cress, 12, (2407/200), false, [], 1, false, (2387/2500)⟩ (.cons (.node ⟨false, true, .cress, 12, (2407/200), false, [], 1, false, (73997/125000)⟩ (.cons (.node ⟨false, true, .cress, 12, (2407/200), false, [], 1, false, (2293907/6250000)⟩ (.cons (.node ⟨false, true, .cress, 12, (2407/200), false, [], 1, false, (7/20)⟩ (.cons (.node ⟨false, true, .cress, 12, (2407/200), false, [], 1, false, (7/20)⟩ (.cons (.node ⟨false, true, .cress, 12, (2407/200), false, [], 1, false, (7/20)⟩ (.cons (.node ⟨false, true, .cress, 12, (17/16), true, [], 1, false, (7/20)⟩ (.nil)) (.nil))) (.nil))) (.nil))) (.nil))) (.nil))) (.nil))) (.nil)),
  .node ⟨true, false, .cress, 10, 10, false, [], 1, false, (8/5)⟩ (.cons (.node ⟨true, false, .cress, 10, 10, false, [], 1, false, (124/125)⟩ (.cons (.node ⟨true, false, .cress, 10, 10, false, [], 1, false, (1922/3125)⟩ (.cons (.node ⟨true, false, .cress, 10, 10, false, [], 1, false, (1/2)⟩ (.cons (.node ⟨true, false, .cress, 10, 10, false, [], 1, false, (1/2)⟩ (.cons (.node ⟨true, false, .cress, 10, 10, false, [], 1, false, (1/2)⟩ (.cons (.node ⟨true, false, .cress, 10, 10, false, [], 1, false, (1/2)⟩ (.cons (.node ⟨true, false, .cress, 10, 10, false, [], 1, false, (1/2)⟩ (.cons (.node ⟨true, false, .cress, 10, (8/5), true, [], 1, false, (1/2)⟩ (.nil)) (.nil))) (.nil))) (.nil))) (.nil))) (.nil))) (.nil))) (.nil))) (.nil))⟩, 825)

theorem chunkT800 : EPlant.updateN rand01 6 ET800 = ET806 := by
  with_unfolding_all rfl

theorem accT806 : EPlant.updateN rand01 806 (EPlant.new VarietyKey.cress rand01 0) = ET806 := by
  rw [show (806 : ℕ) = 800 + 6 by norm_num, EPlant.updateN_add, accT800]
  exact chunkT800

/-- Erased simulator state after 812 ticks of the counterexample run. -/
def ET812 : EPlant × ℕ :=
  (⟨.cress, 812, 240, 120,
  .node ⟨false, false, .cress, 12, (8863/80), true, [⟨(679/80), 1, (19/25)⟩, ⟨(1361/80), (-1), (19/25)⟩, ⟨(2043/80), 1, (19/25)⟩, ⟨(545/16), (-1), (19/25)⟩, ⟨(3407/80), 1, (19/25)⟩, ⟨(4089/80), (-1), (19/25)⟩, ⟨(4771/80), 1, (19/25)⟩, ⟨(5453/80), (-1), (19/25)⟩, ⟨(1227/16), 1, (19/25)⟩, ⟨(6817/80), (-1), (19/25)⟩, ⟨(7499/80), 1, (19/25)⟩, ⟨(8181/80), (-1), (19/25)⟩, ⟨(8863/80), 1, (19/25)⟩], (-1), true, (11/5)⟩ (.cons (.node ⟨false, true, .cress, 12, (2407/200), false, [], 1, false, (2387/2500)⟩ (.cons (.node ⟨false, true, .cress, 12, (2407/200), false, [], 1, false, (73997/125000)⟩ (.cons (.node ⟨false, true, .cress, 12, (2407/200), false, [], 1, false, (2293907/6250000)⟩ (.cons (.node ⟨false, true, .cress, 12, (2407/200), false, [], 1, false, (7/20)⟩ (.cons (.node ⟨false, true, .cress, 12, (2407/200), false, [], 1, false, (7/20)⟩ (.cons (.node ⟨false, true, .cress, 12, (2407/200), false, [], 1, false, (7/20)⟩ (.cons (.node ⟨false, true, .cress, 12, (41/25), true, [], 1, false, (7/20)⟩ (.nil)) (.nil))) (.nil))) (.nil))) (.nil))) (.nil))) (.nil))) (.nil)),
  .node ⟨true, false, .cress, 10, 10, false, [], 1, false, (8/5)⟩ (.cons (.node ⟨true, false, .cress, 10, 10, false, [], 1, false, (124/125)⟩ (.cons (.node ⟨true, false, .cress, 10, 10, false, [], 1, false, (1922/3125)⟩ (.cons (.node ⟨true, false, .cress, 10, 10, false, [], 1, false, (1/2)⟩ (.cons (.node ⟨true, false, .cress, 10, 10, false, [], 1, false, (1/2)⟩ (.cons (.node ⟨true, false, .cress, 10, 10, false, [], 1, false, (1/2)⟩ (.cons (.node ⟨true, false, .cress, 10, 10, false, [], 1, false, (1/2)⟩ (.cons (.node ⟨true, false, .cress, 10, 10, false, [], 1, false, (1/2)⟩ (.cons (.node ⟨true, false, .cress, 10, (11/5), true, [], 1, false, (1/2)⟩ (.nil)) (.nil))) (.nil))) (.nil))) (.nil))) (.nil))) (.nil))) (.nil))) (.nil))⟩, 832)

theorem chunkT806 : EPlant.updateN rand01 6 ET806 = ET812 := by
  with_unfolding_all rfl

theorem accT812 : EPlant.updateN rand01 812 (EPlant.new VarietyKey.cress rand01 0) = ET812 := by
  rw [show (812 : ℕ) = 806 + 6 by norm_num, EPlant.updateN_add, accT806]
  exact chunkT806

/-- Erased simulator state after 818 ticks of the counterexample run. -/
def ET818 : EPlant × ℕ :=
  (⟨.cress, 818, 240, 120,
  .node ⟨false, false, .cress, 12, (8929/80), true, [⟨(679/80), 1, (19/25)⟩, ⟨(1361/80), (-1), (19/25)⟩, ⟨(2043/80), 1, (19/25)⟩, ⟨(545/16), (-1), (19/25)⟩, ⟨(3407/80), 1, (19/25)⟩, ⟨(4089/80), (-1), (19/25)⟩, ⟨(4771/80), 1, (19/25)⟩, ⟨(5453/80), (-1), (19/25)⟩, ⟨(1227/16), 1, (19/25)⟩, ⟨(6817/80), (-1), (19/25)⟩, ⟨(7499/80), 1, (19/25)⟩, ⟨(8181/80), (-1), (19/25)⟩, ⟨(8863/80), 1, (19/25)⟩], (-1), true, (11/5)⟩ (.cons (.node ⟨false, true, .cress, 12, (2407/200), false, [], 1, false, (2387/2500)⟩ (.cons (.node ⟨false, true, .cress, 12, (2407/200), false, [], 1, false, (73997/125000)⟩ (.cons (.node ⟨false, true, .cress, 12, (2407/200), false, [], 1, false, (2293907/6250000)⟩ (.cons (.node ⟨false, true, .cress, 12, (2407/200), false, [], 1, false, (7/20)⟩ (.cons (.node ⟨false, true, .cress, 12, (2407/200), false, [], 1, false, (7/20)⟩ (.cons (.node ⟨false, true, .cress, 12, (2407/200), false, [], 1, false, (7/20)⟩ (.cons (.node ⟨false, true, .cress, 12, (887/400), true, [], 1, false, (7/20)⟩ (.nil)) (.nil))) (.nil))) (.nil))) (.nil))) (.nil))) (.nil))) (.nil)),
  .node ⟨true, false, .cress, 10, 10, false, [], 1, false, (8/5)⟩ (.cons (.node ⟨true, false, .cress, 10, 10, false, [], 1, false, (124/125)⟩ (.cons (.node ⟨true, false, .cress, 10, 10, false, [], 1, false, (1922/3125)⟩ (.cons (.node ⟨true, false, .cress, 10, 10, false, [], 1, false, (1/2)⟩ (.cons (.node ⟨true, false, .cress, 10, 10, false, [], 1, false, (1/2)⟩ (.cons (.node ⟨true, false, .cress, 10, 10, false, [], 1, false, (1/2)⟩ (.cons (.node ⟨true, false, .cress, 10, 10, false, [], 1, false, (1/2)⟩ (.cons (.node ⟨true, false, .cress, 10, 10, false, [], 1, false, (1/2)⟩ (.cons (.node ⟨true, false, .cress, 10, (14/5), true, [], 1, false, (1/2)⟩ (.nil)) (.nil))) (.nil))) (.nil))) (.nil))) (.nil))) (.nil))) (.nil))) (.nil))⟩, 838)

theorem chunkT812 : EPlant.updateN rand01 6 ET812 = ET818 := by
  with_unfolding_all rfl

theorem accT818 : EPlant.updateN rand01 818 (EPlant.new VarietyKey.cress rand01 0) = ET818 := by
  rw [show (818 : ℕ) = 812 + 6 by norm_num, EPlant.updateN_add, accT812]
  exact chunkT812

/-- Erased simulator state after 824 ticks of the counterexample run. -/
def ET824 : EPlant × ℕ :=
  (⟨.cress, 824, 240, 120,
  .node ⟨false, false, .cress, 12, (1799/16), true, [⟨(679/80), 1, (19/25)⟩, ⟨(1361/80), (-1), (19/25)⟩, ⟨(2043/80), 1, (19/25)⟩, ⟨(545/16), (-1), (19/25)⟩, ⟨(3407/80), 1, (19/25)⟩, ⟨(4089/80), (-1), (19/25)⟩, ⟨(4771/80), 1, (19/25)⟩, ⟨(5453/80), (-1), (19/25)⟩, ⟨(1227/16), 1, (19/25)⟩, ⟨(6817/80), (-1), (19/25)⟩, ⟨(7499/80), 1, (19/25)⟩, ⟨(8181/80), (-1), (19/25)⟩, ⟨(8863/80), 1, (19/25)⟩], (-1), true, (11/5)⟩ (.cons (.node ⟨false, true, .cress, 12, (2407/200), false, [], 1, false, (2387/2500)⟩ (.cons (.node ⟨false, true, .cress, 12, (2407/200), false, [], 1, false, (73997/125000)⟩ (.cons (.node ⟨false, true, .cress, 12, (2407/200), false, [], 1, false, (2293907/6250000)⟩ (.cons (.node ⟨false, true, .cress, 12, (2407/200), false, [], 1, false, (7/20)⟩ (.cons (.node ⟨false, true, .cress, 12, (2407/200), false, [], 1, false, (7/20)⟩ (.cons (.node ⟨false, true, .cress, 12, (2407/200), false, [], 1, false, (7/20)⟩ (.cons (.node ⟨false, true, .cress, 12, (559/200), true, [], 1, false, (7/20)⟩ (.nil)) (.nil))) (.nil))) (.nil))) (.nil))) (.nil))) (.nil))) (.nil)),
  .node ⟨true, false, .cress, 10, 10, false, [], 1, false, (8/5)⟩ (.cons (.node ⟨true, false, .cress, 10, 10, false, [], 1, false, (124/125)⟩ (.cons (.node ⟨true, false, .cress, 10, 10, false, [], 1, false, (1922/3125)⟩ (.cons (.node ⟨true, false, .cress, 10, 10, false, [], 1, false, (1/2)⟩ (.cons (.node ⟨true, false, .cress, 10, 10, false, [], 1, false, (1/2)⟩ (.cons (.node ⟨true, false, .cress, 10, 10, false, [], 1, false, (1/2)⟩ (.cons (.node ⟨true, false, .cress, 10, 10, false, [], 1, false, (1/2)⟩ (.cons (.node ⟨true, false, .cress, 10, 10, false, [], 1, false, (1/2)⟩ (.cons (.node ⟨true, false, .cress, 10, (17/5), true, [], 1, false, (1/2)⟩ (.nil)) (.nil))) (.nil))) (.nil))) (.nil))) (.nil))) (.nil))) (.nil))) (.nil))⟩, 844)

theorem chunkT818 : EPlant.updateN rand01 6 ET818 = ET824 := by
  with_unfolding_all rfl

theorem accT824 : EPlant.updateN rand01 824 (EPlant.new VarietyKey.cress rand01 0) = ET824 := by
  rw [show (824 : ℕ) = 818 + 6 by norm_num, EPlant.updateN_add, accT818]
  exact chunkT818

/-- Erased simulator state after 830 ticks of the counterexample run. -/
def ET830 : EPlant × ℕ :=
  (⟨.cress, 830, 240, 120,
  .node ⟨false, false, .cress, 12, (9061/80), true, [⟨(679/80), 1, (19/25)⟩, ⟨(1361/80), (-1), (19/25)⟩, ⟨(2043/80), 1, (19/25)⟩, ⟨(545/16), (-1), (19/25)⟩, ⟨(3407/80), 1, (19/25)⟩, ⟨(4089/80), (-1), (19/25)⟩, ⟨(4771/80), 1, (19/25)⟩, ⟨(5453/80), (-1), (19/25)⟩, ⟨(1227/16), 1, (19/25)⟩, ⟨(6817/80), (-1), (19/25)⟩, ⟨(7499/80), 1, (19/25)⟩, ⟨(8181/80), (-1), (19/25)⟩, ⟨(8863/80), 1, (19/25)⟩], (-1), true, (11/5)⟩ (.cons (.node ⟨false, true, .cress, 12, (2407/200), false, [], 1, false, (2387/2500)⟩ (.cons (.node ⟨false, true, .cress, 12, (2407/200), false, [], 1, false, (73997/125000)⟩ (.cons (.node ⟨false, true, .cress, 12, (2407/200), false, [], 1, false, (2293907/6250000)⟩ (.cons (.node ⟨false, true, .cress, 12, (2407/200), false, [], 1, false, (7/20)⟩ (.cons (.node ⟨false, true, .cress, 12, (2407/200), false, [], 1, false, (7/20)⟩ (.cons (.node ⟨false, true, .cress, 12, (2407/200), false, [], 1, false, (7/20)⟩ (.cons (.node ⟨false, true, .cress, 12, (1349/400), true, [], 1, false, (7/20)⟩ (.nil)) (.nil))) (.nil))) (.nil))) (.nil))) (.nil))) (.nil))) (.nil)),
  .node ⟨true, false, .cress, 10, 10, false, [], 1, false, (8/5)⟩ (.cons (.node ⟨true, false, .cress, 10, 10, false, [], 1, false, (124/125)⟩ (.cons (.node ⟨true, false, .cress, 10, 10, false, [], 1, false, (1922/3125)⟩ (.cons (.node ⟨true, false, .cress, 10, 10, false, [], 1, false, (1/2)⟩ (.cons (.node ⟨true, false, .cress, 10, 10, false, [], 1, false, (1/2)⟩ (.cons (.node ⟨true, false, .cress, 10, 10, false, [], 1, false, (1/2)⟩ (.cons (.node ⟨true, false, .cress, 10, 10, false, [], 1, false, (1/2)⟩ (.cons (.node ⟨true, false, .cress, 10, 10, false, [], 1, false, (1/2)⟩ (.cons (.node ⟨true, false, .cress, 10, 4, true, [], 1, false, (1/2)⟩ (.nil)) (.nil))) (.nil))) (.nil))) (.nil))) (.nil))) (.nil))) (.nil))) (.nil))⟩, 850)

theorem chunkT824 : EPlant.updateN rand01 6 ET824 = ET830 := by
  with_unfolding_all rfl

theorem accT830 : EPlant.updateN rand01 830 (EPlant.new VarietyKey.cress rand01 0) = ET830 := by
  rw [show (830 : ℕ) = 824 + 6 by norm_num, EPlant.updateN_add, accT824]
  exact chunkT824

/-- Erased simulator state after 836 ticks of the counterexample run. -/
def ET836 : EPlant × ℕ :=
  (⟨.cress, 836, 240, 120,
  .node ⟨false, false, .cress, 12, (9127/80), true, [⟨(679/80), 1, (19/25)⟩, ⟨(1361/80), (-1), (19/25)⟩, ⟨(2043/80), 1, (19/25)⟩, ⟨(545/16), (-1), (19/25)⟩, ⟨(3407/80), 1, (19/25)⟩, ⟨(4089/80), (-1), (19/25)⟩, ⟨(4771/80), 1, (19/25)⟩, ⟨(5453/80), (-1), (19/25)⟩, ⟨(1227/16), 1, (19/25)⟩, ⟨(6817/80), (-1), (19/25)⟩, ⟨(7499/80), 1, (19/25)⟩, ⟨(8181/80), (-1), (19/25)⟩, ⟨(8863/80), 1, (19/25)⟩], (-1), true, (11/5)⟩ (.cons (.node ⟨false, true, .cress, 12, (2407/200), false, [], 1, false, (2387/2500)⟩ (.cons (.node ⟨false, true, .cress, 12, (2407/200), false, [], 1, false, (73997/125000)⟩ (.cons (.node ⟨false, true, .cress, 12, (2407/200), false, [], 1, false, (2293907/6250000)⟩ (.cons (.node ⟨false, true, .cress, 12, (2407/200), false, [], 1, false, (7/20)⟩ (.cons (.node ⟨false, true, .cress, 12, (2407/200), false, [], 1, false, (7/20)⟩ (.cons (.node ⟨false, true, .cress, 12, (2407/200), false, [], 1, false, (7/20)⟩ (.cons (.node ⟨false, true, .cress, 12, (79/20), true, [], 1, false, (7/20)⟩ (.nil)) (.nil))) (.nil))) (.nil))) (.nil))) (.nil))) (.nil))) (.nil)),
  .node ⟨true, false, .cress, 10, 10, false, [], 1, false, (8/5)⟩ (.cons (.node ⟨true, false, .cress, 10, 10, false, [], 1, false, (124/125)⟩ (.cons (.node ⟨true, false, .cress, 10, 10, false, [], 1, false, (1922/3125)⟩ (.cons (.node ⟨true, false, .cress, 10, 10, false, [], 1, false, (1/2)⟩ (.cons (.node ⟨true, false, .cress, 10, 10, false, [], 1, false, (1/2)⟩ (.cons (.node ⟨true, false, .cress, 10, 10, false, [], 1, false, (1/2)⟩ (.cons (.node ⟨true, false, .cress, 10, 10, false, [], 1, false, (1/2)⟩ (.cons (.node ⟨true, false, .cress, 10, 10, false, [], 1, false, (1/2)⟩ (.cons (.node ⟨true, false, .cress, 10, (23/5), true, [], 1, false, (1/2)⟩ (.nil)) (.nil))) (.nil))) (.nil))) (.nil))) (.nil))) (.nil))) (.nil))) (.nil))⟩, 856)

theorem chunkT830 : EPlant.updateN rand01 6 ET830 = ET836 := by
  with_unfolding_all rfl

theorem accT836 : EPlant.updateN rand01 836 (EPlant.new VarietyKey.cress rand01 0) = ET836 := by
  rw [show (836 : ℕ) = 830 + 6 by norm_num, EPlant.updateN_add, accT830]
  exact chunkT830

/-- Erased simulator state after 842 ticks of the counterexample run. -/
def ET842 : EPlant × ℕ :=
  (⟨.cress, 842, 240, 120,
  .node ⟨false, false, .cress, 12, (9193/80), true, [⟨(679/80), 1, (19/25)⟩, ⟨(1361/80), (-1), (19/25)⟩, ⟨(2043/80), 1, (19/25)⟩, ⟨(545/16), (-1), (19/25)⟩, ⟨(3407/80), 1, (19/25)⟩, ⟨(4089/80), (-1), (19/25)⟩, ⟨(4771/80), 1, (19/25)⟩, ⟨(5453/80), (-1), (19/25)⟩, ⟨(1227/16), 1, (19/25)⟩, ⟨(6817/80), (-1), (19/25)⟩, ⟨(7499/80), 1, (19/25)⟩, ⟨(8181/80), (-1), (19/25)⟩, ⟨(8863/80), 1, (19/25)⟩], (-1), true, (11/5)⟩ (.cons (.node ⟨false, true, .cress, 12, (2407/200), false, [], 1, false, (2387/2500)⟩ (.cons (.node ⟨false, true, .cress, 12, (2407/200), false, [], 1, false, (73997/125000)⟩ (.cons (.node ⟨false, true, .cress, 12, (2407/200), false, [], 1, false, (2293907/6250000)⟩ (.cons (.node ⟨false, true, .cress, 12, (2407/200), false, [], 1, false, (7/20)⟩ (.cons (.node ⟨false, true, .cress, 12, (2407/200), false, [], 1, false, (7/20)⟩ (.cons (.node ⟨false, true, .cress, 12, (2407/200), false, [], 1, false, (7/20)⟩ (.cons (.node ⟨false, true, .cress, 12, (1811/400), true, [], 1, false, (7/20)⟩ (.nil)) (.nil))) (.nil))) (.nil))) (.nil))) (.nil))) (.nil))) (.nil)),
  .node ⟨true, false, .cress, 10, 10, false, [], 1, false, (8/5)⟩ (.cons (.node ⟨true, false, .cress, 10, 10, false, [], 1, false, (124/125)⟩ (.cons (.node ⟨true, false, .cress, 10, 10, false, [], 1, false, (1922/3125)⟩ (.cons (.node ⟨true, false, .cress, 10, 10, false, [], 1, false, (1/2)⟩ (.cons (.node ⟨true, false, .cress, 10, 10, false, [], 1, false, (1/2)⟩ (.cons (.node ⟨true, false, .cress, 10, 10, false, [], 1, false, (1/2)⟩ (.cons (.node ⟨true, false, .cress, 10, 10, false, [], 1, false, (1/2)⟩ (.cons (.node ⟨true, false, .cress, 10, 10, false, [], 1, false, (1/2)⟩ (.cons (.node ⟨true, false, .cress, 10, (26/5), true, [], 1, false, (1/2)⟩ (.nil)) (.nil))) (.nil))) (.nil))) (.nil))) (.nil))) (.nil))) (.nil))) (.nil))⟩, 862)

theorem chunkT836 : EPlant.updateN rand01 6 ET836 = ET842 := by
  with_unfolding_all rfl

theorem accT842 : EPlant.updateN rand01 842 (EPlant.new VarietyKey.cress rand01 0) = ET842 := by
  rw [show (842 : ℕ) = 836 + 6 by norm_num, EPlant.updateN_add, accT836]
  exact chunkT836

/-- Erased simulator state after 848 ticks of the counterexample run. -/
def ET848 : EPlant × ℕ :=
  (⟨.cress, 848, 240, 120,
  .node ⟨false, false, .cress, 12, (9259/80), true, [⟨(679/80), 1, (19/25)⟩, ⟨(1361/80), (-1), (19/25)⟩, ⟨(2043/80), 1, (19/25)⟩, ⟨(545/16), (-1), (19/25)⟩, ⟨(3407/80), 1, (19/25)⟩, ⟨(4089/80), (-1), (19/25)⟩, ⟨(4771/80), 1, (19/25)⟩, ⟨(5453/80), (-1), (19/25)⟩, ⟨(1227/16), 1, (19/25)⟩, ⟨(6817/80), (-1), (19/25)⟩, ⟨(7499/80), 1, (19/25)⟩, ⟨(8181/80), (-1), (19/25)⟩, ⟨(8863/80), 1, (19/25)⟩], (-1), true, (11/5)⟩ (.cons (.node ⟨false, true, .cress, 12, (2407/200), false, [], 1, false, (2387/2500)⟩ (.cons (.node ⟨false, true, .cress, 12, (2407/200), false, [], 1, false, (73997/125000)⟩ (.cons (.node ⟨false, true, .cress, 12, (2407/200), false, [], 1, false, (2293907/6250000)⟩ (.cons (.node ⟨false, true, .cress, 12, (2407/200), false, [], 1, false, (7/20)⟩ (.cons (.node ⟨false, true, .cress, 12, (2407/200), false, [], 1, false, (7/20)⟩ (.cons (.node ⟨false, true, .cress, 12, (2407/200), false, [], 1, false, (7/20)⟩ (.cons (.node ⟨false, true, .cress, 12, (1021/200), true, [], 1, false, (7/20)⟩ (.nil)) (.nil))) (.nil))) (.nil))) (.nil))) (.nil))) (.nil))) (.nil)),
  .node ⟨true, false, .cress, 10, 10, false, [], 1, false, (8/5)⟩ (.cons (.node ⟨true, false, .cress, 10, 10, false, [], 1, false, (124/125)⟩ (.cons (.node ⟨true, false, .cress, 10, 10, false, [], 1, false, (1922/3125)⟩ (.cons (.node ⟨true, false, .cress, 10, 10, false, [], 1, false, (1/2)⟩ (.cons (.node ⟨true, false, .cress, 10, 10, false, [], 1, false, (1/2)⟩ (.cons (.node ⟨true, false, .cress, 10, 10, false, [], 1, false, (1/2)⟩ (.cons (.node ⟨true, false, .cress, 10, 10, false, [], 1, false, (1/2)⟩ (.cons (.node ⟨true, false, .cress, 10, 10, false, [], 1, false, (1/2)⟩ (.cons (.node ⟨true, false, .cress, 10, (29/5), true, [], 1, false, (1/2)⟩ (.nil)) (.nil))) (.nil))) (.nil))) (.nil))) (.nil))) (.nil))) (.nil))) (.nil))⟩, 868)

theorem chunkT842 : EPlant.updateN rand01 6 ET842 = ET848 := by
  with_unfolding_all rfl

theorem accT848 : EPlant.updateN rand01 848 (EPlant.new VarietyKey.cress rand01 0) = ET848 := by
  rw [show (848 : ℕ) = 842 + 6 by norm_num, EPlant.updateN_add, accT842]
  exact chunkT842

/-- Erased simulator state after 854 ticks of the counterexample run. -/
def ET854 : EPlant × ℕ :=
  (⟨.cress, 854, 240, 120,
  .node ⟨false, false, .cress, 12, (1865/16), true, [⟨(679/80), 1, (19/25)⟩, ⟨(1361/80), (-1), (19/25)⟩, ⟨(2043/80), 1, (19/25)⟩, ⟨(545/16), (-1), (19/25)⟩, ⟨(3407/80), 1, (19/25)⟩, ⟨(4089/80), (-1), (19/25)⟩, ⟨(4771/80), 1, (19/25)⟩, ⟨(5453/80), (-1), (19/25)⟩, ⟨(1227/16), 1, (19/25)⟩, ⟨(6817/80), (-1), (19/25)⟩, ⟨(7499/80), 1, (19/25)⟩, ⟨(8181/80), (-1), (19/25)⟩, ⟨(8863/80), 1, (19/25)⟩], (-1), true, (11/5)⟩ (.cons (.node ⟨false, true, .cress, 12, (2407/200), false, [], 1, false, (2387/2500)⟩ (.cons (.node ⟨false, true, .cress, 12, (2407/200), false, [], 1, false, (73997/125000)⟩ (.cons (.node ⟨false, true, .cress, 12, (2407/200), false, [], 1, false, (2293907/6250000)⟩ (.cons (.node ⟨false, true, .cress, 12, (2407/200), false, [], 1, false, (7/20)⟩ (.cons (.node ⟨false, true, .cress, 12, (2407/200), false, [], 1, false, (7/20)⟩ (.cons (.node ⟨false, true, .cress, 12, (2407/200), false, [], 1, false, (7/20)⟩ (.cons (.node ⟨false, true, .cress, 12, (2273/400), true, [], 1, false, (7/20)⟩ (.nil)) (.nil))) (.nil))) (.nil))) (.nil))) (.nil))) (.nil))) (.nil)),
  .node ⟨true, false, .cress, 10, 10, false, [], 1, false, (8/5)⟩ (.cons (.node ⟨true, false, .cress, 10, 10, false, [], 1, false, (124/125)⟩ (.cons (.node ⟨true, false, .cress, 10, 10, false, [], 1, false, (1922/3125)⟩ (.cons (.node ⟨true, false, .cress, 10, 10, false, [], 1, false, (1/2)⟩ (.cons (.node ⟨true, false, .cress, 10, 10, false, [], 1, false, (1/2)⟩ (.cons (.node ⟨true, false, .cress, 10, 10, false, [], 1, false, (1/2)⟩ (.cons (.node ⟨true, false, .cress, 10, 10, false, [], 1, false, (1/2)⟩ (.cons (.node ⟨true, false, .cress, 10, 10, false, [], 1, false, (1/2)⟩ (.cons (.node ⟨true, false, .cress, 10, (32/5), true, [], 1, false, (1/2)⟩ (.nil)) (.nil))) (.nil))) (.nil))) (.nil))) (.nil))) (.nil))) (.nil))) (.nil))⟩, 874)

theorem chunkT848 : EPlant.updateN rand01 6 ET848 = ET854 := by
  with_unfolding_all rfl

theorem accT854 : EPlant.updateN rand01 854 (EPlant.new VarietyKey.cress rand01 0) = ET854 := by
  rw [show (854 : ℕ) = 848 + 6 by norm_num, EPlant.updateN_add, accT848]
  exact chunkT848

/-- Erased simulator state after 860 ticks of the counterexample run. -/
def ET860 : EPlant × ℕ :=
  (⟨.cress, 860, 240, 120,
  .node ⟨false, false, .cress, 12, (9391/80), true, [⟨(679/80), 1, (19/25)⟩, ⟨(1361/80), (-1), (19/25)⟩, ⟨(2043/80), 1, (19/25)⟩, ⟨(545/16), (-1), (19/25)⟩, ⟨(3407/80), 1, (19/25)⟩, ⟨(4089/80), (-1), (19/25)⟩, ⟨(4771/80), 1, (19/25)⟩, ⟨(5453/80), (-1), (19/25)⟩, ⟨(1227/16), 1, (19/25)⟩, ⟨(6817/80), (-1), (19/25)⟩, ⟨(7499/80), 1, (19/25)⟩, ⟨(8181/80), (-1), (19/25)⟩, ⟨(8863/80), 1, (19/25)⟩], (-1), true, (11/5)⟩ (.cons (.node ⟨false, true, .cress, 12, (2407/200), false, [], 1, false, (2387/2500)⟩ (.cons (.node ⟨false, true, .cress, 12, (2407/200), false, [], 1, false, (73997/125000)⟩ (.cons (.node ⟨false, true, .cress, 12, (2407/200), false, [], 1, false, (2293907/6250000)⟩ (.cons (.node ⟨false, true, .cress, 12, (2407/200), false, [], 1, false, (7/20)⟩ (.cons (.node ⟨false, true, .cress, 12, (2407/200), false, [], 1, false, (7/20)⟩ (.cons (.node ⟨false, true, .cress, 12, (2407/200), false, [], 1, false, (7/20)⟩ (.cons (.node ⟨false, true, .cress, 12, (313/50), true, [], 1, false, (7/20)⟩ (.nil)) (.nil))) (.nil))) (.nil))) (.nil))) (.nil))) (.nil))) (.nil)),
  .node ⟨true, false, .cress, 10, 10, false, [], 1, false, (8/5)⟩ (.cons (.node ⟨true, false, .cress, 10, 10, false, [], 1, false, (124/125)⟩ (.cons (.node ⟨true, false, .cress, 10, 10, false, [], 1, false, (1922/3125)⟩ (.cons (.node ⟨true, false, .cress, 10, 10, false, [], 1, false, (1/2)⟩ (.cons (.node ⟨true, false, .cress, 10, 10, false, [], 1, false, (1/2)⟩ (.cons (.node ⟨true, false, .cress, 10, 10, false, [], 1, false, (1/2)⟩ (.cons (.node ⟨true, false, .cress, 10, 10, false, [], 1, false, (1/2)⟩ (.cons (.node ⟨true, false, .cress, 10, 10, false, [], 1, false, (1/2)⟩ (.cons (.node ⟨true, false, .cress, 10, 7, true, [], 1, false, (1/2)⟩ (.nil)) (.nil))) (.nil))) (.nil))) (.nil))) (.nil))) (.nil))) (.nil))) (.nil))⟩, 880)

theorem chunkT854 : EPlant.updateN rand01 6 ET854 = ET860 := by
  with_unfolding_all rfl

theorem accT860 : EPlant.updateN rand01 860 (EPlant.new VarietyKey.cress rand01 0) = ET860 := by
  rw [show (860 : ℕ) = 854 + 6 by norm_num, EPlant.updateN_add, accT854]
  exact chunkT854

/-- Erased simulator state after 866 ticks of the counterexample run. -/
def ET866 : EPlant × ℕ :=
  (⟨.cress, 866, 240, 120,
  .node ⟨false, false, .cress, 12, (9457/80), true, [⟨(679/80), 1, (19/25)⟩, ⟨(1361/80), (-1), (19/25)⟩, ⟨(2043/80), 1, (19/25)⟩, ⟨(545/16), (-1), (19/25)⟩, ⟨(3407/80), 1, (19/25)⟩, ⟨(4089/80), (-1), (19/25)⟩, ⟨(4771/80), 1, (19/25)⟩, ⟨(5453/80), (-1), (19/25)⟩, ⟨(1227/16), 1, (19/25)⟩, ⟨(6817/80), (-1), (19/25)⟩, ⟨(7499/80), 1, (19/25)⟩, ⟨(8181/80), (-1), (19/25)⟩, ⟨(8863/80), 1, (19/25)⟩], (-1), true, (11/5)⟩ (.cons (.node ⟨false, true, .cress, 12, (2407/200), false, [], 1, false, (2387/2500)⟩ (.cons (.node ⟨false, true, .cress, 12, (2407/200), false, [], 1, false, (73997/125000)⟩ (.cons (.node ⟨false, true, .cress, 12, (2407/200), false, [], 1, false, (2293907/6250000)⟩ (.cons (.node ⟨false, true, .cress, 12, (2407/200), false, [], 1, false, (7/20)⟩ (.cons (.node ⟨false, true, .cress, 12, (2407/200), false, [], 1, false, (7/20)⟩ (.cons (.node ⟨false, true, .cress, 12, (2407/200), false, [], 1, false, (7/20)⟩ (.cons (.node ⟨false, true, .cress, 12, (547/80), true, [], 1, false, (7/20)⟩ (.nil)) (.nil))) (.nil))) (.nil))) (.nil))) (.nil))) (.nil))) (.nil)),
  .node ⟨true, false, .cress, 10, 10, false, [], 1, false, (8/5)⟩ (.cons (.node ⟨true, false, .cress, 10, 10, false, [], 1, false, (124/125)⟩ (.cons (.node ⟨true, false, .cress, 10, 10, false, [], 1, false, (1922/3125)⟩ (.cons (.node ⟨true, false, .cress, 10, 10, false, [], 1, false, (1/2)⟩ (.cons (.node ⟨true, false, .cress, 10, 10, false, [], 1, false, (1/2)⟩ (.cons (.node ⟨true, false, .cress, 10, 10, false, [], 1, false, (1/2)⟩ (.cons (.node ⟨true, false, .cress, 10, 10, false, [], 1, false, (1/2)⟩ (.cons (.node ⟨true, false, .cress, 10, 10, false, [], 1, false, (1/2)⟩ (.cons (.node ⟨true, false, .cress, 10, (38/5), true, [], 1, false, (1/2)⟩ (.nil)) (.nil))) (.nil))) (.nil))) (.nil))) (.nil))) (.nil))) (.nil))) (.nil))⟩, 886)

theorem chunkT860 : EPlant.updateN rand01 6 ET860 = ET866 := by
  with_unfolding_all rfl

theorem accT866 : EPlant.updateN rand01 866 (EPlant.new VarietyKey.cress rand01 0) = ET866 := by
  rw [show (866 : ℕ) = 860 + 6 by norm_num, EPlant.updateN_add, accT860]
  exact chunkT860

/-- Erased simulator state after 872 ticks of the counterexample run. -/
def ET872 : EPlant × ℕ :=
  (⟨.cress, 872, 240, 120,
  .node ⟨false, false, .cress, 12, (9523/80), true, [⟨(679/80), 1, (19/25)⟩, ⟨(1361/80), (-1), (19/25)⟩, ⟨(2043/80), 1, (19/25)⟩, ⟨(545/16), (-1), (19/25)⟩, ⟨(3407/80), 1, (19/25)⟩, ⟨(4089/80), (-1), (19/25)⟩, ⟨(4771/80), 1, (19/25)⟩, ⟨(5453/80), (-1), (19/25)⟩, ⟨(1227/16), 1, (19/25)⟩, ⟨(6817/80), (-1), (19/25)⟩, ⟨(7499/80), 1, (19/25)⟩, ⟨(8181/80), (-1), (19/25)⟩, ⟨(8863/80), 1, (19/25)⟩], (-1), true, (11/5)⟩ (.cons (.node ⟨false, true, .cress, 12, (2407/200), false, [], 1, false, (2387/2500)⟩ (.cons (.node ⟨false, true, .cress, 12, (2407/200), false, [], 1, false, (73997/125000)⟩ (.cons (.node ⟨false, true, .cress, 12, (2407/200), false, [], 1, false, (2293907/6250000)⟩ (.cons (.node ⟨false, true, .cress, 12, (2407/200), false, [], 1, false, (7/20)⟩ (.cons (.node ⟨false, true, .cress, 12, (2407/200), false, [], 1, false, (7/20)⟩ (.cons (.node ⟨false, true, .cress, 12, (2407/200), false, [], 1, false, (7/20)⟩ (.cons (.node ⟨false, true, .cress, 12, (1483/200), true, [], 1, false, (7/20)⟩ (.nil)) (.nil))) (.nil))) (.nil))) (.nil))) (.nil))) (.nil))) (.nil)),
  .node ⟨true, false, .cress, 10, 10, false, [], 1, false, (8/5)⟩ (.cons (.node ⟨true, false, .cress, 10, 10, false, [], 1, false, (124/125)⟩ (.cons (.node ⟨true, false, .cress, 10, 10, false, [], 1, false, (1922/3125)⟩ (.cons (.node ⟨true, false, .cress, 10, 10, false, [], 1, false, (1/2)⟩ (.cons (.node ⟨true, false, .cress, 10, 10, false, [], 1, false, (1/2)⟩ (.cons (.node ⟨true, false, .cress, 10, 10, false, [], 1, false, (1/2)⟩ (.cons (.node ⟨true, false, .cress, 10, 10, false, [], 1, false, (1/2)⟩ (.cons (.node ⟨true, false, .cress, 10, 10, false, [], 1, false, (1/2)⟩ (.cons (.node ⟨true, false, .cress, 10, (41/5), true, [], 1, false, (1/2)⟩ (.nil)) (.nil))) (.nil))) (.nil))) (.nil))) (.nil))) (.nil))) (.nil))) (.nil))⟩, 892)

theorem chunkT866 : EPlant.updateN rand01 6 ET866 = ET872 := by
  with_unfolding_all rfl

theorem accT872 : EPlant.updateN rand01 872 (EPlant.new VarietyKey.cress rand01 0) = ET872 := by
  rw [show (872 : ℕ) = 866 + 6 by norm_num, EPlant.updateN_add, accT866]
  exact chunkT866

/-- Erased simulator state after 878 ticks of the counterexample run. -/
def ET878 : EPlant × ℕ :=
  (⟨.cress, 878, 240, 120,
  .node ⟨false, false, .cress, 12, (9589/80), true, [⟨(679/80), 1, (19/25)⟩, ⟨(1361/80), (-1), (19/25)⟩, ⟨(2043/80), 1, (19/25)⟩, ⟨(545/16), (-1), (19/25)⟩, ⟨(3407/80), 1, (19/25)⟩, ⟨(4089/80), (-1), (19/25)⟩, ⟨(4771/80), 1, (19/25)⟩, ⟨(5453/80), (-1), (19/25)⟩, ⟨(1227/16), 1, (19/25)⟩, ⟨(6817/80), (-1), (19/25)⟩, ⟨(7499/80), 1, (19/25)⟩, ⟨(8181/80), (-1), (19/25)⟩, ⟨(8863/80), 1, (19/25)⟩, ⟨(1909/16), (-1), (19/25)⟩], 1, true, (11/5)⟩ (.cons (.node ⟨false, true, .cress, 12, (2407/200), false, [], 1, false, (2387/2500)⟩ (.cons (.node ⟨false, true, .cress, 12, (2407/200), false, [], 1, false, (73997/125000)⟩ (.cons (.node ⟨false, true, .cress, 12, (2407/200), false, [], 1, false, (2293907/6250000)⟩ (.cons (.node ⟨false, true, .cress, 12, (2407/200), false, [], 1, false, (7/20)⟩ (.cons (.node ⟨false, true, .cress, 12, (2407/200), false, [], 1, false, (7/20)⟩ (.cons (.node ⟨false, true, .cress, 12, (2407/200), false, [], 1, false, (7/20)⟩ (.cons (.node ⟨false, true, .cress, 12, (3197/400), true, [], 1, false, (7/20)⟩ (.nil)) (.nil))) (.nil))) (.nil))) (.nil))) (.nil))) (.nil))) (.nil)),
  .node ⟨true, false, .cress, 10, 10, false, [], 1, false, (8/5)⟩ (.cons (.node ⟨true, false, .cress, 10, 10, false, [], 1, false, (124/125)⟩ (.cons (.node ⟨true, false, .cress, 10, 10, false, [], 1, false, (1922/3125)⟩ (.cons (.node ⟨true, false, .cress, 10, 10, false, [], 1, false, (1/2)⟩ (.cons (.node ⟨true, false, .cress, 10, 10, false, [], 1, false, (1/2)⟩ (.cons (.node ⟨true, false, .cress, 10, 10, false, [], 1, false, (1/2)⟩ (.cons (.node ⟨true, false, .cress, 10, 10, false, [], 1, false, (1/2)⟩ (.cons (.node ⟨true, false, .cress, 10, 10, false, [], 1, false, (1/2)⟩ (.cons (.node ⟨true, false, .cress, 10, (44/5), true, [], 1, false, (1/2)⟩ (.nil)) (.nil))) (.nil))) (.nil))) (.nil))) (.nil))) (.nil))) (.nil))) (.nil))⟩, 899)

theorem chunkT872 : EPlant.updateN rand01 6 ET872 = ET878 := by
  with_unfolding_all rfl

theorem accT878 : EPlant.updateN rand01 878 (EPlant.new VarietyKey.cress rand01 0) = ET878 := by
  rw [show (878 : ℕ) = 872 + 6 by norm_num, EPlant.updateN_add, accT872]
  exact chunkT872

/-- Erased simulator state after 884 ticks of the counterexample run. -/
def ET884 : EPlant × ℕ :=
  (⟨.cress, 884, 240, 120,
  .node ⟨false, false, .cress, 12, (1931/16), true, [⟨(679/80), 1, (19/25)⟩, ⟨(1361/80), (-1), (19/25)⟩, ⟨(2043/80), 1, (19/25)⟩, ⟨(545/16), (-1), (19/25)⟩, ⟨(3407/80), 1, (19/25)⟩, ⟨(4089/80), (-1), (19/25)⟩, ⟨(4771/80), 1, (19/25)⟩, ⟨(5453/80), (-1), (19/25)⟩, ⟨(1227/16), 1, (19/25)⟩, ⟨(6817/80), (-1), (19/25)⟩, ⟨(7499/80), 1, (19/25)⟩, ⟨(8181/80), (-1), (19/25)⟩, ⟨(8863/80), 1, (19/25)⟩, ⟨(1909/16), (-1), (19/25)⟩], 1, true, (11/5)⟩ (.cons (.node ⟨false, true, .cress, 12, (2407/200), false, [], 1, false, (2387/2500)⟩ (.cons (.node ⟨false, true, .cress, 12, (2407/200), false, [], 1, false, (73997/125000)⟩ (.cons (.node ⟨false, true, .cress, 12, (2407/200), false, [], 1, false, (2293907/6250000)⟩ (.cons (.node ⟨false, true, .cress, 12, (2407/200), false, [], 1, false, (7/20)⟩ (.cons (.node ⟨false, true, .cress, 12, (2407/200), false, [], 1, false, (7/20)⟩ (.cons (.node ⟨false, true, .cress, 12, (2407/200), false, [], 1, false, (7/20)⟩ (.cons (.node ⟨false, true, .cress, 12, (857/100), true, [], 1, false, (7/20)⟩ (.nil)) (.nil))) (.nil))) (.nil))) (.nil))) (.nil))) (.nil))) (.nil)),
  .node ⟨true, false, .cress, 10, 10, false, [], 1, false, (8/5)⟩ (.cons (.node ⟨true, false, .cress, 10, 10, false, [], 1, false, (124/125)⟩ (.cons (.node ⟨true, false, .cress, 10, 10, false, [], 1, false, (1922/3125)⟩ (.cons (.node ⟨true, false, .cress, 10, 10, false, [], 1, false, (1/2)⟩ (.cons (.node ⟨true, false, .cress, 10, 10, false, [], 1, false, (1/2)⟩ (.cons (.node ⟨true, false, .cress, 10, 10, false, [], 1, false, (1/2)⟩ (.cons (.node ⟨true, false, .cress, 10, 10, false, [], 1, false, (1/2)⟩ (.cons (.node ⟨true, false, .cress, 10, 10, false, [], 1, false, (1/2)⟩ (.cons (.node ⟨true, false, .cress, 10, (47/5), true, [], 1, false, (1/2)⟩ (.nil)) (.nil))) (.nil))) (.nil))) (.nil))) (.nil))) (.nil))) (.nil))) (.nil))⟩, 905)

theorem chunkT878 : EPlant.updateN rand01 6 ET878 = ET884 := by
  with_unfolding_all rfl

theorem accT884 : EPlant.updateN rand01 884 (EPlant.new VarietyKey.cress rand01 0) = ET884 := by
  rw [show (884 : ℕ) = 878 + 6 by norm_num, EPlant.updateN_add, accT878]
  exact chunkT878

/-- Erased simulator state after 890 ticks of the counterexample run. -/
def ET890 : EPlant × ℕ :=
  (⟨.cress, 890, 240, 120,
  .node ⟨false, false, .cress, 12, (9721/80), true, [⟨(679/80), 1, (19/25)⟩, ⟨(1361/80), (-1), (19/25)⟩, ⟨(2043/80), 1, (19/25)⟩, ⟨(545/16), (-1), (19/25)⟩, ⟨(3407/80), 1, (19/25)⟩, ⟨(4089/80), (-1), (19/25)⟩, ⟨(4771/80), 1, (19/25)⟩, ⟨(5453/80), (-1), (19/25)⟩, ⟨(1227/16), 1, (19/25)⟩, ⟨(6817/80), (-1), (19/25)⟩, ⟨(7499/80), 1, (19/25)⟩, ⟨(8181/80), (-1), (19/25)⟩, ⟨(8863/80), 1, (19/25)⟩, ⟨(1909/16), (-1), (19/25)⟩], 1, true, (11/5)⟩ (.cons (.node ⟨false, true, .cress, 12, (2407/200), false, [], 1, false, (2387/2500)⟩ (.cons (.node ⟨false, true, .cress, 12, (2407/200), false, [], 1, false, (73997/125000)⟩ (.cons (.node ⟨false, true, .cress, 12, (2407/200), false, [], 1, false, (2293907/6250000)⟩ (.cons (.node ⟨false, true, .cress, 12, (2407/200), false, [], 1, false, (7/20)⟩ (.cons (.node ⟨false, true, .cress, 12, (2407/200), false, [], 1, false, (7/20)⟩ (.cons (.node ⟨false, true, .cress, 12, (2407/200), false, [], 1, false, (7/20)⟩ (.cons (.node ⟨false, true, .cress, 12, (3659/400), true, [], 1, false, (7/20)⟩ (.nil)) (.nil))) (.nil))) (.nil))) (.nil))) (.nil))) (.nil))) (.nil)),
  .node ⟨true, false, .cress, 10, 10, false, [], 1, false, (8/5)⟩ (.cons (.node ⟨true, false, .cress, 10, 10, false, [], 1, false, (124/125)⟩ (.cons (.node ⟨true, false, .cress, 10, 10, false, [], 1, false, (1922/3125)⟩ (.cons (.node ⟨true, false, .cress, 10, 10, false, [], 1, false, (1/2)⟩ (.cons (.node ⟨true, false, .cress, 10, 10, false, [], 1, false, (1/2)⟩ (.cons (.node ⟨true, false, .cress, 10, 10, false, [], 1, false, (1/2)⟩ (.cons (.node ⟨true, false, .cress, 10, 10, false, [], 1, false, (1/2)⟩ (.cons (.node ⟨true, false, .cress, 10, 10, false, [], 1, false, (1/2)⟩ (.cons (.node ⟨true, false, .cress, 10, 10, false, [], 1, false, (1/2)⟩ (.cons (.node ⟨true, false, .cress, 10, (1/5), true, [], 1, false, (1/2)⟩ (.nil)) (.nil))) (.nil))) (.nil))) (.nil))) (.nil))) (.nil))) (.nil))) (.nil))) (.nil))⟩, 913)

theorem chunkT884 : EPlant.updateN rand01 6 ET884 = ET890 := by
  with_unfolding_all rfl

theorem accT890 : EPlant.updateN rand01 890 (EPlant.new VarietyKey.cress rand01 0) = ET890 := by
  rw [show (890 : ℕ) = 884 + 6 by norm_num, EPlant.updateN_add, accT884]
  exact chunkT884

/-- Erased simulator state after 896 ticks of the counterexample run. -/
def ET896 : EPlant × ℕ :=
  (⟨.cress, 896, 240, 120,
  .node ⟨false, false, .cress, 12, (9787/80), true, [⟨(679/80), 1, (19/25)⟩, ⟨(1361/80), (-1), (19/25)⟩, ⟨(2043/80), 1, (19/25)⟩, ⟨(545/16), (-1), (19/25)⟩, ⟨(3407/80), 1, (19/25)⟩, ⟨(4089/80), (-1), (19/25)⟩, ⟨(4771/80), 1, (19/25)⟩, ⟨(5453/80), (-1), (19/25)⟩, ⟨(1227/16), 1, (19/25)⟩, ⟨(6817/80), (-1), (19/25)⟩, ⟨(7499/80), 1, (19/25)⟩, ⟨(8181/80), (-1), (19/25)⟩, ⟨(8863/80), 1, (19/25)⟩, ⟨(1909/16), (-1), (19/25)⟩], 1, true, (11/5)⟩ (.cons (.node ⟨false, true, .cress, 12, (2407/200), false, [], 1, false, (2387/2500)⟩ (.cons (.node ⟨false, true, .cress, 12, (2407/200), false, [], 1, false, (73997/125000)⟩ (.cons (.node ⟨false, true, .cress, 12, (2407/200), false, [], 1, false, (2293907/6250000)⟩ (.cons (.node ⟨false, true, .cress, 12, (2407/200), false, [], 1, false, (7/20)⟩ (.cons (.node ⟨false, true, .cress, 12, (2407/200), false, [], 1, false, (7/20)⟩ (.cons (.node ⟨false, true, .cress, 12, (2407/200), false, [], 1, false, (7/20)⟩ (.cons (.node ⟨false, true, .cress, 12, (389/40), true, [], 1, false, (7/20)⟩ (.nil)) (.nil))) (.nil))) (.nil))) (.nil))) (.nil))) (.nil))) (.nil)),
  .node ⟨true, false, .cress, 10, 10, false, [], 1, false, (8/5)⟩ (.cons (.node ⟨true, false, .cress, 10, 10, false, [], 1, false, (124/125)⟩ (.cons (.node ⟨true, false, .cress, 10, 10, false, [], 1, false, (1922/3125)⟩ (.cons (.node ⟨true, false, .cress, 10, 10, false, [], 1, false, (1/2)⟩ (.cons (.node ⟨true, false, .cress, 10, 10, false, [], 1, false, (1/2)⟩ (.cons (.node ⟨true, false, .cress, 10, 10, false, [], 1, false, (1/2)⟩ (.cons (.node ⟨true, false, .cress, 10, 10, false, [], 1, false, (1/2)⟩ (.cons (.node ⟨true, false, .cress, 10, 10, false, [], 1, false, (1/2)⟩ (.cons (.node ⟨true, false, .cress, 10, 10, false, [], 1, false, (1/2)⟩ (.cons (.node ⟨true, false, .cress, 10, (4/5), true, [], 1, false, (1/2)⟩ (.nil)) (.nil))) (.nil))) (.nil))) (.nil))) (.nil))) (.nil))) (.nil))) (.nil))) (.nil))⟩, 919)

theorem chunkT890 : EPlant.updateN rand01 6 ET890 = ET896 := by
  with_unfolding_all rfl

theorem accT896 : EPlant.updateN rand01 896 (EPlant.new VarietyKey.cress rand01 0) = ET896 := by
  rw [show (896 : ℕ) = 890 + 6 by norm_num, EPlant.updateN_add, accT890]
  exact chunkT890

/-- Erased simulator state after 902 ticks of the counterexample run. -/
def ET902 : EPlant × ℕ :=
  (⟨.cress, 902, 240, 120,
  .node ⟨false, false, .cress, 12, (9853/80), true, [⟨(679/80), 1, (19/25)⟩, ⟨(1361/80), (-1), (19/25)⟩, ⟨(2043/80), 1, (19/25)⟩, ⟨(545/16), (-1), (19/25)⟩, ⟨(3407/80), 1, (19/25)⟩, ⟨(4089/80), (-1), (19/25)⟩, ⟨(4771/80), 1, (19/25)⟩, ⟨(5453/80), (-1), (19/25)⟩, ⟨(1227/16), 1, (19/25)⟩, ⟨(6817/80), (-1), (19/25)⟩, ⟨(7499/80), 1, (19/25)⟩, ⟨(8181/80), (-1), (19/25)⟩, ⟨(8863/80), 1, (19/25)⟩, ⟨(1909/16), (-1), (19/25)⟩], 1, true, (11/5)⟩ (.cons (.node ⟨false, true, .cress, 12, (2407/200), false, [], 1, false, (2387/2500)⟩ (.cons (.node ⟨false, true, .cress, 12, (2407/200), false, [], 1, false, (73997/125000)⟩ (.cons (.node ⟨false, true, .cress, 12, (2407/200), false, [], 1, false, (2293907/6250000)⟩ (.cons (.node ⟨false, true, .cress, 12, (2407/200), false, [], 1, false, (7/20)⟩ (.cons (.node ⟨false, true, .cress, 12, (2407/200), false, [], 1, false, (7/20)⟩ (.cons (.node ⟨false, true, .cress, 12, (2407/200), false, [], 1, false, (7/20)⟩ (.cons (.node ⟨false, true, .cress, 12, (4121/400), true, [], 1, false, (7/20)⟩ (.nil)) (.nil))) (.nil))) (.nil))) (.nil))) (.nil))) (.nil))) (.nil)),
  .node ⟨true, false, .cress, 10, 10, false, [], 1, false, (8/5)⟩ (.cons (.node ⟨true, false, .cress, 10, 10, false, [], 1, false, (124/125)⟩ (.cons (.node ⟨true, false, .cress, 10, 10, false, [], 1, false, (1922/3125)⟩ (.cons (.node ⟨true, false, .cress, 10, 10, false, [], 1, false, (1/2)⟩ (.cons (.node ⟨true, false, .cress, 10, 10, false, [], 1, false, (1/2)⟩ (.cons (.node ⟨true, false, .cress, 10, 10, false, [], 1, false, (1/2)⟩ (.cons (.node ⟨true, false, .cress, 10, 10, false, [], 1, false, (1/2)⟩ (.cons (.node ⟨true, false, .cress, 10, 10, false, [], 1, false, (1/2)⟩ (.cons (.node ⟨true, false, .cress, 10, 10, false, [], 1, false, (1/2)⟩ (.cons (.node ⟨true, false, .cress, 10, (7/5), true, [], 1, false, (1/2)⟩ (.nil)) (.nil))) (.nil))) (.nil))) (.nil))) (.nil))) (.nil))) (.nil))) (.nil))) (.nil))⟩, 925)

theorem chunkT896 : EPlant.updateN rand01 6 ET896 = ET902 := by
  with_unfolding_all rfl

theorem accT902 : EPlant.updateN rand01 902 (EPlant.new VarietyKey.cress rand01 0) = ET902 := by
  rw [show (902 : ℕ) = 896 + 6 by norm_num, EPlant.updateN_add, accT896]
  exact chunkT896

/-- Erased simulator state after 908 ticks of the counterexample run. -/
def ET908 : EPlant × ℕ :=
  (⟨.cress, 908, 240, 120,
  .node ⟨false, false, .cress, 12, (9919/80), true, [⟨(679/80), 1, (19/25)⟩, ⟨(1361/80), (-1), (19/25)⟩, ⟨(2043/80), 1, (19/25)⟩, ⟨(545/16), (-1), (19/25)⟩, ⟨(3407/80), 1, (19/25)⟩, ⟨(4089/80), (-1), (19/25)⟩, ⟨(4771/80), 1, (19/25)⟩, ⟨(5453/80), (-1), (19/25)⟩, ⟨(1227/16), 1, (19/25)⟩, ⟨(6817/80), (-1), (19/25)⟩, ⟨(7499/80), 1, (19/25)⟩, ⟨(8181/80), (-1), (19/25)⟩, ⟨(8863/80), 1, (19/25)⟩, ⟨(1909/16), (-1), (19/25)⟩], 1, true, (11/5)⟩ (.cons (.node ⟨false, true, .cress, 12, (2407/200), false, [], 1, false, (2387/2500)⟩ (.cons (.node ⟨false, true, .cress, 12, (2407/200), false, [], 1, false, (73997/125000)⟩ (.cons (.node ⟨false, true, .cress, 12, (2407/200), false, [], 1, false, (2293907/6250000)⟩ (.cons (.node ⟨false, true, .cress, 12, (2407/200), false, [], 1, false, (7/20)⟩ (.cons (.node ⟨false, true, .cress, 12, (2407/200), false, [], 1, false, (7/20)⟩ (.cons (.node ⟨false, true, .cress, 12, (2407/200), false, [], 1, false, (7/20)⟩ (.cons (.node ⟨false, true, .cress, 12, (272/25), true, [], 1, false, (7/20)⟩ (.nil)) (.nil))) (.nil))) (.nil))) (.nil))) (.nil))) (.nil))) (.nil)),
  .node ⟨true, false, .cress, 10, 10, false, [], 1, false, (8/5)⟩ (.cons (.node ⟨true, false, .cress, 10, 10, false, [], 1, false, (124/125)⟩ (.cons (.node ⟨true, false, .cress, 10, 10, false, [], 1, false, (1922/3125)⟩ (.cons (.node ⟨true, false, .cress, 10, 10, false, [], 1, false, (1/2)⟩ (.cons (.node ⟨true, false, .cress, 10, 10, false, [], 1, false, (1/2)⟩ (.cons (.node ⟨true, false, .cress, 10, 10, false, [], 1, false, (1/2)⟩ (.cons (.node ⟨true, false, .cress, 10, 10, false, [], 1, false, (1/2)⟩ (.cons (.node ⟨true, false, .cress, 10, 10, false, [], 1, false, (1/2)⟩ (.cons (.node ⟨true, false, .cress, 10, 10, false, [], 1, false, (1/2)⟩ (.cons (.node ⟨true, false, .cress, 10, 2, true, [], 1, false, (1/2)⟩ (.nil)) (.nil))) (.nil))) (.nil))) (.nil))) (.nil))) (.nil))) (.nil))) (.nil))) (.nil))⟩, 931)

theorem chunkT902 : EPlant.updateN rand01 6 ET902 = ET908 := by
  with_unfolding_all rfl

theorem accT908 : EPlant.updateN rand01 908 (EPlant.new VarietyKey.cress rand01 0) = ET908 := by
  rw [show (908 : ℕ) = 902 + 6 by norm_num, EPlant.updateN_add, accT902]
  exact chunkT902

/-- Erased simulator state after 914 ticks of the counterexample run. -/
def ET914 : EPlant × ℕ :=
  (⟨.cress, 914, 240, 120,
  .node ⟨false, false, .cress, 12, (1997/16), true, [⟨(679/80), 1, (19/25)⟩, ⟨(1361/80), (-1), (19/25)⟩, ⟨(2043/80), 1, (19/25)⟩, ⟨(545/16), (-1), (19/25)⟩, ⟨(3407/80), 1, (19/25)⟩, ⟨(4089/80), (-1), (19/25)⟩, ⟨(4771/80), 1, (19/25)⟩, ⟨(5453/80), (-1), (19/25)⟩, ⟨(1227/16), 1, (19/25)⟩, ⟨(6817/80), (-1), (19/25)⟩, ⟨(7499/80), 1, (19/25)⟩, ⟨(8181/80), (-1), (19/25)⟩, ⟨(8863/80), 1, (19/25)⟩, ⟨(1909/16), (-1), (19/25)⟩], 1, true, (11/5)⟩ (.cons (.node ⟨false, true, .cress, 12, (2407/200), false, [], 1, false, (2387/2500)⟩ (.cons (.node ⟨false, true, .cress, 12, (2407/200), false, [], 1, false, (73997/125000)⟩ (.cons (.node ⟨false, true, .cress, 12, (2407/200), false, [], 1, false, (2293907/6250000)⟩ (.cons (.node ⟨false, true, .cress, 12, (2407/200), false, [], 1, false, (7/20)⟩ (.cons (.node ⟨false, true, .cress, 12, (2407/200), false, [], 1, false, (7/20)⟩ (.cons (.node ⟨false, true, .cress, 12, (2407/200), false, [], 1, false, (7/20)⟩ (.cons (.node ⟨false, true, .cress, 12, (4583/400), true, [], 1, false, (7/20)⟩ (.nil)) (.nil))) (.nil))) (.nil))) (.nil))) (.nil))) (.nil))) (.nil)),
  .node ⟨true, false, .cress, 10, 10, false, [], 1, false, (8/5)⟩ (.cons (.node ⟨true, false, .cress, 10, 10, false, [], 1, false, (124/125)⟩ (.cons (.node ⟨true, false, .cress, 10, 10, false, [], 1, false, (1922/3125)⟩ (.cons (.node ⟨true, false, .cress, 10, 10, false, [], 1, false, (1/2)⟩ (.cons (.node ⟨true, false, .cress, 10, 10, false, [], 1, false, (1/2)⟩ (.cons (.node ⟨true, false, .cress, 10, 10, false, [], 1, false, (1/2)⟩ (.cons (.node ⟨true, false, .cress, 10, 10, false, [], 1, false, (1/2)⟩ (.cons (.node ⟨true, false, .cress, 10, 10, false, [], 1, false, (1/2)⟩ (.cons (.node ⟨true, false, .cress, 10, 10, false, [], 1, false, (1/2)⟩ (.cons (.node ⟨true, false, .cress, 10, (13/5), true, [], 1, false, (1/2)⟩ (.nil)) (.nil))) (.nil))) (.nil))) (.nil))) (.nil))) (.nil))) (.nil))) (.nil))) (.nil))⟩, 937)

theorem chunkT908 : EPlant.updateN rand01 6 ET908 = ET914 := by
  with_unfolding_all rfl

theorem accT914 : EPlant.updateN rand01 914 (EPlant.new VarietyKey.cress rand01 0) = ET914 := by
  rw [show (914 : ℕ) = 908 + 6 by norm_num, EPlant.updateN_add, accT908]
  exact chunkT908

/-- Erased simulator state after 920 ticks of the counterexample run. -/
def ET920 : EPlant × ℕ :=
  (⟨.cress, 920, 240, 120,
  .node ⟨false, false, .cress, 12, (10051/80), true, [⟨(679/80), 1, (19/25)⟩, ⟨(1361/80), (-1), (19/25)⟩, ⟨(2043/80), 1, (19/25)⟩, ⟨(545/16), (-1), (19/25)⟩, ⟨(3407/80), 1, (19/25)⟩, ⟨(4089/80), (-1), (19/25)⟩, ⟨(4771/80), 1, (19/25)⟩, ⟨(5453/80), (-1), (19/25)⟩, ⟨(1227/16), 1, (19/25)⟩, ⟨(6817/80), (-1), (19/25)⟩, ⟨(7499/80), 1, (19/25)⟩, ⟨(8181/80), (-1), (19/25)⟩, ⟨(8863/80), 1, (19/25)⟩, ⟨(1909/16), (-1), (19/25)⟩], 1, true, (11/5)⟩ (.cons (.node ⟨false, true, .cress, 12, (2407/200), false, [], 1, false, (2387/2500)⟩ (.cons (.node ⟨false, true, .cress, 12, (2407/200), false, [], 1, false, (73997/125000)⟩ (.cons (.node ⟨false, true, .cress, 12, (2407/200), false, [], 1, false, (2293907/6250000)⟩ (.cons (.node ⟨false, true, .cress, 12, (2407/200), false, [], 1, false, (7/20)⟩ (.cons (.node ⟨false, true, .cress, 12, (2407/200), false, [], 1, false, (7/20)⟩ (.cons (.node ⟨false, true, .cress, 12, (2407/200), false, [], 1, false, (7/20)⟩ (.cons (.node ⟨false, true, .cress, 12, (2407/200), false, [], 1, false, (7/20)⟩ (.cons (.node ⟨false, true, .cress, 12, (157/800), true, [], 1, false, (7/20)⟩ (.nil)) (.nil))) (.nil))) (.nil))) (.nil))) (.nil))) (.nil))) (.nil))) (.nil)),
  .node ⟨true, false, .cress, 10, 10, false, [], 1, false, (8/5)⟩ (.cons (.node ⟨true, false, .cress, 10, 10, false, [], 1, false, (124/125)⟩ (.cons (.node ⟨true, false, .cress, 10, 10, false, [], 1, false, (1922/3125)⟩ (.cons (.node ⟨true, false, .cress, 10, 10, false, [], 1, false, (1/2)⟩ (.cons (.node ⟨true, false, .cress, 10, 10, false, [], 1, false, (1/2)⟩ (.cons (.node ⟨true, false, .cress, 10, 10, false, [], 1, false, (1/2)⟩ (.cons (.node ⟨true, false, .cress, 10, 10, false, [], 1, false, (1/2)⟩ (.cons (.node ⟨true, false, .cress, 10, 10, false, [], 1, false, (1/2)⟩ (.cons (.node ⟨true, false, .cress, 10, 10, false, [], 1, false, (1/2)⟩ (.cons (.node ⟨true, false, .cress, 10, (16/5), true, [], 1, false, (1/2)⟩ (.nil)) (.nil))) (.nil))) (.nil))) (.nil))) (.nil))) (.nil))) (.nil))) (.nil))) (.nil))⟩, 945)

theorem chunkT914 : EPlant.updateN rand01 6 ET914 = ET920 := by
  with_unfolding_all rfl

theorem accT920 : EPlant.updateN rand01 920 (EPlant.new VarietyKey.cress rand01 0) = ET920 := by
  rw [show (920 : ℕ) = 914 + 6 by norm_num, EPlant.updateN_add, accT914]
  exact chunkT914

/-- Erased simulator state after 926 ticks of the counterexample run. -/
def ET926 : EPlant × ℕ :=
  (⟨.cress, 926, 240, 120,
  .node ⟨false, false, .cress, 12, (10117/80), true, [⟨(679/80), 1, (19/25)⟩, ⟨(1361/80), (-1), (19/25)⟩, ⟨(2043/80), 1, (19/25)⟩, ⟨(545/16), (-1), (19/25)⟩, ⟨(3407/80), 1, (19/25)⟩, ⟨(4089/80), (-1), (19/25)⟩, ⟨(4771/80), 1, (19/25)⟩, ⟨(5453/80), (-1), (19/25)⟩, ⟨(1227/16), 1, (19/25)⟩, ⟨(6817/80), (-1), (19/25)⟩, ⟨(7499/80), 1, (19/25)⟩, ⟨(8181/80), (-1), (19/25)⟩, ⟨(8863/80), 1, (19/25)⟩, ⟨(1909/16), (-1), (19/25)⟩], 1, true, (11/5)⟩ (.cons (.node ⟨false, true, .cress, 12, (2407/200), false, [], 1, false, (2387/2500)⟩ (.cons (.node ⟨false, true, .cress, 12, (2407/200), false, [], 1, false, (73997/125000)⟩ (.cons (.node ⟨false, true, .cress, 12, (2407/200), false, [], 1, false, (2293907/6250000)⟩ (.cons (.node ⟨false, true, .cress, 12, (2407/200), false, [], 1, false, (7/20)⟩ (.cons (.node ⟨false, true, .cress, 12, (2407/200), false, [], 1, false, (7/20)⟩ (.cons (.node ⟨false, true, .cress, 12, (2407/200), false, [], 1, false, (7/20)⟩ (.cons (.node ⟨false, true, .cress, 12, (2407/200), false, [], 1, false, (7/20)⟩ (.cons (.node ⟨false, true, .cress, 12, (619/800), true, [], 1, false, (7/20)⟩ (.nil)) (.nil))) (.nil))) (.nil))) (.nil))) (.nil))) (.nil))) (.nil))) (.nil)),
  .node ⟨true, false, .cress, 10, 10, false, [], 1, false, (8/5)⟩ (.cons (.node ⟨true, false, .cress, 10, 10, false, [], 1, false, (124/125)⟩ (.cons (.node ⟨true, false, .cress, 10, 10, false, [], 1, false, (1922/3125)⟩ (.cons (.node ⟨true, false, .cress, 10, 10, false, [], 1, false, (1/2)⟩ (.cons (.node ⟨true, false, .cress, 10, 10, false, [], 1, false, (1/2)⟩ (.cons (.node ⟨true, false, .cress, 10, 10, false, [], 1, false, (1/2)⟩ (.cons (.node ⟨true, false, .cress, 10, 10, false, [], 1, false, (1/2)⟩ (.cons (.node ⟨true, false, .cress, 10, 10, false, [], 1, false, (1/2)⟩ (.cons (.node ⟨true, false, .cress, 10, 10, false, [], 1, false, (1/2)⟩ (.cons (.node ⟨true, false, .cress, 10, (19/5), true, [], 1, false, (1/2)⟩ (.nil)) (.nil))) (.nil))) (.nil))) (.nil))) (.nil))) (.nil))) (.nil))) (.nil))) (.nil))⟩, 951)

theorem chunkT920 : EPlant.updateN rand01 6 ET920 = ET926 := by
  with_unfolding_all rfl

theorem accT926 : EPlant.updateN rand01 926 (EPlant.new VarietyKey.cress rand01 0) = ET926 := by
  rw [show (926 : ℕ) = 920 + 6 by norm_num, EPlant.updateN_add, accT920]
  exact chunkT920

/-- Erased simulator state after 932 ticks of the counterexample run. -/
def ET932 : EPlant × ℕ :=
  (⟨.cress, 932, 240, 120,
  .node ⟨false, false, .cress, 12, (10183/80), true, [⟨(679/80), 1, (19/25)⟩, ⟨(1361/80), (-1), (19/25)⟩, ⟨(2043/80), 1, (19/25)⟩, ⟨(545/16), (-1), (19/25)⟩, ⟨(3407/80), 1, (19/25)⟩, ⟨(4089/80), (-1), (19/25)⟩, ⟨(4771/80), 1, (19/25)⟩, ⟨(5453/80), (-1), (19/25)⟩, ⟨(1227/16), 1, (19/25)⟩, ⟨(6817/80), (-1), (19/25)⟩, ⟨(7499/80), 1, (19/25)⟩, ⟨(8181/80), (-1), (19/25)⟩, ⟨(8863/80), 1, (19/25)⟩, ⟨(1909/16), (-1), (19/25)⟩], 1, true, (11/5)⟩ (.cons (.node ⟨false, true, .cress, 12, (2407/200), false, [], 1, false, (2387/2500)⟩ (.cons (.node ⟨false, true, .cress, 12, (2407/200), false, [], 1, false, (73997/125000)⟩ (.cons (.node ⟨false, true, .cress, 12, (2407/200), false, [], 1, false, (2293907/6250000)⟩ (.cons (.node ⟨false, true, .cress, 12, (2407/200), false, [], 1, false, (7/20)⟩ (.cons (.node ⟨false, true, .cress, 12, (2407/200), false, [], 1, false, (7/20)⟩ (.cons (.node ⟨false, true, .cress, 12, (2407/200), false, [], 1, false, (7/20)⟩ (.cons (.node ⟨false, true, .cress, 12, (2407/200), false, [], 1, false, (7/20)⟩ (.cons (.node ⟨false, true, .cress, 12, (1081/800), true, [], 1, false, (7/20)⟩ (.nil)) (.nil))) (.nil))) (.nil))) (.nil))) (.nil))) (.nil))) (.nil))) (.nil)),
  .node ⟨true, false, .cress, 10, 10, false, [], 1, false, (8/5)⟩ (.cons (.node ⟨true, false, .cress, 10, 10, false, [], 1, false, (124/125)⟩ (.cons (.node ⟨true, false, .cress, 10, 10, false, [], 1, false, (1922/3125)⟩ (.cons (.node ⟨true, false, .cress, 10, 10, false, [], 1, false, (1/2)⟩ (.cons (.node ⟨true, false, .cress, 10, 10, false, [], 1, false, (1/2)⟩ (.cons (.node ⟨true, false, .cress, 10, 10, false, [], 1, false, (1/2)⟩ (.cons (.node ⟨true, false, .cress, 10, 10, false, [], 1, false, (1/2)⟩ (.cons (.node ⟨true, false, .cress, 10, 10, false, [], 1, false, (1/2)⟩ (.cons (.node ⟨true, false, .cress, 10, 10, false, [], 1, false, (1/2)⟩ (.cons (.node ⟨true, false, .cress, 10, (22/5), true, [], 1, false, (1/2)⟩ (.nil)) (.nil))) (.nil))) (.nil))) (.nil))) (.nil))) (.nil))) (.nil))) (.nil))) (.nil))⟩, 957)

theorem chunkT926 : EPlant.updateN rand01 6 ET926 = ET932 := by
  with_unfolding_all rfl

theorem accT932 : EPlant.updateN rand01 932 (EPlant.new VarietyKey.cress rand01 0) = ET932 := by
  rw [show (932 : ℕ) = 926 + 6 by norm_num, EPlant.updateN_add, accT926]
  exact chunkT926

/-- Erased simulator state after 938 ticks of the counterexample run. -/
def ET938 : EPlant × ℕ :=
  (⟨.cress, 938, 240, 120,
  .node ⟨false, false, .cress, 12, (10249/80), true, [⟨(679/80), 1, (19/25)⟩, ⟨(1361/80), (-1), (19/25)⟩, ⟨(2043/80), 1, (19/25)⟩, ⟨(545/16), (-1), (19/25)⟩, ⟨(3407/80), 1, (19/25)⟩, ⟨(4089/80), (-1), (19/25)⟩, ⟨(4771/80), 1, (19/25)⟩, ⟨(5453/80), (-1), (19/25)⟩, ⟨(1227/16), 1, (19/25)⟩, ⟨(6817/80), (-1), (19/25)⟩, ⟨(7499/80), 1, (19/25)⟩, ⟨(8181/80), (-1), (19/25)⟩, ⟨(8863/80), 1, (19/25)⟩, ⟨(1909/16), (-1), (19/25)⟩, ⟨(10227/80), 1, (19/25)⟩], (-1), true, (11/5)⟩ (.cons (.node ⟨false, true, .cress, 12, (2407/200), false, [], 1, false, (2387/2500)⟩ (.cons (.node ⟨false, true, .cress, 12, (2407/200), false, [], 1, false, (73997/125000)⟩ (.cons (.node ⟨false, true, .cress, 12, (2407/200), false, [], 1, false, (2293907/6250000)⟩ (.cons (.node ⟨false, true, .cress, 12, (2407/200), false, [], 1, false, (7/20)⟩ (.cons (.node ⟨false, true, .cress, 12, (2407/200), false, [], 1, false, (7/20)⟩ (.cons (.node ⟨false, true, .cress, 12, (2407/200), false, [], 1, false, (7/20)⟩ (.cons (.node ⟨false, true, .cress, 12, (2407/200), false, [], 1, false, (7/20)⟩ (.cons (.node ⟨false, true, .cress, 12, (1543/800), true, [], 1, false, (7/20)⟩ (.nil)) (.nil))) (.nil))) (.nil))) (.nil))) (.nil))) (.nil))) (.nil))) (.nil)),
  .node ⟨true, false, .cress, 10, 10, false, [], 1, false, (8/5)⟩ (.cons (.node ⟨true, false, .cress, 10, 10, false, [], 1, false, (124/125)⟩ (.cons (.node ⟨true, false, .cress, 10, 10, false, [], 1, false, (1922/3125)⟩ (.cons (.node ⟨true, false, .cress, 10, 10, false, [], 1, false, (1/2)⟩ (.cons (.node ⟨true, false, .cress, 10, 10, false, [], 1, false, (1/2)⟩ (.cons (.node ⟨true, false, .cress, 10, 10, false, [], 1, false, (1/2)⟩ (.cons (.node ⟨true, false, .cress, 10, 10, false, [], 1, false, (1/2)⟩ (.cons (.node ⟨true, false, .cress, 10, 10, false, [], 1, false, (1/2)⟩ (.cons (.node ⟨true, false, .cress, 10, 10, false, [], 1, false, (1/2)⟩ (.cons (.node ⟨true, false, .cress, 10, 5, true, [], 1, false, (1/2)⟩ (.nil)) (.nil))) (.nil))) (.nil))) (.nil))) (.nil))) (.nil))) (.nil))) (.nil))) (.nil))⟩, 964)

theorem chunkT932 : EPlant.updateN rand01 6 ET932 = ET938 := by
  with_unfolding_all rfl

theorem accT938 : EPlant.updateN rand01 938 (EPlant.new VarietyKey.cress rand01 0) = ET938 := by
  rw [show (938 : ℕ) = 932 + 6 by norm_num, EPlant.updateN_add, accT932]
  exact chunkT932

/-- Erased simulator state after 944 ticks of the counterexample run. -/
def ET944 : EPlant × ℕ :=
  (⟨.cress, 944, 240, 120,
  .node ⟨false, false, .cress, 12, (2063/16), true, [⟨(679/80), 1, (19/25)⟩, ⟨(1361/80), (-1), (19/25)⟩, ⟨(2043/80), 1, (19/25)⟩, ⟨(545/16), (-1), (19/25)⟩, ⟨(3407/80), 1, (19/25)⟩, ⟨(4089/80), (-1), (19/25)⟩, ⟨(4771/80), 1, (19/25)⟩, ⟨(5453/80), (-1), (19/25)⟩, ⟨(1227/16), 1, (19/25)⟩, ⟨(6817/80), (-1), (19/25)⟩, ⟨(7499/80), 1, (19/25)⟩, ⟨(8181/80), (-1), (19/25)⟩, ⟨(8863/80), 1, (19/25)⟩, ⟨(1909/16), (-1), (19/25)⟩, ⟨(10227/80), 1, (19/25)⟩], (-1), true, (11/5)⟩ (.cons (.node ⟨false, true, .cress, 12, (2407/200), false, [], 1, false, (2387/2500)⟩ (.cons (.node ⟨false, true, .cress, 12, (2407/200), false, [], 1, false, (73997/125000)⟩ (.cons (.node ⟨false, true, .cress, 12, (2407/200), false, [], 1, false, (2293907/6250000)⟩ (.cons (.node ⟨false, true, .cress, 12, (2407/200), false, [], 1, false, (7/20)⟩ (.cons (.node ⟨false, true, .cress, 12, (2407/200), false, [], 1, false, (7/20)⟩ (.cons (.node ⟨false, true, .cress, 12, (2407/200), false, [], 1, false, (7/20)⟩ (.cons (.node ⟨false, true, .cress, 12, (2407/200), false, [], 1, false, (7/20)⟩ (.cons (.node ⟨false, true, .cress, 12, (401/160), true, [], 1, false, (7/20)⟩ (.nil)) (.nil))) (.nil))) (.nil))) (.nil))) (.nil))) (.nil))) (.nil))) (.nil)),
  .node ⟨true, false, .cress, 10, 10, false, [], 1, false, (8/5)⟩ (.cons (.node ⟨true, false, .cress, 10, 10, false, [], 1, false, (124/125)⟩ (.cons (.node ⟨true, false, .cress, 10, 10, false, [], 1, false, (1922/3125)⟩ (.cons (.node ⟨true, false, .cress, 10, 10, false, [], 1, false, (1/2)⟩ (.cons (.node ⟨true, false, .cress, 10, 10, false, [], 1, false, (1/2)⟩ (.cons (.node ⟨true, false, .cress, 10, 10, false, [], 1, false, (1/2)⟩ (.cons (.node ⟨true, false, .cress, 10, 10, false, [], 1, false, (1/2)⟩ (.cons (.node ⟨true, false, .cress, 10, 10, false, [], 1, false, (1/2)⟩ (.cons (.node ⟨true, false, .cress, 10, 10, false, [], 1, false, (1/2)⟩ (.cons (.node ⟨true, false, .cress, 10, (28/5), true, [], 1, false, (1/2)⟩ (.nil)) (.nil))) (.nil))) (.nil))) (.nil))) (.nil))) (.nil))) (.nil))) (.nil))) (.nil))⟩, 970)

theorem chunkT938 : EPlant.updateN rand01 6 ET938 = ET944 := by
  with_unfolding_all rfl

theorem accT944 : EPlant.updateN rand01 944 (EPlant.new VarietyKey.cress rand01 0) = ET944 := by
  rw [show (944 : ℕ) = 938 + 6 by norm_num, EPlant.updateN_add, accT938]
  exact chunkT938

/-- Erased simulator state after 950 ticks of the counterexample run. -/
def ET950 : EPlant × ℕ :=
  (⟨.cress, 950, 240, 120,
  .node ⟨false, false, .cress, 12, (10381/80), true, [⟨(679/80), 1, (19/25)⟩, ⟨(1361/80), (-1), (19/25)⟩, ⟨(2043/80), 1, (19/25)⟩, ⟨(545/16), (-1), (19/25)⟩, ⟨(3407/80), 1, (19/25)⟩, ⟨(4089/80), (-1), (19/25)⟩, ⟨(4771/80), 1, (19/25)⟩, ⟨(5453/80), (-1), (19/25)⟩, ⟨(1227/16), 1, (19/25)⟩, ⟨(6817/80), (-1), (19/25)⟩, ⟨(7499/80), 1, (19/25)⟩, ⟨(8181/80), (-1), (19/25)⟩, ⟨(8863/80), 1, (19/25)⟩, ⟨(1909/16), (-1), (19/25)⟩, ⟨(10227/80), 1, (19/25)⟩], (-1), true, (11/5)⟩ (.cons (.node ⟨false, true, .cress, 12, (2407/200), false, [], 1, false, (2387/2500)⟩ (.cons (.node ⟨false, true, .cress, 12, (2407/200), false, [], 1, false, (73997/125000)⟩ (.cons (.node ⟨false, true, .cress, 12, (2407/200), false, [], 1, false, (2293907/6250000)⟩ (.cons (.node ⟨false, true, .cress, 12, (2407/200), false, [], 1, false, (7/20)⟩ (.cons (.node ⟨false, true, .cress, 12, (2407/200), false, [], 1, false, (7/20)⟩ (.cons (.node ⟨false, true, .cress, 12, (2407/200), false, [], 1, false, (7/20)⟩ (.cons (.node ⟨false, true, .cress, 12, (2407/200), false, [], 1, false, (7/20)⟩ (.cons (.node ⟨false, true, .cress, 12, (2467/800), true, [], 1, false, (7/20)⟩ (.nil)) (.nil))) (.nil))) (.nil))) (.nil))) (.nil))) (.nil))) (.nil))) (.nil)),
  .node ⟨true, false, .cress, 10, 10, false, [], 1, false, (8/5)⟩ (.cons (.node ⟨true, false, .cress, 10, 10, false, [], 1, false, (124/125)⟩ (.cons (.node ⟨true, false, .cress, 10, 10, false, [], 1, false, (1922/3125)⟩ (.cons (.node ⟨true, false, .cress, 10, 10, false, [], 1, false, (1/2)⟩ (.cons (.node ⟨true, false, .cress, 10, 10, false, [], 1, false, (1/2)⟩ (.cons (.node ⟨true, false, .cress, 10, 10, false, [], 1, false, (1/2)⟩ (.cons (.node ⟨true, false, .cress, 10, 10, false, [], 1, false, (1/2)⟩ (.cons (.node ⟨true, false, .cress, 10, 10, false, [], 1, false, (1/2)⟩ (.cons (.node ⟨true, false, .cress, 10, 10, false, [], 1, false, (1/2)⟩ (.cons (.node ⟨true, false, .cress, 10, (31/5), true, [], 1, false, (1/2)⟩ (.nil)) (.nil))) (.nil))) (.nil))) (.nil))) (.nil))) (.nil))) (.nil))) (.nil))) (.nil))⟩, 976)

theorem chunkT944 : EPlant.updateN rand01 6 ET944 = ET950 := by
  with_unfolding_all rfl

theorem accT950 : EPlant.updateN rand01 950 (EPlant.new VarietyKey.cress rand01 0) = ET950 := by
  rw [show (950 : ℕ) = 944 + 6 by norm_num, EPlant.updateN_add, accT944]
  exact chunkT944

/-- Erased simulator state after 956 ticks of the counterexample run. -/
def ET956 : EPlant × ℕ :=
  (⟨.cress, 956, 240, 120,
  .node ⟨false, false, .cress, 12, (10447/80), true, [⟨(679/80), 1, (19/25)⟩, ⟨(1361/80), (-1), (19/25)⟩, ⟨(2043/80), 1, (19/25)⟩, ⟨(545/16), (-1), (19/25)⟩, ⟨(3407/80), 1, (19/25)⟩, ⟨(4089/80), (-1), (19/25)⟩, ⟨(4771/80), 1, (19/25)⟩, ⟨(5453/80), (-1), (19/25)⟩, ⟨(1227/16), 1, (19/25)⟩, ⟨(6817/80), (-1), (19/25)⟩, ⟨(7499/80), 1, (19/25)⟩, ⟨(8181/80), (-1), (19/25)⟩, ⟨(8863/80), 1, (19/25)⟩, ⟨(1909/16), (-1), (19/25)⟩, ⟨(10227/80), 1, (19/25)⟩], (-1), true, (11/5)⟩ (.cons (.node ⟨false, true, .cress, 12, (2407/200), false, [], 1, false, (2387/2500)⟩ (.cons (.node ⟨false, true, .cress, 12, (2407/200), false, [], 1, false, (73997/125000)⟩ (.cons (.node ⟨false, true, .cress, 12, (2407/200), false, [], 1, false, (2293907/6250000)⟩ (.cons (.node ⟨false, true, .cress, 12, (2407/200), false, [], 1, false, (7/20)⟩ (.cons (.node ⟨false, true, .cress, 12, (2407/200), false, [], 1, false, (7/20)⟩ (.cons (.node ⟨false, true, .cress, 12, (2407/200), false, [], 1, false, (7/20)⟩ (.cons (.node ⟨false, true, .cress, 12, (2407/200), false, [], 1, false, (7/20)⟩ (.cons (.node ⟨false, true, .cress, 12, (2929/800), true, [], 1, false, (7/20)⟩ (.nil)) (.nil))) (.nil))) (.nil))) (.nil))) (.nil))) (.nil))) (.nil))) (.nil)),
  .node ⟨true, false, .cress, 10, 10, false, [], 1, false, (8/5)⟩ (.cons (.node ⟨true, false, .cress, 10, 10, false, [], 1, false, (124/125)⟩ (.cons (.node ⟨true, false, .cress, 10, 10, false, [], 1, false, (1922/3125)⟩ (.cons (.node ⟨true, false, .cress, 10, 10, false, [], 1, false, (1/2)⟩ (.cons (.node ⟨true, false, .cress, 10, 10, false, [], 1, false, (1/2)⟩ (.cons (.node ⟨true, false, .cress, 10, 10, false, [], 1, false, (1/2)⟩ (.cons (.node ⟨true, false, .cress, 10, 10, false, [], 1, false, (1/2)⟩ (.cons (.node ⟨true, false, .cress, 10, 10, false, [], 1, false, (1/2)⟩ (.cons (.node ⟨true, false, .cress, 10, 10, false, [], 1, false, (1/2)⟩ (.cons (.node ⟨true, false, .cress, 10, (34/5), true, [], 1, false, (1/2)⟩ (.nil)) (.nil))) (.nil))) (.nil))) (.nil))) (.nil))) (.nil))) (.nil))) (.nil))) (.nil))⟩, 982)

theorem chunkT950 : EPlant.updateN rand01 6 ET950 = ET956 := by
  with_unfolding_all rfl

theorem accT956 : EPlant.updateN rand01 956 (EPlant.new VarietyKey.cress rand01 0) = ET956 := by
  rw [show (956 : ℕ) = 950 + 6 by norm_num, EPlant.updateN_add, accT950]
  exact chunkT950

/-- Erased simulator state after 962 ticks of the counterexample run. -/
def ET962 : EPlant × ℕ :=
  (⟨.cress, 962, 240, 120,
  .node ⟨false, false, .cress, 12, (10513/80), true, [⟨(679/80), 1, (19/25)⟩, ⟨(1361/80), (-1), (19/25)⟩, ⟨(2043/80), 1, (19/25)⟩, ⟨(545/16), (-1), (19/25)⟩, ⟨(3407/80), 1, (19/25)⟩, ⟨(4089/80), (-1), (19/25)⟩, ⟨(4771/80), 1, (19/25)⟩, ⟨(5453/80), (-1), (19/25)⟩, ⟨(1227/16), 1, (19/25)⟩, ⟨(6817/80), (-1), (19/25)⟩, ⟨(7499/80), 1, (19/25)⟩, ⟨(8181/80), (-1), (19/25)⟩, ⟨(8863/80), 1, (19/25)⟩, ⟨(1909/16), (-1), (19/25)⟩, ⟨(10227/80), 1, (19/25)⟩], (-1), true, (11/5)⟩ (.cons (.node ⟨false, true, .cress, 12, (2407/200), false, [], 1, false, (2387/2500)⟩ (.cons (.node ⟨false, true, .cress, 12, (2407/200), false, [], 1, false, (73997/125000)⟩ (.cons (.node ⟨false, true, .cress, 12, (2407/200), false, [], 1, false, (2293907/6250000)⟩ (.cons (.node ⟨false, true, .cress, 12, (2407/200), false, [], 1, false, (7/20)⟩ (.cons (.node ⟨false, true, .cress, 12, (2407/200), false, [], 1, false, (7/20)⟩ (.cons (.node ⟨false, true, .cress, 12, (2407/200), false, [], 1, false, (7/20)⟩ (.cons (.node ⟨false, true, .cress, 12, (2407/200), false, [], 1, false, (7/20)⟩ (.cons (.node ⟨false, true, .cress, 12, (3391/800), true, [], 1, false, (7/20)⟩ (.nil)) (.nil))) (.nil))) (.nil))) (.nil))) (.nil))) (.nil))) (.nil))) (.nil)),
  .node ⟨true, false, .cress, 10, 10, false, [], 1, false, (8/5)⟩ (.cons (.node ⟨true, false, .cress, 10, 10, false, [], 1, false, (124/125)⟩ (.cons (.node ⟨true, false, .cress, 10, 10, false, [], 1, false, (1922/3125)⟩ (.cons (.node ⟨true, false, .cress, 10, 10, false, [], 1, false, (1/2)⟩ (.cons (.node ⟨true, false, .cress, 10, 10, false, [], 1, false, (1/2)⟩ (.cons (.node ⟨true, false, .cress, 10, 10, false, [], 1, false, (1/2)⟩ (.cons (.node ⟨true, false, .cress, 10, 10, false, [], 1, false, (1/2)⟩ (.cons (.node ⟨true, false, .cress, 10, 10, false, [], 1, false, (1/2)⟩ (.cons (.node ⟨true, false, .cress, 10, 10, false, [], 1, false, (1/2)⟩ (.cons (.node ⟨true, false, .cress, 10, (37/5), true, [], 1, false, (1/2)⟩ (.nil)) (.nil))) (.nil))) (.nil))) (.nil))) (.nil))) (.nil))) (.nil))) (.nil))) (.nil))⟩, 988)

theorem chunkT956 : EPlant.updateN rand01 6 ET956 = ET962 := by
  with_unfolding_all rfl

theorem accT962 : EPlant.updateN rand01 962 (EPlant.new VarietyKey.cress rand01 0) = ET962 := by
  rw [show (962 : ℕ) = 956 + 6 by norm_num, EPlant.updateN_add, accT956]
  exact chunkT956

/-- Erased simulator state after 968 ticks of the counterexample run. -/
def ET968 : EPlant × ℕ :=
  (⟨.cress, 968, 240, 120,
  .node ⟨false, false, .cress, 12, (10579/80), true, [⟨(679/80), 1, (19/25)⟩, ⟨(1361/80), (-1), (19/25)⟩, ⟨(2043/80), 1, (19/25)⟩, ⟨(545/16), (-1), (19/25)⟩, ⟨(3407/80), 1, (19/25)⟩, ⟨(4089/80), (-1), (19/25)⟩, ⟨(4771/80), 1, (19/25)⟩, ⟨(5453/80), (-1), (19/25)⟩, ⟨(1227/16), 1, (19/25)⟩, ⟨(6817/80), (-1), (19/25)⟩, ⟨(7499/80), 1, (19/25)⟩, ⟨(8181/80), (-1), (19/25)⟩, ⟨(8863/80), 1, (19/25)⟩, ⟨(1909/16), (-1), (19/25)⟩, ⟨(10227/80), 1, (19/25)⟩], (-1), true, (11/5)⟩ (.cons (.node ⟨false, true, .cress, 12, (2407/200), false, [], 1, false, (2387/2500)⟩ (.cons (.node ⟨false, true, .cress, 12, (2407/200), false, [], 1, false, (73997/125000)⟩ (.cons (.node ⟨false, true, .cress, 12, (2407/200), false, [], 1, false, (2293907/6250000)⟩ (.cons (.node ⟨false, true, .cress, 12, (2407/200), false, [], 1, false, (7/20)⟩ (.cons (.node ⟨false, true, .cress, 12, (2407/200), false, [], 1, false, (7/20)⟩ (.cons (.node ⟨false, true, .cress, 12, (2407/200), false, [], 1, false, (7/20)⟩ (.cons (.node ⟨false, true, .cress, 12, (2407/200), false, [], 1, false, (7/20)⟩ (.cons (.node ⟨false, true, .cress, 12, (3853/800), true, [], 1, false, (7/20)⟩ (.nil)) (.nil))) (.nil))) (.nil))) (.nil))) (.nil))) (.nil))) (.nil))) (.nil)),
  .node ⟨true, false, .cress, 10, 10, false, [], 1, false, (8/5)⟩ (.cons (.node ⟨true, false, .cress, 10, 10, false, [], 1, false, (124/125)⟩ (.cons (.node ⟨true, false, .cress, 10, 10, false, [], 1, false, (1922/3125)⟩ (.cons (.node ⟨true, false, .cress, 10, 10, false, [], 1, false, (1/2)⟩ (.cons (.node ⟨true, false, .cress, 10, 10, false, [], 1, false, (1/2)⟩ (.cons (.node ⟨true, false, .cress, 10, 10, false, [], 1, false, (1/2)⟩ (.cons (.node ⟨true, false, .cress, 10, 10, false, [], 1, false, (1/2)⟩ (.cons (.node ⟨true, false, .cress, 10, 10, false, [], 1, false, (1/2)⟩ (.cons (.node ⟨true, false, .cress, 10, 10, false, [], 1, false, (1/2)⟩ (.cons (.node ⟨true, false, .cress, 10, 8, true, [], 1, false, (1/2)⟩ (.nil)) (.nil))) (.nil))) (.nil))) (.nil))) (.nil))) (.nil))) (.nil))) (.nil))) (.nil))⟩, 994)

theorem chunkT962 : EPlant.updateN rand01 6 ET962 = ET968 := by
  with_unfolding_all rfl

theorem accT968 : EPlant.updateN rand01 968 (EPlant.new VarietyKey.cress rand01 0) = ET968 := by
  rw [show (968 : ℕ) = 962 + 6 by norm_num, EPlant.updateN_add, accT962]
  exact chunkT962

/-- Erased simulator state after 974 ticks of the counterexample run. -/
def ET974 : EPlant × ℕ :=
  (⟨.cress, 974, 240, 120,
  .node ⟨false, false, .cress, 12, (2129/16), true, [⟨(679/80), 1, (19/25)⟩, ⟨(1361/80), (-1), (19/25)⟩, ⟨(2043/80), 1, (19/25)⟩, ⟨(545/16), (-1), (19/25)⟩, ⟨(3407/80), 1, (19/25)⟩, ⟨(4089/80), (-1), (19/25)⟩, ⟨(4771/80), 1, (19/25)⟩, ⟨(5453/80), (-1), (19/25)⟩, ⟨(1227/16), 1, (19/25)⟩, ⟨(6817/80), (-1), (19/25)⟩, ⟨(7499/80), 1, (19/25)⟩, ⟨(8181/80), (-1), (19/25)⟩, ⟨(8863/80), 1, (19/25)⟩, ⟨(1909/16), (-1), (19/25)⟩, ⟨(10227/80), 1, (19/25)⟩], (-1), true, (11/5)⟩ (.cons (.node ⟨false, true, .cress, 12, (2407/200), false, [], 1, false, (2387/2500)⟩ (.cons (.node ⟨false, true, .cress, 12, (2407/200), false, [], 1, false, (73997/125000)⟩ (.cons (.node ⟨false, true, .cress, 12, (2407/200), false, [], 1, false, (2293907/6250000)⟩ (.cons (.node ⟨false, true, .cress, 12, (2407/200), false, [], 1, false, (7/20)⟩ (.cons (.node ⟨false, true, .cress, 12, (2407/200), false, [], 1, false, (7/20)⟩ (.cons (.node ⟨false, true, .cress, 12, (2407/200), false, [], 1, false, (7/20)⟩ (.cons (.node ⟨false, true, .cress, 12, (2407/200), false, [], 1, false, (7/20)⟩ (.cons (.node ⟨false, true, .cress, 12, (863/160), true, [], 1, false, (7/20)⟩ (.nil)) (.nil))) (.nil))) (.nil))) (.nil))) (.nil))) (.nil))) (.nil))) (.nil)),
  .node ⟨true, false, .cress, 10, 10, false, [], 1, false, (8/5)⟩ (.cons (.node ⟨true, false, .cress, 10, 10, false, [], 1, false, (124/125)⟩ (.cons (.node ⟨true, false, .cress, 10, 10, false, [], 1, false, (1922/3125)⟩ (.cons (.node ⟨true, false, .cress, 10, 10, false, [], 1, false, (1/2)⟩ (.cons (.node ⟨true, false, .cress, 10, 10, false, [], 1, false, (1/2)⟩ (.cons (.node ⟨true, false, .cress, 10, 10, false, [], 1, false, (1/2)⟩ (.cons (.node ⟨true, false, .cress, 10, 10, false, [], 1, false, (1/2)⟩ (.cons (.node ⟨true, false, .cress, 10, 10, false, [], 1, false, (1/2)⟩ (.cons (.node ⟨true, false, .cress, 10, 10, false, [], 1, false, (1/2)⟩ (.cons (.node ⟨true, false, .cress, 10, (43/5), true, [], 1, false, (1/2)⟩ (.nil)) (.nil))) (.nil))) (.nil))) (.nil))) (.nil))) (.nil))) (.nil))) (.nil))) (.nil))⟩, 1000)

theorem chunkT968 : EPlant.updateN rand01 6 ET968 = ET974 := by
  with_unfolding_all rfl

theorem accT974 : EPlant.updateN rand01 974 (EPlant.new VarietyKey.cress rand01 0) = ET974 := by
  rw [show (974 : ℕ) = 968 + 6 by norm_num, EPlant.updateN_add, accT968]
  exact chunkT968

/-- Erased simulator state after 980 ticks of the counterexample run. -/
def ET980 : EPlant × ℕ :=
  (⟨.cress, 980, 240, 120,
  .node ⟨false, false, .cress, 12, (10711/80), true, [⟨(679/80), 1, (19/25)⟩, ⟨(1361/80), (-1), (19/25)⟩, ⟨(2043/80), 1, (19/25)⟩, ⟨(545/16), (-1), (19/25)⟩, ⟨(3407/80), 1, (19/25)⟩, ⟨(4089/80), (-1), (19/25)⟩, ⟨(4771/80), 1, (19/25)⟩, ⟨(5453/80), (-1), (19/25)⟩, ⟨(1227/16), 1, (19/25)⟩, ⟨(6817/80), (-1), (19/25)⟩, ⟨(7499/80), 1, (19/25)⟩, ⟨(8181/80), (-1), (19/25)⟩, ⟨(8863/80), 1, (19/25)⟩, ⟨(1909/16), (-1), (19/25)⟩, ⟨(10227/80), 1, (19/25)⟩], (-1), true, (11/5)⟩ (.cons (.node ⟨false, true, .cress, 12, (2407/200), false, [], 1, false, (2387/2500)⟩ (.cons (.node ⟨false, true, .cress, 12, (2407/200), false, [], 1, false, (73997/125000)⟩ (.cons (.node ⟨false, true, .cress, 12, (2407/200), false, [], 1, false, (2293907/6250000)⟩ (.cons (.node ⟨false, true, .cress, 12, (2407/200), false, [], 1, false, (7/20)⟩ (.cons (.node ⟨false, true, .cress, 12, (2407/200), false, [], 1, false, (7/20)⟩ (.cons (.node ⟨false, true, .cress, 12, (2407/200), false, [], 1, false, (7/20)⟩ (.cons (.node ⟨false, true, .cress, 12, (2407/200), false, [], 1, false, (7/20)⟩ (.cons (.node ⟨false, true, .cress, 12, (4777/800), true, [], 1, false, (7/20)⟩ (.nil)) (.nil))) (.nil))) (.nil))) (.nil))) (.nil))) (.nil))) (.nil))) (.nil)),
  .node ⟨true, false, .cress, 10, 10, false, [], 1, false, (8/5)⟩ (.cons (.node ⟨true, false, .cress, 10, 10, false, [], 1, false, (124/125)⟩ (.cons (.node ⟨true, false, .cress, 10, 10, false, [], 1, false, (1922/3125)⟩ (.cons (.node ⟨true, false, .cress, 10, 10, false, [], 1, false, (1/2)⟩ (.cons (.node ⟨true, false, .cress, 10, 10, false, [], 1, false, (1/2)⟩ (.cons (.node ⟨true, false, .cress, 10, 10, false, [], 1, false, (1/2)⟩ (.cons (.node ⟨true, false, .cress, 10, 10, false, [], 1, false, (1/2)⟩ (.cons (.node ⟨true, false, .cress, 10, 10, false, [], 1, false, (1/2)⟩ (.cons (.node ⟨true, false, .cress, 10, 10, false, [], 1, false, (1/2)⟩ (.cons (.node ⟨true, false, .cress, 10, (46/5), true, [], 1, false, (1/2)⟩ (.nil)) (.nil))) (.nil))) (.nil))) (.nil))) (.nil))) (.nil))) (.nil))) (.nil))) (.nil))⟩, 1006)

theorem chunkT974 : EPlant.updateN rand01 6 ET974 = ET980 := by
  with_unfolding_all rfl

theorem accT980 : EPlant.updateN rand01 980 (EPlant.new VarietyKey.cress rand01 0) = ET980 := by
  rw [show (980 : ℕ) = 974 + 6 by norm_num, EPlant.updateN_add, accT974]
  exact chunkT974

/-- Erased simulator state after 986 ticks of the counterexample run. -/
def ET986 : EPlant × ℕ :=
  (⟨.cress, 986, 240, 120,
  .node ⟨false, false, .cress, 12, (10777/80), true, [⟨(679/80), 1, (19/25)⟩, ⟨(1361/80), (-1), (19/25)⟩, ⟨(2043/80), 1, (19/25)⟩, ⟨(545/16), (-1), (19/25)⟩, ⟨(3407/80), 1, (19/25)⟩, ⟨(4089/80), (-1), (19/25)⟩, ⟨(4771/80), 1, (19/25)⟩, ⟨(5453/80), (-1), (19/25)⟩, ⟨(1227/16), 1, (19/25)⟩, ⟨(6817/80), (-1), (19/25)⟩, ⟨(7499/80), 1, (19/25)⟩, ⟨(8181/80), (-1), (19/25)⟩, ⟨(8863/80), 1, (19/25)⟩, ⟨(1909/16), (-1), (19/25)⟩, ⟨(10227/80), 1, (19/25)⟩], (-1), true, (11/5)⟩ (.cons (.node ⟨false, true, .cress, 12, (2407/200), false, [], 1, false, (2387/2500)⟩ (.cons (.node ⟨false, true, .cress, 12, (2407/200), false, [], 1, false, (73997/125000)⟩ (.cons (.node ⟨false, true, .cress, 12, (2407/200), false, [], 1, false, (2293907/6250000)⟩ (.cons (.node ⟨false, true, .cress, 12, (2407/200), false, [], 1, false, (7/20)⟩ (.cons (.node ⟨false, true, .cress, 12, (2407/200), false, [], 1, false, (7/20)⟩ (.cons (.node ⟨false, true, .cress, 12, (2407/200), false, [], 1, false, (7/20)⟩ (.cons (.node ⟨false, true, .cress, 12, (2407/200), false, [], 1, false, (7/20)⟩ (.cons (.node ⟨false, true, .cress, 12, (5239/800), true, [], 1, false, (7/20)⟩ (.nil)) (.nil))) (.nil))) (.nil))) (.nil))) (.nil))) (.nil))) (.nil))) (.nil)),
  .node ⟨true, false, .cress, 10, 10, false, [], 1, false, (8/5)⟩ (.cons (.node ⟨true, false, .cress, 10, 10, false, [], 1, false, (124/125)⟩ (.cons (.node ⟨true, false, .cress, 10, 10, false, [], 1, false, (1922/3125)⟩ (.cons (.node ⟨true, false, .cress, 10, 10, false, [], 1, false, (1/2)⟩ (.cons (.node ⟨true, false, .cress, 10, 10, false, [], 1, false, (1/2)⟩ (.cons (.node ⟨true, false, .cress, 10, 10, false, [], 1, false, (1/2)⟩ (.cons (.node ⟨true, false, .cress, 10, 10, false, [], 1, false, (1/2)⟩ (.cons (.node ⟨true, false, .cress, 10, 10, false, [], 1, false, (1/2)⟩ (.cons (.node ⟨true, false, .cress, 10, 10, false, [], 1, false, (1/2)⟩ (.cons (.node ⟨true, false, .cress, 10, (49/5), true, [], 1, false, (1/2)⟩ (.nil)) (.nil))) (.nil))) (.nil))) (.nil))) (.nil))) (.nil))) (.nil))) (.nil))) (.nil))⟩, 1012)

theorem chunkT980 : EPlant.updateN rand01 6 ET980 = ET986 := by
  with_unfolding_all rfl

theorem accT986 : EPlant.updateN rand01 986 (EPlant.new VarietyKey.cress rand01 0) = ET986 := by
  rw [show (986 : ℕ) = 980 + 6 by norm_num, EPlant.updateN_add, accT980]
  exact chunkT980

/-- Erased simulator state after 992 ticks of the counterexample run. -/
def ET992 : EPlant × ℕ :=
  (⟨.cress, 992, 240, 120,
  .node ⟨false, false, .cress, 12, (10843/80), true, [⟨(679/80), 1, (19/25)⟩, ⟨(1361/80), (-1), (19/25)⟩, ⟨(2043/80), 1, (19/25)⟩, ⟨(545/16), (-1), (19/25)⟩, ⟨(3407/80), 1, (19/25)⟩, ⟨(4089/80), (-1), (19/25)⟩, ⟨(4771/80), 1, (19/25)⟩, ⟨(5453/80), (-1), (19/25)⟩, ⟨(1227/16), 1, (19/25)⟩, ⟨(6817/80), (-1), (19/25)⟩, ⟨(7499/80), 1, (19/25)⟩, ⟨(8181/80), (-1), (19/25)⟩, ⟨(8863/80), 1, (19/25)⟩, ⟨(1909/16), (-1), (19/25)⟩, ⟨(10227/80), 1, (19/25)⟩], (-1), true, (11/5)⟩ (.cons (.node ⟨false, true, .cress, 12, (2407/200), false, [], 1, false, (2387/2500)⟩ (.cons (.node ⟨false, true, .cress, 12, (2407/200), false, [], 1, false, (73997/125000)⟩ (.cons (.node ⟨false, true, .cress, 12, (2407/200), false, [], 1, false, (2293907/6250000)⟩ (.cons (.node ⟨false, true, .cress, 12, (2407/200), false, [], 1, false, (7/20)⟩ (.cons (.node ⟨false, true, .cress, 12, (2407/200), false, [], 1, false, (7/20)⟩ (.cons (.node ⟨false, true, .cress, 12, (2407/200), false, [], 1, false, (7/20)⟩ (.cons (.node ⟨false, true, .cress, 12, (2407/200), false, [], 1, false, (7/20)⟩ (.cons (.node ⟨false, true, .cress, 12, (5701/800), true, [], 1, false, (7/20)⟩ (.nil)) (.nil))) (.nil))) (.nil))) (.nil))) (.nil))) (.nil))) (.nil))) (.nil)),
  .node ⟨true, false, .cress, 10, 10, false, [], 1, false, (8/5)⟩ (.cons (.node ⟨true, false, .cress, 10, 10, false, [], 1, false, (124/125)⟩ (.cons (.node ⟨true, false, .cress, 10, 10, false, [], 1, false, (1922/3125)⟩ (.cons (.node ⟨true, false, .cress, 10, 10, false, [], 1, false, (1/2)⟩ (.cons (.node ⟨true, false, .cress, 10, 10, false, [], 1, false, (1/2)⟩ (.cons (.node ⟨true, false, .cress, 10, 10, false, [], 1, false, (1/2)⟩ (.cons (.node ⟨true, false, .cress, 10, 10, false, [], 1, false, (1/2)⟩ (.cons (.node ⟨true, false, .cress, 10, 10, false, [], 1, false, (1/2)⟩ (.cons (.node ⟨true, false, .cress, 10, 10, false, [], 1, false, (1/2)⟩ (.cons (.node ⟨true, false, .cress, 10, 10, false, [], 1, false, (1/2)⟩ (.cons (.node ⟨true, false, .cress, 10, (3/5), true, [], 1, false, (1/2)⟩ (.nil)) (.nil))) (.nil))) (.nil))) (.nil))) (.nil))) (.nil))) (.nil))) (.nil))) (.nil))) (.nil))⟩, 1020)

theorem chunkT986 : EPlant.updateN rand01 6 ET986 = ET992 := by
  with_unfolding_all rfl

theorem accT992 : EPlant.updateN rand01 992 (EPlant.new VarietyKey.cress rand01 0) = ET992 := by
  rw [show (992 : ℕ) = 986 + 6 by norm_num, EPlant.updateN_add, accT986]
  exact chunkT986

/-- Erased simulator state after 998 ticks of the counterexample run. -/
def ET998 : EPlant × ℕ :=
  (⟨.cress, 998, 240, 120,
  .node ⟨false, false, .cress, 12, (10909/80), true, [⟨(679/80), 1, (19/25)⟩, ⟨(1361/80), (-1), (19/25)⟩, ⟨(2043/80), 1, (19/25)⟩, ⟨(545/16), (-1), (19/25)⟩, ⟨(3407/80), 1, (19/25)⟩, ⟨(4089/80), (-1), (19/25)⟩, ⟨(4771/80), 1, (19/25)⟩, ⟨(5453/80), (-1), (19/25)⟩, ⟨(1227/16), 1, (19/25)⟩, ⟨(6817/80), (-1), (19/25)⟩, ⟨(7499/80), 1, (19/25)⟩, ⟨(8181/80), (-1), (19/25)⟩, ⟨(8863/80), 1, (19/25)⟩, ⟨(1909/16), (-1), (19/25)⟩, ⟨(10227/80), 1, (19/25)⟩, ⟨(10909/80), (-1), (19/25)⟩], 1, true, (11/5)⟩ (.cons (.node ⟨false, true, .cress, 12, (2407/200), false, [], 1, false, (2387/2500)⟩ (.cons (.node ⟨false, true, .cress, 12, (2407/200), false, [], 1, false, (73997/125000)⟩ (.cons (.node ⟨false, true, .cress, 12, (2407/200), false, [], 1, false, (2293907/6250000)⟩ (.cons (.node ⟨false, true, .cress, 12, (2407/200), false, [], 1, false, (7/20)⟩ (.cons (.node ⟨false, true, .cress, 12, (2407/200), false, [], 1, false, (7/20)⟩ (.cons (.node ⟨false, true, .cress, 12, (2407/200), false, [], 1, false, (7/20)⟩ (.cons (.node ⟨false, true, .cress, 12, (2407/200), false, [], 1, false, (7/20)⟩ (.cons (.node ⟨false, true, .cress, 12, (6163/800), true, [], 1, false, (7/20)⟩ (.nil)) (.nil))) (.nil))) (.nil))) (.nil))) (.nil))) (.nil))) (.nil))) (.nil)),
  .node ⟨true, false, .cress, 10, 10, false, [], 1, false, (8/5)⟩ (.cons (.node ⟨true, false, .cress, 10, 10, false, [], 1, false, (124/125)⟩ (.cons (.node ⟨true, false, .cress, 10, 10, false, [], 1, false, (1922/3125)⟩ (.cons (.node ⟨true, false, .cress, 10, 10, false, [], 1, false, (1/2)⟩ (.cons (.node ⟨true, false, .cress, 10, 10, false, [], 1, false, (1/2)⟩ (.cons (.node ⟨true, false, .cress, 10, 10, false, [], 1, false, (1/2)⟩ (.cons (.node ⟨true, false, .cress, 10, 10, false, [], 1, false, (1/2)⟩ (.cons (.node ⟨true, false, .cress, 10, 10, false, [], 1, false, (1/2)⟩ (.cons (.node ⟨true, false, .cress, 10, 10, false, [], 1, false, (1/2)⟩ (.cons (.node ⟨true, false, .cress, 10, 10, false, [], 1, false, (1/2)⟩ (.cons (.node ⟨true, false, .cress, 10, (6/5), true, [], 1, false, (1/2)⟩ (.nil)) (.nil))) (.nil))) (.nil))) (.nil))) (.nil))) (.nil))) (.nil))) (.nil))) (.nil))) (.nil))⟩, 1027)

theorem chunkT992 : EPlant.updateN rand01 6 ET992 = ET998 := by
  with_unfolding_all rfl

theorem accT998 : EPlant.updateN rand01 998 (EPlant.new VarietyKey.cress rand01 0) = ET998 := by
  rw [show (998 : ℕ) = 992 + 6 by norm_num, EPlant.updateN_add, accT992]
  exact chunkT992

/-- Erased simulator state after 1004 ticks of the counterexample run. -/
def ET1004 : EPlant × ℕ :=
  (⟨.cress, 1004, 240, 120,
  .node ⟨false, false, .cress, 12, (2195/16), true, [⟨(679/80), 1, (19/25)⟩, ⟨(1361/80), (-1), (19/25)⟩, ⟨(2043/80), 1, (19/25)⟩, ⟨(545/16), (-1), (19/25)⟩, ⟨(3407/80), 1, (19/25)⟩, ⟨(4089/80), (-1), (19/25)⟩, ⟨(4771/80), 1, (19/25)⟩, ⟨(5453/80), (-1), (19/25)⟩, ⟨(1227/16), 1, (19/25)⟩, ⟨(6817/80), (-1), (19/25)⟩, ⟨(7499/80), 1, (19/25)⟩, ⟨(8181/80), (-1), (19/25)⟩, ⟨(8863/80), 1, (19/25)⟩, ⟨(1909/16), (-1), (19/25)⟩, ⟨(10227/80), 1, (19/25)⟩, ⟨(10909/80), (-1), (19/25)⟩], 1, true, (11/5)⟩ (.cons (.node ⟨false, true, .cress, 12, (2407/200), false, [], 1, false, (2387/2500)⟩ (.cons (.node ⟨false, true, .cress, 12, (2407/200), false, [], 1, false, (73997/125000)⟩ (.cons (.node ⟨false, true, .cress, 12, (2407/200), false, [], 1, false, (2293907/6250000)⟩ (.cons (.node ⟨false, true, .cress, 12, (2407/200), false, [], 1, false, (7/20)⟩ (.cons (.node ⟨false, true, .cress, 12, (2407/200), false, [], 1, false, (7/20)⟩ (.cons (.node ⟨false, true, .cress, 12, (2407/200), false, [], 1, false, (7/20)⟩ (.cons (.node ⟨false, true, .cress, 12, (2407/200), false, [], 1, false, (7/20)⟩ (.cons (.node ⟨false, true, .cress, 12, (265/32), true, [], 1, false, (7/20)⟩ (.nil)) (.nil))) (.nil))) (.nil))) (.nil))) (.nil))) (.nil))) (.nil))) (.nil)),
  .node ⟨true, false, .cress, 10, 10, false, [], 1, false, (8/5)⟩ (.cons (.node ⟨true, false, .cress, 10, 10, false, [], 1, false, (124/125)⟩ (.cons (.node ⟨true, false, .cress, 10, 10, false, [], 1, false, (1922/3125)⟩ (.cons (.node ⟨true, false, .cress, 10, 10, false, [], 1, false, (1/2)⟩ (.cons (.node ⟨true, false, .cress, 10, 10, false, [], 1, false, (1/2)⟩ (.cons (.node ⟨true, false, .cress, 10, 10, false, [], 1, false, (1/2)⟩ (.cons (.node ⟨true, false, .cress, 10, 10, false, [], 1, false, (1/2)⟩ (.cons (.node ⟨true, false, .cress, 10, 10, false, [], 1, false, (1/2)⟩ (.cons (.node ⟨true, false, .cress, 10, 10, false, [], 1, false, (1/2)⟩ (.cons (.node ⟨true, false, .cress, 10, 10, false, [], 1, false, (1/2)⟩ (.cons (.node ⟨true, false, .cress, 10, (9/5), true, [], 1, false, (1/2)⟩ (.nil)) (.nil))) (.nil))) (.nil))) (.nil))) (.nil))) (.nil))) (.nil))) (.nil))) (.nil))) (.nil))⟩, 1033)

theorem chunkT998 : EPlant.updateN rand01 6 ET998 = ET1004 := by
  with_unfolding_all rfl

theorem accT1004 : EPlant.updateN rand01 1004 (EPlant.new VarietyKey.cress rand01 0) = ET1004 := by
  rw [show (1004 : ℕ) = 998 + 6 by norm_num, EPlant.updateN_add, accT998]
  exact chunkT998

/-- Erased simulator state after 1010 ticks of the counterexample run. -/
def ET1010 : EPlant × ℕ :=
  (⟨.cress, 1010, 240, 120,
  .node ⟨false, false, .cress, 12, (11041/80), true, [⟨(679/80), 1, (19/25)⟩, ⟨(1361/80), (-1), (19/25)⟩, ⟨(2043/80), 1, (19/25)⟩, ⟨(545/16), (-1), (19/25)⟩, ⟨(3407/80), 1, (19/25)⟩, ⟨(4089/80), (-1), (19/25)⟩, ⟨(4771/80), 1, (19/25)⟩, ⟨(5453/80), (-1), (19/25)⟩, ⟨(1227/16), 1, (19/25)⟩, ⟨(6817/80), (-1), (19/25)⟩, ⟨(7499/80), 1, (19/25)⟩, ⟨(8181/80), (-1), (19/25)⟩, ⟨(8863/80), 1, (19/25)⟩, ⟨(1909/16), (-1), (19/25)⟩, ⟨(10227/80), 1, (19/25)⟩, ⟨(10909/80), (-1), (19/25)⟩], 1, true, (11/5)⟩ (.cons (.node ⟨false, true, .cress, 12, (2407/200), false, [], 1, false, (2387/2500)⟩ (.cons (.node ⟨false, true, .cress, 12, (2407/200), false, [], 1, false, (73997/125000)⟩ (.cons (.node ⟨false, true, .cress, 12, (2407/200), false, [], 1, false, (2293907/6250000)⟩ (.cons (.node ⟨false, true, .cress, 12, (2407/200), false, [], 1, false, (7/20)⟩ (.cons (.node ⟨false, true, .cress, 12, (2407/200), false, [], 1, false, (7/20)⟩ (.cons (.node ⟨false, true, .cress, 12, (2407/200), false, [], 1, false, (7/20)⟩ (.cons (.node ⟨false, true, .cress, 12, (2407/200), false, [], 1, false, (7/20)⟩ (.cons (.node ⟨false, true, .cress, 12, (7087/800), true, [], 1, false, (7/20)⟩ (.nil)) (.nil))) (.nil))) (.nil))) (.nil))) (.nil))) (.nil))) (.nil))) (.nil)),
  .node ⟨true, false, .cress, 10, 10, false, [], 1, false, (8/5)⟩ (.cons (.node ⟨true, false, .cress, 10, 10, false, [], 1, false, (124/125)⟩ (.cons (.node ⟨true, false, .cress, 10, 10, false, [], 1, false, (1922/3125)⟩ (.cons (.node ⟨true, false, .cress, 10, 10, false, [], 1, false, (1/2)⟩ (.cons (.node ⟨true, false, .cress, 10, 10, false, [], 1, false, (1/2)⟩ (.cons (.node ⟨true, false, .cress, 10, 10, false, [], 1, false, (1/2)⟩ (.cons (.node ⟨true, false, .cress, 10, 10, false, [], 1, false, (1/2)⟩ (.cons (.node ⟨true, false, .cress, 10, 10, false, [], 1, false, (1/2)⟩ (.cons (.node ⟨true, false, .cress, 10, 10, false, [], 1, false, (1/2)⟩ (.cons (.node ⟨true, false, .cress, 10, 10, false, [], 1, false, (1/2)⟩ (.cons (.node ⟨true, false, .cress, 10, (12/5), true, [], 1, false, (1/2)⟩ (.nil)) (.nil))) (.nil))) (.nil))) (.nil))) (.nil))) (.nil))) (.nil))) (.nil))) (.nil))) (.nil))⟩, 1039)

theorem chunkT1004 : EPlant.updateN rand01 6 ET1004 = ET1010 := by
  with_unfolding_all rfl

theorem accT1010 : EPlant.updateN rand01 1010 (EPlant.new VarietyKey.cress rand01 0) = ET1010 := by
  rw [show (1010 : ℕ) = 1004 + 6 by norm_num, EPlant.updateN_add, accT1004]
  exact chunkT1004

/-- Erased simulator state after 1016 ticks of the counterexample run. -/
def ET1016 : EPlant × ℕ :=
  (⟨.cress, 1016, 240, 120,
  .node ⟨false, false, .cress, 12, (11107/80), true, [⟨(679/80), 1, (19/25)⟩, ⟨(1361/80), (-1), (19/25)⟩, ⟨(2043/80), 1, (19/25)⟩, ⟨(545/16), (-1), (19/25)⟩, ⟨(3407/80), 1, (19/25)⟩, ⟨(4089/80), (-1), (19/25)⟩, ⟨(4771/80), 1, (19/25)⟩, ⟨(5453/80), (-1), (19/25)⟩, ⟨(1227/16), 1, (19/25)⟩, ⟨(6817/80), (-1), (19/25)⟩, ⟨(7499/80), 1, (19/25)⟩, ⟨(8181/80), (-1), (19/25)⟩, ⟨(8863/80), 1, (19/25)⟩, ⟨(1909/16), (-1), (19/25)⟩, ⟨(10227/80), 1, (19/25)⟩, ⟨(10909/80), (-1), (19/25)⟩], 1, true, (11/5)⟩ (.cons (.node ⟨false, true, .cress, 12, (2407/200), false, [], 1, false, (2387/2500)⟩ (.cons (.node ⟨false, true, .cress, 12, (2407/200), false, [], 1, false, (73997/125000)⟩ (.cons (.node ⟨false, true, .cress, 12, (2407/200), false, [], 1, false, (2293907/6250000)⟩ (.cons (.node ⟨false, true, .cress, 12, (2407/200), false, [], 1, false, (7/20)⟩ (.cons (.node ⟨false, true, .cress, 12, (2407/200), false, [], 1, false, (7/20)⟩ (.cons (.node ⟨false, true, .cress, 12, (2407/200), false, [], 1, false, (7/20)⟩ (.cons (.node ⟨false, true, .cress, 12, (2407/200), false, [], 1, false, (7/20)⟩ (.cons (.node ⟨false, true, .cress, 12, (7549/800), true, [], 1, false, (7/20)⟩ (.nil)) (.nil))) (.nil))) (.nil))) (.nil))) (.nil))) (.nil))) (.nil))) (.nil)),
  .node ⟨true, false, .cress, 10, 10, false, [], 1, false, (8/5)⟩ (.cons (.node ⟨true, false, .cress, 10, 10, false, [], 1, false, (124/125)⟩ (.cons (.node ⟨true, false, .cress, 10, 10, false, [], 1, false, (1922/3125)⟩ (.cons (.node ⟨true, false, .cress, 10, 10, false, [], 1, false, (1/2)⟩ (.cons (.node ⟨true, false, .cress, 10, 10, false, [], 1, false, (1/2)⟩ (.cons (.node ⟨true, false, .cress, 10, 10, false, [], 1, false, (1/2)⟩ (.cons (.node ⟨true, false, .cress, 10, 10, false, [], 1, false, (1/2)⟩ (.cons (.node ⟨true, false, .cress, 10, 10, false, [], 1, false, (1/2)⟩ (.cons (.node ⟨true, false, .cress, 10, 10, false, [], 1, false, (1/2)⟩ (.cons (.node ⟨true, false, .cress, 10, 10, false, [], 1, false, (1/2)⟩ (.cons (.node ⟨true, false, .cress, 10, 3, true, [], 1, false, (1/2)⟩ (.nil)) (.nil))) (.nil))) (.nil))) (.nil))) (.nil))) (.nil))) (.nil))) (.nil))) (.nil))) (.nil))⟩, 1045)

theorem chunkT1010 : EPlant.updateN rand01 6 ET1010 = ET1016 := by
  with_unfolding_all rfl

theorem accT1016 : EPlant.updateN rand01 1016 (EPlant.new VarietyKey.cress rand01 0) = ET1016 := by
  rw [show (1016 : ℕ) = 1010 + 6 by norm_num, EPlant.updateN_add, accT1010]
  exact chunkT1010

/-- Erased simulator state after 1022 ticks of the counterexample run. -/
def ET1022 : EPlant × ℕ :=
  (⟨.cress, 1022, 240, 120,
  .node ⟨false, false, .cress, 12, (11173/80), true, [⟨(679/80), 1, (19/25)⟩, ⟨(1361/80), (-1), (19/25)⟩, ⟨(2043/80), 1, (19/25)⟩, ⟨(545/16), (-1), (19/25)⟩, ⟨(3407/80), 1, (19/25)⟩, ⟨(4089/80), (-1), (19/25)⟩, ⟨(4771/80), 1, (19/25)⟩, ⟨(5453/80), (-1), (19/25)⟩, ⟨(1227/16), 1, (19/25)⟩, ⟨(6817/80), (-1), (19/25)⟩, ⟨(7499/80), 1, (19/25)⟩, ⟨(8181/80), (-1), (19/25)⟩, ⟨(8863/80), 1, (19/25)⟩, ⟨(1909/16), (-1), (19/25)⟩, ⟨(10227/80), 1, (19/25)⟩, ⟨(10909/80), (-1), (19/25)⟩], 1, true, (11/5)⟩ (.cons (.node ⟨false, true, .cress, 12, (2407/200), false, [], 1, false, (2387/2500)⟩ (.cons (.node ⟨false, true, .cress, 12, (2407/200), false, [], 1, false, (73997/125000)⟩ (.cons (.node ⟨false, true, .cress, 12, (2407/200), false, [], 1, false, (2293907/6250000)⟩ (.cons (.node ⟨false, true, .cress, 12, (2407/200), false, [], 1, false, (7/20)⟩ (.cons (.node ⟨false, true, .cress, 12, (2407/200), false, [], 1, false, (7/20)⟩ (.cons (.node ⟨false, true, .cress, 12, (2407/200), false, [], 1, false, (7/20)⟩ (.cons (.node ⟨false, true, .cress, 12, (2407/200), false, [], 1, false, (7/20)⟩ (.cons (.node ⟨false, true, .cress, 12, (8011/800), true, [], 1, false, (7/20)⟩ (.nil)) (.nil))) (.nil))) (.nil))) (.nil))) (.nil))) (.nil))) (.nil))) (.nil)),
  .node ⟨true, false, .cress, 10, 10, false, [], 1, false, (8/5)⟩ (.cons (.node ⟨true, false, .cress, 10, 10, false, [], 1, false, (124/125)⟩ (.cons (.node ⟨true, false, .cress, 10, 10, false, [], 1, false, (1922/3125)⟩ (.cons (.node ⟨true, false, .cress, 10, 10, false, [], 1, false, (1/2)⟩ (.cons (.node ⟨true, false, .cress, 10, 10, false, [], 1, false, (1/2)⟩ (.cons (.node ⟨true, false, .cress, 10, 10, false, [], 1, false, (1/2)⟩ (.cons (.node ⟨true, false, .cress, 10, 10, false, [], 1, false, (1/2)⟩ (.cons (.node ⟨true, false, .cress, 10, 10, false, [], 1, false, (1/2)⟩ (.cons (.node ⟨true, false, .cress, 10, 10, false, [], 1, false, (1/2)⟩ (.cons (.node ⟨true, false, .cress, 10, 10, false, [], 1, false, (1/2)⟩ (.cons (.node ⟨true, false, .cress, 10, (18/5), true, [], 1, false, (1/2)⟩ (.nil)) (.nil))) (.nil))) (.nil))) (.nil))) (.nil))) (.nil))) (.nil))) (.nil))) (.nil))) (.nil))⟩, 1051)

theorem chunkT1016 : EPlant.updateN rand01 6 ET1016 = ET1022 := by
  with_unfolding_all rfl

theorem accT1022 : EPlant.updateN rand01 1022 (EPlant.new VarietyKey.cress rand01 0) = ET1022 := by
  rw [show (1022 : ℕ) = 1016 + 6 by norm_num, EPlant.updateN_add, accT1016]
  exact chunkT1016

/-- Erased simulator state after 1028 ticks of the counterexample run. -/
def ET1028 : EPlant × ℕ :=
  (⟨.cress, 1028, 240, 120,
  .node ⟨false, false, .cress, 12, (11239/80), true, [⟨(679/80), 1, (19/25)⟩, ⟨(1361/80), (-1), (19/25)⟩, ⟨(2043/80), 1, (19/25)⟩, ⟨(545/16), (-1), (19/25)⟩, ⟨(3407/80), 1, (19/25)⟩, ⟨(4089/80), (-1), (19/25)⟩, ⟨(4771/80), 1, (19/25)⟩, ⟨(5453/80), (-1), (19/25)⟩, ⟨(1227/16), 1, (19/25)⟩, ⟨(6817/80), (-1), (19/25)⟩, ⟨(7499/80), 1, (19/25)⟩, ⟨(8181/80), (-1), (19/25)⟩, ⟨(8863/80), 1, (19/25)⟩, ⟨(1909/16), (-1), (19/25)⟩, ⟨(10227/80), 1, (19/25)⟩, ⟨(10909/80), (-1), (19/25)⟩], 1, true, (11/5)⟩ (.cons (.node ⟨false, true, .cress, 12, (2407/200), false, [], 1, false, (2387/2500)⟩ (.cons (.node ⟨false, true, .cress, 12, (2407/200), false, [], 1, false, (73997/125000)⟩ (.cons (.node ⟨false, true, .cress, 12, (2407/200), false, [], 1, false, (2293907/6250000)⟩ (.cons (.node ⟨false, true, .cress, 12, (2407/200), false, [], 1, false, (7/20)⟩ (.cons (.node ⟨false, true, .cress, 12, (2407/200), false, [], 1, false, (7/20)⟩ (.cons (.node ⟨false, true, .cress, 12, (2407/200), false, [], 1, false, (7/20)⟩ (.cons (.node ⟨false, true, .cress, 12, (2407/200), false, [], 1, false, (7/20)⟩ (.cons (.node ⟨false, true, .cress, 12, (8473/800), true, [], 1, false, (7/20)⟩ (.nil)) (.nil))) (.nil))) (.nil))) (.nil))) (.nil))) (.nil))) (.nil))) (.nil)),
  .node ⟨true, false, .cress, 10, 10, false, [], 1, false, (8/5)⟩ (.cons (.node ⟨true, false, .cress, 10, 10, false, [], 1, false, (124/125)⟩ (.cons (.node ⟨true, false, .cress, 10, 10, false, [], 1, false, (1922/3125)⟩ (.cons (.node ⟨true, false, .cress, 10, 10, false, [], 1, false, (1/2)⟩ (.cons (.node ⟨true, false, .cress, 10, 10, false, [], 1, false, (1/2)⟩ (.cons (.node ⟨true, false, .cress, 10, 10, false, [], 1, false, (1/2)⟩ (.cons (.node ⟨true, false, .cress, 10, 10, false, [], 1, false, (1/2)⟩ (.cons (.node ⟨true, false, .cress, 10, 10, false, [], 1, false, (1/2)⟩ (.cons (.node ⟨true, false, .cress, 10, 10, false, [], 1, false, (1/2)⟩ (.cons (.node ⟨true, false, .cress, 10, 10, false, [], 1, false, (1/2)⟩ (.cons (.node ⟨true, false, .cress, 10, (21/5), true, [], 1, false, (1/2)⟩ (.nil)) (.nil))) (.nil))) (.nil))) (.nil))) (.nil))) (.nil))) (.nil))) (.nil))) (.nil))) (.nil))⟩, 1057)

theorem chunkT1022 : EPlant.updateN rand01 6 ET1022 = ET1028 := by
  with_unfolding_all rfl

theorem accT1028 : EPlant.updateN rand01 1028 (EPlant.new VarietyKey.cress rand01 0) = ET1028 := by
  rw [show (1028 : ℕ) = 1022 + 6 by norm_num, EPlant.updateN_add, accT1022]
  exact chunkT1022

/-- Erased simulator state after 1034 ticks of the counterexample run. -/
def ET1034 : EPlant × ℕ :=
  (⟨.cress, 1034, 240, 120,
  .node ⟨false, false, .cress, 12, (2261/16), true, [⟨(679/80), 1, (19/25)⟩, ⟨(1361/80), (-1), (19/25)⟩, ⟨(2043/80), 1, (19/25)⟩, ⟨(545/16), (-1), (19/25)⟩, ⟨(3407/80), 1, (19/25)⟩, ⟨(4089/80), (-1), (19/25)⟩, ⟨(4771/80), 1, (19/25)⟩, ⟨(5453/80), (-1), (19/25)⟩, ⟨(1227/16), 1, (19/25)⟩, ⟨(6817/80), (-1), (19/25)⟩, ⟨(7499/80), 1, (19/25)⟩, ⟨(8181/80), (-1), (19/25)⟩, ⟨(8863/80), 1, (19/25)⟩, ⟨(1909/16), (-1), (19/25)⟩, ⟨(10227/80), 1, (19/25)⟩, ⟨(10909/80), (-1), (19/25)⟩], 1, true, (11/5)⟩ (.cons (.node ⟨false, true, .cress, 12, (2407/200), false, [], 1, false, (2387/2500)⟩ (.cons (.node ⟨false, true, .cress, 12, (2407/200), false, [], 1, false, (73997/125000)⟩ (.cons (.node ⟨false, true, .cress, 12, (2407/200), false, [], 1, false, (2293907/6250000)⟩ (.cons (.node ⟨false, true, .cress, 12, (2407/200), false, [], 1, false, (7/20)⟩ (.cons (.node ⟨false, true, .cress, 12, (2407/200), false, [], 1, false, (7/20)⟩ (.cons (.node ⟨false, true, .cress, 12, (2407/200), false, [], 1, false, (7/20)⟩ (.cons (.node ⟨false, true, .cress, 12, (2407/200), false, [], 1, false, (7/20)⟩ (.cons (.node ⟨false, true, .cress, 12, (1787/160), true, [], 1, false, (7/20)⟩ (.nil)) (.nil))) (.nil))) (.nil))) (.nil))) (.nil))) (.nil))) (.nil))) (.nil)),
  .node ⟨true, false, .cress, 10, 10, false, [], 1, false, (8/5)⟩ (.cons (.node ⟨true, false, .cress, 10, 10, false, [], 1, false, (124/125)⟩ (.cons (.node ⟨true, false, .cress, 10, 10, false, [], 1, false, (1922/3125)⟩ (.cons (.node ⟨true, false, .cress, 10, 10, false, [], 1, false, (1/2)⟩ (.cons (.node ⟨true, false, .cress, 10, 10, false, [], 1, false, (1/2)⟩ (.cons (.node ⟨true, false, .cress, 10, 10, false, [], 1, false, (1/2)⟩ (.cons (.node ⟨true, false, .cress, 10, 10, false, [], 1, false, (1/2)⟩ (.cons (.node ⟨true, false, .cress, 10, 10, false, [], 1, false, (1/2)⟩ (.cons (.node ⟨true, false, .cress, 10, 10, false, [], 1, false, (1/2)⟩ (.cons (.node ⟨true, false, .cress, 10, 10, false, [], 1, false, (1/2)⟩ (.cons (.node ⟨true, false, .cress, 10, (24/5), true, [], 1, false, (1/2)⟩ (.nil)) (.nil))) (.nil))) (.nil))) (.nil))) (.nil))) (.nil))) (.nil))) (.nil))) (.nil))) (.nil))⟩, 1063)

theorem chunkT1028 : EPlant.updateN rand01 6 ET1028 = ET1034 := by
  with_unfolding_all rfl

theorem accT1034 : EPlant.updateN rand01 1034 (EPlant.new VarietyKey.cress rand01 0) = ET1034 := by
  rw [show (1034 : ℕ) = 1028 + 6 by norm_num, EPlant.updateN_add, accT1028]
  exact chunkT1028

/-- Erased simulator state after 1040 ticks of the counterexample run. -/
def ET1040 : EPlant × ℕ :=
  (⟨.cress, 1040, 240, 120,
  .node ⟨false, false, .cress, 12, (11371/80), true, [⟨(679/80), 1, (19/25)⟩, ⟨(1361/80), (-1), (19/25)⟩, ⟨(2043/80), 1, (19/25)⟩, ⟨(545/16), (-1), (19/25)⟩, ⟨(3407/80), 1, (19/25)⟩, ⟨(4089/80), (-1), (19/25)⟩, ⟨(4771/80), 1, (19/25)⟩, ⟨(5453/80), (-1), (19/25)⟩, ⟨(1227/16), 1, (19/25)⟩, ⟨(6817/80), (-1), (19/25)⟩, ⟨(7499/80), 1, (19/25)⟩, ⟨(8181/80), (-1), (19/25)⟩, ⟨(8863/80), 1, (19/25)⟩, ⟨(1909/16), (-1), (19/25)⟩, ⟨(10227/80), 1, (19/25)⟩, ⟨(10909/80), (-1), (19/25)⟩], 1, true, (11/5)⟩ (.cons (.node ⟨false, true, .cress, 12, (2407/200), false, [], 1, false, (2387/2500)⟩ (.cons (.node ⟨false, true, .cress, 12, (2407/200), false, [], 1, false, (73997/125000)⟩ (.cons (.node ⟨false, true, .cress, 12, (2407/200), false, [], 1, false, (2293907/6250000)⟩ (.cons (.node ⟨false, true, .cress, 12, (2407/200), false, [], 1, false, (7/20)⟩ (.cons (.node ⟨false, true, .cress, 12, (2407/200), false, [], 1, false, (7/20)⟩ (.cons (.node ⟨false, true, .cress, 12, (2407/200), false, [], 1, false, (7/20)⟩ (.cons (.node ⟨false, true, .cress, 12, (2407/200), false, [], 1, false, (7/20)⟩ (.cons (.node ⟨false, true, .cress, 12, (9397/800), true, [], 1, false, (7/20)⟩ (.nil)) (.nil))) (.nil))) (.nil))) (.nil))) (.nil))) (.nil))) (.nil))) (.nil)),
  .node ⟨true, false, .cress, 10, 10, false, [], 1, false, (8/5)⟩ (.cons (.node ⟨true, false, .cress, 10, 10, false, [], 1, false, (124/125)⟩ (.cons (.node ⟨true, false, .cress, 10, 10, false, [], 1, false, (1922/3125)⟩ (.cons (.node ⟨true, false, .cress, 10, 10, false, [], 1, false, (1/2)⟩ (.cons (.node ⟨true, false, .cress, 10, 10, false, [], 1, false, (1/2)⟩ (.cons (.node ⟨true, false, .cress, 10, 10, false, [], 1, false, (1/2)⟩ (.cons (.node ⟨true, false, .cress, 10, 10, false, [], 1, false, (1/2)⟩ (.cons (.node ⟨true, false, .cress, 10, 10, false, [], 1, false, (1/2)⟩ (.cons (.node ⟨true, false, .cress, 10, 10, false, [], 1, false, (1/2)⟩ (.cons (.node ⟨true, false, .cress, 10, 10, false, [], 1, false, (1/2)⟩ (.cons (.node ⟨true, false, .cress, 10, (27/5), true, [], 1, false, (1/2)⟩ (.nil)) (.nil))) (.nil))) (.nil))) (.nil))) (.nil))) (.nil))) (.nil))) (.nil))) (.nil))) (.nil))⟩, 1069)

theorem chunkT1034 : EPlant.updateN rand01 6 ET1034 = ET1040 := by
  with_unfolding_all rfl

theorem accT1040 : EPlant.updateN rand01 1040 (EPlant.new VarietyKey.cress rand01 0) = ET1040 := by
  rw [show (1040 : ℕ) = 1034 + 6 by norm_num, EPlant.updateN_add, accT1034]
  exact chunkT1034

/-- Erased simulator state after 1046 ticks of the counterexample run. -/
def ET1046 : EPlant × ℕ :=
  (⟨.cress, 1046, 240, 120,
  .node ⟨false, false, .cress, 12, (11437/80), true, [⟨(679/80), 1, (19/25)⟩, ⟨(1361/80), (-1), (19/25)⟩, ⟨(2043/80), 1, (19/25)⟩, ⟨(545/16), (-1), (19/25)⟩, ⟨(3407/80), 1, (19/25)⟩, ⟨(4089/80), (-1), (19/25)⟩, ⟨(4771/80), 1, (19/25)⟩, ⟨(5453/80), (-1), (19/25)⟩, ⟨(1227/16), 1, (19/25)⟩, ⟨(6817/80), (-1), (19/25)⟩, ⟨(7499/80), 1, (19/25)⟩, ⟨(8181/80), (-1), (19/25)⟩, ⟨(8863/80), 1, (19/25)⟩, ⟨(1909/16), (-1), (19/25)⟩, ⟨(10227/80), 1, (19/25)⟩, ⟨(10909/80), (-1), (19/25)⟩], 1, true, (11/5)⟩ (.cons (.node ⟨false, true, .cress, 12, (2407/200), false, [], 1, false, (2387/2500)⟩ (.cons (.node ⟨false, true, .cress, 12, (2407/200), false, [], 1, false, (73997/125000)⟩ (.cons (.node ⟨false, true, .cress, 12, (2407/200), false, [], 1, false, (2293907/6250000)⟩ (.cons (.node ⟨false, true, .cress, 12, (2407/200), false, [], 1, false, (7/20)⟩ (.cons (.node ⟨false, true, .cress, 12, (2407/200), false, [], 1, false, (7/20)⟩ (.cons (.node ⟨false, true, .cress, 12, (2407/200), false, [], 1, false, (7/20)⟩ (.cons (.node ⟨false, true, .cress, 12, (2407/200), false, [], 1, false, (7/20)⟩ (.cons (.node ⟨false, true, .cress, 12, (2407/200), false, [], 1, false, (7/20)⟩ (.cons (.node ⟨false, true, .cress, 12, (97/200), true, [], 1, false, (7/20)⟩ (.nil)) (.nil))) (.nil))) (.nil))) (.nil))) (.nil))) (.nil))) (.nil))) (.nil))) (.nil)),
  .node ⟨true, false, .cress, 10, 10, false, [], 1, false, (8/5)⟩ (.cons (.node ⟨true, false, .cress, 10, 10, false, [], 1, false, (124/125)⟩ (.cons (.node ⟨true, false, .cress, 10, 10, false, [], 1, false, (1922/3125)⟩ (.cons (.node ⟨true, false, .cress, 10, 10, false, [], 1, false, (1/2)⟩ (.cons (.node ⟨true, false, .cress, 10, 10, false, [], 1, false, (1/2)⟩ (.cons (.node ⟨true, false, .cress, 10, 10, false, [], 1, false, (1/2)⟩ (.cons (.node ⟨true, false, .cress, 10, 10, false, [], 1, false, (1/2)⟩ (.cons (.node ⟨true, false, .cress, 10, 10, false, [], 1, false, (1/2)⟩ (.cons (.node ⟨true, false, .cress, 10, 10, false, [], 1, false, (1/2)⟩ (.cons (.node ⟨true, false, .cress, 10, 10, false, [], 1, false, (1/2)⟩ (.cons (.node ⟨true, false, .cress, 10, 6, true, [], 1, false, (1/2)⟩ (.nil)) (.nil))) (.nil))) (.nil))) (.nil))) (.nil))) (.nil))) (.nil))) (.nil))) (.nil))) (.nil))⟩, 1077)

theorem chunkT1040 : EPlant.updateN rand01 6 ET1040 = ET1046 := by
  with_unfolding_all rfl

theorem accT1046 : EPlant.updateN rand01 1046 (EPlant.new VarietyKey.cress rand01 0) = ET1046 := by
  rw [show (1046 : ℕ) = 1040 + 6 by norm_num, EPlant.updateN_add, accT1040]
  exact chunkT1040

/-- Erased simulator state after 1052 ticks of the counterexample run. -/
def ET1052 : EPlant × ℕ :=
  (⟨.cress, 1052, 240, 120,
  .node ⟨false, false, .cress, 12, (11503/80), true, [⟨(679/80), 1, (19/25)⟩, ⟨(1361/80), (-1), (19/25)⟩, ⟨(2043/80), 1, (19/25)⟩, ⟨(545/16), (-1), (19/25)⟩, ⟨(3407/80), 1, (19/25)⟩, ⟨(4089/80), (-1), (19/25)⟩, ⟨(4771/80), 1, (19/25)⟩, ⟨(5453/80), (-1), (19/25)⟩, ⟨(1227/16), 1, (19/25)⟩, ⟨(6817/80), (-1), (19/25)⟩, ⟨(7499/80), 1, (19/25)⟩, ⟨(8181/80), (-1), (19/25)⟩, ⟨(8863/80), 1, (19/25)⟩, ⟨(1909/16), (-1), (19/25)⟩, ⟨(10227/80), 1, (19/25)⟩, ⟨(10909/80), (-1), (19/25)⟩], 1, true, (11/5)⟩ (.cons (.node ⟨false, true, .cress, 12, (2407/200), false, [], 1, false, (2387/2500)⟩ (.cons (.node ⟨false, true, .cress, 12, (2407/200), false, [], 1, false, (73997/125000)⟩ (.cons (.node ⟨false, true, .cress, 12, (2407/200), false, [], 1, false, (2293907/6250000)⟩ (.cons (.node ⟨false, true, .cress, 12, (2407/200), false, [], 1, false, (7/20)⟩ (.cons (.node ⟨false, true, .cress, 12, (2407/200), false, [], 1, false, (7/20)⟩ (.cons (.node ⟨false, true, .cress, 12, (2407/200), false, [], 1, false, (7/20)⟩ (.cons (.node ⟨false, true, .cress, 12, (2407/200), false, [], 1, false, (7/20)⟩ (.cons (.node ⟨false, true, .cress, 12, (2407/200), false, [], 1, false, (7/20)⟩ (.cons (.node ⟨false, true, .cress, 12, (17/16), true, [], 1, false, (7/20)⟩ (.nil)) (.nil))) (.nil))) (.nil))) (.nil))) (.nil))) (.nil))) (.nil))) (.nil))) (.nil)),
  .node ⟨true, false, .cress, 10, 10, false, [], 1, false, (8/5)⟩ (.cons (.node ⟨true, false, .cress, 10, 10, false, [], 1, false, (124/125)⟩ (.cons (.node ⟨true, false, .cress, 10, 10, false, [], 1, false, (1922/3125)⟩ (.cons (.node ⟨true, false, .cress, 10, 10, false, [], 1, false, (1/2)⟩ (.cons (.node ⟨true, false, .cress, 10, 10, false, [], 1, false, (1/2)⟩ (.cons (.node ⟨true, false, .cress, 10, 10, false, [], 1, false, (1/2)⟩ (.cons (.node ⟨true, false, .cress, 10, 10, false, [], 1, false, (1/2)⟩ (.cons (.node ⟨true, false, .cress, 10, 10, false, [], 1, false, (1/2)⟩ (.cons (.node ⟨true, false, .cress, 10, 10, false, [], 1, false, (1/2)⟩ (.cons (.node ⟨true, false, .cress, 10, 10, false, [], 1, false, (1/2)⟩ (.cons (.node ⟨true, false, .cress, 10, (33/5), true, [], 1, false, (1/2)⟩ (.nil)) (.nil))) (.nil))) (.nil))) (.nil))) (.nil))) (.nil))) (.nil))) (.nil))) (.nil))) (.nil))⟩, 1083)

theorem chunkT1046 : EPlant.updateN rand01 6 ET1046 = ET1052 := by
  with_unfolding_all rfl

theorem accT1052 : EPlant.updateN rand01 1052 (EPlant.new VarietyKey.cress rand01 0) = ET1052 := by
  rw [show (1052 : ℕ) = 1046 + 6 by norm_num, EPlant.updateN_add, accT1046]
  exact chunkT1046

/-- Erased simulator state after 1058 ticks of the counterexample run. -/
def ET1058 : EPlant × ℕ :=
  (⟨.cress, 1058, 240, 120,
  .node ⟨false, false, .cress, 12, (11569/80), true, [⟨(679/80), 1, (19/25)⟩, ⟨(1361/80), (-1), (19/25)⟩, ⟨(2043/80), 1, (19/25)⟩, ⟨(545/16), (-1), (19/25)⟩, ⟨(3407/80), 1, (19/25)⟩, ⟨(4089/80), (-1), (19/25)⟩, ⟨(4771/80), 1, (19/25)⟩, ⟨(5453/80), (-1), (19/25)⟩, ⟨(1227/16), 1, (19/25)⟩, ⟨(6817/80), (-1), (19/25)⟩, ⟨(7499/80), 1, (19/25)⟩, ⟨(8181/80), (-1), (19/25)⟩, ⟨(8863/80), 1, (19/25)⟩, ⟨(1909/16), (-1), (19/25)⟩, ⟨(10227/80), 1, (19/25)⟩, ⟨(10909/80), (-1), (19/25)⟩], 1, true, (11/5)⟩ (.cons (.node ⟨false, true, .cress, 12, (2407/200), false, [], 1, false, (2387/2500)⟩ (.cons (.node ⟨false, true, .cress, 12, (2407/200), false, [], 1, false, (73997/125000)⟩ (.cons (.node ⟨false, true, .cress, 12, (2407/200), false, [], 1, false, (2293907/6250000)⟩ (.cons (.node ⟨false, true, .cress, 12, (2407/200), false, [], 1, false, (7/20)⟩ (.cons (.node ⟨false, true, .cress, 12, (2407/200), false, [], 1, false, (7/20)⟩ (.cons (.node ⟨false, true, .cress, 12, (2407/200), false, [], 1, false, (7/20)⟩ (.cons (.node ⟨false, true, .cress, 12, (2407/200), false, [], 1, false, (7/20)⟩ (.cons (.node ⟨false, true, .cress, 12, (2407/200), false, [], 1, false, (7/20)⟩ (.cons (.node ⟨false, true, .cress, 12, (41/25), true, [], 1, false, (7/20)⟩ (.nil)) (.nil))) (.nil))) (.nil))) (.nil))) (.nil))) (.nil))) (.nil))) (.nil))) (.nil)),
  .node ⟨true, false, .cress, 10, 10, false, [], 1, false, (8/5)⟩ (.cons (.node ⟨true, false, .cress, 10, 10, false, [], 1, false, (124/125)⟩ (.cons (.node ⟨true, false, .cress, 10, 10, false, [], 1, false, (1922/3125)⟩ (.cons (.node ⟨true, false, .cress, 10, 10, false, [], 1, false, (1/2)⟩ (.cons (.node ⟨true, false, .cress, 10, 10, false, [], 1, false, (1/2)⟩ (.cons (.node ⟨true, false, .cress, 10, 10, false, [], 1, false, (1/2)⟩ (.cons (.node ⟨true, false, .cress, 10, 10, false, [], 1, false, (1/2)⟩ (.cons (.node ⟨true, false, .cress, 10, 10, false, [], 1, false, (1/2)⟩ (.cons (.node ⟨true, false, .cress, 10, 10, false, [], 1, false, (1/2)⟩ (.cons (.node ⟨true, false, .cress, 10, 10, false, [], 1, false, (1/2)⟩ (.cons (.node ⟨true, false, .cress, 10, (36/5), true, [], 1, false, (1/2)⟩ (.nil)) (.nil))) (.nil))) (.nil))) (.nil))) (.nil))) (.nil))) (.nil))) (.nil))) (.nil))) (.nil))⟩, 1089)

theorem chunkT1052 : EPlant.updateN rand01 6 ET1052 = ET1058 := by
  with_unfolding_all rfl

theorem accT1058 : EPlant.updateN rand01 1058 (EPlant.new VarietyKey.cress rand01 0) = ET1058 := by
  rw [show (1058 : ℕ) = 1052 + 6 by norm_num, EPlant.updateN_add, accT1052]
  exact chunkT1052

/-- Erased simulator state after 1064 ticks of the counterexample run. -/
def ET1064 : EPlant × ℕ :=
  (⟨.cress, 1064, 240, 120,
  .node ⟨false, false, .cress, 12, (2327/16), true, [⟨(679/80), 1, (19/25)⟩, ⟨(1361/80), (-1), (19/25)⟩, ⟨(2043/80), 1, (19/25)⟩, ⟨(545/16), (-1), (19/25)⟩, ⟨(3407/80), 1, (19/25)⟩, ⟨(4089/80), (-1), (19/25)⟩, ⟨(4771/80), 1, (19/25)⟩, ⟨(5453/80), (-1), (19/25)⟩, ⟨(1227/16), 1, (19/25)⟩, ⟨(6817/80), (-1), (19/25)⟩, ⟨(7499/80), 1, (19/25)⟩, ⟨(8181/80), (-1), (19/25)⟩, ⟨(8863/80), 1, (19/25)⟩, ⟨(1909/16), (-1), (19/25)⟩, ⟨(10227/80), 1, (19/25)⟩, ⟨(10909/80), (-1), (19/25)⟩, ⟨(11591/80), 1, (19/25)⟩], (-1), true, (11/5)⟩ (.cons (.node ⟨false, true, .cress, 12, (2407/200), false, [], 1, false, (2387/2500)⟩ (.cons (.node ⟨false, true, .cress, 12, (2407/200), false, [], 1, false, (73997/125000)⟩ (.cons (.node ⟨false, true, .cress, 12, (2407/200), false, [], 1, false, (2293907/6250000)⟩ (.cons (.node ⟨false, true, .cress, 12, (2407/200), false, [], 1, false, (7/20)⟩ (.cons (.node ⟨false, true, .cress, 12, (2407/200), false, [], 1, false, (7/20)⟩ (.cons (.node ⟨false, true, .cress, 12, (2407/200), false, [], 1, false, (7/20)⟩ (.cons (.node ⟨false, true, .cress, 12, (2407/200), false, [], 1, false, (7/20)⟩ (.cons (.node ⟨false, true, .cress, 12, (2407/200), false, [], 1, false, (7/20)⟩ (.cons (.node ⟨false, true, .cress, 12, (887/400), true, [], 1, false, (7/20)⟩ (.nil)) (.nil))) (.nil))) (.nil))) (.nil))) (.nil))) (.nil))) (.nil))) (.nil))) (.nil)),
  .node ⟨true, false, .cress, 10, 10, false, [], 1, false, (8/5)⟩ (.cons (.node ⟨true, false, .cress, 10, 10, false, [], 1, false, (124/125)⟩ (.cons (.node ⟨true, false, .cress, 10, 10, false, [], 1, false, (1922/3125)⟩ (.cons (.node ⟨true, false, .cress, 10, 10, false, [], 1, false, (1/2)⟩ (.cons (.node ⟨true, false, .cress, 10, 10, false, [], 1, false, (1/2)⟩ (.cons (.node ⟨true, false, .cress, 10, 10, false, [], 1, false, (1/2)⟩ (.cons (.node ⟨true, false, .cress, 10, 10, false, [], 1, false, (1/2)⟩ (.cons (.node ⟨true, false, .cress, 10, 10, false, [], 1, false, (1/2)⟩ (.cons (.node ⟨true, false, .cress, 10, 10, false, [], 1, false, (1/2)⟩ (.cons (.node ⟨true, false, .cress, 10, 10, false, [], 1, false, (1/2)⟩ (.cons (.node ⟨true, false, .cress, 10, (39/5), true, [], 1, false, (1/2)⟩ (.nil)) (.nil))) (.nil))) (.nil))) (.nil))) (.nil))) (.nil))) (.nil))) (.nil))) (.nil))) (.nil))⟩, 1096)

theorem chunkT1058 : EPlant.updateN rand01 6 ET1058 = ET1064 := by
  with_unfolding_all rfl

theorem accT1064 : EPlant.updateN rand01 1064 (EPlant.new VarietyKey.cress rand01 0) = ET1064 := by
  rw [show (1064 : ℕ) = 1058 + 6 by norm_num, EPlant.updateN_add, accT1058]
  exact chunkT1058

/-- Erased simulator state after 1070 ticks of the counterexample run. -/
def ET1070 : EPlant × ℕ :=
  (⟨.cress, 1070, 240, 120,
  .node ⟨false, false, .cress, 12, (11701/80), true, [⟨(679/80), 1, (19/25)⟩, ⟨(1361/80), (-1), (19/25)⟩, ⟨(2043/80), 1, (19/25)⟩, ⟨(545/16), (-1), (19/25)⟩, ⟨(3407/80), 1, (19/25)⟩, ⟨(4089/80), (-1), (19/25)⟩, ⟨(4771/80), 1, (19/25)⟩, ⟨(5453/80), (-1), (19/25)⟩, ⟨(1227/16), 1, (19/25)⟩, ⟨(6817/80), (-1), (19/25)⟩, ⟨(7499/80), 1, (19/25)⟩, ⟨(8181/80), (-1), (19/25)⟩, ⟨(8863/80), 1, (19/25)⟩, ⟨(1909/16), (-1), (19/25)⟩, ⟨(10227/80), 1, (19/25)⟩, ⟨(10909/80), (-1), (19/25)⟩, ⟨(11591/80), 1, (19/25)⟩], (-1), true, (11/5)⟩ (.cons (.node ⟨false, true, .cress, 12, (2407/200), false, [], 1, false, (2387/2500)⟩ (.cons (.node ⟨false, true, .cress, 12, (2407/200), false, [], 1, false, (73997/125000)⟩ (.cons (.node ⟨false, true, .cress, 12, (2407/200), false, [], 1, false, (2293907/6250000)⟩ (.cons (.node ⟨false, true, .cress, 12, (2407/200), false, [], 1, false, (7/20)⟩ (.cons (.node ⟨false, true, .cress, 12, (2407/200), false, [], 1, false, (7/20)⟩ (.cons (.node ⟨false, true, .cress, 12, (2407/200), false, [], 1, false, (7/20)⟩ (.cons (.node ⟨false, true, .cress, 12, (2407/200), false, [], 1, false, (7/20)⟩ (.cons (.node ⟨false, true, .cress, 12, (2407/200), false, [], 1, false, (7/20)⟩ (.cons (.node ⟨false, true, .cress, 12, (559/200), true, [], 1, false, (7/20)⟩ (.nil)) (.nil))) (.nil))) (.nil))) (.nil))) (.nil))) (.nil))) (.nil))) (.nil))) (.nil)),
  .node ⟨true, false, .cress, 10, 10, false, [], 1, false, (8/5)⟩ (.cons (.node ⟨true, false, .cress, 10, 10, false, [], 1, false, (124/125)⟩ (.cons (.node ⟨true, false, .cress, 10, 10, false, [], 1, false, (1922/3125)⟩ (.cons (.node ⟨true, false, .cress, 10, 10, false, [], 1, false, (1/2)⟩ (.cons (.node ⟨true, false, .cress, 10, 10, false, [], 1, false, (1/2)⟩ (.cons (.node ⟨true, false, .cress, 10, 10, false, [], 1, false, (1/2)⟩ (.cons (.node ⟨true, false, .cress, 10, 10, false, [], 1, false, (1/2)⟩ (.cons (.node ⟨true, false, .cress, 10, 10, false, [], 1, false, (1/2)⟩ (.cons (.node ⟨true, false, .cress, 10, 10, false, [], 1, false, (1/2)⟩ (.cons (.node ⟨true, false, .cress, 10, 10, false, [], 1, false, (1/2)⟩ (.cons (.node ⟨true, false, .cress, 10, (42/5), true, [], 1, false, (1/2)⟩ (.nil)) (.nil))) (.nil))) (.nil))) (.nil))) (.nil))) (.nil))) (.nil))) (.nil))) (.nil))) (.nil))⟩, 1102)

theorem chunkT1064 : EPlant.updateN rand01 6 ET1064 = ET1070 := by
  with_unfolding_all rfl

theorem accT1070 : EPlant.updateN rand01 1070 (EPlant.new VarietyKey.cress rand01 0) = ET1070 := by
  rw [show (1070 : ℕ) = 1064 + 6 by norm_num, EPlant.updateN_add, accT1064]
  exact chunkT1064

/-- Erased simulator state after 1076 ticks of the counterexample run. -/
def ET1076 : EPlant × ℕ :=
  (⟨.cress, 1076, 240, 120,
  .node ⟨false, false, .cress, 12, (11767/80), true, [⟨(679/80), 1, (19/25)⟩, ⟨(1361/80), (-1), (19/25)⟩, ⟨(2043/80), 1, (19/25)⟩, ⟨(545/16), (-1), (19/25)⟩, ⟨(3407/80), 1, (19/25)⟩, ⟨(4089/80), (-1), (19/25)⟩, ⟨(4771/80), 1, (19/25)⟩, ⟨(5453/80), (-1), (19/25)⟩, ⟨(1227/16), 1, (19/25)⟩, ⟨(6817/80), (-1), (19/25)⟩, ⟨(7499/80), 1, (19/25)⟩, ⟨(8181/80), (-1), (19/25)⟩, ⟨(8863/80), 1, (19/25)⟩, ⟨(1909/16), (-1), (19/25)⟩, ⟨(10227/80), 1, (19/25)⟩, ⟨(10909/80), (-1), (19/25)⟩, ⟨(11591/80), 1, (19/25)⟩], (-1), true, (11/5)⟩ (.cons (.node ⟨false, true, .cress, 12, (2407/200), false, [], 1, false, (2387/2500)⟩ (.cons (.node ⟨false, true, .cress, 12, (2407/200), false, [], 1, false, (73997/125000)⟩ (.cons (.node ⟨false, true, .cress, 12, (2407/200), false, [], 1, false, (2293907/6250000)⟩ (.cons (.node ⟨false, true, .cress, 12, (2407/200), false, [], 1, false, (7/20)⟩ (.cons (.node ⟨false, true, .cress, 12, (2407/200), false, [], 1, false, (7/20)⟩ (.cons (.node ⟨false, true, .cress, 12, (2407/200), false, [], 1, false, (7/20)⟩ (.cons (.node ⟨false, true, .cress, 12, (2407/200), false, [], 1, false, (7/20)⟩ (.cons (.node ⟨false, true, .cress, 12, (2407/200), false, [], 1, false, (7/20)⟩ (.cons (.node ⟨false, true, .cress, 12, (1349/400), true, [], 1, false, (7/20)⟩ (.nil)) (.nil))) (.nil))) (.nil))) (.nil))) (.nil))) (.nil))) (.nil))) (.nil))) (.nil)),
  .node ⟨true, false, .cress, 10, 10, false, [], 1, false, (8/5)⟩ (.cons (.node ⟨true, false, .cress, 10, 10, false, [], 1, false, (124/125)⟩ (.cons (.node ⟨true, false, .cress, 10, 10, false, [], 1, false, (1922/3125)⟩ (.cons (.node ⟨true, false, .cress, 10, 10, false, [], 1, false, (1/2)⟩ (.cons (.node ⟨true, false, .cress, 10, 10, false, [], 1, false, (1/2)⟩ (.cons (.node ⟨true, false, .cress, 10, 10, false, [], 1, false, (1/2)⟩ (.cons (.node ⟨true, false, .cress, 10, 10, false, [], 1, false, (1/2)⟩ (.cons (.node ⟨true, false, .cress, 10, 10, false, [], 1, false, (1/2)⟩ (.cons (.node ⟨true, false, .cress, 10, 10, false, [], 1, false, (1/2)⟩ (.cons (.node ⟨true, false, .cress, 10, 10, false, [], 1, false, (1/2)⟩ (.cons (.node ⟨true, false, .cress, 10, 9, true, [], 1, false, (1/2)⟩ (.nil)) (.nil))) (.nil))) (.nil))) (.nil))) (.nil))) (.nil))) (.nil))) (.nil))) (.nil))) (.nil))⟩, 1108)

theorem chunkT1070 : EPlant.updateN rand01 6 ET1070 = ET1076 := by
  with_unfolding_all rfl

theorem accT1076 : EPlant.updateN rand01 1076 (EPlant.new VarietyKey.cress rand01 0) = ET1076 := by
  rw [show (1076 : ℕ) = 1070 + 6 by norm_num, EPlant.updateN_add, accT1070]
  exact chunkT1070

/-- Erased simulator state after 1082 ticks of the counterexample run. -/
def ET1082 : EPlant × ℕ :=
  (⟨.cress, 1082, 240, 120,
  .node ⟨false, false, .cress, 12, (11833/80), true, [⟨(679/80), 1, (19/25)⟩, ⟨(1361/80), (-1), (19/25)⟩, ⟨(2043/80), 1, (19/25)⟩, ⟨(545/16), (-1), (19/25)⟩, ⟨(3407/80), 1, (19/25)⟩, ⟨(4089/80), (-1), (19/25)⟩, ⟨(4771/80), 1, (19/25)⟩, ⟨(5453/80), (-1), (19/25)⟩, ⟨(1227/16), 1, (19/25)⟩, ⟨(6817/80), (-1), (19/25)⟩, ⟨(7499/80), 1, (19/25)⟩, ⟨(8181/80), (-1), (19/25)⟩, ⟨(8863/80), 1, (19/25)⟩, ⟨(1909/16), (-1), (19/25)⟩, ⟨(10227/80), 1, (19/25)⟩, ⟨(10909/80), (-1), (19/25)⟩, ⟨(11591/80), 1, (19/25)⟩], (-1), true, (11/5)⟩ (.cons (.node ⟨false, true, .cress, 12, (2407/200), false, [], 1, false, (2387/2500)⟩ (.cons (.node ⟨false, true, .cress, 12, (2407/200), false, [], 1, false, (73997/125000)⟩ (.cons (.node ⟨false, true, .cress, 12, (2407/200), false, [], 1, false, (2293907/6250000)⟩ (.cons (.node ⟨false, true, .cress, 12, (2407/200), false, [], 1, false, (7/20)⟩ (.cons (.node ⟨false, true, .cress, 12, (2407/200), false, [], 1, false, (7/20)⟩ (.cons (.node ⟨false, true, .cress, 12, (2407/200), false, [], 1, false, (7/20)⟩ (.cons (.node ⟨false, true, .cress, 12, (2407/200), false, [], 1, false, (7/20)⟩ (.cons (.node ⟨false, true, .cress, 12, (2407/200), false, [], 1, false, (7/20)⟩ (.cons (.node ⟨false, true, .cress, 12, (79/20), true, [], 1, false, (7/20)⟩ (.nil)) (.nil))) (.nil))) (.nil))) (.nil))) (.nil))) (.nil))) (.nil))) (.nil))) (.nil)),
  .node ⟨true, false, .cress, 10, 10, false, [], 1, false, (8/5)⟩ (.cons (.node ⟨true, false, .cress, 10, 10, false, [], 1, false, (124/125)⟩ (.cons (.node ⟨true, false, .cress, 10, 10, false, [], 1, false, (1922/3125)⟩ (.cons (.node ⟨true, false, .cress, 10, 10, false, [], 1, false, (1/2)⟩ (.cons (.node ⟨true, false, .cress, 10, 10, false, [], 1, false, (1/2)⟩ (.cons (.node ⟨true, false, .cress, 10, 10, false, [], 1, false, (1/2)⟩ (.cons (.node ⟨true, false, .cress, 10, 10, false, [], 1, false, (1/2)⟩ (.cons (.node ⟨true, false, .cress, 10, 10, false, [], 1, false, (1/2)⟩ (.cons (.node ⟨true, false, .cress, 10, 10, false, [], 1, false, (1/2)⟩ (.cons (.node ⟨true, false, .cress, 10, 10, false, [], 1, false, (1/2)⟩ (.cons (.node ⟨true, false, .cress, 10, (48/5), true, [], 1, false, (1/2)⟩ (.nil)) (.nil))) (.nil))) (.nil))) (.nil))) (.nil))) (.nil))) (.nil))) (.nil))) (.nil))) (.nil))⟩, 1114)

theorem chunkT1076 : EPlant.updateN rand01 6 ET1076 = ET1082 := by
  with_unfolding_all rfl

theorem accT1082 : EPlant.updateN rand01 1082 (EPlant.new VarietyKey.cress rand01 0) = ET1082 := by
  rw [show (1082 : ℕ) = 1076 + 6 by norm_num, EPlant.updateN_add, accT1076]
  exact chunkT1076

/-- Erased simulator state after 1088 ticks of the counterexample run. -/
def ET1088 : EPlant × ℕ :=
  (⟨.cress, 1088, 240, 120,
  .node ⟨false, false, .cress, 12, (11899/80), true, [⟨(679/80), 1, (19/25)⟩, ⟨(1361/80), (-1), (19/25)⟩, ⟨(2043/80), 1, (19/25)⟩, ⟨(545/16), (-1), (19/25)⟩, ⟨(3407/80), 1, (19/25)⟩, ⟨(4089/80), (-1), (19/25)⟩, ⟨(4771/80), 1, (19/25)⟩, ⟨(5453/80), (-1), (19/25)⟩, ⟨(1227/16), 1, (19/25)⟩, ⟨(6817/80), (-1), (19/25)⟩, ⟨(7499/80), 1, (19/25)⟩, ⟨(8181/80), (-1), (19/25)⟩, ⟨(8863/80), 1, (19/25)⟩, ⟨(1909/16), (-1), (19/25)⟩, ⟨(10227/80), 1, (19/25)⟩, ⟨(10909/80), (-1), (19/25)⟩, ⟨(11591/80), 1, (19/25)⟩], (-1), true, (11/5)⟩ (.cons (.node ⟨false, true, .cress, 12, (2407/200), false, [], 1, false, (2387/2500)⟩ (.cons (.node ⟨false, true, .cress, 12, (2407/200), false, [], 1, false, (73997/125000)⟩ (.cons (.node ⟨false, true, .cress, 12, (2407/200), false, [], 1, false, (2293907/6250000)⟩ (.cons (.node ⟨false, true, .cress, 12, (2407/200), false, [], 1, false, (7/20)⟩ (.cons (.node ⟨false, true, .cress, 12, (2407/200), false, [], 1, false, (7/20)⟩ (.cons (.node ⟨false, true, .cress, 12, (2407/200), false, [], 1, false, (7/20)⟩ (.cons (.node ⟨false, true, .cress, 12, (2407/200), false, [], 1, false, (7/20)⟩ (.cons (.node ⟨false, true, .cress, 12, (2407/200), false, [], 1, false, (7/20)⟩ (.cons (.node ⟨false, true, .cress, 12, (1811/400), true, [], 1, false, (7/20)⟩ (.nil)) (.nil))) (.nil))) (.nil))) (.nil))) (.nil))) (.nil))) (.nil))) (.nil))) (.nil)),
  .node ⟨true, false, .cress, 10, 10, false, [], 1, false, (8/5)⟩ (.cons (.node ⟨true, false, .cress, 10, 10, false, [], 1, false, (124/125)⟩ (.cons (.node ⟨true, false, .cress, 10, 10, false, [], 1, false, (1922/3125)⟩ (.cons (.node ⟨true, false, .cress, 10, 10, false, [], 1, false, (1/2)⟩ (.cons (.node ⟨true, false, .cress, 10, 10, false, [], 1, false, (1/2)⟩ (.cons (.node ⟨true, false, .cress, 10, 10, false, [], 1, false, (1/2)⟩ (.cons (.node ⟨true, false, .cress, 10, 10, false, [], 1, false, (1/2)⟩ (.cons (.node ⟨true, false, .cress, 10, 10, false, [], 1, false, (1/2)⟩ (.cons (.node ⟨true, false, .cress, 10, 10, false, [], 1, false, (1/2)⟩ (.cons (.node ⟨true, false, .cress, 10, 10, false, [], 1, false, (1/2)⟩ (.cons (.node ⟨true, false, .cress, 10, 10, false, [], 1, false, (1/2)⟩ (.cons (.node ⟨true, false, .cress, 10, (2/5), true, [], 1, false, (1/2)⟩ (.nil)) (.nil))) (.nil))) (.nil))) (.nil))) (.nil))) (.nil))) (.nil))) (.nil))) (.nil))) (.nil))) (.nil))⟩, 1122)

theorem chunkT1082 : EPlant.updateN rand01 6 ET1082 = ET1088 := by
  with_unfolding_all rfl

theorem accT1088 : EPlant.updateN rand01 1088 (EPlant.new VarietyKey.cress rand01 0) = ET1088 := by
  rw [show (1088 : ℕ) = 1082 + 6 by norm_num, EPlant.updateN_add, accT1082]
  exact chunkT1082

/-- Erased simulator state after 1094 ticks of the counterexample run. -/
def ET1094 : EPlant × ℕ :=
  (⟨.cress, 1094, 240, 120,
  .node ⟨false, false, .cress, 12, (2393/16), true, [⟨(679/80), 1, (19/25)⟩, ⟨(1361/80), (-1), (19/25)⟩, ⟨(2043/80), 1, (19/25)⟩, ⟨(545/16), (-1), (19/25)⟩, ⟨(3407/80), 1, (19/25)⟩, ⟨(4089/80), (-1), (19/25)⟩, ⟨(4771/80), 1, (19/25)⟩, ⟨(5453/80), (-1), (19/25)⟩, ⟨(1227/16), 1, (19/25)⟩, ⟨(6817/80), (-1), (19/25)⟩, ⟨(7499/80), 1, (19/25)⟩, ⟨(8181/80), (-1), (19/25)⟩, ⟨(8863/80), 1, (19/25)⟩, ⟨(1909/16), (-1), (19/25)⟩, ⟨(10227/80), 1, (19/25)⟩, ⟨(10909/80), (-1), (19/25)⟩, ⟨(11591/80), 1, (19/25)⟩], (-1), true, (11/5)⟩ (.cons (.node ⟨false, true, .cress, 12, (2407/200), false, [], 1, false, (2387/2500)⟩ (.cons (.node ⟨false, true, .cress, 12, (2407/200), false, [], 1, false, (73997/125000)⟩ (.cons (.node ⟨false, true, .cress, 12, (2407/200), false, [], 1, false, (2293907/6250000)⟩ (.cons (.node ⟨false, true, .cress, 12, (2407/200), false, [], 1, false, (7/20)⟩ (.cons (.node ⟨false, true, .cress, 12, (2407/200), false, [], 1, false, (7/20)⟩ (.cons (.node ⟨false, true, .cress, 12, (2407/200), false, [], 1, false, (7/20)⟩ (.cons (.node ⟨false, true, .cress, 12, (2407/200), false, [], 1, false, (7/20)⟩ (.cons (.node ⟨false, true, .cress, 12, (2407/200), false, [], 1, false, (7/20)⟩ (.cons (.node ⟨false, true, .cress, 12, (1021/200), true, [], 1, false, (7/20)⟩ (.nil)) (.nil))) (.nil))) (.nil))) (.nil))) (.nil))) (.nil))) (.nil))) (.nil))) (.nil)),
  .node ⟨true, false, .cress, 10, 10, false, [], 1, false, (8/5)⟩ (.cons (.node ⟨true, false, .cress, 10, 10, false, [], 1, false, (124/125)⟩ (.cons (.node ⟨true, false, .cress, 10, 10, false, [], 1, false, (1922/3125)⟩ (.cons (.node ⟨true, false, .cress, 10, 10, false, [], 1, false, (1/2)⟩ (.cons (.node ⟨true, false, .cress, 10, 10, false, [], 1, false, (1/2)⟩ (.cons (.node ⟨true, false, .cress, 10, 10, false, [], 1, false, (1/2)⟩ (.cons (.node ⟨true, false, .cress, 10, 10, false, [], 1, false, (1/2)⟩ (.cons (.node ⟨true, false, .cress, 10, 10, false, [], 1, false, (1/2)⟩ (.cons (.node ⟨true, false, .cress, 10, 10, false, [], 1, false, (1/2)⟩ (.cons (.node ⟨true, false, .cress, 10, 10, false, [], 1, false, (1/2)⟩ (.cons (.node ⟨true, false, .cress, 10, 10, false, [], 1, false, (1/2)⟩ (.cons (.node ⟨true, false, .cress, 10, 1, true, [], 1, false, (1/2)⟩ (.nil)) (.nil))) (.nil))) (.nil))) (.nil))) (.nil))) (.nil))) (.nil))) (.nil))) (.nil))) (.nil))) (.nil))⟩, 1128)

theorem chunkT1088 : EPlant.updateN rand01 6 ET1088 = ET1094 := by
  with_unfolding_all rfl

theorem accT1094 : EPlant.updateN rand01 1094 (EPlant.new VarietyKey.cress rand01 0) = ET1094 := by
  rw [show (1094 : ℕ) = 1088 + 6 by norm_num, EPlant.updateN_add, accT1088]
  exact chunkT1088

/-- Erased simulator state after 1100 ticks of the counterexample run. -/
def ET1100 : EPlant × ℕ :=
  (⟨.cress, 1100, 240, 120,
  .node ⟨false, false, .cress, 12, (12031/80), true, [⟨(679/80), 1, (19/25)⟩, ⟨(1361/80), (-1), (19/25)⟩, ⟨(2043/80), 1, (19/25)⟩, ⟨(545/16), (-1), (19/25)⟩, ⟨(3407/80), 1, (19/25)⟩, ⟨(4089/80), (-1), (19/25)⟩, ⟨(4771/80), 1, (19/25)⟩, ⟨(5453/80), (-1), (19/25)⟩, ⟨(1227/16), 1, (19/25)⟩, ⟨(6817/80), (-1), (19/25)⟩, ⟨(7499/80), 1, (19/25)⟩, ⟨(8181/80), (-1), (19/25)⟩, ⟨(8863/80), 1, (19/25)⟩, ⟨(1909/16), (-1), (19/25)⟩, ⟨(10227/80), 1, (19/25)⟩, ⟨(10909/80), (-1), (19/25)⟩, ⟨(11591/80), 1, (19/25)⟩], (-1), true, (11/5)⟩ (.cons (.node ⟨false, true, .cress, 12, (2407/200), false, [], 1, false, (2387/2500)⟩ (.cons (.node ⟨false, true, .cress, 12, (2407/200), false, [], 1, false, (73997/125000)⟩ (.cons (.node ⟨false, true, .cress, 12, (2407/200), false, [], 1, false, (2293907/6250000)⟩ (.cons (.node ⟨false, true, .cress, 12, (2407/200), false, [], 1, false, (7/20)⟩ (.cons (.node ⟨false, true, .cress, 12, (2407/200), false, [], 1, false, (7/20)⟩ (.cons (.node ⟨false, true, .cress, 12, (2407/200), false, [], 1, false, (7/20)⟩ (.cons (.node ⟨false, true, .cress, 12, (2407/200), false, [], 1, false, (7/20)⟩ (.cons (.node ⟨false, true, .cress, 12, (2407/200), false, [], 1, false, (7/20)⟩ (.cons (.node ⟨false, true, .cress, 12, (2273/400), true, [], 1, false, (7/20)⟩ (.nil)) (.nil))) (.nil))) (.nil))) (.nil))) (.nil))) (.nil))) (.nil))) (.nil))) (.nil)),
  .node ⟨true, false, .cress, 10, 10, false, [], 1, false, (8/5)⟩ (.cons (.node ⟨true, false, .cress, 10, 10, false, [], 1, false, (124/125)⟩ (.cons (.node ⟨true, false, .cress, 10, 10, false, [], 1, false, (1922/3125)⟩ (.cons (.node ⟨true, false, .cress, 10, 10, false, [], 1, false, (1/2)⟩ (.cons (.node ⟨true, false, .cress, 10, 10, false, [], 1, false, (1/2)⟩ (.cons (.node ⟨true, false, .cress, 10, 10, false, [], 1, false, (1/2)⟩ (.cons (.node ⟨true, false, .cress, 10, 10, false, [], 1, false, (1/2)⟩ (.cons (.node ⟨true, false, .cress, 10, 10, false, [], 1, false, (1/2)⟩ (.cons (.node ⟨true, false, .cress, 10, 10, false, [], 1, false, (1/2)⟩ (.cons (.node ⟨true, false, .cress, 10, 10, false, [], 1, false, (1/2)⟩ (.cons (.node ⟨true, false, .cress, 10, 10, false, [], 1, false, (1/2)⟩ (.cons (.node ⟨true, false, .cress, 10, (8/5), true, [], 1, false, (1/2)⟩ (.nil)) (.nil))) (.nil))) (.nil))) (.nil))) (.nil))) (.nil))) (.nil))) (.nil))) (.nil))) (.nil))) (.nil))⟩, 1134)

theorem chunkT1094 : EPlant.updateN rand01 6 ET1094 = ET1100 := by
  with_unfolding_all rfl

theorem accT1100 : EPlant.updateN rand01 1100 (EPlant.new VarietyKey.cress rand01 0) = ET1100 := by
  rw [show (1100 : ℕ) = 1094 + 6 by norm_num, EPlant.updateN_add, accT1094]
  exact chunkT1094

/-- Erased simulator state after 1106 ticks of the counterexample run. -/
def ET1106 : EPlant × ℕ :=
  (⟨.cress, 1106, 240, 120,
  .node ⟨false, false, .cress, 12, (12097/80), true, [⟨(679/80), 1, (19/25)⟩, ⟨(1361/80), (-1), (19/25)⟩, ⟨(2043/80), 1, (19/25)⟩, ⟨(545/16), (-1), (19/25)⟩, ⟨(3407/80), 1, (19/25)⟩, ⟨(4089/80), (-1), (19/25)⟩, ⟨(4771/80), 1, (19/25)⟩, ⟨(5453/80), (-1), (19/25)⟩, ⟨(1227/16), 1, (19/25)⟩, ⟨(6817/80), (-1), (19/25)⟩, ⟨(7499/80), 1, (19/25)⟩, ⟨(8181/80), (-1), (19/25)⟩, ⟨(8863/80), 1, (19/25)⟩, ⟨(1909/16), (-1), (19/25)⟩, ⟨(10227/80), 1, (19/25)⟩, ⟨(10909/80), (-1), (19/25)⟩, ⟨(11591/80), 1, (19/25)⟩], (-1), true, (11/5)⟩ (.cons (.node ⟨false, true, .cress, 12, (2407/200), false, [], 1, false, (2387/2500)⟩ (.cons (.node ⟨false, true, .cress, 12, (2407/200), false, [], 1, false, (73997/125000)⟩ (.cons (.node ⟨false, true, .cress, 12, (2407/200), false, [], 1, false, (2293907/6250000)⟩ (.cons (.node ⟨false, true, .cress, 12, (2407/200), false, [], 1, false, (7/20)⟩ (.cons (.node ⟨false, true, .cress, 12, (2407/200), false, [], 1, false, (7/20)⟩ (.cons (.node ⟨false, true, .cress, 12, (2407/200), false, [], 1, false, (7/20)⟩ (.cons (.node ⟨false, true, .cress, 12, (2407/200), false, [], 1, false, (7/20)⟩ (.cons (.node ⟨false, true, .cress, 12, (2407/200), false, [], 1, false, (7/20)⟩ (.cons (.node ⟨false, true, .cress, 12, (313/50), true, [], 1, false, (7/20)⟩ (.nil)) (.nil))) (.nil))) (.nil))) (.nil))) (.nil))) (.nil))) (.nil))) (.nil))) (.nil)),
  .node ⟨true, false, .cress, 10, 10, false, [], 1, false, (8/5)⟩ (.cons (.node ⟨true, false, .cress, 10, 10, false, [], 1, false, (124/125)⟩ (.cons (.node ⟨true, false, .cress, 10, 10, false, [], 1, false, (1922/3125)⟩ (.cons (.node ⟨true, false, .cress, 10, 10, false, [], 1, false, (1/2)⟩ (.cons (.node ⟨true, false, .cress, 10, 10, false, [], 1, false, (1/2)⟩ (.cons (.node ⟨true, false, .cress, 10, 10, false, [], 1, false, (1/2)⟩ (.cons (.node ⟨true, false, .cress, 10, 10, false, [], 1, false, (1/2)⟩ (.cons (.node ⟨true, false, .cress, 10, 10, false, [], 1, false, (1/2)⟩ (.cons (.node ⟨true, false, .cress, 10, 10, false, [], 1, false, (1/2)⟩ (.cons (.node ⟨true, false, .cress, 10, 10, false, [], 1, false, (1/2)⟩ (.cons (.node ⟨true, false, .cress, 10, 10, false, [], 1, false, (1/2)⟩ (.cons (.node ⟨true, false, .cress, 10, (11/5), true, [], 1, false, (1/2)⟩ (.nil)) (.nil))) (.nil))) (.nil))) (.nil))) (.nil))) (.nil))) (.nil))) (.nil))) (.nil))) (.nil))) (.nil))⟩, 1140)

theorem chunkT1100 : EPlant.updateN rand01 6 ET1100 = ET1106 := by
  with_unfolding_all rfl

theorem accT1106 : EPlant.updateN rand01 1106 (EPlant.new VarietyKey.cress rand01 0) = ET1106 := by
  rw [show (1106 : ℕ) = 1100 + 6 by norm_num, EPlant.updateN_add, accT1100]
  exact chunkT1100

/-- Erased simulator state after 1112 ticks of the counterexample run. -/
def ET1112 : EPlant × ℕ :=
  (⟨.cress, 1112, 240, 120,
  .node ⟨false, false, .cress, 12, (12163/80), true, [⟨(679/80), 1, (19/25)⟩, ⟨(1361/80), (-1), (19/25)⟩, ⟨(2043/80), 1, (19/25)⟩, ⟨(545/16), (-1), (19/25)⟩, ⟨(3407/80), 1, (19/25)⟩, ⟨(4089/80), (-1), (19/25)⟩, ⟨(4771/80), 1, (19/25)⟩, ⟨(5453/80), (-1), (19/25)⟩, ⟨(1227/16), 1, (19/25)⟩, ⟨(6817/80), (-1), (19/25)⟩, ⟨(7499/80), 1, (19/25)⟩, ⟨(8181/80), (-1), (19/25)⟩, ⟨(8863/80), 1, (19/25)⟩, ⟨(1909/16), (-1), (19/25)⟩, ⟨(10227/80), 1, (19/25)⟩, ⟨(10909/80), (-1), (19/25)⟩, ⟨(11591/80), 1, (19/25)⟩], (-1), true, (11/5)⟩ (.cons (.node ⟨false, true, .cress, 12, (2407/200), false, [], 1, false, (2387/2500)⟩ (.cons (.node ⟨false, true, .cress, 12, (2407/200), false, [], 1, false, (73997/125000)⟩ (.cons (.node ⟨false, true, .cress, 12, (2407/200), false, [], 1, false, (2293907/6250000)⟩ (.cons (.node ⟨false, true, .cress, 12, (2407/200), false, [], 1, false, (7/20)⟩ (.cons (.node ⟨false, true, .cress, 12, (2407/200), false, [], 1, false, (7/20)⟩ (.cons (.node ⟨false, true, .cress, 12, (2407/200), false, [], 1, false, (7/20)⟩ (.cons (.node ⟨false, true, .cress, 12, (2407/200), false, [], 1, false, (7/20)⟩ (.cons (.node ⟨false, true, .cress, 12, (2407/200), false, [], 1, false, (7/20)⟩ (.cons (.node ⟨false, true, .cress, 12, (547/80), true, [], 1, false, (7/20)⟩ (.nil)) (.nil))) (.nil))) (.nil))) (.nil))) (.nil))) (.nil))) (.nil))) (.nil))) (.nil)),
  .node ⟨true, false, .cress, 10, 10, false, [], 1, false, (8/5)⟩ (.cons (.node ⟨true, false, .cress, 10, 10, false, [], 1, false, (124/125)⟩ (.cons (.node ⟨true, false, .cress, 10, 10, false, [], 1, false, (1922/3125)⟩ (.cons (.node ⟨true, false, .cress, 10, 10, false, [], 1, false, (1/2)⟩ (.cons (.node ⟨true, false, .cress, 10, 10, false, [], 1, false, (1/2)⟩ (.cons (.node ⟨true, false, .cress, 10, 10, false, [], 1, false, (1/2)⟩ (.cons (.node ⟨true, false, .cress, 10, 10, false, [], 1, false, (1/2)⟩ (.cons (.node ⟨true, false, .cress, 10, 10, false, [], 1, false, (1/2)⟩ (.cons (.node ⟨true, false, .cress, 10, 10, false, [], 1, false, (1/2)⟩ (.cons (.node ⟨true, false, .cress, 10, 10, false, [], 1, false, (1/2)⟩ (.cons (.node ⟨true, false, .cress, 10, 10, false, [], 1, false, (1/2)⟩ (.cons (.node ⟨true, false, .cress, 10, (14/5), true, [], 1, false, (1/2)⟩ (.nil)) (.nil))) (.nil))) (.nil))) (.nil))) (.nil))) (.nil))) (.nil))) (.nil))) (.nil))) (.nil))) (.nil))⟩, 1146)

theorem chunkT1106 : EPlant.updateN rand01 6 ET1106 = ET1112 := by
  with_unfolding_all rfl

theorem accT1112 : EPlant.updateN rand01 1112 (EPlant.new VarietyKey.cress rand01 0) = ET1112 := by
  rw [show (1112 : ℕ) = 1106 + 6 by norm_num, EPlant.updateN_add, accT1106]
  exact chunkT1106

/-- Erased simulator state after 1118 ticks of the counterexample run. -/
def ET1118 : EPlant × ℕ :=
  (⟨.cress, 1118, 240, 120,
  .node ⟨false, false, .cress, 12, (12229/80), true, [⟨(679/80), 1, (19/25)⟩, ⟨(1361/80), (-1), (19/25)⟩, ⟨(2043/80), 1, (19/25)⟩, ⟨(545/16), (-1), (19/25)⟩, ⟨(3407/80), 1, (19/25)⟩, ⟨(4089/80), (-1), (19/25)⟩, ⟨(4771/80), 1, (19/25)⟩, ⟨(5453/80), (-1), (19/25)⟩, ⟨(1227/16), 1, (19/25)⟩, ⟨(6817/80), (-1), (19/25)⟩, ⟨(7499/80), 1, (19/25)⟩, ⟨(8181/80), (-1), (19/25)⟩, ⟨(8863/80), 1, (19/25)⟩, ⟨(1909/16), (-1), (19/25)⟩, ⟨(10227/80), 1, (19/25)⟩, ⟨(10909/80), (-1), (19/25)⟩, ⟨(11591/80), 1, (19/25)⟩], (-1), true, (11/5)⟩ (.cons (.node ⟨false, true, .cress, 12, (2407/200), false, [], 1, false, (2387/2500)⟩ (.cons (.node ⟨false, true, .cress, 12, (2407/200), false, [], 1, false, (73997/125000)⟩ (.cons (.node ⟨false, true, .cress, 12, (2407/200), false, [], 1, false, (2293907/6250000)⟩ (.cons (.node ⟨false, true, .cress, 12, (2407/200), false, [], 1, false, (7/20)⟩ (.cons (.node ⟨false, true, .cress, 12, (2407/200), false, [], 1, false, (7/20)⟩ (.cons (.node ⟨false, true, .cress, 12, (2407/200), false, [], 1, false, (7/20)⟩ (.cons (.node ⟨false, true, .cress, 12, (2407/200), false, [], 1, false, (7/20)⟩ (.cons (.node ⟨false, true, .cress, 12, (2407/200), false, [], 1, false, (7/20)⟩ (.cons (.node ⟨false, true, .cress, 12, (1483/200), true, [], 1, false, (7/20)⟩ (.nil)) (.nil))) (.nil))) (.nil))) (.nil))) (.nil))) (.nil))) (.nil))) (.nil))) (.nil)),
  .node ⟨true, false, .cress, 10, 10, false, [], 1, false, (8/5)⟩ (.cons (.node ⟨true, false, .cress, 10, 10, false, [], 1, false, (124/125)⟩ (.cons (.node ⟨true, false, .cress, 10, 10, false, [], 1, false, (1922/3125)⟩ (.cons (.node ⟨true, false, .cress, 10, 10, false, [], 1, false, (1/2)⟩ (.cons (.node ⟨true, false, .cress, 10, 10, false, [], 1, false, (1/2)⟩ (.cons (.node ⟨true, false, .cress, 10, 10, false, [], 1, false, (1/2)⟩ (.cons (.node ⟨true, false, .cress, 10, 10, false, [], 1, false, (1/2)⟩ (.cons (.node ⟨true, false, .cress, 10, 10, false, [], 1, false, (1/2)⟩ (.cons (.node ⟨true, false, .cress, 10, 10, false, [], 1, false, (1/2)⟩ (.cons (.node ⟨true, false, .cress, 10, 10, false, [], 1, false, (1/2)⟩ (.cons (.node ⟨true, false, .cress, 10, 10, false, [], 1, false, (1/2)⟩ (.cons (.node ⟨true, false, .cress, 10, (17/5), true, [], 1, false, (1/2)⟩ (.nil)) (.nil))) (.nil))) (.nil))) (.nil))) (.nil))) (.nil))) (.nil))) (.nil))) (.nil))) (.nil))) (.nil))⟩, 1152)

theorem chunkT1112 : EPlant.updateN rand01 6 ET1112 = ET1118 := by
  with_unfolding_all rfl

theorem accT1118 : EPlant.updateN rand01 1118 (EPlant.new VarietyKey.cress rand01 0) = ET1118 := by
  rw [show (1118 : ℕ) = 1112 + 6 by norm_num, EPlant.updateN_add, accT1112]
  exact chunkT1112

/-- Erased simulator state after 1124 ticks of the counterexample run. -/
def ET1124 : EPlant × ℕ :=
  (⟨.cress, 1124, 240, 120,
  .node ⟨false, false, .cress, 12, (2459/16), true, [⟨(679/80), 1, (19/25)⟩, ⟨(1361/80), (-1), (19/25)⟩, ⟨(2043/80), 1, (19/25)⟩, ⟨(545/16), (-1), (19/25)⟩, ⟨(3407/80), 1, (19/25)⟩, ⟨(4089/80), (-1), (19/25)⟩, ⟨(4771/80), 1, (19/25)⟩, ⟨(5453/80), (-1), (19/25)⟩, ⟨(1227/16), 1, (19/25)⟩, ⟨(6817/80), (-1), (19/25)⟩, ⟨(7499/80), 1, (19/25)⟩, ⟨(8181/80), (-1), (19/25)⟩, ⟨(8863/80), 1, (19/25)⟩, ⟨(1909/16), (-1), (19/25)⟩, ⟨(10227/80), 1, (19/25)⟩, ⟨(10909/80), (-1), (19/25)⟩, ⟨(11591/80), 1, (19/25)⟩, ⟨(12273/80), (-1), (19/25)⟩], 1, true, (11/5)⟩ (.cons (.node ⟨false, true, .cress, 12, (2407/200), false, [], 1, false, (2387/2500)⟩ (.cons (.node ⟨false, true, .cress, 12, (2407/200), false, [], 1, false, (73997/125000)⟩ (.cons (.node ⟨false, true, .cress, 12, (2407/200), false, [], 1, false, (2293907/6250000)⟩ (.cons (.node ⟨false, true, .cress, 12, (2407/200), false, [], 1, false, (7/20)⟩ (.cons (.node ⟨false, true, .cress, 12, (2407/200), false, [], 1, false, (7/20)⟩ (.cons (.node ⟨false, true, .cress, 12, (2407/200), false, [], 1, false, (7/20)⟩ (.cons (.node ⟨false, true, .cress, 12, (2407/200), false, [], 1, false, (7/20)⟩ (.cons (.node ⟨false, true, .cress, 12, (2407/200), false, [], 1, false, (7/20)⟩ (.cons (.node ⟨false, true, .cress, 12, (3197/400), true, [], 1, false, (7/20)⟩ (.nil)) (.nil))) (.nil))) (.nil))) (.nil))) (.nil))) (.nil))) (.nil))) (.nil))) (.nil)),
  .node ⟨true, false, .cress, 10, 10, false, [], 1, false, (8/5)⟩ (.cons (.node ⟨true, false, .cress, 10, 10, false, [], 1, false, (124/125)⟩ (.cons (.node ⟨true, false, .cress, 10, 10, false, [], 1, false, (1922/3125)⟩ (.cons (.node ⟨true, false, .cress, 10, 10, false, [], 1, false, (1/2)⟩ (.cons (.node ⟨true, false, .cress, 10, 10, false, [], 1, false, (1/2)⟩ (.cons (.node ⟨true, false, .cress, 10, 10, false, [], 1, false, (1/2)⟩ (.cons (.node ⟨true, false, .cress, 10, 10, false, [], 1, false, (1/2)⟩ (.cons (.node ⟨true, false, .cress, 10, 10, false, [], 1, false, (1/2)⟩ (.cons (.node ⟨true, false, .cress, 10, 10, false, [], 1, false, (1/2)⟩ (.cons (.node ⟨true, false, .cress, 10, 10, false, [], 1, false, (1/2)⟩ (.cons (.node ⟨true, false, .cress, 10, 10, false, [], 1, false, (1/2)⟩ (.cons (.node ⟨true, false, .cress, 10, 4, true, [], 1, false, (1/2)⟩ (.nil)) (.nil))) (.nil))) (.nil))) (.nil))) (.nil))) (.nil))) (.nil))) (.nil))) (.nil))) (.nil))) (.nil))⟩, 1159)

theorem chunkT1118 : EPlant.updateN rand01 6 ET1118 = ET1124 := by
  with_unfolding_all rfl

theorem accT1124 : EPlant.updateN rand01 1124 (EPlant.new VarietyKey.cress rand01 0) = ET1124 := by
  rw [show (1124 : ℕ) = 1118 + 6 by norm_num, EPlant.updateN_add, accT1118]
  exact chunkT1118

/-- Erased simulator state after 1130 ticks of the counterexample run. -/
def ET1130 : EPlant × ℕ :=
  (⟨.cress, 1130, 240, 120,
  .node ⟨false, false, .cress, 12, (12361/80), true, [⟨(679/80), 1, (19/25)⟩, ⟨(1361/80), (-1), (19/25)⟩, ⟨(2043/80), 1, (19/25)⟩, ⟨(545/16), (-1), (19/25)⟩, ⟨(3407/80), 1, (19/25)⟩, ⟨(4089/80), (-1), (19/25)⟩, ⟨(4771/80), 1, (19/25)⟩, ⟨(5453/80), (-1), (19/25)⟩, ⟨(1227/16), 1, (19/25)⟩, ⟨(6817/80), (-1), (19/25)⟩, ⟨(7499/80), 1, (19/25)⟩, ⟨(8181/80), (-1), (19/25)⟩, ⟨(8863/80), 1, (19/25)⟩, ⟨(1909/16), (-1), (19/25)⟩, ⟨(10227/80), 1, (19/25)⟩, ⟨(10909/80), (-1), (19/25)⟩, ⟨(11591/80), 1, (19/25)⟩, ⟨(12273/80), (-1), (19/25)⟩], 1, true, (11/5)⟩ (.cons (.node ⟨false, true, .cress, 12, (2407/200), false, [], 1, false, (2387/2500)⟩ (.cons (.node ⟨false, true, .cress, 12, (2407/200), false, [], 1, false, (73997/125000)⟩ (.cons (.node ⟨false, true, .cress, 12, (2407/200), false, [], 1, false, (2293907/6250000)⟩ (.cons (.node ⟨false, true, .cress, 12, (2407/200), false, [], 1, false, (7/20)⟩ (.cons (.node ⟨false, true, .cress, 12, (2407/200), false, [], 1, false, (7/20)⟩ (.cons (.node ⟨false, true, .cress, 12, (2407/200), false, [], 1, false, (7/20)⟩ (.cons (.node ⟨false, true, .cress, 12, (2407/200), false, [], 1, false, (7/20)⟩ (.cons (.node ⟨false, true, .cress, 12, (2407/200), false, [], 1, false, (7/20)⟩ (.cons (.node ⟨false, true, .cress, 12, (857/100), true, [], 1, false, (7/20)⟩ (.nil)) (.nil))) (.nil))) (.nil))) (.nil))) (.nil))) (.nil))) (.nil))) (.nil))) (.nil)),
  .node ⟨true, false, .cress, 10, 10, false, [], 1, false, (8/5)⟩ (.cons (.node ⟨true, false, .cress, 10, 10, false, [], 1, false, (124/125)⟩ (.cons (.node ⟨true, false, .cress, 10, 10, false, [], 1, false, (1922/3125)⟩ (.cons (.node ⟨true, false, .cress, 10, 10, false, [], 1, false, (1/2)⟩ (.cons (.node ⟨true, false, .cress, 10, 10, false, [], 1, false, (1/2)⟩ (.cons (.node ⟨true, false, .cress, 10, 10, false, [], 1, false, (1/2)⟩ (.cons (.node ⟨true, false, .cress, 10, 10, false, [], 1, false, (1/2)⟩ (.cons (.node ⟨true, false, .cress, 10, 10, false, [], 1, false, (1/2)⟩ (.cons (.node ⟨true, false, .cress, 10, 10, false, [], 1, false, (1/2)⟩ (.cons (.node ⟨true, false, .cress, 10, 10, false, [], 1, false, (1/2)⟩ (.cons (.node ⟨true, false, .cress, 10, 10, false, [], 1, false, (1/2)⟩ (.cons (.node ⟨true, false, .cress, 10, (23/5), true, [], 1, false, (1/2)⟩ (.nil)) (.nil))) (.nil))) (.nil))) (.nil))) (.nil))) (.nil))) (.nil))) (.nil))) (.nil))) (.nil))) (.nil))⟩, 1165)

theorem chunkT1124 : EPlant.updateN rand01 6 ET1124 = ET1130 := by
  with_unfolding_all rfl

theorem accT1130 : EPlant.updateN rand01 1130 (EPlant.new VarietyKey.cress rand01 0) = ET1130 := by
  rw [show (1130 : ℕ) = 1124 + 6 by norm_num, EPlant.updateN_add, accT1124]
  exact chunkT1124

/-- Erased simulator state after 1136 ticks of the counterexample run. -/
def ET1136 : EPlant × ℕ :=
  (⟨.cress, 1136, 240, 120,
  .node ⟨false, false, .cress, 12, (12427/80), true, [⟨(679/80), 1, (19/25)⟩, ⟨(1361/80), (-1), (19/25)⟩, ⟨(2043/80), 1, (19/25)⟩, ⟨(545/16), (-1), (19/25)⟩, ⟨(3407/80), 1, (19/25)⟩, ⟨(4089/80), (-1), (19/25)⟩, ⟨(4771/80), 1, (19/25)⟩, ⟨(5453/80), (-1), (19/25)⟩, ⟨(1227/16), 1, (19/25)⟩, ⟨(6817/80), (-1), (19/25)⟩, ⟨(7499/80), 1, (19/25)⟩, ⟨(8181/80), (-1), (19/25)⟩, ⟨(8863/80), 1, (19/25)⟩, ⟨(1909/16), (-1), (19/25)⟩, ⟨(10227/80), 1, (19/25)⟩, ⟨(10909/80), (-1), (19/25)⟩, ⟨(11591/80), 1, (19/25)⟩, ⟨(12273/80), (-1), (19/25)⟩], 1, true, (11/5)⟩ (.cons (.node ⟨false, true, .cress, 12, (2407/200), false, [], 1, false, (2387/2500)⟩ (.cons (.node ⟨false, true, .cress, 12, (2407/200), false, [], 1, false, (73997/125000)⟩ (.cons (.node ⟨false, true, .cress, 12, (2407/200), false, [], 1, false, (2293907/6250000)⟩ (.cons (.node ⟨false, true, .cress, 12, (2407/200), false, [], 1, false, (7/20)⟩ (.cons (.node ⟨false, true, .cress, 12, (2407/200), false, [], 1, false, (7/20)⟩ (.cons (.node ⟨false, true, .cress, 12, (2407/200), false, [], 1, false, (7/20)⟩ (.cons (.node ⟨false, true, .cress, 12, (2407/200), false, [], 1, false, (7/20)⟩ (.cons (.node ⟨false, true, .cress, 12, (2407/200), false, [], 1, false, (7/20)⟩ (.cons (.node ⟨false, true, .cress, 12, (3659/400), true, [], 1, false, (7/20)⟩ (.nil)) (.nil))) (.nil))) (.nil))) (.nil))) (.nil))) (.nil))) (.nil))) (.nil))) (.nil)),
  .node ⟨true, false, .cress, 10, 10, false, [], 1, false, (8/5)⟩ (.cons (.node ⟨true, false, .cress, 10, 10, false, [], 1, false, (124/125)⟩ (.cons (.node ⟨true, false, .cress, 10, 10, false, [], 1, false, (1922/3125)⟩ (.cons (.node ⟨true, false, .cress, 10, 10, false, [], 1, false, (1/2)⟩ (.cons (.node ⟨true, false, .cress, 10, 10, false, [], 1, false, (1/2)⟩ (.cons (.node ⟨true, false, .cress, 10, 10, false, [], 1, false, (1/2)⟩ (.cons (.node ⟨true, false, .cress, 10, 10, false, [], 1, false, (1/2)⟩ (.cons (.node ⟨true, false, .cress, 10, 10, false, [], 1, false, (1/2)⟩ (.cons (.node ⟨true, false, .cress, 10, 10, false, [], 1, false, (1/2)⟩ (.cons (.node ⟨true, false, .cress, 10, 10, false, [], 1, false, (1/2)⟩ (.cons (.node ⟨true, false, .cress, 10, 10, false, [], 1, false, (1/2)⟩ (.cons (.node ⟨true, false, .cress, 10, (26/5), true, [], 1, false, (1/2)⟩ (.nil)) (.nil))) (.nil))) (.nil))) (.nil))) (.nil))) (.nil))) (.nil))) (.nil))) (.nil))) (.nil))) (.nil))⟩, 1171)

theorem chunkT1130 : EPlant.updateN rand01 6 ET1130 = ET1136 := by
  with_unfolding_all rfl

theorem accT1136 : EPlant.updateN rand01 1136 (EPlant.new VarietyKey.cress rand01 0) = ET1136 := by
  rw [show (1136 : ℕ) = 1130 + 6 by norm_num, EPlant.updateN_add, accT1130]
  exact chunkT1130

/-- Erased simulator state after 1142 ticks of the counterexample run. -/
def ET1142 : EPlant × ℕ :=
  (⟨.cress, 1142, 240, 120,
  .node ⟨false, false, .cress, 12, (12493/80), true, [⟨(679/80), 1, (19/25)⟩, ⟨(1361/80), (-1), (19/25)⟩, ⟨(2043/80), 1, (19/25)⟩, ⟨(545/16), (-1), (19/25)⟩, ⟨(3407/80), 1, (19/25)⟩, ⟨(4089/80), (-1), (19/25)⟩, ⟨(4771/80), 1, (19/25)⟩, ⟨(5453/80), (-1), (19/25)⟩, ⟨(1227/16), 1, (19/25)⟩, ⟨(6817/80), (-1), (19/25)⟩, ⟨(7499/80), 1, (19/25)⟩, ⟨(8181/80), (-1), (19/25)⟩, ⟨(8863/80), 1, (19/25)⟩, ⟨(1909/16), (-1), (19/25)⟩, ⟨(10227/80), 1, (19/25)⟩, ⟨(10909/80), (-1), (19/25)⟩, ⟨(11591/80), 1, (19/25)⟩, ⟨(12273/80), (-1), (19/25)⟩], 1, true, (11/5)⟩ (.cons (.node ⟨false, true, .cress, 12, (2407/200), false, [], 1, false, (2387/2500)⟩ (.cons (.node ⟨false, true, .cress, 12, (2407/200), false, [], 1, false, (73997/125000)⟩ (.cons (.node ⟨false, true, .cress, 12, (2407/200), false, [], 1, false, (2293907/6250000)⟩ (.cons (.node ⟨false, true, .cress, 12, (2407/200), false, [], 1, false, (7/20)⟩ (.cons (.node ⟨false, true, .cress, 12, (2407/200), false, [], 1, false, (7/20)⟩ (.cons (.node ⟨false, true, .cress, 12, (2407/200), false, [], 1, false, (7/20)⟩ (.cons (.node ⟨false, true, .cress, 12, (2407/200), false, [], 1, false, (7/20)⟩ (.cons (.node ⟨false, true, .cress, 12, (2407/200), false, [], 1, false, (7/20)⟩ (.cons (.node ⟨false, true, .cress, 12, (389/40), true, [], 1, false, (7/20)⟩ (.nil)) (.nil))) (.nil))) (.nil))) (.nil))) (.nil))) (.nil))) (.nil))) (.nil))) (.nil)),
  .node ⟨true, false, .cress, 10, 10, false, [], 1, false, (8/5)⟩ (.cons (.node ⟨true, false, .cress, 10, 10, false, [], 1, false, (124/125)⟩ (.cons (.node ⟨true, false, .cress, 10, 10, false, [], 1, false, (1922/3125)⟩ (.cons (.node ⟨true, false, .cress, 10, 10, false, [], 1, false, (1/2)⟩ (.cons (.node ⟨true, false, .cress, 10, 10, false, [], 1, false, (1/2)⟩ (.cons (.node ⟨true, false, .cress, 10, 10, false, [], 1, false, (1/2)⟩ (.cons (.node ⟨true, false, .cress, 10, 10, false, [], 1, false, (1/2)⟩ (.cons (.node ⟨true, false, .cress, 10, 10, false, [], 1, false, (1/2)⟩ (.cons (.node ⟨true, false, .cress, 10, 10, false, [], 1, false, (1/2)⟩ (.cons (.node ⟨true, false, .cress, 10, 10, false, [], 1, false, (1/2)⟩ (.cons (.node ⟨true, false, .cress, 10, 10, false, [], 1, false, (1/2)⟩ (.cons (.node ⟨true, false, .cress, 10, (29/5), true, [], 1, false, (1/2)⟩ (.nil)) (.nil))) (.nil))) (.nil))) (.nil))) (.nil))) (.nil))) (.nil))) (.nil))) (.nil))) (.nil))) (.nil))⟩, 1177)

theorem chunkT1136 : EPlant.updateN rand01 6 ET1136 = ET1142 := by
  with_unfolding_all rfl

theorem accT1142 : EPlant.updateN rand01 1142 (EPlant.new VarietyKey.cress rand01 0) = ET1142 := by
  rw [show (1142 : ℕ) = 1136 + 6 by norm_num, EPlant.updateN_add, accT1136]
  exact chunkT1136

/-- Erased simulator state after 1148 ticks of the counterexample run. -/
def ET1148 : EPlant × ℕ :=
  (⟨.cress, 1148, 240, 120,
  .node ⟨false, false, .cress, 12, (12559/80), true, [⟨(679/80), 1, (19/25)⟩, ⟨(1361/80), (-1), (19/25)⟩, ⟨(2043/80), 1, (19/25)⟩, ⟨(545/16), (-1), (19/25)⟩, ⟨(3407/80), 1, (19/25)⟩, ⟨(4089/80), (-1), (19/25)⟩, ⟨(4771/80), 1, (19/25)⟩, ⟨(5453/80), (-1), (19/25)⟩, ⟨(1227/16), 1, (19/25)⟩, ⟨(6817/80), (-1), (19/25)⟩, ⟨(7499/80), 1, (19/25)⟩, ⟨(8181/80), (-1), (19/25)⟩, ⟨(8863/80), 1, (19/25)⟩, ⟨(1909/16), (-1), (19/25)⟩, ⟨(10227/80), 1, (19/25)⟩, ⟨(10909/80), (-1), (19/25)⟩, ⟨(11591/80), 1, (19/25)⟩, ⟨(12273/80), (-1), (19/25)⟩], 1, true, (11/5)⟩ (.cons (.node ⟨false, true, .cress, 12, (2407/200), false, [], 1, false, (2387/2500)⟩ (.cons (.node ⟨false, true, .cress, 12, (2407/200), false, [], 1, false, (73997/125000)⟩ (.cons (.node ⟨false, true, .cress, 12, (2407/200), false, [], 1, false, (2293907/6250000)⟩ (.cons (.node ⟨false, true, .cress, 12, (2407/200), false, [], 1, false, (7/20)⟩ (.cons (.node ⟨false, true, .cress, 12, (2407/200), false, [], 1, false, (7/20)⟩ (.cons (.node ⟨false, true, .cress, 12, (2407/200), false, [], 1, false, (7/20)⟩ (.cons (.node ⟨false, true, .cress, 12, (2407/200), false, [], 1, false, (7/20)⟩ (.cons (.node ⟨false, true, .cress, 12, (2407/200), false, [], 1, false, (7/20)⟩ (.cons (.node ⟨false, true, .cress, 12, (4121/400), true, [], 1, false, (7/20)⟩ (.nil)) (.nil))) (.nil))) (.nil))) (.nil))) (.nil))) (.nil))) (.nil))) (.nil))) (.nil)),
  .node ⟨true, false, .cress, 10, 10, false, [], 1, false, (8/5)⟩ (.cons (.node ⟨true, false, .cress, 10, 10, false, [], 1, false, (124/125)⟩ (.cons (.node ⟨true, false, .cress, 10, 10, false, [], 1, false, (1922/3125)⟩ (.cons (.node ⟨true, false, .cress, 10, 10, false, [], 1, false, (1/2)⟩ (.cons (.node ⟨true, false, .cress, 10, 10, false, [], 1, false, (1/2)⟩ (.cons (.node ⟨true, false, .cress, 10, 10, false, [], 1, false, (1/2)⟩ (.cons (.node ⟨true, false, .cress, 10, 10, false, [], 1, false, (1/2)⟩ (.cons (.node ⟨true, false, .cress, 10, 10, false, [], 1, false, (1/2)⟩ (.cons (.node ⟨true, false, .cress, 10, 10, false, [], 1, false, (1/2)⟩ (.cons (.node ⟨true, false, .cress, 10, 10, false, [], 1, false, (1/2)⟩ (.cons (.node ⟨true, false, .cress, 10, 10, false, [], 1, false, (1/2)⟩ (.cons (.node ⟨true, false, .cress, 10, (32/5), true, [], 1, false, (1/2)⟩ (.nil)) (.nil))) (.nil))) (.nil))) (.nil))) (.nil))) (.nil))) (.nil))) (.nil))) (.nil))) (.nil))) (.nil))⟩, 1183)

theorem chunkT1142 : EPlant.updateN rand01 6 ET1142 = ET1148 := by
  with_unfolding_all rfl

theorem accT1148 : EPlant.updateN rand01 1148 (EPlant.new VarietyKey.cress rand01 0) = ET1148 := by
  rw [show (1148 : ℕ) = 1142 + 6 by norm_num, EPlant.updateN_add, accT1142]
  exact chunkT1142

/-- Erased simulator state after 1154 ticks of the counterexample run. -/
def ET1154 : EPlant × ℕ :=
  (⟨.cress, 1154, 240, 120,
  .node ⟨false, false, .cress, 12, (2525/16), true, [⟨(679/80), 1, (19/25)⟩, ⟨(1361/80), (-1), (19/25)⟩, ⟨(2043/80), 1, (19/25)⟩, ⟨(545/16), (-1), (19/25)⟩, ⟨(3407/80), 1, (19/25)⟩, ⟨(4089/80), (-1), (19/25)⟩, ⟨(4771/80), 1, (19/25)⟩, ⟨(5453/80), (-1), (19/25)⟩, ⟨(1227/16), 1, (19/25)⟩, ⟨(6817/80), (-1), (19/25)⟩, ⟨(7499/80), 1, (19/25)⟩, ⟨(8181/80), (-1), (19/25)⟩, ⟨(8863/80), 1, (19/25)⟩, ⟨(1909/16), (-1), (19/25)⟩, ⟨(10227/80), 1, (19/25)⟩, ⟨(10909/80), (-1), (19/25)⟩, ⟨(11591/80), 1, (19/25)⟩, ⟨(12273/80), (-1), (19/25)⟩], 1, true, (11/5)⟩ (.cons (.node ⟨false, true, .cress, 12, (2407/200), false, [], 1, false, (2387/2500)⟩ (.cons (.node ⟨false, true, .cress, 12, (2407/200), false, [], 1, false, (73997/125000)⟩ (.cons (.node ⟨false, true, .cress, 12, (2407/200), false, [], 1, false, (2293907/6250000)⟩ (.cons (.node ⟨false, true, .cress, 12, (2407/200), false, [], 1, false, (7/20)⟩ (.cons (.node ⟨false, true, .cress, 12, (2407/200), false, [], 1, false, (7/20)⟩ (.cons (.node ⟨false, true, .cress, 12, (2407/200), false, [], 1, false, (7/20)⟩ (.cons (.node ⟨false, true, .cress, 12, (2407/200), false, [], 1, false, (7/20)⟩ (.cons (.node ⟨false, true, .cress, 12, (2407/200), false, [], 1, false, (7/20)⟩ (.cons (.node ⟨false, true, .cress, 12, (272/25), true, [], 1, false, (7/20)⟩ (.nil)) (.nil))) (.nil))) (.nil))) (.nil))) (.nil))) (.nil))) (.nil))) (.nil))) (.nil)),
  .node ⟨true, false, .cress, 10, 10, false, [], 1, false, (8/5)⟩ (.cons (.node ⟨true, false, .cress, 10, 10, false, [], 1, false, (124/125)⟩ (.cons (.node ⟨true, false, .cress, 10, 10, false, [], 1, false, (1922/3125)⟩ (.cons (.node ⟨true, false, .cress, 10, 10, false, [], 1, false, (1/2)⟩ (.cons (.node ⟨true, false, .cress, 10, 10, false, [], 1, false, (1/2)⟩ (.cons (.node ⟨true, false, .cress, 10, 10, false, [], 1, false, (1/2)⟩ (.cons (.node ⟨true, false, .cress, 10, 10, false, [], 1, false, (1/2)⟩ (.cons (.node ⟨true, false, .cress, 10, 10, false, [], 1, false, (1/2)⟩ (.cons (.node ⟨true, false, .cress, 10, 10, false, [], 1, false, (1/2)⟩ (.cons (.node ⟨true, false, .cress, 10, 10, false, [], 1, false, (1/2)⟩ (.cons (.node ⟨true, false, .cress, 10, 10, false, [], 1, false, (1/2)⟩ (.cons (.node ⟨true, false, .cress, 10, 7, true, [], 1, false, (1/2)⟩ (.nil)) (.nil))) (.nil))) (.nil))) (.nil))) (.nil))) (.nil))) (.nil))) (.nil))) (.nil))) (.nil))) (.nil))⟩, 1189)

theorem chunkT1148 : EPlant.updateN rand01 6 ET1148 = ET1154 := by
  with_unfolding_all rfl

theorem accT1154 : EPlant.updateN rand01 1154 (EPlant.new VarietyKey.cress rand01 0) = ET1154 := by
  rw [show (1154 : ℕ) = 1148 + 6 by norm_num, EPlant.updateN_add, accT1148]
  exact chunkT1148

/-- Erased simulator state after 1160 ticks of the counterexample run. -/
def ET1160 : EPlant × ℕ :=
  (⟨.cress, 1160, 240, 120,
  .node ⟨false, false, .cress, 12, (12691/80), true, [⟨(679/80), 1, (19/25)⟩, ⟨(1361/80), (-1), (19/25)⟩, ⟨(2043/80), 1, (19/25)⟩, ⟨(545/16), (-1), (19/25)⟩, ⟨(3407/80), 1, (19/25)⟩, ⟨(4089/80), (-1), (19/25)⟩, ⟨(4771/80), 1, (19/25)⟩, ⟨(5453/80), (-1), (19/25)⟩, ⟨(1227/16), 1, (19/25)⟩, ⟨(6817/80), (-1), (19/25)⟩, ⟨(7499/80), 1, (19/25)⟩, ⟨(8181/80), (-1), (19/25)⟩, ⟨(8863/80), 1, (19/25)⟩, ⟨(1909/16), (-1), (19/25)⟩, ⟨(10227/80), 1, (19/25)⟩, ⟨(10909/80), (-1), (19/25)⟩, ⟨(11591/80), 1, (19/25)⟩, ⟨(12273/80), (-1), (19/25)⟩], 1, true, (11/5)⟩ (.cons (.node ⟨false, true, .cress, 12, (2407/200), false, [], 1, false, (2387/2500)⟩ (.cons (.node ⟨false, true, .cress, 12, (2407/200), false, [], 1, false, (73997/125000)⟩ (.cons (.node ⟨false, true, .cress, 12, (2407/200), false, [], 1, false, (2293907/6250000)⟩ (.cons (.node ⟨false, true, .cress, 12, (2407/200), false, [], 1, false, (7/20)⟩ (.cons (.node ⟨false, true, .cress, 12, (2407/200), false, [], 1, false, (7/20)⟩ (.cons (.node ⟨false, true, .cress, 12, (2407/200), false, [], 1, false, (7/20)⟩ (.cons (.node ⟨false, true, .cress, 12, (2407/200), false, [], 1, false, (7/20)⟩ (.cons (.node ⟨false, true, .cress, 12, (2407/200), false, [], 1, false, (7/20)⟩ (.cons (.node ⟨false, true, .cress, 12, (4583/400), true, [], 1, false, (7/20)⟩ (.nil)) (.nil))) (.nil))) (.nil))) (.nil))) (.nil))) (.nil))) (.nil))) (.nil))) (.nil)),
  .node ⟨true, false, .cress, 10, 10, false, [], 1, false, (8/5)⟩ (.cons (.node ⟨true, false, .cress, 10, 10, false, [], 1, false, (124/125)⟩ (.cons (.node ⟨true, false, .cress, 10, 10, false, [], 1, false, (1922/3125)⟩ (.cons (.node ⟨true, false, .cress, 10, 10, false, [], 1, false, (1/2)⟩ (.cons (.node ⟨true, false, .cress, 10, 10, false, [], 1, false, (1/2)⟩ (.cons (.node ⟨true, false, .cress, 10, 10, false, [], 1, false, (1/2)⟩ (.cons (.node ⟨true, false, .cress, 10, 10, false, [], 1, false, (1/2)⟩ (.cons (.node ⟨true, false, .cress, 10, 10, false, [], 1, false, (1/2)⟩ (.cons (.node ⟨true, false, .cress, 10, 10, false, [], 1, false, (1/2)⟩ (.cons (.node ⟨true, false, .cress, 10, 10, false, [], 1, false, (1/2)⟩ (.cons (.node ⟨true, false, .cress, 10, 10, false, [], 1, false, (1/2)⟩ (.cons (.node ⟨true, false, .cress, 10, (38/5), true, [], 1, false, (1/2)⟩ (.nil)) (.nil))) (.nil))) (.nil))) (.nil))) (.nil))) (.nil))) (.nil))) (.nil))) (.nil))) (.nil))) (.nil))⟩, 1195)

theorem chunkT1154 : EPlant.updateN rand01 6 ET1154 = ET1160 := by
  with_unfolding_all rfl

theorem accT1160 : EPlant.updateN rand01 1160 (EPlant.new VarietyKey.cress rand01 0) = ET1160 := by
  rw [show (1160 : ℕ) = 1154 + 6 by norm_num, EPlant.updateN_add, accT1154]
  exact chunkT1154

/-- Erased simulator state after 1166 ticks of the counterexample run. -/
def ET1166 : EPlant × ℕ :=
  (⟨.cress, 1166, 240, 120,
  .node ⟨false, false, .cress, 12, (12757/80), true, [⟨(679/80), 1, (19/25)⟩, ⟨(1361/80), (-1), (19/25)⟩, ⟨(2043/80), 1, (19/25)⟩, ⟨(545/16), (-1), (19/25)⟩, ⟨(3407/80), 1, (19/25)⟩, ⟨(4089/80), (-1), (19/25)⟩, ⟨(4771/80), 1, (19/25)⟩, ⟨(5453/80), (-1), (19/25)⟩, ⟨(1227/16), 1, (19/25)⟩, ⟨(6817/80), (-1), (19/25)⟩, ⟨(7499/80), 1, (19/25)⟩, ⟨(8181/80), (-1), (19/25)⟩, ⟨(8863/80), 1, (19/25)⟩, ⟨(1909/16), (-1), (19/25)⟩, ⟨(10227/80), 1, (19/25)⟩, ⟨(10909/80), (-1), (19/25)⟩, ⟨(11591/80), 1, (19/25)⟩, ⟨(12273/80), (-1), (19/25)⟩], 1, true, (11/5)⟩ (.cons (.node ⟨false, true, .cress, 12, (2407/200), false, [], 1, false, (2387/2500)⟩ (.cons (.node ⟨false, true, .cress, 12, (2407/200), false, [], 1, false, (73997/125000)⟩ (.cons (.node ⟨false, true, .cress, 12, (2407/200), false, [], 1, false, (2293907/6250000)⟩ (.cons (.node ⟨false, true, .cress, 12, (2407/200), false, [], 1, false, (7/20)⟩ (.cons (.node ⟨false, true, .cress, 12, (2407/200), false, [], 1, false, (7/20)⟩ (.cons (.node ⟨false, true, .cress, 12, (2407/200), false, [], 1, false, (7/20)⟩ (.cons (.node ⟨false, true, .cress, 12, (2407/200), false, [], 1, false, (7/20)⟩ (.cons (.node ⟨false, true, .cress, 12, (2407/200), false, [], 1, false, (7/20)⟩ (.cons (.node ⟨false, true, .cress, 12, (2407/200), false, [], 1, false, (7/20)⟩ (.nil)) (.nil))) (.nil))) (.nil))) (.nil))) (.nil))) (.nil))) (.nil))) (.nil))) (.nil)),
  .node ⟨true, false, .cress, 10, 10, false, [], 1, false, (8/5)⟩ (.cons (.node ⟨true, false, .cress, 10, 10, false, [], 1, false, (124/125)⟩ (.cons (.node ⟨true, false, .cress, 10, 10, false, [], 1, false, (1922/3125)⟩ (.cons (.node ⟨true, false, .cress, 10, 10, false, [], 1, false, (1/2)⟩ (.cons (.node ⟨true, false, .cress, 10, 10, false, [], 1, false, (1/2)⟩ (.cons (.node ⟨true, false, .cress, 10, 10, false, [], 1, false, (1/2)⟩ (.cons (.node ⟨true, false, .cress, 10, 10, false, [], 1, false, (1/2)⟩ (.cons (.node ⟨true, false, .cress, 10, 10, false, [], 1, false, (1/2)⟩ (.cons (.node ⟨true, false, .cress, 10, 10, false, [], 1, false, (1/2)⟩ (.cons (.node ⟨true, false, .cress, 10, 10, false, [], 1, false, (1/2)⟩ (.cons (.node ⟨true, false, .cress, 10, 10, false, [], 1, false, (1/2)⟩ (.cons (.node ⟨true, false, .cress, 10, (41/5), true, [], 1, false, (1/2)⟩ (.nil)) (.nil))) (.nil))) (.nil))) (.nil))) (.nil))) (.nil))) (.nil))) (.nil))) (.nil))) (.nil))) (.nil))⟩, 1201)

theorem chunkT1160 : EPlant.updateN rand01 6 ET1160 = ET1166 := by
  with_unfolding_all rfl

theorem accT1166 : EPlant.updateN rand01 1166 (EPlant.new VarietyKey.cress rand01 0) = ET1166 := by
  rw [show (1166 : ℕ) = 1160 + 6 by norm_num, EPlant.updateN_add, accT1160]
  exact chunkT1160

/-- Erased simulator state after 1172 ticks of the counterexample run. -/
def ET1172 : EPlant × ℕ :=
  (⟨.cress, 1172, 240, 120,
  .node ⟨false, false, .cress, 12, (12823/80), true, [⟨(679/80), 1, (19/25)⟩, ⟨(1361/80), (-1), (19/25)⟩, ⟨(2043/80), 1, (19/25)⟩, ⟨(545/16), (-1), (19/25)⟩, ⟨(3407/80), 1, (19/25)⟩, ⟨(4089/80), (-1), (19/25)⟩, ⟨(4771/80), 1, (19/25)⟩, ⟨(5453/80), (-1), (19/25)⟩, ⟨(1227/16), 1, (19/25)⟩, ⟨(6817/80), (-1), (19/25)⟩, ⟨(7499/80), 1, (19/25)⟩, ⟨(8181/80), (-1), (19/25)⟩, ⟨(8863/80), 1, (19/25)⟩, ⟨(1909/16), (-1), (19/25)⟩, ⟨(10227/80), 1, (19/25)⟩, ⟨(10909/80), (-1), (19/25)⟩, ⟨(11591/80), 1, (19/25)⟩, ⟨(12273/80), (-1), (19/25)⟩], 1, true, (11/5)⟩ (.cons (.node ⟨false, true, .cress, 12, (2407/200), false, [], 1, false, (2387/2500)⟩ (.cons (.node ⟨false, true, .cress, 12, (2407/200), false, [], 1, false, (73997/125000)⟩ (.cons (.node ⟨false, true, .cress, 12, (2407/200), false, [], 1, false, (2293907/6250000)⟩ (.cons (.node ⟨false, true, .cress, 12, (2407/200), false, [], 1, false, (7/20)⟩ (.cons (.node ⟨false, true, .cress, 12, (2407/200), false, [], 1, false, (7/20)⟩ (.cons (.node ⟨false, true, .cress, 12, (2407/200), false, [], 1, false, (7/20)⟩ (.cons (.node ⟨false, true, .cress, 12, (2407/200), false, [], 1, false, (7/20)⟩ (.cons (.node ⟨false, true, .cress, 12, (2407/200), false, [], 1, false, (7/20)⟩ (.cons (.node ⟨false, true, .cress, 12, (2407/200), false, [], 1, false, (7/20)⟩ (.nil)) (.nil))) (.nil))) (.nil))) (.nil))) (.nil))) (.nil))) (.nil))) (.nil))) (.nil)),
  .node ⟨true, false, .cress, 10, 10, false, [], 1, false, (8/5)⟩ (.cons (.node ⟨true, false, .cress, 10, 10, false, [], 1, false, (124/125)⟩ (.cons (.node ⟨true, false, .cress, 10, 10, false, [], 1, false, (1922/3125)⟩ (.cons (.node ⟨true, false, .cress, 10, 10, false, [], 1, false, (1/2)⟩ (.cons (.node ⟨true, false, .cress, 10, 10, false, [], 1, false, (1/2)⟩ (.cons (.node ⟨true, false, .cress, 10, 10, false, [], 1, false, (1/2)⟩ (.cons (.node ⟨true, false, .cress, 10, 10, false, [], 1, false, (1/2)⟩ (.cons (.node ⟨true, false, .cress, 10, 10, false, [], 1, false, (1/2)⟩ (.cons (.node ⟨true, false, .cress, 10, 10, false, [], 1, false, (1/2)⟩ (.cons (.node ⟨true, false, .cress, 10, 10, false, [], 1, false, (1/2)⟩ (.cons (.node ⟨true, false, .cress, 10, 10, false, [], 1, false, (1/2)⟩ (.cons (.node ⟨true, false, .cress, 10, (44/5), true, [], 1, false, (1/2)⟩ (.nil)) (.nil))) (.nil))) (.nil))) (.nil))) (.nil))) (.nil))) (.nil))) (.nil))) (.nil))) (.nil))) (.nil))⟩, 1207)

theorem chunkT1166 : EPlant.updateN rand01 6 ET1166 = ET1172 := by
  with_unfolding_all rfl

theorem accT1172 : EPlant.updateN rand01 1172 (EPlant.new VarietyKey.cress rand01 0) = ET1172 := by
  rw [show (1172 : ℕ) = 1166 + 6 by norm_num, EPlant.updateN_add, accT1166]
  exact chunkT1166

/-- Erased simulator state after 1178 ticks of the counterexample run. -/
def ET1178 : EPlant × ℕ :=
  (⟨.cress, 1178, 240, 120,
  .node ⟨false, false, .cress, 12, (12889/80), true, [⟨(679/80), 1, (19/25)⟩, ⟨(1361/80), (-1), (19/25)⟩, ⟨(2043/80), 1, (19/25)⟩, ⟨(545/16), (-1), (19/25)⟩, ⟨(3407/80), 1, (19/25)⟩, ⟨(4089/80), (-1), (19/25)⟩, ⟨(4771/80), 1, (19/25)⟩, ⟨(5453/80), (-1), (19/25)⟩, ⟨(1227/16), 1, (19/25)⟩, ⟨(6817/80), (-1), (19/25)⟩, ⟨(7499/80), 1, (19/25)⟩, ⟨(8181/80), (-1), (19/25)⟩, ⟨(8863/80), 1, (19/25)⟩, ⟨(1909/16), (-1), (19/25)⟩, ⟨(10227/80), 1, (19/25)⟩, ⟨(10909/80), (-1), (19/25)⟩, ⟨(11591/80), 1, (19/25)⟩, ⟨(12273/80), (-1), (19/25)⟩], 1, true, (11/5)⟩ (.cons (.node ⟨false, true, .cress, 12, (2407/200), false, [], 1, false, (2387/2500)⟩ (.cons (.node ⟨false, true, .cress, 12, (2407/200), false, [], 1, false, (73997/125000)⟩ (.cons (.node ⟨false, true, .cress, 12, (2407/200), false, [], 1, false, (2293907/6250000)⟩ (.cons (.node ⟨false, true, .cress, 12, (2407/200), false, [], 1, false, (7/20)⟩ (.cons (.node ⟨false, true, .cress, 12, (2407/200), false, [], 1, false, (7/20)⟩ (.cons (.node ⟨false, true, .cress, 12, (2407/200), false, [], 1, false, (7/20)⟩ (.cons (.node ⟨false, true, .cress, 12, (2407/200), false, [], 1, false, (7/20)⟩ (.cons (.node ⟨false, true, .cress, 12, (2407/200), false, [], 1, false, (7/20)⟩ (.cons (.node ⟨false, true, .cress, 12, (2407/200), false, [], 1, false, (7/20)⟩ (.nil)) (.nil))) (.nil))) (.nil))) (.nil))) (.nil))) (.nil))) (.nil))) (.nil))) (.nil)),
  .node ⟨true, false, .cress, 10, 10, false, [], 1, false, (8/5)⟩ (.cons (.node ⟨true, false, .cress, 10, 10, false, [], 1, false, (124/125)⟩ (.cons (.node ⟨true, false, .cress, 10, 10, false, [], 1, false, (1922/3125)⟩ (.cons (.node ⟨true, false, .cress, 10, 10, false, [], 1, false, (1/2)⟩ (.cons (.node ⟨true, false, .cress, 10, 10, false, [], 1, false, (1/2)⟩ (.cons (.node ⟨true, false, .cress, 10, 10, false, [], 1, false, (1/2)⟩ (.cons (.node ⟨true, false, .cress, 10, 10, false, [], 1, false, (1/2)⟩ (.cons (.node ⟨true, false, .cress, 10, 10, false, [], 1, false, (1/2)⟩ (.cons (.node ⟨true, false, .cress, 10, 10, false, [], 1, false, (1/2)⟩ (.cons (.node ⟨true, false, .cress, 10, 10, false, [], 1, false, (1/2)⟩ (.cons (.node ⟨true, false, .cress, 10, 10, false, [], 1, false, (1/2)⟩ (.cons (.node ⟨true, false, .cress, 10, (47/5), true, [], 1, false, (1/2)⟩ (.nil)) (.nil))) (.nil))) (.nil))) (.nil))) (.nil))) (.nil))) (.nil))) (.nil))) (.nil))) (.nil))) (.nil))⟩, 1213)

theorem chunkT1172 : EPlant.updateN rand01 6 ET1172 = ET1178 := by
  with_unfolding_all rfl

theorem accT1178 : EPlant.updateN rand01 1178 (EPlant.new VarietyKey.cress rand01 0) = ET1178 := by
  rw [show (1178 : ℕ) = 1172 + 6 by norm_num, EPlant.updateN_add, accT1172]
  exact chunkT1172

/-- Erased simulator state after 1184 ticks of the counterexample run. -/
def ET1184 : EPlant × ℕ :=
  (⟨.cress, 1184, 240, 120,
  .node ⟨false, false, .cress, 12, (2591/16), true, [⟨(679/80), 1, (19/25)⟩, ⟨(1361/80), (-1), (19/25)⟩, ⟨(2043/80), 1, (19/25)⟩, ⟨(545/16), (-1), (19/25)⟩, ⟨(3407/80), 1, (19/25)⟩, ⟨(4089/80), (-1), (19/25)⟩, ⟨(4771/80), 1, (19/25)⟩, ⟨(5453/80), (-1), (19/25)⟩, ⟨(1227/16), 1, (19/25)⟩, ⟨(6817/80), (-1), (19/25)⟩, ⟨(7499/80), 1, (19/25)⟩, ⟨(8181/80), (-1), (19/25)⟩, ⟨(8863/80), 1, (19/25)⟩, ⟨(1909/16), (-1), (19/25)⟩, ⟨(10227/80), 1, (19/25)⟩, ⟨(10909/80), (-1), (19/25)⟩, ⟨(11591/80), 1, (19/25)⟩, ⟨(12273/80), (-1), (19/25)⟩, ⟨(2591/16), 1, (19/25)⟩], (-1), true, (11/5)⟩ (.cons (.node ⟨false, true, .cress, 12, (2407/200), false, [], 1, false, (2387/2500)⟩ (.cons (.node ⟨false, true, .cress, 12, (2407/200), false, [], 1, false, (73997/125000)⟩ (.cons (.node ⟨false, true, .cress, 12, (2407/200), false, [], 1, false, (2293907/6250000)⟩ (.cons (.node ⟨false, true, .cress, 12, (2407/200), false, [], 1, false, (7/20)⟩ (.cons (.node ⟨false, true, .cress, 12, (2407/200), false, [], 1, false, (7/20)⟩ (.cons (.node ⟨false, true, .cress, 12, (2407/200), false, [], 1, false, (7/20)⟩ (.cons (.node ⟨false, true, .cress, 12, (2407/200), false, [], 1, false, (7/20)⟩ (.cons (.node ⟨false, true, .cress, 12, (2407/200), false, [], 1, false, (7/20)⟩ (.cons (.node ⟨false, true, .cress, 12, (2407/200), false, [], 1, false, (7/20)⟩ (.nil)) (.nil))) (.nil))) (.nil))) (.nil))) (.nil))) (.nil))) (.nil))) (.nil))) (.nil)),
  .node ⟨true, false, .cress, 10, 10, false, [], 1, false, (8/5)⟩ (.cons (.node ⟨true, false, .cress, 10, 10, false, [], 1, false, (124/125)⟩ (.cons (.node ⟨true, false, .cress, 10, 10, false, [], 1, false, (1922/3125)⟩ (.cons (.node ⟨true, false, .cress, 10, 10, false, [], 1, false, (1/2)⟩ (.cons (.node ⟨true, false, .cress, 10, 10, false, [], 1, false, (1/2)⟩ (.cons (.node ⟨true, false, .cress, 10, 10, false, [], 1, false, (1/2)⟩ (.cons (.node ⟨true, false, .cress, 10, 10, false, [], 1, false, (1/2)⟩ (.cons (.node ⟨true, false, .cress, 10, 10, false, [], 1, false, (1/2)⟩ (.cons (.node ⟨true, false, .cress, 10, 10, false, [], 1, false, (1/2)⟩ (.cons (.node ⟨true, false, .cress, 10, 10, false, [], 1, false, (1/2)⟩ (.cons (.node ⟨true, false, .cress, 10, 10, false, [], 1, false, (1/2)⟩ (.cons (.node ⟨true, false, .cress, 10, 10, false, [], 1, false, (1/2)⟩ (.cons (.node ⟨true, false, .cress, 10, (1/5), true, [], 1, false, (1/2)⟩ (.nil)) (.nil))) (.nil))) (.nil))) (.nil))) (.nil))) (.nil))) (.nil))) (.nil))) (.nil))) (.nil))) (.nil))) (.nil))⟩, 1222)

theorem chunkT1178 : EPlant.updateN rand01 6 ET1178 = ET1184 := by
  with_unfolding_all rfl

theorem accT1184 : EPlant.updateN rand01 1184 (EPlant.new VarietyKey.cress rand01 0) = ET1184 := by
  rw [show (1184 : ℕ) = 1178 + 6 by norm_num, EPlant.updateN_add, accT1178]
  exact chunkT1178


/-- Erased simulator state after 101 ticks of the counterexample run. -/
def ET101 : EPlant × ℕ :=
  (⟨.cress, 101, 240, 120,
  .node ⟨false, false, .cress, 12, (521/40), true, [⟨(679/80), 1, (19/25)⟩], (-1), true, (11/5)⟩ (.cons (.node ⟨false, true, .cress, 12, (3391/800), true, [], 1, false, (2387/2500)⟩ (.nil)) (.nil)),
  .node ⟨true, false, .cress, 10, (19/2), true, [], 1, false, (8/5)⟩ (.nil)⟩, 81)

theorem chunkTo101 : EPlant.updateN rand01 1 ET100 = ET101 := by
  with_unfolding_all rfl

/-- Erased simulator state after 1183 ticks of the counterexample run. -/
def ET1183 : EPlant × ℕ :=
  (⟨.cress, 1183, 240, 120,
  .node ⟨false, false, .cress, 12, (809/5), true, [⟨(679/80), 1, (19/25)⟩, ⟨(1361/80), (-1), (19/25)⟩, ⟨(2043/80), 1, (19/25)⟩, ⟨(545/16), (-1), (19/25)⟩, ⟨(3407/80), 1, (19/25)⟩, ⟨(4089/80), (-1), (19/25)⟩, ⟨(4771/80), 1, (19/25)⟩, ⟨(5453/80), (-1), (19/25)⟩, ⟨(1227/16), 1, (19/25)⟩, ⟨(6817/80), (-1), (19/25)⟩, ⟨(7499/80), 1, (19/25)⟩, ⟨(8181/80), (-1), (19/25)⟩, ⟨(8863/80), 1, (19/25)⟩, ⟨(1909/16), (-1), (19/25)⟩, ⟨(10227/80), 1, (19/25)⟩, ⟨(10909/80), (-1), (19/25)⟩, ⟨(11591/80), 1, (19/25)⟩, ⟨(12273/80), (-1), (19/25)⟩], 1, true, (11/5)⟩ (.cons (.node ⟨false, true, .cress, 12, (2407/200), false, [], 1, false, (2387/2500)⟩ (.cons (.node ⟨false, true, .cress, 12, (2407/200), false, [], 1, false, (73997/125000)⟩ (.cons (.node ⟨false, true, .cress, 12, (2407/200), false, [], 1, false, (2293907/6250000)⟩ (.cons (.node ⟨false, true, .cress, 12, (2407/200), false, [], 1, false, (7/20)⟩ (.cons (.node ⟨false, true, .cress, 12, (2407/200), false, [], 1, false, (7/20)⟩ (.cons (.node ⟨false, true, .cress, 12, (2407/200), false, [], 1, false, (7/20)⟩ (.cons (.node ⟨false, true, .cress, 12, (2407/200), false, [], 1, false, (7/20)⟩ (.cons (.node ⟨false, true, .cress, 12, (2407/200), false, [], 1, false, (7/20)⟩ (.cons (.node ⟨false, true, .cress, 12, (2407/200), false, [], 1, false, (7/20)⟩ (.nil)) (.nil))) (.nil))) (.nil))) (.nil))) (.nil))) (.nil))) (.nil))) (.nil))) (.nil)),
  .node ⟨true, false, .cress, 10, 10, false, [], 1, false, (8/5)⟩ (.cons (.node ⟨true, false, .cress, 10, 10, false, [], 1, false, (124/125)⟩ (.cons (.node ⟨true, false, .cress, 10, 10, false, [], 1, false, (1922/3125)⟩ (.cons (.node ⟨true, false, .cress, 10, 10, false, [], 1, false, (1/2)⟩ (.cons (.node ⟨true, false, .cress, 10, 10, false, [], 1, false, (1/2)⟩ (.cons (.node ⟨true, false, .cress, 10, 10, false, [], 1, false, (1/2)⟩ (.cons (.node ⟨true, false, .cress, 10, 10, false, [], 1, false, (1/2)⟩ (.cons (.node ⟨true, false, .cress, 10, 10, false, [], 1, false, (1/2)⟩ (.cons (.node ⟨true, false, .cress, 10, 10, false, [], 1, false, (1/2)⟩ (.cons (.node ⟨true, false, .cress, 10, 10, false, [], 1, false, (1/2)⟩ (.cons (.node ⟨true, false, .cress, 10, 10, false, [], 1, false, (1/2)⟩ (.cons (.node ⟨true, false, .cress, 10, (99/10), true, [], 1, false, (1/2)⟩ (.nil)) (.nil))) (.nil))) (.nil))) (.nil))) (.nil))) (.nil))) (.nil))) (.nil))) (.nil))) (.nil))) (.nil))⟩, 1218)

theorem chunkTo1183 : EPlant.updateN rand01 5 ET1178 = ET1183 := by
  with_unfolding_all rfl

/-! ### Relating the real counterexample run to the erased trace -/

theorem traceP_erase (n : ℕ) :
    (traceP n).erase = (EPlant.updateN rand01 n (EPlant.new VarietyKey.cress rand01 0)).1 := by
  unfold traceP
  rw [Plant.erase_new VarietyKey.cress 1 LightDir.none rand01 0,
    Plant.erase_updateN rand01 1 LightDir.none n
      (Plant.new VarietyKey.cress 1 LightDir.none rand01 0).1
      (Plant.new VarietyKey.cress 1 LightDir.none rand01 0).2,
    Prod.mk.eta]

theorem Seg.dat_growing_erase (t : Seg) : t.erase.dat.growing = t.dat.growing := by
  rw [Seg.erase_dat]; rfl

theorem Seg.dat_length_erase (t : Seg) : t.erase.dat.length = t.dat.length := by
  rw [Seg.erase_dat]; rfl

theorem Seg.dat_targetLength_erase (t : Seg) : t.erase.dat.targetLength = t.dat.targetLength := by
  rw [Seg.erase_dat]; rfl

theorem Seg.children_isNil_erase (t : Seg) : t.erase.children.isNil = t.children.isNil := by
  rw [Seg.erase_children, Segs.erase_isNil]

theorem Seg.children_allBranch_erase (t : Seg) :
    t.erase.children.allBranch = t.children.allBranch := by
  rw [Seg.erase_children, Segs.erase_allBranch]

/-- Iterated update ticks keep a plant reachable. -/
theorem ReachablePlant.updateN (rand : ℕ → ℚ) (gravity : ℚ) (lightDir : LightDir)
    (hr : ∀ n, 0 ≤ rand n ∧ rand n < 1) :
    ∀ (n : ℕ) (s : Plant × ℕ), ReachablePlant s.1 →
    ReachablePlant (Plant.updateN rand gravity lightDir n s).1
  | 0, _, h => h
  | n+1, s, h => ReachablePlant.updateN rand gravity lightDir hr n _
      (ReachablePlant.step s.1 gravity lightDir rand s.2 hr h)

/-- Every state of the counterexample run is reachable. -/
theorem reachable_traceP (n : ℕ) : ReachablePlant (traceP n) :=
  ReachablePlant.updateN rand01 1 LightDir.none rand01_range n _
    (ReachablePlant.init VarietyKey.cress 1 LightDir.none rand01 0 rand01_range)

/-- C1 counterexample: at tick 100 of the run, the parentless shoot
segment's length has long reached its target and its only children are
branch offshoots (no continuation child exists), yet `growing` is still
true — and still true one tick later: a previously spawned branch child
blocks deactivation forever, contradicting "regardless of whether the
segment has previously spawned a branch child". -/
theorem growth_deactivation_cex :
    ReachablePlant (traceP 100) ∧
    (traceP 100).shoot.dat.growing = true ∧
    (traceP 100).shoot.dat.length ≥ (traceP 100).shoot.dat.targetLength ∧
    (traceP 100).shoot.children.isNil = false ∧
    (traceP 100).shoot.children.allBranch = true ∧
    (traceP 101).shoot.dat.growing = true := by
  have h100 : (traceP 100).erase = ET100.1 := by
    rw [traceP_erase]
    exact congrArg Prod.fst accT100
  have h101 : (traceP 101).erase = ET101.1 := by
    rw [traceP_erase, show (101 : ℕ) = 100 + 1 by norm_num, EPlant.updateN_add, accT100]
    exact congrArg Prod.fst chunkTo101
  refine ⟨reachable_traceP 100, ?_, ?_, ?_, ?_, ?_⟩
  · rw [← Seg.dat_growing_erase, ← Plant.erase_shoot, h100]
    with_unfolding_all rfl
  · rw [← Seg.dat_length_erase, ← Seg.dat_targetLength_erase, ← Plant.erase_shoot, h100]
    with_unfolding_all decide
  · rw [← Seg.children_isNil_erase, ← Plant.erase_shoot, h100]
    with_unfolding_all rfl
  · rw [← Seg.children_allBranch_erase, ← Plant.erase_shoot, h100]
    with_unfolding_all rfl
  · rw [← Seg.dat_growing_erase, ← Plant.erase_shoot, h101]
    with_unfolding_all rfl

/-- C2 counterexample: at tick 680 of the run the shoot tree contains a
segment at depth ≥ 5 with a child whose `isBranch` flag is true (a branch
chain's continuation child), refuting the unconditional branch-depth cap. -/
theorem branch_depth_cap_cex :
    ReachablePlant (traceP 680) ∧
    (traceP 680).shoot.deepBranchViol 0 = true := by
  have h680 : (traceP 680).erase = ET680.1 := by
    rw [traceP_erase]
    exact congrArg Prod.fst accT680
  refine ⟨reachable_traceP 680, ?_⟩
  rw [← Seg.erase_deepBranchViol, ← Plant.erase_shoot, h680]
  with_unfolding_all rfl

/-- C3 counterexample: across the single update tick 1183 → 1184 the root
organ total jumps from 119.9 to 120.2, exceeding the configured root maximum
of 120 by 0.2 — more than one segment's single-tick increment (0.1 for
cress roots; even the largest cress increment, 0.1375, is smaller). -/
theorem organ_ceiling_cex :
    ReachablePlant (traceP 1184) ∧
    (traceP 1183).root.totalLength = 1199/10 ∧
    (traceP 1184).root.totalLength = 601/5 ∧
    (traceP 1184).maxRootLength = (VARIETIES VarietyKey.cress).maxRootLen ∧
    (VARIETIES VarietyKey.cress).maxRootLen = 120 ∧
    (601/5 : ℚ) > 120 + (VARIETIES VarietyKey.cress).rootGrowthRate * (5/2) ∧
    (601/5 : ℚ) > 120 + (VARIETIES VarietyKey.cress).growthRate * (5/2) := by
  have h1183 : (traceP 1183).erase = ET1183.1 := by
    rw [traceP_erase, show (1183 : ℕ) = 1178 + 5 by norm_num, EPlant.updateN_add, accT1178]
    exact congrArg Prod.fst chunkTo1183
  have h1184 : (traceP 1184).erase = ET1184.1 := by
    rw [traceP_erase]
    exact congrArg Prod.fst accT1184
  refine ⟨reachable_traceP 1184, ?_, ?_, ?_, ?_, ?_, ?_⟩
  · rw [← Seg.erase_totalLength, ← Plant.erase_root, h1183]
    with_unfolding_all rfl
  · rw [← Seg.erase_totalLength, ← Plant.erase_root, h1184]
    with_unfolding_all rfl
  · rw [← Plant.erase_maxRootLength, h1184]
    with_unfolding_all rfl
  · with_unfolding_all rfl
  · with_unfolding_all decide
  · with_unfolding_all decide
